import Mathlib

/-!
# Galileo E1 tracking with codeless PRS tracking: a shallow embedding

The per-channel tracking block `galileo_e1_prs_codeless_tracking_cc` is embedded as a
record of its member variables (`State`) and one function per method.  `double` and
`float` quantities are exact rationals; a correlator output may in addition be NaN or
infinite (`FloatVal`).  Machine integers are unbounded (`Int`, `Nat`): no counter of the
block comes near its word size within the runs considered here.  The pull-in branch is
the exception: its narrowings to `int` (`to_int32`) and its conversions to `float`
(`to_float`) are part of the embedding, because a delay of more than `2^24` samples is
not a `float`.

What the block calls but does not define (the loop filter class, the discriminators, the
lock detectors, the correlator, the signal constants of `Galileo_E1.h`) is a parameter:
the functions and constants are the fields of `Externals`, and the five primary and five
secondary correlator sums of an epoch are the fields of `EpochInput`.
-/

namespace GalileoE1Prs

/-! ## Numbers -/

/-- Truncation toward zero, the quotient rounding of `std::fmod`. -/
def trunc (q : ℚ) : Int := if 0 ≤ q then Int.floor q else Int.ceil q

/-- The function `std::fmod` in exact arithmetic: `x - trunc (x / y) * y`, which has the
sign of `x` and magnitude below `|y|`. -/
def fmod (x y : ℚ) : ℚ := x - (trunc (x / y) : ℚ) * y

/-- The function `std::round` / `round`: nearest integer, halves away from zero. -/
def round (x : ℚ) : Int := if 0 ≤ x then Int.floor (x + 1 / 2) else Int.ceil (x - 1 / 2)

/-- The conversion of an integer value to `int` (32 bits, two's complement): the value
congruent to it modulo `2^32` in `[-2^31, 2^31)`. -/
def to_int32 (z : Int) : Int := (z + 2 ^ 31) % 2 ^ 32 - 2 ^ 31

/-- The number of binary digits of `n`, for `n < 2 ^ fuel`. -/
def binary_digits : Nat → Nat → Nat
  | 0, _ => 0
  | fuel + 1, n => if n = 0 then 0 else binary_digits fuel (n / 2) + 1

/-- Rounding to the nearest integer, a tie going to the even one: the IEEE 754 default
rounding of a significand. -/
def round_half_even (q : ℚ) : Int :=
  if q - (Int.floor q : ℚ) < 1 / 2 then Int.floor q
  else if 1 / 2 < q - (Int.floor q : ℚ) then Int.floor q + 1
  else if Int.floor q % 2 = 0 then Int.floor q
  else Int.floor q + 1

/-- The spacing of the `float` values (binary32, 24-bit significand) around a magnitude
`a > 0`: `2 ^ (e - 23)` where `2 ^ e <= a < 2 ^ (e + 1)`, and `2 ^ (-149)` in the
subnormal range below `2 ^ (-126)`. -/
def float_ulp (a : ℚ) : ℚ :=
  if 1 ≤ a then
    if 24 ≤ binary_digits 128 (Int.floor a).toNat then
      ((2 ^ (binary_digits 128 (Int.floor a).toNat - 24) : ℕ) : ℚ)
    else 1 / ((2 ^ (24 - binary_digits 128 (Int.floor a).toNat) : ℕ) : ℚ)
  else 1 / ((2 ^ (min (binary_digits 160 ((Int.ceil (1 / a)).toNat - 1) + 23) 149) : ℕ) : ℚ)

/-- The conversion `static_cast<float>` and the assignment to a `float` variable: the
nearest binary32 value, ties to even, of a value of magnitude below `2 ^ 128`. -/
def to_float (q : ℚ) : ℚ :=
  if q = 0 then 0 else (round_half_even (q / float_ulp |q|) : ℚ) * float_ulp |q|

/-- The constant `M_PI` of `<cmath>`: the double nearest to pi, an exact rational. -/
def M_PI : ℚ := 884279719003555 / 281474976710656

/-- A single-precision sample of a correlator output: finite, NaN, or infinite. -/
inductive FloatVal where
  | fin (q : ℚ)
  | nan
  | pinf
  | ninf
  deriving DecidableEq, Repr

/-- The test `std::isnan`. -/
def FloatVal.isnan : FloatVal → Bool
  | .nan => true
  | _ => false

/-- IEEE addition on `FloatVal` (rounding left out). -/
def FloatVal.add : FloatVal → FloatVal → FloatVal
  | .nan, _ => .nan
  | _, .nan => .nan
  | .pinf, .ninf => .nan
  | .ninf, .pinf => .nan
  | .pinf, _ => .pinf
  | _, .pinf => .pinf
  | .ninf, _ => .ninf
  | _, .ninf => .ninf
  | .fin a, .fin b => .fin (a + b)

/-- The type `gr_complex` (`std::complex<float>`). -/
structure gr_complex where
  re : FloatVal
  im : FloatVal
  deriving DecidableEq, Repr

/-- The value `gr_complex(0,0)`. -/
def gr_complex.zero : gr_complex := ⟨.fin 0, .fin 0⟩

/-- The operator `+=` on `gr_complex`. -/
def gr_complex.add (a b : gr_complex) : gr_complex := ⟨a.re.add b.re, a.im.add b.im⟩

/-! ## Collaborators -/

/-- A call made on a loop filter object since its construction. -/
inductive FilterCall where
  | init (value : ℚ)
  | apply (error : ℚ)
  deriving DecidableEq, Repr

/-- Modelled from the spec: the class `Tracking_loop_filter` (spec 4.2), whose source is
outside the sources embedded here.  A filter is parameterised by nominal update period, noise
bandwidth and order; `initialize` and `apply` change its internal state, which is kept
here as the sequence of those calls (every deterministic filter state is a function of
it); `set_noise_bandwidth` changes the bandwidth used by later calls. -/
structure Tracking_loop_filter where
  update_interval : ℚ
  noise_bandwidth : ℚ
  loop_order : Int
  include_last_integrator : Bool
  calls : List FilterCall
  deriving DecidableEq, Repr

/-- The constructor `Tracking_loop_filter(update_interval, noise_bandwidth, loop_order,
include_last_integrator)`. -/
def Tracking_loop_filter.mk_filter (update_interval noise_bandwidth : ℚ) (loop_order : Int)
    (include_last_integrator : Bool) : Tracking_loop_filter :=
  ⟨update_interval, noise_bandwidth, loop_order, include_last_integrator, []⟩

/-- The method `set_noise_bandwidth`. -/
def Tracking_loop_filter.set_noise_bandwidth (f : Tracking_loop_filter) (bw : ℚ) :
    Tracking_loop_filter :=
  { f with noise_bandwidth := bw }

/-- The method `initialize(value)`. -/
def Tracking_loop_filter.initialize (f : Tracking_loop_filter) (value : ℚ) :
    Tracking_loop_filter :=
  { f with calls := f.calls ++ [FilterCall.init value] }

/-- The number of `apply` calls a filter has seen. -/
def Tracking_loop_filter.apply_count (f : Tracking_loop_filter) : Nat :=
  f.calls.countP (fun c => match c with
    | FilterCall.apply _ => true
    | FilterCall.init _ => false)

/-- Modelled from the spec: the record `Gnss_Synchro` (spec 3 and 6), declared in
`gnss_synchro.h`, which is outside the sources embedded here: the synchronization handle
written by acquisition and the output record of an epoch share this type. -/
structure Gnss_Synchro where
  System : Char
  Signal : String
  PRN : Nat
  Channel_ID : Int
  Acq_delay_samples : ℚ
  Acq_doppler_hz : ℚ
  Acq_samplestamp_samples : Nat
  Flag_valid_acquisition : Bool
  Prompt_I : FloatVal
  Prompt_Q : FloatVal
  Carrier_phase_rads : ℚ
  Code_phase_secs : ℚ
  Tracking_timestamp_secs : ℚ
  CN0_dB_hz : ℚ
  Carrier_Doppler_hz : ℚ
  Flag_valid_tracking : Bool
  Flag_valid_pseudorange : Bool
  deriving DecidableEq, Repr

/-- The constants and functions the block takes from headers that are outside the
sources embedded here: the signal constants of `Galileo_E1.h` and `GPS_L1_CA.h`, the response of
a loop filter to an error sample, the discriminators of `tracking_discriminators.h`, the
estimators of `lock_detectors.h`, and the magnitude `std::abs<float>`. -/
structure Externals where
  Galileo_E1_FREQ_HZ : ℚ
  Galileo_E1_CODE_CHIP_RATE_HZ : ℚ
  Galileo_E1_B_CODE_LENGTH_CHIPS : ℚ
  Galileo_E1_SUB_CARRIER_A_RATE_HZ : ℚ
  Galileo_E1_CODE_PERIOD : ℚ
  Galileo_E1_A_CODE_CHIP_RATE_HZ : ℚ
  Galileo_E1_A_SUB_CARRIER_RATE_HZ : ℚ
  GPS_TWO_PI : ℚ
  filter_output : Tracking_loop_filter → ℚ → ℚ
  pll_cloop_two_quadrant_atan : gr_complex → ℚ
  dll_nc_e_minus_l_normalized : gr_complex → gr_complex → ℚ
  cn0_svn_estimator : List gr_complex → Int → Int → Int → ℚ
  carrier_lock_detector : List gr_complex → Int → ℚ
  cabs : gr_complex → ℚ

/-- The method `apply(error)`: the filtered correction and the filter after the call. -/
def Tracking_loop_filter.apply (E : Externals) (f : Tracking_loop_filter) (error : ℚ) :
    ℚ × Tracking_loop_filter :=
  (E.filter_output f error, { f with calls := f.calls ++ [FilterCall.apply error] })

/-- What one invocation of `general_work` receives: the number of samples available
(`ninput_items[0]`) and the sums the correlator forms from the input block and the
current replicas, primary (`Carrier_rotate_and_VEPL_volk`) and secondary
(`Carrier_rotate_and_VEPL_codeless`). -/
structure EpochInput where
  ninput_items : Int
  Very_Early : gr_complex
  Early : gr_complex
  Prompt : gr_complex
  Late : gr_complex
  Very_Late : gr_complex
  Very_Early_prs : gr_complex
  Early_prs : gr_complex
  Prompt_prs : gr_complex
  Late_prs : gr_complex
  Very_Late_prs : gr_complex
  deriving DecidableEq, Repr

/-- One field of a dump record. -/
inductive DumpField where
  | float (v : FloatVal)
  | ulong (n : Int)
  | double (v : ℚ)
  deriving DecidableEq, Repr

/-! ## The block -/

/-- The preprocessor constant `CN0_ESTIMATION_SAMPLES`. -/
def CN0_ESTIMATION_SAMPLES : Int := 20

/-- The preprocessor constant `MINIMUM_VALID_CN0`. -/
def MINIMUM_VALID_CN0 : ℚ := 25

/-- The preprocessor constant `MAXIMUM_LOCK_FAIL_COUNTER`. -/
def MAXIMUM_LOCK_FAIL_COUNTER : Int := 50

/-- The preprocessor constant `MINIMUM_LOCK_SUCCESS_COUNTER`. -/
def MINIMUM_LOCK_SUCCESS_COUNTER : Int := 10

/-- The preprocessor constant `CARRIER_LOCK_THRESHOLD`. -/
def CARRIER_LOCK_THRESHOLD : ℚ := 85 / 100

/-- The member variables of `galileo_e1_prs_codeless_tracking_cc`.  The object behind
the pointer `d_acquisition_gnss_synchro` is held in the field of that name; `d_queue`
is `none` for the null queue and otherwise the control messages `(channel, code)`
handed to it so far; `d_dump_file` is what has been written to the dump file.  The
replica buffers, which only carry the replicas to the correlator, are left out. -/
structure State where
  d_queue : Option (List (Nat × Nat))
  d_dump : Bool
  d_if_freq : Int
  d_fs_in : Int
  d_vector_length : Nat
  d_dump_filename : String
  d_dump_file_is_open : Bool
  d_dump_file : List DumpField
  d_pll_loop_order : Int
  d_initial_pll_bw_hz : ℚ
  d_final_pll_bw_hz : ℚ
  d_dll_loop_order : Int
  d_initial_dll_bw_hz : ℚ
  d_final_dll_bw_hz : ℚ
  d_dll_loop_order_prs : Int
  d_dll_bw_hz_prs : ℚ
  d_pll_loop_order_prs : Int
  d_pll_bw_hz_prs : ℚ
  d_code_loop_filter : Tracking_loop_filter
  d_carrier_loop_filter : Tracking_loop_filter
  d_divergence_loop_filter : Tracking_loop_filter
  d_code_loop_filter_prs : Tracking_loop_filter
  d_carrier_loop_filter_prs : Tracking_loop_filter
  d_divergence_loop_filter_prs : Tracking_loop_filter
  d_aid_code_with_carrier : Bool
  d_close_prs_loops : Bool
  d_initial_early_late_code_space_cycles : ℚ
  d_final_early_late_code_space_cycles : ℚ
  d_early_late_code_spc_cycles : ℚ
  d_initial_very_early_late_code_space_chips : ℚ
  d_final_very_early_late_code_space_chips : ℚ
  d_very_early_late_code_spc_chips : ℚ
  d_very_early_late_code_spc_chips_prs : ℚ
  d_os_independent_code_subcarrier : Bool
  d_Very_Early : gr_complex
  d_Early : gr_complex
  d_Prompt : gr_complex
  d_Late : gr_complex
  d_Very_Late : gr_complex
  d_Very_Early_prs : gr_complex
  d_Early_prs : gr_complex
  d_Prompt_prs : gr_complex
  d_Late_prs : gr_complex
  d_Very_Late_prs : gr_complex
  d_VE_acumm_prs : gr_complex
  d_E_acumm_prs : gr_complex
  d_P_acumm_prs : gr_complex
  d_L_acumm_prs : gr_complex
  d_VL_acumm_prs : gr_complex
  d_code_freq_chips : ℚ
  d_code_freq_chips_prs : ℚ
  d_chips_to_cycles : ℚ
  d_chips_to_cycles_prs : ℚ
  d_subcarrier_freq_cycles : ℚ
  d_subcarrier_freq_cycles_prs : ℚ
  d_rem_code_phase_samples : ℚ
  d_code_phase_chips : ℚ
  d_subcarrier_phase_cycles : ℚ
  d_rem_code_phase_samples_prs : ℚ
  d_integer_code_phase_chips_prs : Int
  d_fractional_code_phase_chips_prs : ℚ
  d_integer_subcarrier_phase_cycles_prs : Int
  d_fractional_subcarrier_phase_cycles_prs : ℚ
  d_rem_carr_phase_rad : ℚ
  d_rem_carr_phase_rad_prs : ℚ
  d_carrier_phase_rad : ℚ
  d_carrier_phase_rad_prs : ℚ
  d_sample_counter : Int
  d_acq_sample_stamp : Int
  d_enable_tracking : Bool
  d_pull_in : Bool
  d_last_seg : Int
  d_prs_tracking_enabled : Bool
  d_current_prn_length_samples : Int
  d_cn0_estimation_counter : Int
  d_cn0_estimation_counter_prs : Int
  d_Prompt_buffer : List gr_complex
  d_carrier_lock_test : ℚ
  d_CN0_SNV_dB_Hz : ℚ
  d_carrier_lock_fail_counter : Int
  d_carrier_lock_success_counter : Int
  d_carrier_lock_threshold : ℚ
  d_channel_internal_queue : Option (List Int)
  d_acquisition_gnss_synchro : Gnss_Synchro
  d_channel : Nat
  d_acq_code_phase_samples : ℚ
  d_acq_carrier_doppler_hz : ℚ
  d_carrier_doppler_hz : ℚ
  d_carrier_doppler_hz_prs : ℚ
  d_acc_carrier_phase_rad : ℚ
  d_acc_code_phase_secs : ℚ
  d_tow_received : Bool
  d_rx_time_set : Bool
  d_preamble_start_detected : Bool
  d_last_tow : ℚ
  d_timestamp_last_tow : ℚ
  d_tow_rx_time : ℚ
  d_timestamp_rx_time : ℚ
  d_preamble_timestamp : ℚ
  d_use_bj : Bool
  d_bj_ve_counter : Int
  d_bj_vl_counter : Int
  d_bj_ve_counter_prs : Int
  d_bj_vl_counter_prs : Int
  d_bj_threshold : Nat
  d_use_sa : Bool
  d_initial_divergence_loop_filter_bandwidth : ℚ
  d_final_divergence_loop_filter_bandwidth : ℚ
  d_carrier_locked : Bool
  d_subcarrier_locked : Bool
  d_subcarrier_locked_prs : Bool
  d_mean_subcarrier_error : ℚ
  d_mean_subcarrier_error_prs : ℚ
  d_code_locked : Bool
  d_code_locked_prs : Bool
  d_mean_code_error : ℚ
  d_mean_code_error_prs : ℚ
  d_carr_error_hz_prs : ℚ
  d_carr_error_filt_hz_prs : ℚ
  d_subcarrier_error_cycles_prs : ℚ
  d_subcarrier_error_filt_cycles_prs : ℚ
  d_code_error_chips_veml_prs : ℚ
  d_code_error_filt_chips_veml_prs : ℚ
  d_prs_accumulation_length : Int
  d_prs_accumulation_index : Int

/-- The values of the members that the constructor reads or leaves before any
assignment to them: their content is indeterminate in C++. -/
structure Indeterminate where
  d_prs_accumulation_length : Int
  d_cn0_estimation_counter_prs : Int
  d_subcarrier_phase_cycles : ℚ
  d_carrier_phase_rad : ℚ
  d_carrier_phase_rad_prs : ℚ
  d_last_tow : ℚ
  d_timestamp_last_tow : ℚ
  d_tow_rx_time : ℚ
  d_timestamp_rx_time : ℚ
  d_preamble_timestamp : ℚ
  d_acquisition_gnss_synchro : Gnss_Synchro

/-- The arguments of the constructor. -/
structure Config where
  if_freq : Int
  fs_in : Int
  vector_length : Nat
  queue : Option (List (Nat × Nat))
  dump : Bool
  dump_filename : String
  pll_loop_order : Int
  pll_initial_bw_hz : ℚ
  pll_final_bw_hz : ℚ
  dll_loop_order : Int
  dll_initial_bw_hz : ℚ
  dll_final_bw_hz : ℚ
  initial_early_late_code_space_cycles : ℚ
  final_early_late_code_space_cycles : ℚ
  initial_very_early_late_code_space_chips : ℚ
  final_very_early_late_code_space_chips : ℚ
  aid_code_with_carrier : Bool
  use_bump_jumping : Bool
  bump_jumping_threshold : Nat
  initial_divergence_bw_hz : ℚ
  final_divergence_bw_hz : ℚ
  prs_accumulation_length : Int
  close_prs_loops : Bool
  pll_bw_hz_prs : ℚ
  dll_bw_hz_prs : ℚ

/-- The constructor `galileo_e1_prs_codeless_tracking_cc(...)`.  The divergence filter of
the secondary loop is built from `d_prs_accumulation_length` before that member is
assigned, so its update period comes from `u`. -/
def constructor (E : Externals) (c : Config) (u : Indeterminate) : State where
  d_queue := c.queue
  d_dump := c.dump
  d_if_freq := c.if_freq
  d_fs_in := c.fs_in
  d_vector_length := c.vector_length
  d_dump_filename := c.dump_filename
  d_dump_file_is_open := false
  d_dump_file := []
  d_pll_loop_order := c.pll_loop_order
  d_initial_pll_bw_hz := c.pll_initial_bw_hz
  d_final_pll_bw_hz := c.pll_final_bw_hz
  d_dll_loop_order := c.dll_loop_order
  d_initial_dll_bw_hz := c.dll_initial_bw_hz
  d_final_dll_bw_hz := c.dll_final_bw_hz
  d_dll_loop_order_prs := 1
  d_dll_bw_hz_prs := c.dll_bw_hz_prs
  d_pll_loop_order_prs := 1
  d_pll_bw_hz_prs := c.pll_bw_hz_prs
  d_code_loop_filter :=
    Tracking_loop_filter.mk_filter E.Galileo_E1_CODE_PERIOD c.dll_initial_bw_hz c.dll_loop_order false
  d_carrier_loop_filter :=
    Tracking_loop_filter.mk_filter E.Galileo_E1_CODE_PERIOD c.pll_initial_bw_hz c.pll_loop_order false
  d_aid_code_with_carrier := c.aid_code_with_carrier
  d_close_prs_loops := c.close_prs_loops
  d_code_loop_filter_prs :=
    Tracking_loop_filter.mk_filter (E.Galileo_E1_CODE_PERIOD * c.prs_accumulation_length)
      c.dll_bw_hz_prs 1 false
  d_carrier_loop_filter_prs :=
    Tracking_loop_filter.mk_filter (E.Galileo_E1_CODE_PERIOD * c.prs_accumulation_length)
      c.pll_bw_hz_prs 1 false
  d_initial_early_late_code_space_cycles := c.initial_early_late_code_space_cycles
  d_final_early_late_code_space_cycles := c.final_early_late_code_space_cycles
  d_early_late_code_spc_cycles := c.initial_early_late_code_space_cycles
  d_initial_very_early_late_code_space_chips := c.initial_very_early_late_code_space_chips
  d_final_very_early_late_code_space_chips := c.final_very_early_late_code_space_chips
  d_very_early_late_code_spc_chips := 1 / 2
  d_very_early_late_code_spc_chips_prs :=
    if !c.use_bump_jumping then c.initial_very_early_late_code_space_chips
    else E.Galileo_E1_A_CODE_CHIP_RATE_HZ / (2 * E.Galileo_E1_A_SUB_CARRIER_RATE_HZ)
  d_os_independent_code_subcarrier := false
  d_Very_Early := gr_complex.zero
  d_Early := gr_complex.zero
  d_Prompt := gr_complex.zero
  d_Late := gr_complex.zero
  d_Very_Late := gr_complex.zero
  d_Very_Early_prs := gr_complex.zero
  d_Early_prs := gr_complex.zero
  d_Prompt_prs := gr_complex.zero
  d_Late_prs := gr_complex.zero
  d_Very_Late_prs := gr_complex.zero
  d_VE_acumm_prs := gr_complex.zero
  d_E_acumm_prs := gr_complex.zero
  d_P_acumm_prs := gr_complex.zero
  d_L_acumm_prs := gr_complex.zero
  d_VL_acumm_prs := gr_complex.zero
  d_code_freq_chips := E.Galileo_E1_CODE_CHIP_RATE_HZ
  d_code_freq_chips_prs := E.Galileo_E1_A_CODE_CHIP_RATE_HZ
  d_chips_to_cycles := E.Galileo_E1_SUB_CARRIER_A_RATE_HZ / E.Galileo_E1_CODE_CHIP_RATE_HZ
  d_chips_to_cycles_prs := E.Galileo_E1_A_SUB_CARRIER_RATE_HZ / E.Galileo_E1_A_CODE_CHIP_RATE_HZ
  d_subcarrier_freq_cycles :=
    E.Galileo_E1_CODE_CHIP_RATE_HZ
      * (E.Galileo_E1_SUB_CARRIER_A_RATE_HZ / E.Galileo_E1_CODE_CHIP_RATE_HZ)
  d_subcarrier_freq_cycles_prs :=
    E.Galileo_E1_A_CODE_CHIP_RATE_HZ
      * (E.Galileo_E1_A_SUB_CARRIER_RATE_HZ / E.Galileo_E1_A_CODE_CHIP_RATE_HZ)
  d_rem_code_phase_samples := 0
  d_code_phase_chips := 0
  d_subcarrier_phase_cycles := u.d_subcarrier_phase_cycles
  d_rem_code_phase_samples_prs := 0
  d_integer_code_phase_chips_prs := 0
  d_fractional_code_phase_chips_prs := 0
  d_integer_subcarrier_phase_cycles_prs := 0
  d_fractional_subcarrier_phase_cycles_prs := 0
  d_rem_carr_phase_rad := 0
  d_rem_carr_phase_rad_prs := 0
  d_carrier_phase_rad := u.d_carrier_phase_rad
  d_carrier_phase_rad_prs := u.d_carrier_phase_rad_prs
  d_sample_counter := 0
  d_acq_sample_stamp := 0
  d_enable_tracking := false
  d_pull_in := false
  d_last_seg := 0
  d_prs_tracking_enabled := false
  d_current_prn_length_samples := c.vector_length
  d_cn0_estimation_counter := 0
  d_cn0_estimation_counter_prs := u.d_cn0_estimation_counter_prs
  d_Prompt_buffer := List.replicate 20 gr_complex.zero
  d_carrier_lock_test := 1
  d_CN0_SNV_dB_Hz := 0
  d_carrier_lock_fail_counter := 0
  d_carrier_lock_success_counter := 0
  d_carrier_lock_threshold := CARRIER_LOCK_THRESHOLD
  d_channel_internal_queue := none
  d_acquisition_gnss_synchro := u.d_acquisition_gnss_synchro
  d_channel := 0
  d_acq_code_phase_samples := 0
  d_acq_carrier_doppler_hz := 0
  d_carrier_doppler_hz := 0
  d_carrier_doppler_hz_prs := 0
  d_acc_carrier_phase_rad := 0
  d_acc_code_phase_secs := 0
  d_tow_received := false
  d_rx_time_set := false
  d_preamble_start_detected := false
  d_last_tow := u.d_last_tow
  d_timestamp_last_tow := u.d_timestamp_last_tow
  d_tow_rx_time := u.d_tow_rx_time
  d_timestamp_rx_time := u.d_timestamp_rx_time
  d_preamble_timestamp := u.d_preamble_timestamp
  d_use_bj := c.use_bump_jumping
  d_bj_ve_counter := 0
  d_bj_vl_counter := 0
  d_bj_ve_counter_prs := 0
  d_bj_vl_counter_prs := 0
  d_bj_threshold := c.bump_jumping_threshold
  d_use_sa := !c.use_bump_jumping
  d_initial_divergence_loop_filter_bandwidth := c.initial_divergence_bw_hz
  d_final_divergence_loop_filter_bandwidth := c.final_divergence_bw_hz
  d_divergence_loop_filter :=
    Tracking_loop_filter.mk_filter E.Galileo_E1_CODE_PERIOD c.initial_divergence_bw_hz 1 false
  d_divergence_loop_filter_prs :=
    Tracking_loop_filter.mk_filter (E.Galileo_E1_CODE_PERIOD * u.d_prs_accumulation_length)
      c.initial_divergence_bw_hz 1 false
  d_carrier_locked := false
  d_subcarrier_locked := false
  d_subcarrier_locked_prs := false
  d_mean_subcarrier_error := 0
  d_mean_subcarrier_error_prs := 0
  d_code_locked := false
  d_code_locked_prs := false
  d_mean_code_error := 0
  d_mean_code_error_prs := 0
  d_carr_error_hz_prs := 0
  d_carr_error_filt_hz_prs := 0
  d_subcarrier_error_cycles_prs := 0
  d_subcarrier_error_filt_cycles_prs := 0
  d_code_error_chips_veml_prs := 0
  d_code_error_filt_chips_veml_prs := 0
  d_prs_accumulation_length := c.prs_accumulation_length
  d_prs_accumulation_index := 0

/-- The method `forecast`: the number of input samples required for the next call. -/
def forecast (s : State) : Int := (s.d_vector_length : Int) * 2

/-- The method `set_channel` (the dump file is taken to open without error). -/
def set_channel (s : State) (channel : Nat) : State :=
  let s := { s with d_channel := channel }
  if s.d_dump = true then
    if s.d_dump_file_is_open = false then
      { s with
        d_dump_filename := s.d_dump_filename ++ toString channel ++ ".dat"
        d_dump_file_is_open := true }
    else s
  else s

/-- The method `set_channel_queue`. -/
def set_channel_queue (s : State) (channel_internal_queue : Option (List Int)) : State :=
  { s with d_channel_internal_queue := channel_internal_queue }

/-- The method `set_gnss_synchro`. -/
def set_gnss_synchro (s : State) (p_gnss_synchro : Gnss_Synchro) : State :=
  { s with d_acquisition_gnss_synchro := p_gnss_synchro }

/-- The method `start_tracking` (the generation of the local code, which only fills
the replica store, is left out). -/
def start_tracking (E : Externals) (s : State) : State :=
  let d_acq_carrier_doppler_hz := s.d_acquisition_gnss_synchro.Acq_doppler_hz
  let code_doppler_chips :=
    d_acq_carrier_doppler_hz * E.Galileo_E1_CODE_CHIP_RATE_HZ / E.Galileo_E1_FREQ_HZ
  { s with
    d_acq_code_phase_samples := s.d_acquisition_gnss_synchro.Acq_delay_samples
    d_acq_carrier_doppler_hz := d_acq_carrier_doppler_hz
    d_acq_sample_stamp := s.d_acquisition_gnss_synchro.Acq_samplestamp_samples
    d_code_loop_filter :=
      Tracking_loop_filter.initialize
        (s.d_code_loop_filter.set_noise_bandwidth s.d_initial_dll_bw_hz) code_doppler_chips
    d_carrier_loop_filter :=
      Tracking_loop_filter.initialize
        (s.d_carrier_loop_filter.set_noise_bandwidth s.d_initial_pll_bw_hz)
        d_acq_carrier_doppler_hz
    d_divergence_loop_filter :=
      s.d_divergence_loop_filter.set_noise_bandwidth
        s.d_initial_divergence_loop_filter_bandwidth
    d_carrier_lock_fail_counter := 0
    d_carrier_lock_success_counter := 0
    d_rem_code_phase_samples := 0
    d_rem_carr_phase_rad := 0
    d_acc_carrier_phase_rad := 0
    d_acc_code_phase_secs := 0
    d_carrier_doppler_hz := d_acq_carrier_doppler_hz
    d_current_prn_length_samples := s.d_vector_length
    d_pull_in := true
    d_enable_tracking := true
    d_code_locked := false
    d_carrier_locked := false
    d_cn0_estimation_counter := 0
    d_bj_ve_counter := 0
    d_bj_vl_counter := 0
    d_subcarrier_locked := false
    d_mean_subcarrier_error := 0
    d_mean_code_error := 0 }

/-- The method `start_tracking_prs`. -/
def start_tracking_prs (E : Externals) (s : State) : State :=
  let code_phase_chips_prs :=
    s.d_code_phase_chips * E.Galileo_E1_A_CODE_CHIP_RATE_HZ / E.Galileo_E1_CODE_CHIP_RATE_HZ
  let d_fractional_code_phase_chips_prs := fmod code_phase_chips_prs 1
  let d_fractional_subcarrier_phase_cycles_prs :=
    d_fractional_code_phase_chips_prs * s.d_chips_to_cycles_prs
  { s with
    d_integer_code_phase_chips_prs := 0
    d_fractional_code_phase_chips_prs := d_fractional_code_phase_chips_prs
    d_integer_subcarrier_phase_cycles_prs := Int.floor d_fractional_subcarrier_phase_cycles_prs
    d_fractional_subcarrier_phase_cycles_prs := fmod d_fractional_subcarrier_phase_cycles_prs 1
    d_rem_carr_phase_rad_prs := s.d_rem_carr_phase_rad - M_PI / 2
    d_code_freq_chips_prs :=
      s.d_code_freq_chips * E.Galileo_E1_A_CODE_CHIP_RATE_HZ / E.Galileo_E1_CODE_CHIP_RATE_HZ
    d_carrier_doppler_hz_prs := s.d_carrier_doppler_hz
    d_code_loop_filter_prs :=
      Tracking_loop_filter.initialize
        (s.d_code_loop_filter_prs.set_noise_bandwidth s.d_dll_bw_hz_prs) 0
    d_carrier_loop_filter_prs :=
      Tracking_loop_filter.initialize
        (s.d_carrier_loop_filter_prs.set_noise_bandwidth s.d_pll_bw_hz_prs) 0
    d_divergence_loop_filter_prs :=
      s.d_divergence_loop_filter_prs.set_noise_bandwidth
        s.d_initial_divergence_loop_filter_bandwidth
    d_prs_tracking_enabled := true
    d_code_locked_prs := false
    d_cn0_estimation_counter := 0
    d_bj_ve_counter_prs := 0
    d_bj_vl_counter_prs := 0
    d_subcarrier_locked_prs := false
    d_mean_subcarrier_error_prs := 0
    d_mean_code_error_prs := 0
    d_prs_accumulation_index := 0
    d_VE_acumm_prs := gr_complex.zero
    d_E_acumm_prs := gr_complex.zero
    d_P_acumm_prs := gr_complex.zero
    d_L_acumm_prs := gr_complex.zero
    d_VL_acumm_prs := gr_complex.zero
    d_carr_error_hz_prs := 0
    d_carr_error_filt_hz_prs := 0
    d_subcarrier_error_cycles_prs := 0
    d_subcarrier_error_filt_cycles_prs := 0
    d_code_error_chips_veml_prs := 0
    d_code_error_filt_chips_veml_prs := 0
    d_cn0_estimation_counter_prs := 0 }

/-- A message of the `gnss_message` port: its text, its `TOW` entry and its timestamp. -/
structure GnssMessage where
  message : String
  TOW : ℚ
  timestamp : ℚ

/-- The method `handle_gnss_message`.  The last `if` of the source only extends the
log line, so it changes no member. -/
def handle_gnss_message (s : State) (msg : GnssMessage) : State :=
  let s :=
    if msg.message = "TOW_ACQUIRED" then
      { s with d_tow_received := true, d_last_tow := msg.TOW,
               d_timestamp_last_tow := msg.timestamp }
    else s
  let s :=
    if msg.message = "RECEIVER_TIME_SET" then
      { s with d_rx_time_set := true, d_tow_rx_time := msg.TOW,
               d_timestamp_rx_time := msg.timestamp }
    else s
  let s :=
    if msg.message = "PREAMBLE_START_DETECTED" then
      { s with d_preamble_start_detected := true, d_preamble_timestamp := msg.timestamp }
    else s
  s

/-! ## `general_work`

The body of `general_work` is cut, in source order, into the sections that its
comment banners mark; `general_work` below chains them. -/

/-- What an invocation of `general_work` hands back: the block afterwards, the record
written to `*out[0]`, the number of input samples passed to `consume_each`, and the
return value. -/
structure WorkResult where
  state : State
  out : Gnss_Synchro
  consumed : Int
  ret : Int

/-- The local variables of `general_work` that outlive the section computing them. -/
structure Locals where
  carr_error_hz : ℚ
  carr_error_filt_hz : ℚ
  subcarrier_error_cycles : ℚ
  subcarrier_error_filt_cycles : ℚ
  code_error_chips_veml : ℚ
  code_error_filt_chips_veml : ℚ

/-- The initial values of the locals (`double carr_error_hz = 0.0;` and so on). -/
def Locals.zero : Locals := ⟨0, 0, 0, 0, 0, 0⟩

/-- The branch `if (d_pull_in == true)`: signal alignment.  The delay
`d_sample_counter - d_acq_sample_stamp` is narrowed to the `int`
`acq_to_trk_delay_samples`, both arguments of `fmod` are converted by
`static_cast<float>`, the correction is rounded once more when it is stored in the
`float` variable `acq_trk_shif_correction_samples`, and the rounded sum of line 751 is
narrowed to the `int` `samples_offset` (a conversion that C++ defines only for a value
in the range of `int`, where `to_int32` changes nothing); `fmod`, the subtraction and
the sum of line 751 are exact.  It returns at once, so neither the dump nor the final
`consume_each` runs. -/
def pull_in (s : State) : WorkResult :=
  let acq_to_trk_delay_samples : Int := to_int32 (s.d_sample_counter - s.d_acq_sample_stamp)
  let acq_trk_shif_correction_samples : ℚ :=
    to_float ((s.d_current_prn_length_samples : ℚ)
      - fmod (to_float (acq_to_trk_delay_samples : ℚ))
          (to_float (s.d_current_prn_length_samples : ℚ)))
  let samples_offset : Int :=
    to_int32 (round (s.d_acq_code_phase_samples + acq_trk_shif_correction_samples))
  let s := { s with
    d_sample_counter := s.d_sample_counter + samples_offset
    d_pull_in := false
    d_code_phase_chips := 0
    d_rem_code_phase_samples := 0
    d_subcarrier_phase_cycles := 0
    d_fractional_subcarrier_phase_cycles_prs := 0 }
  { state := s, out := s.d_acquisition_gnss_synchro, consumed := samples_offset, ret := 1 }

/-- The epoch duration `T` in seconds. -/
def epoch_T (s : State) : ℚ := (s.d_current_prn_length_samples : ℚ) / (s.d_fs_in : ℚ)

/-- The primary correlation and the update of the primary code and carrier phase
estimates over the epoch. -/
def correlate_and_propagate (E : Externals) (s : State) (inp : EpochInput) : State :=
  let T := epoch_T s
  let d_code_phase_chips :=
    fmod (s.d_code_phase_chips + T * s.d_code_freq_chips) E.Galileo_E1_B_CODE_LENGTH_CHIPS
  let d_subcarrier_phase_cycles :=
    if s.d_use_sa then s.d_subcarrier_phase_cycles + T * s.d_subcarrier_freq_cycles
    else d_code_phase_chips * s.d_chips_to_cycles
  let rem_code_phase_chips := E.Galileo_E1_B_CODE_LENGTH_CHIPS - d_code_phase_chips
  let rem_code_phase_chips :=
    if rem_code_phase_chips > E.Galileo_E1_B_CODE_LENGTH_CHIPS / 2 then
      rem_code_phase_chips - E.Galileo_E1_B_CODE_LENGTH_CHIPS
    else rem_code_phase_chips
  let d_rem_carr_phase_rad :=
    fmod (s.d_rem_carr_phase_rad + 2 * M_PI * ((s.d_if_freq : ℚ) + s.d_carrier_doppler_hz) * T)
      (2 * M_PI)
  let d_rem_carr_phase_rad :=
    if d_rem_carr_phase_rad ≥ M_PI then d_rem_carr_phase_rad - 2 * M_PI
    else d_rem_carr_phase_rad
  let d_rem_carr_phase_rad :=
    if d_rem_carr_phase_rad < -M_PI then d_rem_carr_phase_rad + 2 * M_PI
    else d_rem_carr_phase_rad
  { s with
    d_Very_Early := inp.Very_Early
    d_Early := inp.Early
    d_Prompt := inp.Prompt
    d_Late := inp.Late
    d_Very_Late := inp.Very_Late
    d_code_phase_chips := d_code_phase_chips
    d_subcarrier_phase_cycles := fmod d_subcarrier_phase_cycles 1
    d_carrier_phase_rad := s.d_carrier_phase_rad + T * 2 * M_PI * s.d_carrier_doppler_hz
    d_rem_code_phase_samples :=
      rem_code_phase_chips * (s.d_fs_in : ℚ) / E.Galileo_E1_CODE_CHIP_RATE_HZ
    d_rem_carr_phase_rad := d_rem_carr_phase_rad
    d_acc_carrier_phase_rad :=
      s.d_acc_carrier_phase_rad + 2 * M_PI * s.d_carrier_doppler_hz * T }

/-- The block `if( d_prs_tracking_enabled )` after the primary propagation: secondary
correlation, coherent accumulation, and the update of the secondary phase estimates. -/
def prs_correlate_and_propagate (E : Externals) (s : State) (inp : EpochInput) : State :=
  let T := epoch_T s
  let s := { s with
    d_Very_Early_prs := inp.Very_Early_prs
    d_Early_prs := inp.Early_prs
    d_Prompt_prs := inp.Prompt_prs
    d_Late_prs := inp.Late_prs
    d_Very_Late_prs := inp.Very_Late_prs }
  let s :=
    if s.d_prs_accumulation_index = 0 then
      { s with
        d_VE_acumm_prs := gr_complex.zero
        d_E_acumm_prs := gr_complex.zero
        d_P_acumm_prs := gr_complex.zero
        d_L_acumm_prs := gr_complex.zero
        d_VL_acumm_prs := gr_complex.zero }
    else s
  let s := { s with
    d_VE_acumm_prs := s.d_VE_acumm_prs.add s.d_Very_Early_prs
    d_E_acumm_prs := s.d_E_acumm_prs.add s.d_Early_prs
    d_P_acumm_prs := s.d_P_acumm_prs.add s.d_Prompt_prs
    d_L_acumm_prs := s.d_L_acumm_prs.add s.d_Late_prs
    d_VL_acumm_prs := s.d_VL_acumm_prs.add s.d_Very_Late_prs
    d_prs_accumulation_index := s.d_prs_accumulation_index + 1 }
  let delta_code_phase_prs := T * s.d_code_freq_chips_prs
  let frac_code := s.d_fractional_code_phase_chips_prs + delta_code_phase_prs
  let s := { s with
    d_integer_code_phase_chips_prs := s.d_integer_code_phase_chips_prs + Int.floor frac_code
    d_fractional_code_phase_chips_prs := fmod frac_code 1 }
  let s :=
    if s.d_use_sa then
      let frac_sub := s.d_fractional_subcarrier_phase_cycles_prs + T * s.d_subcarrier_freq_cycles_prs
      { s with
        d_fractional_subcarrier_phase_cycles_prs := frac_sub
        d_integer_subcarrier_phase_cycles_prs :=
          s.d_integer_subcarrier_phase_cycles_prs + Int.floor frac_sub }
    else
      { s with
        d_fractional_subcarrier_phase_cycles_prs :=
          fmod s.d_fractional_code_phase_chips_prs 1 * s.d_chips_to_cycles_prs }
  let s := { s with
    d_fractional_subcarrier_phase_cycles_prs := fmod s.d_fractional_subcarrier_phase_cycles_prs 1
    d_carrier_phase_rad_prs :=
      s.d_carrier_phase_rad_prs + T * 2 * M_PI * s.d_carrier_doppler_hz_prs }
  let e1b_code_length_prs_chips : Int :=
    trunc (E.Galileo_E1_B_CODE_LENGTH_CHIPS / E.Galileo_E1_CODE_CHIP_RATE_HZ
      * E.Galileo_E1_A_CODE_CHIP_RATE_HZ)
  let chips_into_e1b_code_period : Int :=
    Int.tmod s.d_integer_code_phase_chips_prs e1b_code_length_prs_chips
  let rem_code_phase_chips_prs : ℚ :=
    ((e1b_code_length_prs_chips - chips_into_e1b_code_period : Int) : ℚ)
      - s.d_fractional_code_phase_chips_prs
  let rem_code_phase_chips_prs :=
    if rem_code_phase_chips_prs > ((Int.tdiv e1b_code_length_prs_chips 2 : Int) : ℚ) then
      rem_code_phase_chips_prs - (e1b_code_length_prs_chips : ℚ)
    else rem_code_phase_chips_prs
  { s with
    d_rem_code_phase_samples_prs :=
      rem_code_phase_chips_prs * (s.d_fs_in : ℚ) / E.Galileo_E1_A_CODE_CHIP_RATE_HZ
    d_rem_carr_phase_rad_prs :=
      fmod (s.d_rem_carr_phase_rad_prs
          + 2 * M_PI * ((s.d_if_freq : ℚ) + s.d_carrier_doppler_hz_prs) * T)
        (2 * M_PI) }

/-- The branch taken when the real or the imaginary part of the Prompt sum is NaN: all
available samples are consumed and a zeroed, invalid record is written.  It returns at
once. -/
def nan_samples (s : State) (inp : EpochInput) (current_synchro_data : Gnss_Synchro) :
    WorkResult :=
  let samples_available := inp.ninput_items
  let s := { s with d_sample_counter := s.d_sample_counter + samples_available }
  let current_synchro_data := { current_synchro_data with
    Prompt_I := FloatVal.fin 0
    Prompt_Q := FloatVal.fin 0
    Tracking_timestamp_secs := (s.d_sample_counter : ℚ) / (s.d_fs_in : ℚ)
    Carrier_phase_rads := 0
    Code_phase_secs := 0
    CN0_dB_hz := 0
    Flag_valid_tracking := false
    Flag_valid_pseudorange := false }
  { state := s, out := current_synchro_data, consumed := samples_available, ret := 1 }

/-- The sections `PLL`, `DLL` and `VE - VL Processing`: the samples are counted, the
carrier, subcarrier and code discriminators and filters run, and the Doppler, subcarrier
frequency and code frequency are updated. -/
def pll_dll (E : Externals) (s : State) : State × Locals :=
  let s := { s with d_sample_counter := s.d_sample_counter + s.d_current_prn_length_samples }
  let carr_error_hz := E.pll_cloop_two_quadrant_atan s.d_Prompt / E.GPS_TWO_PI
  let pll := s.d_carrier_loop_filter.apply E carr_error_hz
  let carr_error_filt_hz := pll.1
  let s := { s with d_carrier_loop_filter := pll.2, d_carrier_doppler_hz := carr_error_filt_hz }
  let subcarrier_doppler_cycles :=
    s.d_carrier_doppler_hz * E.Galileo_E1_SUB_CARRIER_A_RATE_HZ / E.Galileo_E1_FREQ_HZ
  let s := { s with
    d_subcarrier_freq_cycles :=
      if s.d_aid_code_with_carrier then
        E.Galileo_E1_SUB_CARRIER_A_RATE_HZ + subcarrier_doppler_cycles
      else E.Galileo_E1_SUB_CARRIER_A_RATE_HZ }
  let subcarrier_error_cycles :=
    E.dll_nc_e_minus_l_normalized s.d_Early s.d_Late
      * (2 * (1 - 3 * s.d_early_late_code_spc_cycles) / 3)
  let dll := s.d_code_loop_filter.apply E subcarrier_error_cycles
  let subcarrier_error_filt_cycles := dll.1
  let s := { s with
    d_code_loop_filter := dll.2
    d_subcarrier_freq_cycles := s.d_subcarrier_freq_cycles + subcarrier_error_filt_cycles }
  let code_error_chips_veml :=
    E.dll_nc_e_minus_l_normalized s.d_Very_Early s.d_Very_Late
      * (2 * (1 - 1 * s.d_very_early_late_code_spc_chips) / 1)
  if s.d_use_sa && s.d_subcarrier_locked then
    let div := s.d_divergence_loop_filter.apply E code_error_chips_veml
    ({ s with
        d_divergence_loop_filter := div.2
        d_code_freq_chips := s.d_subcarrier_freq_cycles / s.d_chips_to_cycles + div.1 },
      ⟨carr_error_hz, carr_error_filt_hz, subcarrier_error_cycles,
        subcarrier_error_filt_cycles, code_error_chips_veml, div.1⟩)
  else
    ({ s with d_code_freq_chips := s.d_subcarrier_freq_cycles / s.d_chips_to_cycles },
      ⟨carr_error_hz, carr_error_filt_hz, subcarrier_error_cycles,
        subcarrier_error_filt_cycles, code_error_chips_veml, 0⟩)

/-- The locals and counters of a bump-jump test. -/
structure BumpJump where
  ve_counter : Int
  vl_counter : Int
  jump_dir : ℚ
  do_jump : Bool

/-- The two streak tests of bump jumping, which the source writes out once for the
primary counters and once for the secondary ones: given the magnitudes `VE`, `P`, `VL`,
the threshold and the two counters, the counters after the tests, the jump direction
and whether to jump. -/
def bump_jump_tests (VE P VL : ℚ) (d_bj_threshold : Nat) (ve_counter vl_counter : Int) :
    BumpJump :=
  let b : BumpJump := ⟨ve_counter, vl_counter, 0, false⟩
  let b : BumpJump :=
    if VE > P ∧ VE > VL then
      let b : BumpJump := { b with ve_counter := b.ve_counter + 1 }
      let b : BumpJump :=
        if b.vl_counter > 0 then { b with vl_counter := b.vl_counter - 1 } else b
      if b.ve_counter ≥ (d_bj_threshold : Int) then { b with jump_dir := 1, do_jump := true }
      else b
    else b
  let b : BumpJump :=
    if VL > P ∧ VL > VE then
      let b : BumpJump := { b with vl_counter := b.vl_counter + 1 }
      let b : BumpJump :=
        if b.ve_counter > 0 then { b with ve_counter := b.ve_counter - 1 } else b
      if b.vl_counter ≥ (d_bj_threshold : Int) then { b with jump_dir := -1, do_jump := true }
      else b
    else b
  b

/-- The block `if( d_use_bj && d_carrier_locked )` of the primary loop. -/
def bump_jump (E : Externals) (s : State) : State :=
  if s.d_use_bj && s.d_carrier_locked then
    let P := E.cabs s.d_Prompt
    let VE := E.cabs s.d_Very_Early
    let VL := E.cabs s.d_Very_Late
    let b := bump_jump_tests VE P VL s.d_bj_threshold s.d_bj_ve_counter s.d_bj_vl_counter
    let s := { s with d_bj_ve_counter := b.ve_counter, d_bj_vl_counter := b.vl_counter }
    if b.do_jump then
      let half_cycle_in_chips := (1 / 2 : ℚ) / s.d_chips_to_cycles
      { s with
        d_code_phase_chips := s.d_code_phase_chips + half_cycle_in_chips * b.jump_dir
        d_bj_ve_counter := 0
        d_bj_vl_counter := 0 }
    else s
  else s

/-- The block `if( d_use_bj && d_carrier_locked )` of the secondary loop. -/
def bump_jump_prs (E : Externals) (s : State) : State :=
  if s.d_use_bj && s.d_carrier_locked then
    let P := E.cabs s.d_Prompt_prs
    let VE := E.cabs s.d_Very_Early_prs
    let VL := E.cabs s.d_Very_Late_prs
    let b := bump_jump_tests VE P VL s.d_bj_threshold s.d_bj_ve_counter_prs s.d_bj_vl_counter_prs
    let s := { s with d_bj_ve_counter_prs := b.ve_counter, d_bj_vl_counter_prs := b.vl_counter }
    if b.do_jump then
      let half_cycle_in_chips := (1 / 2 : ℚ) / s.d_chips_to_cycles_prs
      let s := { s with
        d_fractional_code_phase_chips_prs :=
          s.d_fractional_code_phase_chips_prs + half_cycle_in_chips * b.jump_dir }
      let s :=
        if s.d_fractional_code_phase_chips_prs ≥ 1 then
          { s with
            d_fractional_code_phase_chips_prs := s.d_fractional_code_phase_chips_prs - 1
            d_integer_code_phase_chips_prs := s.d_integer_code_phase_chips_prs + 1 }
        else s
      let s :=
        if s.d_fractional_code_phase_chips_prs < 0 then
          { s with
            d_fractional_code_phase_chips_prs := s.d_fractional_code_phase_chips_prs + 1
            d_integer_code_phase_chips_prs := s.d_integer_code_phase_chips_prs - 1 }
        else s
      { s with d_bj_ve_counter_prs := 0, d_bj_vl_counter_prs := 0 }
    else s
  else s

/-- The section `PRS`: when the accumulation index has reached the accumulation length,
the secondary discriminators and filters run on the accumulated sums and the index is
reset. -/
def prs_update (E : Externals) (s : State) : State :=
  if s.d_prs_tracking_enabled && s.d_prs_accumulation_index == s.d_prs_accumulation_length then
    let d_carr_error_hz_prs :=
      (1 / 2 : ℚ) * E.pll_cloop_two_quadrant_atan s.d_P_acumm_prs / (2 * M_PI)
    let pll := s.d_carrier_loop_filter_prs.apply E d_carr_error_hz_prs
    let d_subcarrier_error_cycles_prs :=
      E.dll_nc_e_minus_l_normalized s.d_E_acumm_prs s.d_L_acumm_prs * (2 / (4 * M_PI))
    let dll := s.d_code_loop_filter_prs.apply E d_subcarrier_error_cycles_prs
    let d_code_error_chips_veml_prs :=
      E.dll_nc_e_minus_l_normalized s.d_VE_acumm_prs s.d_VL_acumm_prs * (2 / 2)
    let s := { s with
      d_carr_error_hz_prs := d_carr_error_hz_prs
      d_carrier_loop_filter_prs := pll.2
      d_carr_error_filt_hz_prs := pll.1
      d_subcarrier_error_cycles_prs := d_subcarrier_error_cycles_prs
      d_code_loop_filter_prs := dll.2
      d_subcarrier_error_filt_cycles_prs := dll.1
      d_code_error_chips_veml_prs := d_code_error_chips_veml_prs }
    let s :=
      if s.d_close_prs_loops then
        let s :=
          if s.d_use_sa && s.d_subcarrier_locked_prs then
            let div := s.d_divergence_loop_filter_prs.apply E s.d_code_error_chips_veml_prs
            { s with
              d_divergence_loop_filter_prs := div.2
              d_code_error_filt_chips_veml_prs := div.1 }
          else s
        bump_jump_prs E s
      else s
    { s with d_prs_accumulation_index := 0 }
  else s

/-- The update of the secondary frequencies from the primary Doppler, overridden by
the secondary loop outputs when `d_close_prs_loops` is set. -/
def prs_follow (E : Externals) (s : State) : State :=
  let s := { s with
    d_carrier_doppler_hz_prs := s.d_carrier_doppler_hz
    d_code_freq_chips_prs :=
      E.Galileo_E1_A_CODE_CHIP_RATE_HZ
        + s.d_carrier_doppler_hz * E.Galileo_E1_A_CODE_CHIP_RATE_HZ / E.Galileo_E1_FREQ_HZ
    d_subcarrier_freq_cycles_prs :=
      E.Galileo_E1_A_SUB_CARRIER_RATE_HZ
        + s.d_carrier_doppler_hz * E.Galileo_E1_A_SUB_CARRIER_RATE_HZ / E.Galileo_E1_FREQ_HZ }
  if s.d_close_prs_loops then
    let s := { s with
      d_carrier_doppler_hz_prs := s.d_carrier_doppler_hz_prs + s.d_carr_error_filt_hz_prs
      d_subcarrier_freq_cycles_prs :=
        s.d_subcarrier_freq_cycles_prs + s.d_subcarrier_error_filt_cycles_prs }
    if s.d_use_sa && s.d_subcarrier_locked_prs then
      { s with
        d_code_freq_chips_prs :=
          s.d_subcarrier_freq_cycles_prs / s.d_chips_to_cycles_prs
            + s.d_code_error_filt_chips_veml_prs }
    else s
  else s

/-- The section `CARRIER AND CODE NCO BUFFER ALIGNEMENT`: the length in samples of the
next epoch. -/
def next_prn_length_samples (E : Externals) (s : State) : Int :=
  let T_chip_seconds := 1 / s.d_code_freq_chips
  let T_prn_seconds := T_chip_seconds * E.Galileo_E1_B_CODE_LENGTH_CHIPS
  let T_prn_samples := T_prn_seconds * (s.d_fs_in : ℚ)
  let K_blk_samples := T_prn_samples + s.d_rem_code_phase_samples
  round K_blk_samples

/-- The update of the fail and success counters from the lock test and the CN0
estimate (`Loss of lock detection`). -/
def lock_counters (s : State) : State :=
  if s.d_carrier_lock_test < s.d_carrier_lock_threshold ∨ s.d_CN0_SNV_dB_Hz < MINIMUM_VALID_CN0 then
    { s with
      d_carrier_lock_fail_counter := s.d_carrier_lock_fail_counter + 1
      d_carrier_lock_success_counter := 0 }
  else
    let s := { s with d_carrier_lock_success_counter := s.d_carrier_lock_success_counter + 1 }
    if s.d_carrier_lock_fail_counter > 0 then
      { s with d_carrier_lock_fail_counter := s.d_carrier_lock_fail_counter - 1 }
    else s

/-- The body of `if (d_carrier_lock_fail_counter > MAXIMUM_LOCK_FAIL_COUNTER)` while not
carrier-locked (`Loss of lock in channel`): a control message to the queue, if there is
one, and tracking disabled. -/
def loss_of_lock (s : State) : State :=
  { s with
    d_queue := s.d_queue.map (fun q => q ++ [(s.d_channel, 2)])
    d_carrier_lock_fail_counter := 0
    d_enable_tracking := false
    d_prs_tracking_enabled := false
    d_tow_received := false }

/-- The body of `if( d_carrier_lock_success_counter > MINIMUM_LOCK_SUCCESS_COUNTER )`
(`Phase lock achieved`). -/
def phase_lock_achieved (E : Externals) (s : State) (l : Locals) : State :=
  let s := { s with
    d_carrier_locked := true
    d_code_loop_filter :=
      Tracking_loop_filter.initialize
        (s.d_code_loop_filter.set_noise_bandwidth s.d_final_dll_bw_hz)
        l.subcarrier_error_filt_cycles
    d_carrier_loop_filter :=
      Tracking_loop_filter.initialize
        (s.d_carrier_loop_filter.set_noise_bandwidth s.d_final_pll_bw_hz)
        l.carr_error_filt_hz
    d_early_late_code_spc_cycles := s.d_final_early_late_code_space_cycles
    d_carrier_lock_fail_counter := 0 }
  start_tracking_prs E s

/-- The body of `if (d_carrier_lock_fail_counter > MAXIMUM_LOCK_FAIL_COUNTER)` while
carrier-locked (`Reverting to initial tracking state`). -/
def revert_to_initial (s : State) (l : Locals) : State :=
  { s with
    d_carrier_lock_fail_counter := 0
    d_carrier_locked := false
    d_code_loop_filter :=
      Tracking_loop_filter.initialize
        (s.d_code_loop_filter.set_noise_bandwidth s.d_initial_dll_bw_hz)
        l.subcarrier_error_filt_cycles
    d_carrier_loop_filter :=
      Tracking_loop_filter.initialize
        (s.d_carrier_loop_filter.set_noise_bandwidth s.d_initial_pll_bw_hz)
        l.carr_error_filt_hz
    d_early_late_code_spc_cycles := s.d_initial_early_late_code_space_cycles }

/-- The subcarrier and code lock tests made while carrier-locked. -/
def subcarrier_code_lock (s : State) : State :=
  if s.d_subcarrier_locked then
    if s.d_mean_subcarrier_error > 4 / 10 then
      { s with d_subcarrier_locked := false }
    else
      if s.d_code_locked then
        if s.d_mean_code_error > 1 / 10 then
          { s with
            d_code_locked := false
            d_divergence_loop_filter :=
              s.d_divergence_loop_filter.set_noise_bandwidth
                s.d_initial_divergence_loop_filter_bandwidth }
        else s
      else
        if s.d_mean_code_error < 5 / 100 then
          { s with
            d_code_locked := true
            d_divergence_loop_filter :=
              s.d_divergence_loop_filter.set_noise_bandwidth
                s.d_final_divergence_loop_filter_bandwidth }
        else s
  else
    if s.d_mean_subcarrier_error < 1 / 10 then
      let s := { s with d_subcarrier_locked := true }
      if s.d_use_sa then
        { s with
          d_divergence_loop_filter :=
            Tracking_loop_filter.initialize
              (s.d_divergence_loop_filter.set_noise_bandwidth
                s.d_initial_divergence_loop_filter_bandwidth) 0 }
      else s
    else s

/-- The start of the `else` branch of the section `CN0 ESTIMATION AND LOCK DETECTORS`:
the estimation counter is reset, the mean errors are normalised, and the CN0 estimator
and the carrier lock detector run over the Prompt buffer. -/
def lock_estimates (E : Externals) (s : State) : State :=
  { s with
    d_cn0_estimation_counter := 0
    d_mean_subcarrier_error := s.d_mean_subcarrier_error / (CN0_ESTIMATION_SAMPLES : ℚ)
    d_mean_code_error := s.d_mean_code_error / (CN0_ESTIMATION_SAMPLES : ℚ)
    d_CN0_SNV_dB_Hz :=
      E.cn0_svn_estimator s.d_Prompt_buffer CN0_ESTIMATION_SAMPLES s.d_fs_in
        s.d_current_prn_length_samples
    d_carrier_lock_test := E.carrier_lock_detector s.d_Prompt_buffer CN0_ESTIMATION_SAMPLES }

/-- The lock state transitions that follow the counter update, `if( not
d_carrier_locked ) ... else ...`, and the reset of the mean errors after them. -/
def lock_transition (E : Externals) (s : State) (l : Locals) : State :=
  let s :=
    if !s.d_carrier_locked then
      let s :=
        if s.d_carrier_lock_fail_counter > MAXIMUM_LOCK_FAIL_COUNTER then loss_of_lock s
        else s
      if s.d_carrier_lock_success_counter > MINIMUM_LOCK_SUCCESS_COUNTER then
        phase_lock_achieved E s l
      else s
    else
      if s.d_carrier_lock_fail_counter > MAXIMUM_LOCK_FAIL_COUNTER then revert_to_initial s l
      else subcarrier_code_lock s
  { s with d_mean_subcarrier_error := 0, d_mean_code_error := 0 }

/-- The `else` branch of the section `CN0 ESTIMATION AND LOCK DETECTORS`: the lock
evaluation, made when the Prompt buffer is full. -/
def lock_evaluation (E : Externals) (s : State) (l : Locals) : State :=
  lock_transition E (lock_counters (lock_estimates E s)) l

/-- The section `CN0 ESTIMATION AND LOCK DETECTORS`: while the estimation counter is
below `CN0_ESTIMATION_SAMPLES` the Prompt sum is stored in the buffer, otherwise the
lock evaluation runs. -/
def lock_detectors (E : Externals) (s : State) (l : Locals) : State :=
  if s.d_cn0_estimation_counter < CN0_ESTIMATION_SAMPLES then
    { s with
      d_Prompt_buffer := s.d_Prompt_buffer.set s.d_cn0_estimation_counter.toNat s.d_Prompt
      d_cn0_estimation_counter := s.d_cn0_estimation_counter + 1
      d_mean_subcarrier_error := s.d_mean_subcarrier_error + |l.subcarrier_error_cycles|
      d_mean_code_error := s.d_mean_code_error + |l.code_error_chips_veml| }
  else lock_evaluation E s l

/-- The subcarrier and code lock tests of the secondary loop, made when the
accumulation index is 0. -/
def subcarrier_code_lock_prs (s : State) : State :=
  if s.d_subcarrier_locked_prs then
    if s.d_mean_subcarrier_error_prs > 4 / 10 then
      let s := { s with d_subcarrier_locked_prs := false }
      if s.d_use_sa then
        { s with
          d_divergence_loop_filter_prs :=
            s.d_divergence_loop_filter_prs.set_noise_bandwidth
              s.d_initial_divergence_loop_filter_bandwidth }
      else s
    else
      if s.d_code_locked_prs then
        if s.d_mean_code_error_prs * s.d_chips_to_cycles_prs > 1 / 2 then
          let s := { s with d_code_locked_prs := false }
          if s.d_use_sa then
            { s with
              d_divergence_loop_filter_prs :=
                s.d_divergence_loop_filter_prs.set_noise_bandwidth
                  s.d_initial_divergence_loop_filter_bandwidth }
          else s
        else s
      else
        if s.d_mean_code_error_prs * s.d_chips_to_cycles_prs < 1 / 10 then
          let s := { s with d_code_locked_prs := true }
          if s.d_use_sa then
            { s with
              d_very_early_late_code_spc_chips_prs := s.d_final_very_early_late_code_space_chips
              d_divergence_loop_filter_prs :=
                s.d_divergence_loop_filter_prs.set_noise_bandwidth
                  s.d_final_divergence_loop_filter_bandwidth }
          else s
        else s
  else
    if s.d_mean_subcarrier_error_prs < 1 / 100 then
      let s := { s with d_subcarrier_locked_prs := true, d_code_locked_prs := false }
      if s.d_use_sa then
        { s with
          d_divergence_loop_filter_prs :=
            Tracking_loop_filter.initialize
              (s.d_divergence_loop_filter_prs.set_noise_bandwidth
                s.d_initial_divergence_loop_filter_bandwidth) 0 }
      else s
    else s

/-- The block `if( d_prs_tracking_enabled )` after the primary lock detectors. -/
def lock_detectors_prs (s : State) : State :=
  if s.d_prs_tracking_enabled then
    if s.d_cn0_estimation_counter_prs < CN0_ESTIMATION_SAMPLES then
      { s with
        d_cn0_estimation_counter_prs := s.d_cn0_estimation_counter_prs + 1
        d_mean_subcarrier_error_prs :=
          s.d_mean_subcarrier_error_prs + |s.d_subcarrier_error_cycles_prs|
        d_mean_code_error_prs := s.d_mean_code_error_prs + |s.d_code_error_chips_veml_prs| }
    else
      let s := { s with
        d_cn0_estimation_counter_prs := 0
        d_mean_subcarrier_error_prs :=
          s.d_mean_subcarrier_error_prs / (CN0_ESTIMATION_SAMPLES : ℚ)
        d_mean_code_error_prs := s.d_mean_code_error_prs / (CN0_ESTIMATION_SAMPLES : ℚ) }
      let s := if s.d_prs_accumulation_index = 0 then subcarrier_code_lock_prs s else s
      { s with d_mean_subcarrier_error_prs := 0, d_mean_code_error_prs := 0 }
  else s

/-- The section `Output the tracking results to Telemetry block`. -/
def output_record (s : State) (current_synchro_data : Gnss_Synchro) : Gnss_Synchro :=
  { current_synchro_data with
    Prompt_I := s.d_Prompt.re
    Prompt_Q := s.d_Prompt.im
    Code_phase_secs := 0
    Carrier_phase_rads := s.d_acc_carrier_phase_rad
    Carrier_Doppler_hz := s.d_carrier_doppler_hz
    CN0_dB_hz := s.d_CN0_SNV_dB_Hz
    Flag_valid_pseudorange := false }

/-- The section `DEBUG OUTPUT`: the last whole second seen (the printing is left out;
the operands of the integer division are not negative). -/
def debug_output (s : State) : State :=
  if s.d_sample_counter / s.d_fs_in ≠ s.d_last_seg then
    { s with d_last_seg := s.d_sample_counter / s.d_fs_in }
  else s

/-- The fields written to the dump file for one epoch, in the order of the `write`
calls. -/
def dump_record (E : Externals) (s : State) (l : Locals) : List DumpField :=
  [ DumpField.float (FloatVal.fin (E.cabs s.d_Very_Early)),
    DumpField.float (FloatVal.fin (E.cabs s.d_Early)),
    DumpField.float (FloatVal.fin (E.cabs s.d_Prompt)),
    DumpField.float (FloatVal.fin (E.cabs s.d_Late)),
    DumpField.float (FloatVal.fin (E.cabs s.d_Very_Late)),
    DumpField.float s.d_Prompt.re,
    DumpField.float s.d_Prompt.im,
    DumpField.ulong s.d_sample_counter,
    DumpField.float (FloatVal.fin s.d_acc_carrier_phase_rad),
    DumpField.double s.d_carrier_doppler_hz,
    DumpField.double s.d_code_freq_chips,
    DumpField.double l.carr_error_hz,
    DumpField.double l.carr_error_filt_hz,
    DumpField.double l.subcarrier_error_cycles,
    DumpField.double l.subcarrier_error_filt_cycles,
    DumpField.double s.d_CN0_SNV_dB_Hz,
    DumpField.double s.d_carrier_lock_test,
    DumpField.double s.d_code_phase_chips,
    DumpField.double s.d_subcarrier_phase_cycles,
    DumpField.double l.code_error_chips_veml,
    DumpField.double l.code_error_filt_chips_veml,
    DumpField.float (FloatVal.fin (E.cabs s.d_VE_acumm_prs)),
    DumpField.float (FloatVal.fin (E.cabs s.d_E_acumm_prs)),
    DumpField.float (FloatVal.fin (E.cabs s.d_P_acumm_prs)),
    DumpField.float (FloatVal.fin (E.cabs s.d_L_acumm_prs)),
    DumpField.float (FloatVal.fin (E.cabs s.d_VL_acumm_prs)),
    DumpField.float s.d_Prompt_prs.re,
    DumpField.float s.d_Prompt_prs.im,
    DumpField.double s.d_carrier_doppler_hz_prs,
    DumpField.double s.d_code_freq_chips_prs,
    DumpField.double s.d_carr_error_hz_prs,
    DumpField.double s.d_carr_error_filt_hz_prs,
    DumpField.double s.d_subcarrier_error_cycles_prs,
    DumpField.double s.d_subcarrier_error_filt_cycles_prs,
    DumpField.double
      ((s.d_integer_code_phase_chips_prs : ℚ) + s.d_fractional_code_phase_chips_prs),
    DumpField.double s.d_code_error_chips_veml_prs,
    DumpField.double s.d_code_error_filt_chips_veml_prs,
    DumpField.double
      ((s.d_integer_subcarrier_phase_cycles_prs : ℚ)
        + s.d_fractional_subcarrier_phase_cycles_prs) ]

/-- The end of `general_work`, common to the tracking and the disabled branch: the dump,
`consume_each(d_current_prn_length_samples)`, and the epoch length for the next call.
A write to a dump file that is not open leaves it as it is. -/
def finish (E : Externals) (s : State) (l : Locals) (out : Gnss_Synchro)
    (next_prn_length_samples : Int) : WorkResult :=
  let s :=
    if s.d_dump then
      if s.d_dump_file_is_open then { s with d_dump_file := s.d_dump_file ++ dump_record E s l }
      else s
    else s
  { state := { s with d_current_prn_length_samples := next_prn_length_samples }
    out := out
    consumed := s.d_current_prn_length_samples
    ret := 1 }

/-- The `else` branch of `if (d_enable_tracking == true)`: the correlator outputs are
zeroed, the handle's pseudorange flag is cleared and the handle is copied to the output. -/
def tracking_disabled (s : State) : State :=
  let s := debug_output s
  let s := { s with
    d_Very_Early := gr_complex.zero
    d_Early := gr_complex.zero
    d_Prompt := gr_complex.zero
    d_Late := gr_complex.zero
    d_Very_Late := gr_complex.zero
    d_Very_Early_prs := gr_complex.zero
    d_Early_prs := gr_complex.zero
    d_Prompt_prs := gr_complex.zero
    d_Late_prs := gr_complex.zero
    d_Very_Late_prs := gr_complex.zero
    d_acquisition_gnss_synchro :=
      { s.d_acquisition_gnss_synchro with Flag_valid_pseudorange := false } }
  { s with d_sample_counter := s.d_sample_counter + s.d_current_prn_length_samples }

/-- The part of a tracking epoch after the NaN test: loops, lock detectors, output. -/
def tracking_epoch (E : Externals) (s : State) (current_synchro_data : Gnss_Synchro) :
    WorkResult :=
  let p := pll_dll E s
  let s := p.1
  let l := p.2
  let s := bump_jump E s
  let s := prs_update E s
  let s := prs_follow E s
  let next := next_prn_length_samples E s
  let s := lock_detectors E s l
  let s := lock_detectors_prs s
  let out := output_record s current_synchro_data
  let s := debug_output s
  finish E s l out next

/-- The method `general_work`. -/
def general_work (E : Externals) (s : State) (inp : EpochInput) : WorkResult :=
  if s.d_enable_tracking = true then
    if s.d_pull_in = true then pull_in s
    else
      let current_synchro_data : Gnss_Synchro :=
        { s.d_acquisition_gnss_synchro with
          Tracking_timestamp_secs :=
            ((s.d_sample_counter : ℚ) + s.d_rem_code_phase_samples) / (s.d_fs_in : ℚ) }
      let s := correlate_and_propagate E s inp
      let s := if s.d_prs_tracking_enabled then prs_correlate_and_propagate E s inp else s
      if s.d_Prompt.re.isnan = true ∨ s.d_Prompt.im.isnan = true then
        nan_samples s inp current_synchro_data
      else tracking_epoch E s current_synchro_data
  else
    let s := tracking_disabled s
    finish E s Locals.zero s.d_acquisition_gnss_synchro s.d_current_prn_length_samples

/-- The state after a run of invocations of `general_work`, one per element of
`inputs`. -/
def run (E : Externals) (s : State) (inputs : List EpochInput) : State :=
  inputs.foldl (fun st inp => (general_work E st inp).state) s

/-! ## The lock state machine

The members that decide the control flow of `general_work`, and the transition that
`general_work` induces on them (`ctl_general_work`, proved below); long runs of the
block are followed on this small record. -/

/-- Whether the lock evaluation, run in state `s`, counts a success: the negation of
the test `d_carrier_lock_test < d_carrier_lock_threshold or d_CN0_SNV_dB_Hz <
MINIMUM_VALID_CN0` on the values the two estimators return for the Prompt buffer. -/
def lock_test_passes (E : Externals) (s : State) : Bool :=
  decide (¬ (E.carrier_lock_detector s.d_Prompt_buffer CN0_ESTIMATION_SAMPLES
        < s.d_carrier_lock_threshold
      ∨ E.cn0_svn_estimator s.d_Prompt_buffer CN0_ESTIMATION_SAMPLES s.d_fs_in
          s.d_current_prn_length_samples < MINIMUM_VALID_CN0))

/-- The control members of the block. -/
structure Ctl where
  enable : Bool
  pull_in : Bool
  locked : Bool
  prs : Bool
  counter : Int
  fail : Int
  success : Int
  idx : Int
  N : Int
  pll_prs_applies : Nat
  dll_prs_applies : Nat
  dll_bw : ℚ
  pll_bw : ℚ
  initial_dll_bw : ℚ
  final_dll_bw : ℚ
  initial_pll_bw : ℚ
  final_pll_bw : ℚ
  preamble : Bool
  rx_time : Bool
  prompt : gr_complex
  buf : List gr_complex
  threshold : ℚ
  queue : Option (List (Nat × Nat))
  channel : Nat
  el_spc : ℚ
  initial_el_spc : ℚ
  final_el_spc : ℚ
  deriving DecidableEq

/-- The control members of a state. -/
def ctl (s : State) : Ctl where
  enable := s.d_enable_tracking
  pull_in := s.d_pull_in
  locked := s.d_carrier_locked
  prs := s.d_prs_tracking_enabled
  counter := s.d_cn0_estimation_counter
  fail := s.d_carrier_lock_fail_counter
  success := s.d_carrier_lock_success_counter
  idx := s.d_prs_accumulation_index
  N := s.d_prs_accumulation_length
  pll_prs_applies := s.d_carrier_loop_filter_prs.apply_count
  dll_prs_applies := s.d_code_loop_filter_prs.apply_count
  dll_bw := s.d_code_loop_filter.noise_bandwidth
  pll_bw := s.d_carrier_loop_filter.noise_bandwidth
  initial_dll_bw := s.d_initial_dll_bw_hz
  final_dll_bw := s.d_final_dll_bw_hz
  initial_pll_bw := s.d_initial_pll_bw_hz
  final_pll_bw := s.d_final_pll_bw_hz
  preamble := s.d_preamble_start_detected
  rx_time := s.d_rx_time_set
  prompt := s.d_Prompt
  buf := s.d_Prompt_buffer
  threshold := s.d_carrier_lock_threshold
  queue := s.d_queue
  channel := s.d_channel
  el_spc := s.d_early_late_code_spc_cycles
  initial_el_spc := s.d_initial_early_late_code_space_cycles
  final_el_spc := s.d_final_early_late_code_space_cycles

/-- The control members after the secondary accumulation and the secondary update of a
tracking epoch whose Prompt sum is not NaN. -/
def ctl_prs (c : Ctl) : Ctl :=
  let idx := if c.prs then c.idx + 1 else c.idx
  if c.prs && idx == c.N then
    { c with idx := 0, pll_prs_applies := c.pll_prs_applies + 1,
             dll_prs_applies := c.dll_prs_applies + 1 }
  else { c with idx := idx }

/-- The control members after the estimators and the counter update of a lock
evaluation; `good` tells whether the evaluation counts a success. -/
def ctl_lock_counters (good : Bool) (c : Ctl) : Ctl :=
  if good then
    { c with counter := 0, success := c.success + 1,
             fail := if c.fail > 0 then c.fail - 1 else c.fail }
  else { c with counter := 0, fail := c.fail + 1, success := 0 }

/-- The control members after the lock state transitions. -/
def ctl_lock_transition (c : Ctl) : Ctl :=
  if !c.locked then
    let c :=
      if c.fail > MAXIMUM_LOCK_FAIL_COUNTER then
        { c with fail := 0, enable := false, prs := false,
                 queue := c.queue.map (fun q => q ++ [(c.channel, 2)]) }
      else c
    if c.success > MINIMUM_LOCK_SUCCESS_COUNTER then
      { c with locked := true, dll_bw := c.final_dll_bw, pll_bw := c.final_pll_bw, fail := 0,
               prs := true, counter := 0, idx := 0, el_spc := c.final_el_spc }
    else c
  else
    if c.fail > MAXIMUM_LOCK_FAIL_COUNTER then
      { c with fail := 0, locked := false, dll_bw := c.initial_dll_bw,
               pll_bw := c.initial_pll_bw, el_spc := c.initial_el_spc }
    else c

/-- The control members after the lock evaluation. -/
def ctl_lock_evaluation (good : Bool) (c : Ctl) : Ctl :=
  ctl_lock_transition (ctl_lock_counters good c)

/-- The transition of the control members under one invocation of `general_work`. -/
def ctl_step (good : Bool) (inp : EpochInput) (c : Ctl) : Ctl :=
  if c.enable then
    if c.pull_in then { c with pull_in := false }
    else
      let c := { c with prompt := inp.Prompt }
      if c.prompt.re.isnan = true ∨ c.prompt.im.isnan = true then
        { c with idx := if c.prs then c.idx + 1 else c.idx }
      else
        let c := ctl_prs c
        if c.counter < CN0_ESTIMATION_SAMPLES then
          { c with buf := c.buf.set c.counter.toNat c.prompt, counter := c.counter + 1 }
        else ctl_lock_evaluation good c
  else { c with prompt := gr_complex.zero }

/-! ## Runs, reachable states and views -/

/-- The state before invocation `j + 1` of the run `inputs` started in `s`: the state
after its first `j` invocations. -/
def state_at (E : Externals) (s : State) (inputs : List EpochInput) (j : Nat) : State :=
  run E s (inputs.take j)

/-- The invocation made in state `s` is a tracking epoch: tracking is enabled and
pull-in is done. -/
def tracking (s : State) : Prop := s.d_enable_tracking = true ∧ s.d_pull_in = false

/-- The epoch is not degenerate: neither part of its Prompt sum is NaN. -/
def non_degenerate (inp : EpochInput) : Prop :=
  inp.Prompt.re.isnan = false ∧ inp.Prompt.im.isnan = false

/-- A tracking epoch entered in state `s` takes the `else` branch of the section `CN0
ESTIMATION AND LOCK DETECTORS`, that is, it runs the lock evaluation. -/
def runs_lock_evaluation (s : State) : Prop :=
  ¬ (s.d_cn0_estimation_counter < CN0_ESTIMATION_SAMPLES)

instance (s : State) : Decidable (runs_lock_evaluation s) := by
  unfold runs_lock_evaluation
  infer_instance

instance (s : State) : Decidable (tracking s) := by
  unfold tracking
  infer_instance

instance (inp : EpochInput) : Decidable (non_degenerate inp) := by
  unfold non_degenerate
  infer_instance

/-- The value `cn0_svn_estimator` returns on the Prompt buffer of `s`. -/
def cn0_estimate (E : Externals) (s : State) : ℚ :=
  E.cn0_svn_estimator s.d_Prompt_buffer CN0_ESTIMATION_SAMPLES s.d_fs_in
    s.d_current_prn_length_samples

/-- The value `carrier_lock_detector` returns on the Prompt buffer of `s`. -/
def lock_statistic (E : Externals) (s : State) : ℚ :=
  E.carrier_lock_detector s.d_Prompt_buffer CN0_ESTIMATION_SAMPLES

/-- The states the block can be in: what the constructor builds, closed under the
public methods. -/
inductive Reachable (E : Externals) : State → Prop where
  | construct (c : Config) (u : Indeterminate) : Reachable E (constructor E c u)
  | set_channel {s : State} (channel : Nat) : Reachable E s → Reachable E (set_channel s channel)
  | set_channel_queue {s : State} (q : Option (List Int)) :
      Reachable E s → Reachable E (set_channel_queue s q)
  | set_gnss_synchro {s : State} (p : Gnss_Synchro) :
      Reachable E s → Reachable E (set_gnss_synchro s p)
  | start_tracking {s : State} : Reachable E s → Reachable E (start_tracking E s)
  | handle_gnss_message {s : State} (msg : GnssMessage) :
      Reachable E s → Reachable E (handle_gnss_message s msg)
  | general_work {s : State} (inp : EpochInput) :
      Reachable E s → Reachable E (general_work E s inp).state

/-- A call on the block other than `start_tracking`: an invocation of `general_work`
or the delivery of a message. -/
inductive Call where
  | work (inp : EpochInput)
  | message (msg : GnssMessage)

/-- The state after a sequence of calls. -/
def exec (E : Externals) (s : State) (calls : List Call) : State :=
  calls.foldl (fun st c => match c with
    | Call.work inp => (general_work E st inp).state
    | Call.message msg => handle_gnss_message st msg) s

/-- The state of the loops: the six filters, the frequency and phase estimates, the
lock flags and the counters. -/
structure LoopState where
  d_code_loop_filter : Tracking_loop_filter
  d_carrier_loop_filter : Tracking_loop_filter
  d_divergence_loop_filter : Tracking_loop_filter
  d_code_loop_filter_prs : Tracking_loop_filter
  d_carrier_loop_filter_prs : Tracking_loop_filter
  d_divergence_loop_filter_prs : Tracking_loop_filter
  d_carrier_doppler_hz : ℚ
  d_code_freq_chips : ℚ
  d_subcarrier_freq_cycles : ℚ
  d_code_phase_chips : ℚ
  d_subcarrier_phase_cycles : ℚ
  d_rem_carr_phase_rad : ℚ
  d_acc_carrier_phase_rad : ℚ
  d_carrier_doppler_hz_prs : ℚ
  d_code_freq_chips_prs : ℚ
  d_subcarrier_freq_cycles_prs : ℚ
  d_fractional_code_phase_chips_prs : ℚ
  d_integer_code_phase_chips_prs : Int
  d_rem_carr_phase_rad_prs : ℚ
  d_carrier_locked : Bool
  d_cn0_estimation_counter : Int
  d_carrier_lock_fail_counter : Int
  d_carrier_lock_success_counter : Int
  d_prs_accumulation_index : Int
  d_bj_ve_counter : Int
  d_bj_vl_counter : Int

/-- The loop state of a block. -/
def loop_state (s : State) : LoopState where
  d_code_loop_filter := s.d_code_loop_filter
  d_carrier_loop_filter := s.d_carrier_loop_filter
  d_divergence_loop_filter := s.d_divergence_loop_filter
  d_code_loop_filter_prs := s.d_code_loop_filter_prs
  d_carrier_loop_filter_prs := s.d_carrier_loop_filter_prs
  d_divergence_loop_filter_prs := s.d_divergence_loop_filter_prs
  d_carrier_doppler_hz := s.d_carrier_doppler_hz
  d_code_freq_chips := s.d_code_freq_chips
  d_subcarrier_freq_cycles := s.d_subcarrier_freq_cycles
  d_code_phase_chips := s.d_code_phase_chips
  d_subcarrier_phase_cycles := s.d_subcarrier_phase_cycles
  d_rem_carr_phase_rad := s.d_rem_carr_phase_rad
  d_acc_carrier_phase_rad := s.d_acc_carrier_phase_rad
  d_carrier_doppler_hz_prs := s.d_carrier_doppler_hz_prs
  d_code_freq_chips_prs := s.d_code_freq_chips_prs
  d_subcarrier_freq_cycles_prs := s.d_subcarrier_freq_cycles_prs
  d_fractional_code_phase_chips_prs := s.d_fractional_code_phase_chips_prs
  d_integer_code_phase_chips_prs := s.d_integer_code_phase_chips_prs
  d_rem_carr_phase_rad_prs := s.d_rem_carr_phase_rad_prs
  d_carrier_locked := s.d_carrier_locked
  d_cn0_estimation_counter := s.d_cn0_estimation_counter
  d_carrier_lock_fail_counter := s.d_carrier_lock_fail_counter
  d_carrier_lock_success_counter := s.d_carrier_lock_success_counter
  d_prs_accumulation_index := s.d_prs_accumulation_index
  d_bj_ve_counter := s.d_bj_ve_counter
  d_bj_vl_counter := s.d_bj_vl_counter

/-- The members the primary bump-jump block reads and writes. -/
structure BjView where
  use_bj : Bool
  threshold : Nat
  ve_counter : Int
  vl_counter : Int
  code_phase_chips : ℚ
  chips_to_cycles : ℚ

/-- The bump-jump members of a block. -/
def bj_view (s : State) : BjView where
  use_bj := s.d_use_bj
  threshold := s.d_bj_threshold
  ve_counter := s.d_bj_ve_counter
  vl_counter := s.d_bj_vl_counter
  code_phase_chips := s.d_code_phase_chips
  chips_to_cycles := s.d_chips_to_cycles

/-- The code phase after the propagation step of the epoch entered in state `s`: the
value `correlate_and_propagate` stores in `d_code_phase_chips`, before any bump jump. -/
def propagated_code_phase (E : Externals) (s : State) : ℚ :=
  fmod (s.d_code_phase_chips + epoch_T s * s.d_code_freq_chips) E.Galileo_E1_B_CODE_LENGTH_CHIPS

/-- What the primary bump-jump block reads besides its own members: the carrier-locked
flag and the Prompt, Very-Early and Very-Late sums. -/
def bj_inputs (s : State) : Bool × gr_complex × gr_complex × gr_complex :=
  (s.d_carrier_locked, s.d_Prompt, s.d_Very_Early, s.d_Very_Late)

/-- The five secondary accumulators, in the order VE, E, P, L, VL. -/
structure Accumulators where
  VE : gr_complex
  E : gr_complex
  P : gr_complex
  L : gr_complex
  VL : gr_complex
  deriving DecidableEq

/-- The secondary accumulators of a block. -/
def accumulators (s : State) : Accumulators :=
  ⟨s.d_VE_acumm_prs, s.d_E_acumm_prs, s.d_P_acumm_prs, s.d_L_acumm_prs, s.d_VL_acumm_prs⟩

/-- The five secondary correlator sums of an epoch. -/
def prs_sums (inp : EpochInput) : Accumulators :=
  ⟨inp.Very_Early_prs, inp.Early_prs, inp.Prompt_prs, inp.Late_prs, inp.Very_Late_prs⟩

/-- Componentwise sum of two sets of accumulators. -/
def Accumulators.add (a b : Accumulators) : Accumulators :=
  ⟨a.VE.add b.VE, a.E.add b.E, a.P.add b.P, a.L.add b.L, a.VL.add b.VL⟩

/-- All five accumulators at `gr_complex(0,0)`. -/
def Accumulators.zero : Accumulators :=
  ⟨gr_complex.zero, gr_complex.zero, gr_complex.zero, gr_complex.zero, gr_complex.zero⟩

/-- Whether a lock evaluation counts a success, read from the control members, for
estimators that look at the Prompt buffer only. -/
def ctl_passes (E : Externals) (c : Ctl) : Bool :=
  decide (¬ (E.carrier_lock_detector c.buf CN0_ESTIMATION_SAMPLES < c.threshold
      ∨ E.cn0_svn_estimator c.buf CN0_ESTIMATION_SAMPLES 0 0 < MINIMUM_VALID_CN0))

/-- The control members after a run, for estimators that look at the Prompt buffer
only. -/
def ctl_run (E : Externals) (inputs : List EpochInput) (c : Ctl) : Ctl :=
  inputs.foldl (fun c inp => ctl_step (ctl_passes E c) inp c) c

/-! ## A concrete channel

An instance of the externals and of the configuration on which the definitions are
evaluated: the signal constants are those of Galileo E1, the sampling rate is 4 MHz, so
that an epoch is 16000 samples, the accumulation length is 4 and the bump-jump threshold
is 3.  The estimators are simple stand-ins that look at the first sample of the Prompt
buffer: the CN0 estimate is 40 dB-Hz and the lock statistic 1, unless that sample is
`-1`, when both are 0. -/

/-- The marker Prompt value on which the stand-in estimators report a lost signal. -/
def ex_bad_prompt : gr_complex := ⟨FloatVal.fin (-1), FloatVal.fin 0⟩

/-- The stand-in externals. -/
def ex_E : Externals where
  Galileo_E1_FREQ_HZ := 1575420000
  Galileo_E1_CODE_CHIP_RATE_HZ := 1023000
  Galileo_E1_B_CODE_LENGTH_CHIPS := 4092
  Galileo_E1_SUB_CARRIER_A_RATE_HZ := 1023000
  Galileo_E1_CODE_PERIOD := 4 / 1000
  Galileo_E1_A_CODE_CHIP_RATE_HZ := 2557500
  Galileo_E1_A_SUB_CARRIER_RATE_HZ := 15345000
  GPS_TWO_PI := 2 * M_PI
  filter_output := fun _ e => e
  pll_cloop_two_quadrant_atan := fun _ => 0
  dll_nc_e_minus_l_normalized := fun _ _ => 0
  cn0_svn_estimator := fun buf _ _ _ => if buf.head? = some ex_bad_prompt then 0 else 40
  carrier_lock_detector := fun buf _ => if buf.head? = some ex_bad_prompt then 0 else 1
  cabs := fun c => match c.re with
    | FloatVal.fin q => |q|
    | _ => 0

/-- The handle written by acquisition: Doppler 0 Hz, code delay 0, stamp 0. -/
def ex_synchro : Gnss_Synchro where
  System := 'E'
  Signal := "1B"
  PRN := 11
  Channel_ID := 0
  Acq_delay_samples := 0
  Acq_doppler_hz := 0
  Acq_samplestamp_samples := 0
  Flag_valid_acquisition := true
  Prompt_I := FloatVal.fin 0
  Prompt_Q := FloatVal.fin 0
  Carrier_phase_rads := 0
  Code_phase_secs := 0
  Tracking_timestamp_secs := 0
  CN0_dB_hz := 0
  Carrier_Doppler_hz := 0
  Flag_valid_tracking := false
  Flag_valid_pseudorange := false

/-- The configuration. -/
def ex_config : Config where
  if_freq := 0
  fs_in := 4000000
  vector_length := 16000
  queue := some []
  dump := false
  dump_filename := "trk"
  pll_loop_order := 2
  pll_initial_bw_hz := 15
  pll_final_bw_hz := 5
  dll_loop_order := 1
  dll_initial_bw_hz := 2
  dll_final_bw_hz := 1 / 2
  initial_early_late_code_space_cycles := 15 / 100
  final_early_late_code_space_cycles := 1 / 10
  initial_very_early_late_code_space_chips := 6 / 10
  final_very_early_late_code_space_chips := 6 / 10
  aid_code_with_carrier := false
  use_bump_jumping := true
  bump_jumping_threshold := 3
  initial_divergence_bw_hz := 1
  final_divergence_bw_hz := 1
  prs_accumulation_length := 4
  close_prs_loops := false
  pll_bw_hz_prs := 5
  dll_bw_hz_prs := 1

/-- The content of the members the constructor does not assign. -/
def ex_indeterminate : Indeterminate := ⟨0, 0, 0, 0, 0, 0, 0, 0, 0, 0, ex_synchro⟩

/-- The block after construction, `set_gnss_synchro` and `start_tracking`; no message
has been delivered. -/
def ex_start : State :=
  start_tracking ex_E (set_gnss_synchro (constructor ex_E ex_config ex_indeterminate) ex_synchro)

/-- An epoch with a clean Prompt sum, and a secondary Prompt sum of 1. -/
def ex_good : EpochInput where
  ninput_items := 32000
  Very_Early := gr_complex.zero
  Early := gr_complex.zero
  Prompt := ⟨FloatVal.fin 1, FloatVal.fin 0⟩
  Late := gr_complex.zero
  Very_Late := gr_complex.zero
  Very_Early_prs := gr_complex.zero
  Early_prs := gr_complex.zero
  Prompt_prs := ⟨FloatVal.fin 1, FloatVal.fin 0⟩
  Late_prs := gr_complex.zero
  Very_Late_prs := gr_complex.zero

/-- An epoch whose Prompt sum is the marker of a lost signal. -/
def ex_bad : EpochInput := { ex_good with Prompt := ex_bad_prompt }

/-- An epoch whose Prompt sum has a NaN real part. -/
def ex_nan : EpochInput := { ex_good with Prompt := ⟨FloatVal.nan, FloatVal.fin 0⟩ }

/-- An epoch whose Very-Early magnitude, 2, exceeds the Prompt magnitude, 1, and the
Very-Late magnitude, 0. -/
def ex_very_early : EpochInput :=
  { ex_good with Very_Early := ⟨FloatVal.fin 2, FloatVal.fin 0⟩ }

/-- The block after the pull-in invocation: Tracking-Unlocked, all counters at 0. -/
def ex_tracking : State := (general_work ex_E ex_start ex_good).state

/-- The stand-in externals with estimators that report a steady signal whatever the
Prompt buffer holds: CN0 estimate 40 dB-Hz, lock statistic 1. -/
def ex_E_steady : Externals :=
  { ex_E with
    cn0_svn_estimator := fun _ _ _ _ => 40
    carrier_lock_detector := fun _ _ => 1 }

/-- The pull-in invocation followed by `n` clean epochs. -/
def ex_clean (n : Nat) : List EpochInput := ex_good :: List.replicate n ex_good

/-- The block after pull-in and 231 clean epochs: the eleventh lock evaluation has just
promoted it to carrier-locked and started the secondary loop. -/
def ex_locked : State := run ex_E ex_start (ex_clean 231)

/-- The block three clean epochs later: the accumulation index is 3, one below the
accumulation length. -/
def ex_before_wrap : State := run ex_E ex_start (ex_clean 234)

/-- Pull-in, 231 clean epochs, then 1071 epochs of lost signal: the last of them is the
51st failed lock evaluation since the promotion. -/
def ex_to_demotion : List EpochInput := ex_clean 231 ++ List.replicate 1071 ex_bad

/-- The run `ex_to_demotion` followed by 229 clean epochs, 1300 epochs after the
promotion: the eleventh lock evaluation since the demotion is two epochs ahead. -/
def ex_to_restart : List EpochInput := ex_to_demotion ++ List.replicate 229 ex_good

/-- The block after the run `ex_to_restart`. -/
def ex_before_restart : State := run ex_E ex_start ex_to_restart

/-- Pull-in, then 1071 epochs of lost signal: the last of them is the 51st failed lock
evaluation of a primary that never locked. -/
def ex_to_disable : List EpochInput := ex_good :: List.replicate 1071 ex_bad

/-- Pull-in, 234 clean epochs, one epoch with a NaN Prompt sum, 8 clean epochs. -/
def ex_nan_run : List EpochInput := ex_clean 234 ++ [ex_nan] ++ List.replicate 8 ex_good

/-- The control members of `ex_start`. -/
def ex_start_ctl : Ctl where
  enable := true
  pull_in := true
  locked := false
  prs := false
  counter := 0
  fail := 0
  success := 0
  idx := 0
  N := 4
  pll_prs_applies := 0
  dll_prs_applies := 0
  dll_bw := 2
  pll_bw := 15
  initial_dll_bw := 2
  final_dll_bw := 1 / 2
  initial_pll_bw := 15
  final_pll_bw := 5
  preamble := false
  rx_time := false
  prompt := gr_complex.zero
  buf := List.replicate 20 gr_complex.zero
  threshold := 85 / 100
  queue := some []
  channel := 0
  el_spc := 15 / 100
  initial_el_spc := 15 / 100
  final_el_spc := 1 / 10

/-! ## Views of an epoch -/

/-- The primary estimates and the members an epoch reads to update them: the four
primary phases, the three primary frequencies, the sample rate, the chips-to-cycles
ratio, the Prompt sum, the number of `apply` calls made on the primary carrier and code
loop filters, the stored epoch length and the flag `d_close_prs_loops`. -/
structure EpochView where
  code_phase_chips : ℚ
  rem_code_phase_samples : ℚ
  subcarrier_phase_cycles : ℚ
  rem_carr_phase_rad : ℚ
  carrier_doppler_hz : ℚ
  code_freq_chips : ℚ
  subcarrier_freq_cycles : ℚ
  fs_in : Int
  chips_to_cycles : ℚ
  Prompt : gr_complex
  carrier_applies : Nat
  code_applies : Nat
  current_prn_length_samples : Int
  close_prs_loops : Bool

/-- The epoch view of a block. -/
def epoch_view (s : State) : EpochView where
  code_phase_chips := s.d_code_phase_chips
  rem_code_phase_samples := s.d_rem_code_phase_samples
  subcarrier_phase_cycles := s.d_subcarrier_phase_cycles
  rem_carr_phase_rad := s.d_rem_carr_phase_rad
  carrier_doppler_hz := s.d_carrier_doppler_hz
  code_freq_chips := s.d_code_freq_chips
  subcarrier_freq_cycles := s.d_subcarrier_freq_cycles
  fs_in := s.d_fs_in
  chips_to_cycles := s.d_chips_to_cycles
  Prompt := s.d_Prompt
  carrier_applies := s.d_carrier_loop_filter.apply_count
  code_applies := s.d_code_loop_filter.apply_count
  current_prn_length_samples := s.d_current_prn_length_samples
  close_prs_loops := s.d_close_prs_loops

/-- The state of the primary loops that the NaN path is said to leave alone: the
frequency estimates, the three primary loop filters, the primary lock flags, the lock
counters and the stored epoch length. -/
structure PrimaryLoop where
  carrier_doppler_hz : ℚ
  code_freq_chips : ℚ
  subcarrier_freq_cycles : ℚ
  code_loop_filter : Tracking_loop_filter
  carrier_loop_filter : Tracking_loop_filter
  divergence_loop_filter : Tracking_loop_filter
  carrier_locked : Bool
  subcarrier_locked : Bool
  code_locked : Bool
  carrier_lock_success_counter : Int
  carrier_lock_fail_counter : Int
  current_prn_length_samples : Int
  deriving DecidableEq

/-- The primary loop state of a block. -/
def primary_loop (s : State) : PrimaryLoop where
  carrier_doppler_hz := s.d_carrier_doppler_hz
  code_freq_chips := s.d_code_freq_chips
  subcarrier_freq_cycles := s.d_subcarrier_freq_cycles
  code_loop_filter := s.d_code_loop_filter
  carrier_loop_filter := s.d_carrier_loop_filter
  divergence_loop_filter := s.d_divergence_loop_filter
  carrier_locked := s.d_carrier_locked
  subcarrier_locked := s.d_subcarrier_locked
  code_locked := s.d_code_locked
  carrier_lock_success_counter := s.d_carrier_lock_success_counter
  carrier_lock_fail_counter := s.d_carrier_lock_fail_counter
  current_prn_length_samples := s.d_current_prn_length_samples

/-- The four primary phases that the replica generation and the correlation of the next
epoch use. -/
structure Phases where
  code_phase_chips : ℚ
  rem_code_phase_samples : ℚ
  subcarrier_phase_cycles : ℚ
  rem_carr_phase_rad : ℚ
  deriving DecidableEq

/-- The primary phases of a block. -/
def phases (s : State) : Phases :=
  ⟨s.d_code_phase_chips, s.d_rem_code_phase_samples, s.d_subcarrier_phase_cycles,
    s.d_rem_carr_phase_rad⟩

/-- The three secondary frequencies. -/
structure PrsFreq where
  carrier_doppler_hz_prs : ℚ
  code_freq_chips_prs : ℚ
  subcarrier_freq_cycles_prs : ℚ
  deriving DecidableEq

/-- The secondary frequencies of a block. -/
def prs_freq (s : State) : PrsFreq :=
  ⟨s.d_carrier_doppler_hz_prs, s.d_code_freq_chips_prs, s.d_subcarrier_freq_cycles_prs⟩

/-- The outcome of the primary bump-jump tests of the epoch entered in state `s` with
correlator sums `inp`: the tests of the block `if( d_use_bj && d_carrier_locked )` on the
magnitudes of the epoch and the streak counters of `s`. -/
def bump_jump_outcome (E : Externals) (s : State) (inp : EpochInput) : BumpJump :=
  bump_jump_tests (E.cabs inp.Very_Early) (E.cabs inp.Prompt) (E.cabs inp.Very_Late)
    s.d_bj_threshold s.d_bj_ve_counter s.d_bj_vl_counter

/-- The epoch entered in state `s` with correlator sums `inp` applies a bump jump: it
reaches the block `if( d_use_bj && d_carrier_locked )` (its Prompt sum is not NaN), the
block is entered, and its tests set `do_jump`. -/
def jumps (E : Externals) (s : State) (inp : EpochInput) : Prop :=
  non_degenerate inp ∧ s.d_use_bj = true ∧ s.d_carrier_locked = true
    ∧ (bump_jump_outcome E s inp).do_jump = true

instance (E : Externals) (s : State) (inp : EpochInput) : Decidable (jumps E s inp) := by
  unfold jumps
  infer_instance

/-- The sample count `K_blk_samples` from which the epoch entered in a state computes the
next epoch length, read from a state in which the code frequency has been updated and
the code phase propagated. -/
def K_blk_samples (E : Externals) (s : State) : ℚ :=
  1 / s.d_code_freq_chips * E.Galileo_E1_B_CODE_LENGTH_CHIPS * (s.d_fs_in : ℚ)
    + s.d_rem_code_phase_samples

/-- The next epoch length as the specification words it (section 4.3):
`round((1/code_freq) * code_length / sample_rate + residual_code_phase_in_samples)`. -/
def spec_epoch_length (code_freq code_length sample_rate residual : ℚ) : Int :=
  round (1 / code_freq * code_length / sample_rate + residual)

/-- A part of a correlator sum is infinite. -/
def FloatVal.isinf : FloatVal → Bool
  | .pinf => true
  | .ninf => true
  | _ => false

/-! ## More of the concrete channel -/

/-- The configuration `ex_config` with an intermediate frequency of 125 Hz, at which the
carrier advances by half a cycle in an epoch of 4 ms. -/
def ex_if_config : Config := { ex_config with if_freq := 125 }

/-- The block with intermediate frequency 125 Hz after construction, `set_gnss_synchro`
and `start_tracking`. -/
def ex_if_start : State :=
  start_tracking ex_E (set_gnss_synchro (constructor ex_E ex_if_config ex_indeterminate) ex_synchro)

/-- An epoch whose Very-Late magnitude, 2, exceeds the Prompt magnitude, 1, and the
Very-Early magnitude, 0. -/
def ex_very_late : EpochInput :=
  { ex_good with Very_Late := ⟨FloatVal.fin 2, FloatVal.fin 0⟩ }

/-- An epoch whose Prompt sum has an infinite real part and no NaN part. -/
def ex_inf : EpochInput := { ex_good with Prompt := ⟨FloatVal.pinf, FloatVal.fin 0⟩ }

/-- The stand-in externals with a loop filter that answers every error sample with
-2046000, twice the chip rate below zero. -/
def ex_E_runaway : Externals := { ex_E with filter_output := fun _ _ => -2046000 }

/-- The stand-in externals with a code discriminator that reports an error of 1 on every
epoch. -/
def ex_E_dll : Externals := { ex_E with dll_nc_e_minus_l_normalized := fun _ _ => 1 }

/-! ## Primary and secondary members -/

/-- The primary state of a block: the block with the members of the secondary loop (its
configuration, filters, correlator sums, accumulators, estimates, lock flags and
counters) and the content of the dump file cleared.  Two blocks have the same primary
state exactly when they agree on every other member. -/
def primary (s : State) : State :=
  { s with
    d_dump_file := []
    d_dll_loop_order_prs := 0
    d_dll_bw_hz_prs := 0
    d_pll_loop_order_prs := 0
    d_pll_bw_hz_prs := 0
    d_code_loop_filter_prs := Tracking_loop_filter.mk_filter 0 0 0 false
    d_carrier_loop_filter_prs := Tracking_loop_filter.mk_filter 0 0 0 false
    d_divergence_loop_filter_prs := Tracking_loop_filter.mk_filter 0 0 0 false
    d_close_prs_loops := false
    d_very_early_late_code_spc_chips_prs := 0
    d_Very_Early_prs := gr_complex.zero
    d_Early_prs := gr_complex.zero
    d_Prompt_prs := gr_complex.zero
    d_Late_prs := gr_complex.zero
    d_Very_Late_prs := gr_complex.zero
    d_VE_acumm_prs := gr_complex.zero
    d_E_acumm_prs := gr_complex.zero
    d_P_acumm_prs := gr_complex.zero
    d_L_acumm_prs := gr_complex.zero
    d_VL_acumm_prs := gr_complex.zero
    d_code_freq_chips_prs := 0
    d_chips_to_cycles_prs := 0
    d_subcarrier_freq_cycles_prs := 0
    d_rem_code_phase_samples_prs := 0
    d_integer_code_phase_chips_prs := 0
    d_fractional_code_phase_chips_prs := 0
    d_integer_subcarrier_phase_cycles_prs := 0
    d_fractional_subcarrier_phase_cycles_prs := 0
    d_rem_carr_phase_rad_prs := 0
    d_carrier_phase_rad_prs := 0
    d_cn0_estimation_counter_prs := 0
    d_carrier_doppler_hz_prs := 0
    d_bj_ve_counter_prs := 0
    d_bj_vl_counter_prs := 0
    d_subcarrier_locked_prs := false
    d_mean_subcarrier_error_prs := 0
    d_code_locked_prs := false
    d_mean_code_error_prs := 0
    d_carr_error_hz_prs := 0
    d_carr_error_filt_hz_prs := 0
    d_subcarrier_error_cycles_prs := 0
    d_subcarrier_error_filt_cycles_prs := 0
    d_code_error_chips_veml_prs := 0
    d_code_error_filt_chips_veml_prs := 0
    d_prs_accumulation_length := 0
    d_prs_accumulation_index := 0 }

/-- The primary part of what an invocation receives: the number of available samples and
the five primary correlator sums, the secondary sums cleared. -/
def primary_sums (inp : EpochInput) : EpochInput :=
  { inp with
    Very_Early_prs := gr_complex.zero
    Early_prs := gr_complex.zero
    Prompt_prs := gr_complex.zero
    Late_prs := gr_complex.zero
    Very_Late_prs := gr_complex.zero }

/-- The records written to `*out[0]` by the invocations of a run, in order. -/
def records (E : Externals) (s : State) : List EpochInput → List Gnss_Synchro
  | [] => []
  | inp :: rest => (general_work E s inp).out :: records E (general_work E s inp).state rest

/-- The six lock flags: primary carrier, subcarrier and code lock, secondary subcarrier
and code lock, and secondary tracking enabled. -/
structure LockFlags where
  carrier_locked : Bool
  subcarrier_locked : Bool
  code_locked : Bool
  subcarrier_locked_prs : Bool
  code_locked_prs : Bool
  prs_tracking_enabled : Bool
  deriving DecidableEq

/-- The lock flags of a block. -/
def lock_flags (s : State) : LockFlags :=
  ⟨s.d_carrier_locked, s.d_subcarrier_locked, s.d_code_locked, s.d_subcarrier_locked_prs,
    s.d_code_locked_prs, s.d_prs_tracking_enabled⟩

/-- The noise bandwidths of the six loop filters: primary code, carrier and divergence,
secondary code, carrier and divergence. -/
structure Bandwidths where
  code : ℚ
  carrier : ℚ
  divergence : ℚ
  code_prs : ℚ
  carrier_prs : ℚ
  divergence_prs : ℚ
  deriving DecidableEq

/-- The noise bandwidths of the loop filters of a block. -/
def bandwidths (s : State) : Bandwidths :=
  ⟨s.d_code_loop_filter.noise_bandwidth, s.d_carrier_loop_filter.noise_bandwidth,
    s.d_divergence_loop_filter.noise_bandwidth, s.d_code_loop_filter_prs.noise_bandwidth,
    s.d_carrier_loop_filter_prs.noise_bandwidth,
    s.d_divergence_loop_filter_prs.noise_bandwidth⟩

/-- The type of a dump field as it is written: `float`, `unsigned long int` or
`double`. -/
inductive DumpKind where
  | float
  | ulong
  | double
  deriving DecidableEq, Repr

/-- The type with which a dump field is written. -/
def DumpField.kind : DumpField → DumpKind
  | DumpField.float _ => DumpKind.float
  | DumpField.ulong _ => DumpKind.ulong
  | DumpField.double _ => DumpKind.double

/-- The size in bytes of a dump field of a kind (`sizeof(float)` is 4 and
`sizeof(double)` is 8; `sizeof(unsigned long int)`, which depends on the platform, is the
argument). -/
def DumpKind.bytes (sizeof_ulong : Nat) : DumpKind → Nat
  | DumpKind.float => 4
  | DumpKind.ulong => sizeof_ulong
  | DumpKind.double => 8

/-- The fields of a dump record written before the comment `PRS Variables:`: the block
of the primary loop. -/
def dump_block (E : Externals) (s : State) (l : Locals) : List DumpField :=
  (dump_record E s l).take 21

/-- The fields of a dump record written after the comment `PRS Variables:`: the block of
the secondary loop. -/
def dump_block_prs (E : Externals) (s : State) (l : Locals) : List DumpField :=
  (dump_record E s l).drop 21

/-- The byte length of a list of dump fields. -/
def dump_bytes (sizeof_ulong : Nat) (fields : List DumpField) : Nat :=
  (fields.map (fun f => f.kind.bytes sizeof_ulong)).sum

/-- The members that a tracking epoch with open secondary loops leaves alone: the
acquisition handle, `d_vector_length`, the number of `apply` calls made on the secondary
divergence filter, and the flag `d_close_prs_loops`. -/
structure QuietView where
  synchro : Gnss_Synchro
  vector_length : Nat
  divergence_applies_prs : Nat
  close_prs_loops : Bool
  deriving DecidableEq

/-- The quiet members of a block. -/
def quiet_view (s : State) : QuietView :=
  ⟨s.d_acquisition_gnss_synchro, s.d_vector_length,
    s.d_divergence_loop_filter_prs.apply_count, s.d_close_prs_loops⟩

/-! ## More of the concrete channel: handles, a second secondary configuration -/

/-- The handle `ex_synchro` with its pseudorange-valid flag set. -/
def ex_synchro_pr : Gnss_Synchro := { ex_synchro with Flag_valid_pseudorange := true }

/-- The block after construction and `set_gnss_synchro` with the handle `ex_synchro_pr`;
`start_tracking` has not been called, so tracking is disabled. -/
def ex_pr_idle : State :=
  set_gnss_synchro (constructor ex_E ex_config ex_indeterminate) ex_synchro_pr

/-- The block `ex_pr_idle` after `start_tracking`. -/
def ex_pr_start : State := start_tracking ex_E ex_pr_idle

/-- The configuration `ex_config` with another secondary-loop configuration:
accumulation length 7, closed secondary loops, other secondary bandwidths. -/
def ex_config_closed : Config :=
  { ex_config with
    prs_accumulation_length := 7
    close_prs_loops := true
    pll_bw_hz_prs := 9
    dll_bw_hz_prs := 3 }

/-- The block with the configuration `ex_config_closed` after construction,
`set_gnss_synchro` and `start_tracking`. -/
def ex_closed_start : State :=
  start_tracking ex_E
    (set_gnss_synchro (constructor ex_E ex_config_closed ex_indeterminate) ex_synchro)

/-- The epoch `ex_good` with other secondary correlator sums. -/
def ex_good_other_prs : EpochInput :=
  { ex_good with
    Very_Early_prs := ⟨FloatVal.fin 5, FloatVal.fin 1⟩
    Early_prs := ⟨FloatVal.fin 3, FloatVal.fin 0⟩
    Prompt_prs := ⟨FloatVal.fin 2, FloatVal.fin (-1)⟩
    Late_prs := ⟨FloatVal.fin 1, FloatVal.fin 0⟩
    Very_Late_prs := ⟨FloatVal.fin 7, FloatVal.fin 0⟩ }

/-- The stand-in externals with a loop filter that answers every error sample with
-767250, which leaves a code frequency of a quarter of the chip rate. -/
def ex_E_slow : Externals := { ex_E with filter_output := fun _ _ => -767250 }

/-! ## GLONASS L1 C/A code generation (`glonass_l1_signal_processing.cc`) -/

/-- The lambda `AUX_CEIL`: `static_cast<int32_t>(static_cast<int64_t>((x) + 1))`, the
truncation of `x + 1` towards zero. -/
def AUX_CEIL (x : ℚ) : Int := trunc (x + 1)

/-- One pass of the body of the loop `Generate G1 Register` on the 9-bit register, after
the output bit is taken: `feedback1 = G1_register[4] xor G1_register[0]`, the bits 1..8
move down to 0..7, and bit 8 becomes the feedback. -/
def G1_register_step (G1_register : List Bool) : List Bool :=
  let feedback1 := xor (G1_register.getD 4 false) (G1_register.getD 0 false)
  (List.range 8).map (fun lcv2 => G1_register.getD (lcv2 + 1) false) ++ [feedback1]

/-- The bits that `n` passes of the loop `Generate G1 Register` write to `G1`, started
with the register `G1_register`: each pass writes `G1_register[2]` and steps the
register. -/
def G1_bits : Nat → List Bool → List Bool
  | 0, _ => []
  | n + 1, G1_register => G1_register.getD 2 false :: G1_bits n (G1_register_step G1_register)

/-- The bitset `G1` after the loop `Generate G1 Register`: 511 bits, from the register
with all nine bits true. -/
def G1 : List Bool := G1_bits 511 (List.replicate 9 true)

/-- The value written for a bit of `G1`: `std::complex<float>(1, 0)` for true and
`std::complex<float>(-1, 0)` for false. -/
def chip_value (aux : Bool) : gr_complex :=
  if aux = true then ⟨FloatVal.fin 1, FloatVal.fin 0⟩ else ⟨FloatVal.fin (-1), FloatVal.fin 0⟩

/-- The function `glonass_l1_ca_code_gen_complex`: the values it leaves in
`_dest[0..510]`.  The loop `Generate PRN from G1 Register` writes the unshifted code,
which the last loop overwrites entry by entry with the bit of `G1` at index
`(lcv + _chip_shift) % _code_length`; the sum is taken in `uint32_t`, so it wraps at
`2^32`.  The variable `delay` is updated but never read. -/
def glonass_l1_ca_code_gen_complex (chip_shift : Nat) : List gr_complex :=
  (List.range 511).map
    (fun lcv => chip_value (G1.getD ((lcv + chip_shift) % 2 ^ 32 % 511) false))

/-- The local `_samplesPerCode` of `glonass_l1_ca_code_gen_complex_sampled`:
`static_cast<int32_t>(_fs / (_codeFreqBasis / _codeLength))`, in exact arithmetic. -/
def glonass_samples_per_code (fs : Int) : Int :=
  trunc ((fs : ℚ) / ((511000 : ℚ) / (511 : ℚ)))

/-- The local `_codeValueIndex` for sample `i`: `AUX_CEIL(aux) - 1` with
`aux = (_ts * (i + 1)) / _tc`, `_ts = 1 / _fs` and `_tc = 1 / _codeFreqBasis`, in exact
arithmetic. -/
def glonass_code_value_index (fs i : Int) : Int :=
  let _tc : ℚ := 1 / (511000 : ℚ)
  let _ts : ℚ := 1 / (fs : ℚ)
  let aux : ℚ := (_ts * ((i : ℚ) + 1)) / _tc
  AUX_CEIL aux - 1

/-- The index of `_code` that the loop body reads for sample `i`: `_codeLength - 1` for
the last sample, `_codeValueIndex` for the others. -/
def glonass_read_index (fs i : Int) : Int :=
  if i = glonass_samples_per_code fs - 1 then 511 - 1 else glonass_code_value_index fs i

/-- A read `_code[idx]` of the array of 511 chips: its value for an index in `[0, 510]`,
`none` (the behaviour is undefined) outside. -/
def code_at (code : List gr_complex) (idx : Int) : Option gr_complex :=
  if 0 ≤ idx then code.get? idx.toNat else none

/-- The function `glonass_l1_ca_code_gen_complex_sampled`: what it writes to
`_dest[0 .. _samplesPerCode - 1]`, in exact arithmetic. -/
def glonass_l1_ca_code_gen_complex_sampled (fs : Int) (chip_shift : Nat) :
    List (Option gr_complex) :=
  let _code := glonass_l1_ca_code_gen_complex chip_shift
  (List.range (glonass_samples_per_code fs).toNat).map
    (fun (i : Nat) => code_at _code (glonass_read_index fs (i : Int)))

/-! ## Invariants and sums used by the claims on counters and accumulators -/

/-- Both streak counters of a bump-jump view are at least 0, and below the threshold
when the threshold is at least 1. -/
def BjView.in_range (v : BjView) : Prop :=
  0 ≤ v.ve_counter ∧ 0 ≤ v.vl_counter
    ∧ (1 ≤ v.threshold → v.ve_counter < (v.threshold : Int) ∧ v.vl_counter < (v.threshold : Int))

/-- The sum of a list of sets of correlator sums, added one after the other onto zeroed
accumulators, in the order in which the accumulate step adds them. -/
def Accumulators.sum (l : List Accumulators) : Accumulators :=
  l.foldl Accumulators.add Accumulators.zero

/-- The secondary accumulators as the section `PRS` of the epoch entered in state `s`
with correlator sums `inp` finds them: their content after the accumulate step of that
epoch (which runs when `d_prs_tracking_enabled` is set). -/
def accumulators_read (E : Externals) (s : State) (inp : EpochInput) : Accumulators :=
  accumulators (prs_correlate_and_propagate E (correlate_and_propagate E s inp) inp)

/-- The accumulation index that the test `d_prs_accumulation_index ==
d_prs_accumulation_length` of the section `PRS` reads in the epoch entered in state `s`:
the index after the increment of the accumulate step. -/
def index_read (E : Externals) (s : State) (inp : EpochInput) : Int :=
  (prs_correlate_and_propagate E (correlate_and_propagate E s inp) inp).d_prs_accumulation_index

/-- The accumulators that the accumulate step of the next epoch adds to: zero when the
accumulation index is 0 (the step clears them first), their content otherwise. -/
def accumulators_carried (s : State) : Accumulators :=
  if s.d_prs_accumulation_index = 0 then Accumulators.zero else accumulators s

/-! ## Theorems

First the transition that `general_work` induces on the control members, section by
section; then the claims. -/

theorem apply_count_init (f : Tracking_loop_filter) (v : ℚ) :
    ( Tracking_loop_filter.initialize f v).apply_count = f.apply_count := by
  simp [ Tracking_loop_filter.initialize, Tracking_loop_filter.apply_count]

theorem apply_count_set_noise_bandwidth (f : Tracking_loop_filter) (bw : ℚ) :
    (f.set_noise_bandwidth bw).apply_count = f.apply_count := rfl

theorem apply_count_apply (E : Externals) (f : Tracking_loop_filter) (e : ℚ) :
    (f.apply E e).2.apply_count = f.apply_count + 1 := by
  simp [Tracking_loop_filter.apply, Tracking_loop_filter.apply_count]

theorem noise_bandwidth_apply (E : Externals) (f : Tracking_loop_filter) (e : ℚ) :
    (f.apply E e).2.noise_bandwidth = f.noise_bandwidth := rfl

theorem ctl_correlate_and_propagate (E : Externals) (s : State) (inp : EpochInput) :
    ctl (correlate_and_propagate E s inp) = { ctl s with prompt := inp.Prompt } := rfl

theorem ctl_prs_correlate_and_propagate (E : Externals) (s : State) (inp : EpochInput) :
    ctl (prs_correlate_and_propagate E s inp) = { ctl s with idx := s.d_prs_accumulation_index + 1 } := by
  unfold prs_correlate_and_propagate
  simp only [ctl]
  split <;> split <;> rfl

theorem ctl_pll_dll (E : Externals) (s : State) : ctl (pll_dll E s).1 = ctl s := by
  unfold pll_dll
  simp only []
  split <;> rfl

theorem ctl_bump_jump (E : Externals) (s : State) : ctl (bump_jump E s) = ctl s := by
  unfold bump_jump
  simp only []
  split
  · split <;> rfl
  · rfl

theorem ctl_bump_jump_prs (E : Externals) (s : State) : ctl (bump_jump_prs E s) = ctl s := by
  unfold bump_jump_prs
  simp only []
  split
  · split
    · split <;> split <;> rfl
    · rfl
  · rfl

theorem ctl_prs_update (E : Externals) (s : State) :
    ctl (prs_update E s) =
      if (s.d_prs_tracking_enabled && s.d_prs_accumulation_index == s.d_prs_accumulation_length) = true then
        { ctl s with idx := 0, pll_prs_applies := (ctl s).pll_prs_applies + 1,
                     dll_prs_applies := (ctl s).dll_prs_applies + 1 }
      else ctl s := by
  unfold prs_update
  simp only []
  split
  · split
    · have h := ctl_bump_jump_prs E
      split
      all_goals
        simp only [ctl, Ctl.mk.injEq] at h ⊢
        simp only [h, apply_count_apply]
        simp
    · simp only [ctl, apply_count_apply]
  · rfl

theorem ctl_prs_follow (E : Externals) (s : State) : ctl (prs_follow E s) = ctl s := by
  unfold prs_follow
  simp only []
  split
  · split <;> rfl
  · rfl

theorem ctl_lock_estimates (E : Externals) (s : State) :
    ctl (lock_estimates E s) = { ctl s with counter := 0 } := rfl

theorem ctl_of_lock_counters (s : State) :
    ctl (lock_counters s) =
      if s.d_carrier_lock_test < s.d_carrier_lock_threshold ∨ s.d_CN0_SNV_dB_Hz < MINIMUM_VALID_CN0 then
        { ctl s with fail := (ctl s).fail + 1, success := 0 }
      else
        { ctl s with success := (ctl s).success + 1,
                     fail := if (ctl s).fail > 0 then (ctl s).fail - 1 else (ctl s).fail } := by
  unfold lock_counters
  split
  · rfl
  · simp only []
    split
    · simp only [ctl, gt_iff_lt, *, if_true]
    · simp only [ctl, gt_iff_lt, *, if_false]

theorem ctl_loss_of_lock (s : State) :
    ctl (loss_of_lock s) =
      { ctl s with
        fail := 0
        enable := false
        prs := false
        queue := (ctl s).queue.map (fun q => q ++ [((ctl s).channel, 2)]) } := rfl

theorem ctl_start_tracking_prs (E : Externals) (s : State) :
    ctl (start_tracking_prs E s) = { ctl s with prs := true, counter := 0, idx := 0 } := by
  simp only [ctl, start_tracking_prs, apply_count_init, apply_count_set_noise_bandwidth]

theorem ctl_phase_lock_achieved (E : Externals) (s : State) (l : Locals) :
    ctl (phase_lock_achieved E s l) =
      { ctl s with locked := true, dll_bw := (ctl s).final_dll_bw, pll_bw := (ctl s).final_pll_bw,
                   fail := 0, prs := true, counter := 0, idx := 0,
                   el_spc := (ctl s).final_el_spc } := by
  unfold phase_lock_achieved
  simp only [ctl_start_tracking_prs]
  rfl

theorem ctl_revert_to_initial (s : State) (l : Locals) :
    ctl (revert_to_initial s l) =
      { ctl s with fail := 0, locked := false, dll_bw := (ctl s).initial_dll_bw,
                   pll_bw := (ctl s).initial_pll_bw, el_spc := (ctl s).initial_el_spc } := rfl

theorem ctl_subcarrier_code_lock (s : State) : ctl (subcarrier_code_lock s) = ctl s := by
  unfold subcarrier_code_lock
  simp only []
  split_ifs <;> rfl

theorem lock_counters_test (E : Externals) (s : State) :
    ((lock_estimates E s).d_carrier_lock_test < (lock_estimates E s).d_carrier_lock_threshold
        ∨ (lock_estimates E s).d_CN0_SNV_dB_Hz < MINIMUM_VALID_CN0)
      ↔ lock_test_passes E s = false := by
  simp only [lock_test_passes, lock_estimates, decide_eq_false_iff_not, not_not]

theorem ctl_lock_counters_eq (E : Externals) (s : State) :
    ctl (lock_counters (lock_estimates E s)) = ctl_lock_counters (lock_test_passes E s) (ctl s) := by
  rw [ctl_of_lock_counters]
  unfold ctl_lock_counters
  by_cases hg : lock_test_passes E s = true
  · have : ¬ ((lock_estimates E s).d_carrier_lock_test < (lock_estimates E s).d_carrier_lock_threshold
      ∨ (lock_estimates E s).d_CN0_SNV_dB_Hz < MINIMUM_VALID_CN0) := by
      rw [lock_counters_test]; simp [hg]
    rw [if_neg this, if_pos hg]; rfl
  · have : ((lock_estimates E s).d_carrier_lock_test < (lock_estimates E s).d_carrier_lock_threshold
      ∨ (lock_estimates E s).d_CN0_SNV_dB_Hz < MINIMUM_VALID_CN0) := by
      rw [lock_counters_test]; simpa using hg
    rw [if_pos this, if_neg hg]; rfl

theorem ctl_lock_transition_eq (E : Externals) (s : State) (l : Locals) :
    ctl (lock_transition E s l) = ctl_lock_transition (ctl s) := by
  have key : ∀ t : State, ctl { t with d_mean_subcarrier_error := 0, d_mean_code_error := 0 } = ctl t :=
    fun _ => rfl
  unfold lock_transition
  simp only []
  rw [key]
  unfold ctl_lock_transition
  have e1 : (ctl s).locked = s.d_carrier_locked := rfl
  rw [e1]
  by_cases hl : s.d_carrier_locked = true
  · have hl2 : (!s.d_carrier_locked) = false := by simp [hl]
    simp only [hl2, Bool.false_eq_true, if_false]
    have e2 : (ctl s).fail = s.d_carrier_lock_fail_counter := rfl
    rw [e2]
    split
    · exact ctl_revert_to_initial s l
    · exact ctl_subcarrier_code_lock s
  · have hl2 : (!s.d_carrier_locked) = true := by simp [hl]
    simp only [hl2, if_true]
    have e2 : (ctl s).fail = s.d_carrier_lock_fail_counter := rfl
    rw [e2]
    by_cases hf : s.d_carrier_lock_fail_counter > MAXIMUM_LOCK_FAIL_COUNTER
    · simp only [hf, if_true]
      have e3 : (loss_of_lock s).d_carrier_lock_success_counter = (ctl s).success := rfl
      rw [e3]
      split
      · rw [ctl_phase_lock_achieved, ctl_loss_of_lock]
      · rw [ctl_loss_of_lock]
        rfl
    · simp only [hf, if_false]
      have e3 : s.d_carrier_lock_success_counter = (ctl s).success := rfl
      rw [e3]
      split
      · rw [ctl_phase_lock_achieved]
      · rfl

theorem ctl_lock_evaluation_eq (E : Externals) (s : State) (l : Locals) :
    ctl (lock_evaluation E s l) = ctl_lock_evaluation (lock_test_passes E s) (ctl s) := by
  unfold lock_evaluation ctl_lock_evaluation
  rw [ctl_lock_transition_eq, ctl_lock_counters_eq]

theorem ctl_lock_detectors (E : Externals) (s : State) (l : Locals) :
    ctl (lock_detectors E s l) =
      if (ctl s).counter < CN0_ESTIMATION_SAMPLES then
        { ctl s with buf := (ctl s).buf.set (ctl s).counter.toNat (ctl s).prompt,
                     counter := (ctl s).counter + 1 }
      else ctl_lock_evaluation (lock_test_passes E s) (ctl s) := by
  unfold lock_detectors
  have e : (ctl s).counter = s.d_cn0_estimation_counter := rfl
  rw [e]
  split
  · rfl
  · exact ctl_lock_evaluation_eq E s l

theorem ctl_lock_detectors_prs (s : State) : ctl (lock_detectors_prs s) = ctl s := by
  have h : ∀ t, ctl (subcarrier_code_lock_prs t) = ctl t := by
    intro t
    unfold subcarrier_code_lock_prs
    simp only []
    split_ifs <;> rfl
  unfold lock_detectors_prs
  simp only []
  split
  · split
    · rfl
    · split
      · have := h { s with
          d_cn0_estimation_counter_prs := 0
          d_mean_subcarrier_error_prs :=
            s.d_mean_subcarrier_error_prs / (CN0_ESTIMATION_SAMPLES : ℚ)
          d_mean_code_error_prs := s.d_mean_code_error_prs / (CN0_ESTIMATION_SAMPLES : ℚ) }
        simp only [ctl] at this ⊢
        simp only [Ctl.mk.injEq] at this ⊢
        exact this
      · rfl
  · rfl

theorem ctl_debug_output (s : State) : ctl (debug_output s) = ctl s := by
  unfold debug_output
  split <;> rfl

theorem ctl_finish (E : Externals) (s : State) (l : Locals) (out : Gnss_Synchro) (n : Int) :
    ctl (finish E s l out n).state = ctl s := by
  unfold finish
  simp only []
  split
  · split <;> rfl
  · rfl

theorem passes_correlate_and_propagate (E : Externals) (s : State) (inp : EpochInput) :
    lock_test_passes E (correlate_and_propagate E s inp) = lock_test_passes E s := rfl

theorem passes_prs_correlate_and_propagate (E : Externals) (s : State) (inp : EpochInput) :
    lock_test_passes E (prs_correlate_and_propagate E s inp) = lock_test_passes E s := by
  unfold prs_correlate_and_propagate
  simp only [lock_test_passes]
  split <;> split <;> rfl

theorem passes_pll_dll (E : Externals) (s : State) :
    lock_test_passes E (pll_dll E s).1 = lock_test_passes E s := by
  unfold pll_dll
  simp only []
  split <;> rfl

theorem passes_bump_jump (E : Externals) (s : State) :
    lock_test_passes E (bump_jump E s) = lock_test_passes E s := by
  unfold bump_jump
  simp only []
  split
  · split <;> rfl
  · rfl

theorem passes_bump_jump_prs (E : Externals) (s : State) :
    lock_test_passes E (bump_jump_prs E s) = lock_test_passes E s := by
  unfold bump_jump_prs
  simp only []
  split
  · split
    · split <;> split <;> rfl
    · rfl
  · rfl

theorem passes_prs_update (E : Externals) (s : State) :
    lock_test_passes E (prs_update E s) = lock_test_passes E s := by
  unfold prs_update
  simp only []
  split
  · split
    · have h := passes_bump_jump_prs E
      split
      all_goals
        simp only [lock_test_passes] at h ⊢
        simp only [h]
    · rfl
  · rfl

theorem passes_prs_follow (E : Externals) (s : State) :
    lock_test_passes E (prs_follow E s) = lock_test_passes E s := by
  unfold prs_follow
  simp only []
  split
  · split <;> rfl
  · rfl

theorem ctl_tracking_epoch (E : Externals) (s : State) (csd : Gnss_Synchro) :
    ctl (tracking_epoch E s csd).state =
      (let c := if (s.d_prs_tracking_enabled
            && s.d_prs_accumulation_index == s.d_prs_accumulation_length) = true then
          { ctl s with idx := 0, pll_prs_applies := (ctl s).pll_prs_applies + 1,
                       dll_prs_applies := (ctl s).dll_prs_applies + 1 }
        else ctl s
       if c.counter < CN0_ESTIMATION_SAMPLES then
         { c with buf := c.buf.set c.counter.toNat c.prompt, counter := c.counter + 1 }
       else ctl_lock_evaluation (lock_test_passes E s) c) := by
  unfold tracking_epoch
  simp only [ctl_finish, ctl_debug_output, ctl_lock_detectors_prs, ctl_lock_detectors,
    ctl_prs_follow, ctl_prs_update, ctl_bump_jump, ctl_pll_dll, passes_prs_follow,
    passes_prs_update, passes_bump_jump, passes_pll_dll]
  have e1 : (bump_jump E (pll_dll E s).1).d_prs_tracking_enabled = s.d_prs_tracking_enabled :=
    congrArg Ctl.prs ((ctl_bump_jump E _).trans (ctl_pll_dll E s))
  have e2 : (bump_jump E (pll_dll E s).1).d_prs_accumulation_index = s.d_prs_accumulation_index :=
    congrArg Ctl.idx ((ctl_bump_jump E _).trans (ctl_pll_dll E s))
  have e3 : (bump_jump E (pll_dll E s).1).d_prs_accumulation_length = s.d_prs_accumulation_length :=
    congrArg Ctl.N ((ctl_bump_jump E _).trans (ctl_pll_dll E s))
  rw [e1, e2, e3]

theorem ctl_general_work (E : Externals) (s : State) (inp : EpochInput) :
    ctl (general_work E s inp).state = ctl_step (lock_test_passes E s) inp (ctl s) := by
  unfold general_work ctl_step
  have e1 : (ctl s).enable = s.d_enable_tracking := rfl
  have e2 : (ctl s).pull_in = s.d_pull_in := rfl
  rw [e1, e2]
  by_cases he : s.d_enable_tracking = true
  · rw [if_pos he, if_pos he]
    by_cases hp : s.d_pull_in = true
    · rw [if_pos hp, if_pos hp]; rfl
    · rw [if_neg hp, if_neg hp]
      simp only []
      have h1 : ctl (correlate_and_propagate E s inp) = { ctl s with prompt := inp.Prompt } := rfl
      have hprs : (correlate_and_propagate E s inp).d_prs_tracking_enabled
          = s.d_prs_tracking_enabled := rfl
      rw [hprs]
      obtain ⟨s2, hs2⟩ : ∃ s2, s2 = (if s.d_prs_tracking_enabled = true then
          prs_correlate_and_propagate E (correlate_and_propagate E s inp) inp
        else correlate_and_propagate E s inp) := ⟨_, rfl⟩
      rw [← hs2]
      have h_ctl : ctl s2 =
          { ctl s with
            prompt := inp.Prompt
            idx := (if s.d_prs_tracking_enabled = true then s.d_prs_accumulation_index + 1
                 else s.d_prs_accumulation_index) } := by
        rw [hs2]
        split
        · rw [ctl_prs_correlate_and_propagate]; rfl
        · rfl
      have h_pass : lock_test_passes E s2 = lock_test_passes E s := by
        rw [hs2]
        split
        · rw [passes_prs_correlate_and_propagate]; rfl
        · rfl
      have hP : s2.d_Prompt = inp.Prompt := by
        have := congrArg Ctl.prompt h_ctl
        exact this
      rw [hP]
      by_cases hn : inp.Prompt.re.isnan = true ∨ inp.Prompt.im.isnan = true
      · rw [if_pos hn, if_pos hn]
        have : ctl (nan_samples s2 inp { s.d_acquisition_gnss_synchro with
          Tracking_timestamp_secs :=
            ((s.d_sample_counter : ℚ) + s.d_rem_code_phase_samples) / (s.d_fs_in : ℚ) }).state
            = ctl s2 := rfl
        rw [this, h_ctl]
        rfl
      · rw [if_neg hn, if_neg hn, ctl_tracking_epoch, h_pass]
        have e3 : s2.d_prs_tracking_enabled = s.d_prs_tracking_enabled :=
          congrArg Ctl.prs h_ctl
        have e4 : s2.d_prs_accumulation_index = (if s.d_prs_tracking_enabled = true then
            s.d_prs_accumulation_index + 1 else s.d_prs_accumulation_index) :=
          congrArg Ctl.idx h_ctl
        have e5 : s2.d_prs_accumulation_length = s.d_prs_accumulation_length :=
          congrArg Ctl.N h_ctl
        rw [e3, e4, e5, h_ctl]
        unfold ctl_prs
        simp only []
        have e6 : (ctl s).prs = s.d_prs_tracking_enabled := rfl
        have e7 : (ctl s).idx = s.d_prs_accumulation_index := rfl
        have e8 : (ctl s).N = s.d_prs_accumulation_length := rfl
        rw [e6, e7, e8]
        split <;> rfl
  · rw [if_neg he, if_neg he]
    simp only [ctl_finish]
    unfold tracking_disabled
    have := ctl_debug_output s
    simp only [ctl, Ctl.mk.injEq] at this ⊢
    simp only [this, and_self]

theorem ctl_ex_start : ctl ex_start = ex_start_ctl := by decide!

theorem passes_ex (s : State) : lock_test_passes ex_E s = ctl_passes ex_E (ctl s) := rfl

theorem run_nil (E : Externals) (s : State) : run E s [] = s := rfl

theorem run_cons (E : Externals) (s : State) (inp : EpochInput) (inputs : List EpochInput) :
    run E s (inp :: inputs) = run E (general_work E s inp).state inputs := rfl

theorem run_append (E : Externals) (s : State) (xs ys : List EpochInput) :
    run E s (xs ++ ys) = run E (run E s xs) ys := by
  simp [run, List.foldl_append]

theorem ctl_run_ex (s : State) (inputs : List EpochInput) :
    ctl (run ex_E s inputs) = ctl_run ex_E inputs (ctl s) := by
  induction inputs generalizing s with
  | nil => rfl
  | cons inp inputs ih =>
    rw [run_cons, ih, ctl_general_work, passes_ex]
    rfl

theorem state_at_zero (E : Externals) (s : State) (inputs : List EpochInput) :
    state_at E s inputs 0 = s := rfl

theorem state_at_length (E : Externals) (s : State) (inputs : List EpochInput) :
    state_at E s inputs inputs.length = run E s inputs := by
  unfold state_at
  rw [List.take_length]

theorem state_at_succ (E : Externals) (s : State) (inputs : List EpochInput) (j : Nat)
    (h : j < inputs.length) :
    ∃ inp ∈ inputs,
      state_at E s inputs (j + 1) = (general_work E (state_at E s inputs j) inp).state := by
  refine ⟨inputs.get ⟨j, h⟩, List.get_mem _ _ _, ?_⟩
  unfold state_at
  rw [List.take_succ, List.getElem?_eq_getElem h, run_append]
  rfl

theorem ctl_step_tracking (good : Bool) (inp : EpochInput) (c : Ctl) (he : c.enable = true)
    (hp : c.pull_in = false) (hn : non_degenerate inp) :
    ctl_step good inp c =
      if (ctl_prs { c with prompt := inp.Prompt }).counter < CN0_ESTIMATION_SAMPLES then
        { ctl_prs { c with prompt := inp.Prompt } with
          buf := (ctl_prs { c with prompt := inp.Prompt }).buf.set
            (ctl_prs { c with prompt := inp.Prompt }).counter.toNat
            (ctl_prs { c with prompt := inp.Prompt }).prompt
          counter := (ctl_prs { c with prompt := inp.Prompt }).counter + 1 }
      else ctl_lock_evaluation good (ctl_prs { c with prompt := inp.Prompt }) := by
  unfold ctl_step
  rw [if_pos he, if_neg (by simp [hp])]
  simp only []
  rw [if_neg (by simp [hn.1, hn.2])]

theorem ctl_prs_fields (c : Ctl) :
    (ctl_prs c).enable = c.enable ∧ (ctl_prs c).pull_in = c.pull_in
      ∧ (ctl_prs c).locked = c.locked ∧ (ctl_prs c).prs = c.prs
      ∧ (ctl_prs c).counter = c.counter ∧ (ctl_prs c).fail = c.fail
      ∧ (ctl_prs c).success = c.success ∧ (ctl_prs c).N = c.N
      ∧ (ctl_prs c).dll_bw = c.dll_bw ∧ (ctl_prs c).pll_bw = c.pll_bw
      ∧ (ctl_prs c).initial_dll_bw = c.initial_dll_bw ∧ (ctl_prs c).final_dll_bw = c.final_dll_bw
      ∧ (ctl_prs c).initial_pll_bw = c.initial_pll_bw ∧ (ctl_prs c).final_pll_bw = c.final_pll_bw
      ∧ (ctl_prs c).preamble = c.preamble ∧ (ctl_prs c).rx_time = c.rx_time
      ∧ (ctl_prs c).prompt = c.prompt ∧ (ctl_prs c).buf = c.buf
      ∧ (ctl_prs c).threshold = c.threshold ∧ (ctl_prs c).queue = c.queue
      ∧ (ctl_prs c).channel = c.channel ∧ (ctl_prs c).el_spc = c.el_spc
      ∧ (ctl_prs c).initial_el_spc = c.initial_el_spc
      ∧ (ctl_prs c).final_el_spc = c.final_el_spc := by
  unfold ctl_prs
  simp only []
  split_ifs <;> simp

theorem ctl_lock_evaluation_counter (good : Bool) (c : Ctl) :
    (ctl_lock_evaluation good c).counter = 0 := by
  unfold ctl_lock_evaluation ctl_lock_transition ctl_lock_counters
  simp only []
  split_ifs <;> rfl

theorem ctl_step_counter (good : Bool) (inp : EpochInput) (c : Ctl) (he : c.enable = true)
    (hp : c.pull_in = false) (hn : non_degenerate inp) :
    (ctl_step good inp c).counter =
      if c.counter < CN0_ESTIMATION_SAMPLES then c.counter + 1 else 0 := by
  rw [ctl_step_tracking good inp c he hp hn]
  have h := (ctl_prs_fields { c with prompt := inp.Prompt }).2.2.2.2.1
  rw [h]
  split
  · rfl
  · exact ctl_lock_evaluation_counter _ _

theorem counter_state_at (E : Externals) (s : State) (inputs : List EpochInput)
    (hcnt : s.d_cn0_estimation_counter = 0)
    (htrk : ∀ j < inputs.length, tracking (state_at E s inputs j))
    (hnd : ∀ inp ∈ inputs, non_degenerate inp) :
    ∀ j ≤ inputs.length, (state_at E s inputs j).d_cn0_estimation_counter = ((j % 21 : ℕ) : ℤ) := by
  intro j
  induction j with
  | zero => intro _; simpa [state_at_zero] using hcnt
  | succ j ih =>
    intro hj
    have hj1 : j < inputs.length := hj
    obtain ⟨inp, hmem, hstep⟩ := state_at_succ E s inputs j hj1
    have ht := htrk j hj1
    have hc : (ctl (state_at E s inputs (j + 1))).counter =
        if (ctl (state_at E s inputs j)).counter < CN0_ESTIMATION_SAMPLES then
          (ctl (state_at E s inputs j)).counter + 1 else 0 := by
      rw [hstep, ctl_general_work]
      exact ctl_step_counter _ inp _ ht.1 ht.2 (hnd inp hmem)
    have ih1 := ih (Nat.le_of_lt hj1)
    have e1 : (ctl (state_at E s inputs j)).counter
        = (state_at E s inputs j).d_cn0_estimation_counter := rfl
    have e2 : (ctl (state_at E s inputs (j + 1))).counter
        = (state_at E s inputs (j + 1)).d_cn0_estimation_counter := rfl
    rw [e2, e1, ih1] at hc
    rw [hc]
    unfold CN0_ESTIMATION_SAMPLES
    split_ifs <;> omega

/-- C2 (amended): in a run of non-degenerate tracking epochs started with the estimation
counter at 0, the lock evaluation runs on epochs 21, 42, 63, ... and on no other epoch:
epoch `j + 1` runs it exactly when 21 divides `j + 1`. -/
theorem lock_evaluation_every_21_epochs (E : Externals) (s : State) (inputs : List EpochInput)
    (hcnt : s.d_cn0_estimation_counter = 0)
    (htrk : ∀ j < inputs.length, tracking (state_at E s inputs j))
    (hnd : ∀ inp ∈ inputs, non_degenerate inp) :
    ∀ j < inputs.length, runs_lock_evaluation (state_at E s inputs j) ↔ 21 ∣ j + 1 := by
  intro j hj
  unfold runs_lock_evaluation
  rw [counter_state_at E s inputs hcnt htrk hnd j (Nat.le_of_lt hj)]
  unfold CN0_ESTIMATION_SAMPLES
  omega

theorem ctl_step_good_unlocked (inp : EpochInput) (c : Ctl) (j : ℕ) (hn : non_degenerate inp)
    (he : c.enable = true) (hp : c.pull_in = false) (hl : c.locked = false)
    (hc : c.counter = ((j % 21 : ℕ) : ℤ)) (hs : c.success = ((j / 21 : ℕ) : ℤ))
    (hf : c.fail ≤ 50) :
    (j < 230 →
        (ctl_step true inp c).enable = true ∧ (ctl_step true inp c).pull_in = false
        ∧ (ctl_step true inp c).locked = false
        ∧ (ctl_step true inp c).counter = (((j + 1) % 21 : ℕ) : ℤ)
        ∧ (ctl_step true inp c).success = (((j + 1) / 21 : ℕ) : ℤ)
        ∧ (ctl_step true inp c).fail ≤ 50
        ∧ (ctl_step true inp c).threshold = c.threshold
        ∧ (ctl_step true inp c).final_dll_bw = c.final_dll_bw
        ∧ (ctl_step true inp c).final_pll_bw = c.final_pll_bw)
    ∧ (j = 230 →
        (ctl_step true inp c).enable = true ∧ (ctl_step true inp c).pull_in = false
        ∧ (ctl_step true inp c).locked = true
        ∧ (ctl_step true inp c).dll_bw = c.final_dll_bw
        ∧ (ctl_step true inp c).pll_bw = c.final_pll_bw) := by
  rw [ctl_step_tracking true inp c he hp hn]
  have hd := ctl_prs_fields { c with prompt := inp.Prompt }
  simp only [] at hd
  obtain ⟨d1, d2, d3, d4, d5, d6, d7, d8, d9, d10, d11, d12, d13, d14, d15, d16, d17, d18, d19,
    d20, d21, d22, d23, d24⟩ := hd
  generalize ctl_prs { c with prompt := inp.Prompt } = d at *
  rw [he] at d1
  rw [hp] at d2
  rw [hl] at d3
  rw [hc] at d5
  rw [hs] at d7
  rw [← d6] at hf
  rw [← d19, ← d12, ← d14]
  unfold ctl_lock_evaluation ctl_lock_transition ctl_lock_counters
  unfold CN0_ESTIMATION_SAMPLES MAXIMUM_LOCK_FAIL_COUNTER MINIMUM_LOCK_SUCCESS_COUNTER
  simp only [if_true, d3, Bool.not_false]
  constructor
  · intro hj
    split_ifs <;> (try dsimp only at *) <;> refine ⟨?_, ?_, ?_, ?_, ?_, ?_, ?_, ?_, ?_⟩ <;>
      first | assumption | rfl | omega
  · intro hj
    subst hj
    split_ifs <;> (try dsimp only at *) <;> first | omega | (refine ⟨?_, ?_, ?_, ?_, ?_⟩ <;> first | assumption | rfl)

theorem passes_of_good (E : Externals) (s : State)
    (hthr : s.d_carrier_lock_threshold = CARRIER_LOCK_THRESHOLD)
    (h : cn0_estimate E s > 30 ∧ lock_statistic E s > 85 / 100) :
    lock_test_passes E s = true := by
  unfold lock_test_passes
  unfold cn0_estimate lock_statistic at h
  rw [hthr]
  unfold CARRIER_LOCK_THRESHOLD MINIMUM_VALID_CN0
  rw [decide_eq_true_iff, not_or, not_lt, not_lt]
  constructor
  · exact le_of_lt h.2
  · linarith [h.1]

theorem unlocked_invariant (E : Externals) (s : State) (inputs : List EpochInput)
    (hlen : inputs.length = 231)
    (he : s.d_enable_tracking = true) (hp : s.d_pull_in = false)
    (hl : s.d_carrier_locked = false) (hs : s.d_carrier_lock_success_counter = 0)
    (hc : s.d_cn0_estimation_counter = 0)
    (hf : s.d_carrier_lock_fail_counter ≤ MAXIMUM_LOCK_FAIL_COUNTER)
    (hthr : s.d_carrier_lock_threshold = CARRIER_LOCK_THRESHOLD)
    (hnd : ∀ inp ∈ inputs, non_degenerate inp)
    (hgood : ∀ j < 231, cn0_estimate E (state_at E s inputs j) > 30
      ∧ lock_statistic E (state_at E s inputs j) > 85 / 100) :
    ∀ j ≤ 230,
      (ctl (state_at E s inputs j)).enable = true ∧ (ctl (state_at E s inputs j)).pull_in = false
      ∧ (ctl (state_at E s inputs j)).locked = false
      ∧ (ctl (state_at E s inputs j)).counter = ((j % 21 : ℕ) : ℤ)
      ∧ (ctl (state_at E s inputs j)).success = ((j / 21 : ℕ) : ℤ)
      ∧ (ctl (state_at E s inputs j)).fail ≤ 50
      ∧ (ctl (state_at E s inputs j)).threshold = CARRIER_LOCK_THRESHOLD
      ∧ (ctl (state_at E s inputs j)).final_dll_bw = s.d_final_dll_bw_hz
      ∧ (ctl (state_at E s inputs j)).final_pll_bw = s.d_final_pll_bw_hz := by
  intro j
  induction j with
  | zero =>
    intro _
    rw [state_at_zero]
    exact ⟨he, hp, hl, by simpa using hc, by simpa using hs, hf, hthr, rfl, rfl⟩
  | succ j ih =>
    intro hj
    obtain ⟨i1, i2, i3, i4, i5, i6, i7, i8, i9⟩ := ih (by omega)
    obtain ⟨inp, hmem, hstep⟩ := state_at_succ E s inputs j (by omega)
    have hpass := passes_of_good E (state_at E s inputs j) i7 (hgood j (by omega))
    rw [hstep, ctl_general_work, hpass]
    have := (ctl_step_good_unlocked inp (ctl (state_at E s inputs j)) j (hnd inp hmem)
      i1 i2 i3 i4 i5 i6).1 (by omega)
    obtain ⟨k1, k2, k3, k4, k5, k6, k7, k8, k9⟩ := this
    exact ⟨k1, k2, k3, k4, k5, k6, k7.trans i7, k8.trans i8, k9.trans i9⟩

/-- C1 (amended): starting from Tracking-Unlocked with the success counter and the
estimation counter at 0 (and the fail counter not above its maximum), the carrier-locked
flag becomes true after 231 consecutive non-degenerate tracking epochs in each of which
the CN0 estimate is above 30 dB-Hz and the carrier-lock statistic above 0.85, and not
before: these are the 11 lock evaluations that take the success counter above
MINIMUM_LOCK_SUCCESS_COUNTER = 10.  The code and carrier loop-filter bandwidths then have
their configured final values and tracking is enabled, so the very next epoch runs with
the final bandwidths. -/
theorem lock_after_231_epochs (E : Externals) (s : State) (inputs : List EpochInput)
    (hlen : inputs.length = 231)
    (he : s.d_enable_tracking = true) (hp : s.d_pull_in = false)
    (hl : s.d_carrier_locked = false) (hs : s.d_carrier_lock_success_counter = 0)
    (hc : s.d_cn0_estimation_counter = 0)
    (hf : s.d_carrier_lock_fail_counter ≤ MAXIMUM_LOCK_FAIL_COUNTER)
    (hthr : s.d_carrier_lock_threshold = CARRIER_LOCK_THRESHOLD)
    (hnd : ∀ inp ∈ inputs, non_degenerate inp)
    (hgood : ∀ j < 231, cn0_estimate E (state_at E s inputs j) > 30
      ∧ lock_statistic E (state_at E s inputs j) > 85 / 100) :
    (∀ j < 231, (state_at E s inputs j).d_carrier_locked = false)
    ∧ (run E s inputs).d_carrier_locked = true
    ∧ (run E s inputs).d_code_loop_filter.noise_bandwidth = s.d_final_dll_bw_hz
    ∧ (run E s inputs).d_carrier_loop_filter.noise_bandwidth = s.d_final_pll_bw_hz
    ∧ tracking (run E s inputs) := by
  have inv := unlocked_invariant E s inputs hlen he hp hl hs hc hf hthr hnd hgood
  refine ⟨fun j hj => (inv j (by omega)).2.2.1, ?_⟩
  obtain ⟨i1, i2, i3, i4, i5, i6, i7, i8, i9⟩ := inv 230 (le_refl _)
  obtain ⟨inp, hmem, hstep⟩ := state_at_succ E s inputs 230 (by omega)
  have hpass := passes_of_good E (state_at E s inputs 230) i7 (hgood 230 (by omega))
  have hrun : run E s inputs = state_at E s inputs (230 + 1) := by
    rw [← state_at_length, hlen]
  have := (ctl_step_good_unlocked inp (ctl (state_at E s inputs 230)) 230 (hnd inp hmem)
    i1 i2 i3 i4 i5 i6).2 rfl
  have hstep2 : ctl (run E s inputs) = ctl_step true inp (ctl (state_at E s inputs 230)) := by
    rw [hrun, hstep, ctl_general_work, hpass]
  rw [← hstep2] at this
  obtain ⟨k1, k2, k3, k4, k5⟩ := this
  refine ⟨?_, ?_, ?_, ?_, ?_⟩
  · exact k3
  · exact k4.trans i8
  · exact k5.trans i9
  · exact k1
  · exact k2

theorem ctl_lock_evaluation_fail_le (good : Bool) (d : Ctl) (h : d.fail ≤ 50) :
    (ctl_lock_evaluation good d).fail ≤ 50 := by
  unfold ctl_lock_evaluation ctl_lock_transition ctl_lock_counters
  unfold MAXIMUM_LOCK_FAIL_COUNTER MINIMUM_LOCK_SUCCESS_COUNTER
  dsimp only
  split_ifs <;> (try dsimp only at *) <;> omega

theorem non_degenerate_of_not (inp : EpochInput)
    (hn : ¬ (inp.Prompt.re.isnan = true ∨ inp.Prompt.im.isnan = true)) : non_degenerate inp := by
  unfold non_degenerate
  rw [not_or] at hn
  exact ⟨Bool.eq_false_iff.mpr hn.1, Bool.eq_false_iff.mpr hn.2⟩

theorem ctl_step_fail_le (good : Bool) (inp : EpochInput) (c : Ctl) (h : c.fail ≤ 50) :
    (ctl_step good inp c).fail ≤ 50 := by
  by_cases he : c.enable = true
  · by_cases hp : c.pull_in = true
    · unfold ctl_step
      rw [if_pos he, if_pos hp]
      exact h
    · by_cases hn : inp.Prompt.re.isnan = true ∨ inp.Prompt.im.isnan = true
      · unfold ctl_step
        rw [if_pos he, if_neg hp]
        dsimp only
        rw [if_pos hn]
        exact h
      · rw [ctl_step_tracking good inp c he (Bool.eq_false_iff.mpr hp)
          (non_degenerate_of_not inp hn)]
        have hd := (ctl_prs_fields { c with prompt := inp.Prompt }).2.2.2.2.2.1
        split
        · dsimp only
          rw [hd]
          exact h
        · apply ctl_lock_evaluation_fail_le
          rw [hd]
          exact h
  · unfold ctl_step
    rw [if_neg he]
    exact h

theorem reachable_fail_le (E : Externals) (s : State) (h : Reachable E s) :
    s.d_carrier_lock_fail_counter ≤ 50 := by
  induction h with
  | construct c u => show (0 : ℤ) ≤ 50; norm_num
  | @set_channel s channel _ ih =>
    have : (set_channel s channel).d_carrier_lock_fail_counter
        = s.d_carrier_lock_fail_counter := by
      unfold set_channel
      dsimp only
      split_ifs <;> rfl
    rw [this]; exact ih
  | set_channel_queue q _ ih => exact ih
  | set_gnss_synchro p _ ih => exact ih
  | start_tracking _ _ => show (0 : ℤ) ≤ 50; norm_num
  | @handle_gnss_message s msg _ ih =>
    have : (handle_gnss_message s msg).d_carrier_lock_fail_counter
        = s.d_carrier_lock_fail_counter := by
      unfold handle_gnss_message
      dsimp only
      split_ifs <;> rfl
    rw [this]; exact ih
  | @general_work s inp _ ih =>
    have := ctl_step_fail_le (lock_test_passes E s) inp (ctl s) ih
    rw [← ctl_general_work] at this
    exact this

theorem fail_after_counters (E : Externals) (s : State) :
    (lock_counters (lock_estimates E s)).d_carrier_lock_fail_counter
      = (ctl_lock_counters (lock_test_passes E s) (ctl s)).fail :=
  congrArg Ctl.fail (ctl_lock_counters_eq E s)

theorem ctl_step_demote (good : Bool) (inp : EpochInput) (c : Ctl) (hn : non_degenerate inp)
    (he : c.enable = true) (hp : c.pull_in = false) (hl : c.locked = true)
    (hev : ¬ c.counter < CN0_ESTIMATION_SAMPLES)
    (hfail : (ctl_lock_counters good c).fail > MAXIMUM_LOCK_FAIL_COUNTER) :
    (ctl_step good inp c).locked = false ∧ (ctl_step good inp c).dll_bw = c.initial_dll_bw
      ∧ (ctl_step good inp c).pll_bw = c.initial_pll_bw
      ∧ (ctl_step good inp c).el_spc = c.initial_el_spc
      ∧ (ctl_step good inp c).fail = 0 ∧ (ctl_step good inp c).enable = true
      ∧ (ctl_step good inp c).queue = c.queue ∧ (ctl_step good inp c).prs = c.prs := by
  rw [ctl_step_tracking good inp c he hp hn]
  have hd := ctl_prs_fields { c with prompt := inp.Prompt }
  simp only [] at hd
  obtain ⟨d1, d2, d3, d4, d5, d6, d7, d8, d9, d10, d11, d12, d13, d14, d15, d16, d17, d18, d19,
    d20, d21, d22, d23, d24⟩ := hd
  generalize ctl_prs { c with prompt := inp.Prompt } = d at *
  rw [← d5] at hev
  rw [if_neg hev]
  have hfail2 : (ctl_lock_counters good d).fail > MAXIMUM_LOCK_FAIL_COUNTER := by
    unfold ctl_lock_counters at hfail ⊢
    rw [d6]
    split_ifs at hfail ⊢ <;> exact hfail
  have hl2 : (ctl_lock_counters good d).locked = true := by
    unfold ctl_lock_counters
    split_ifs <;> exact d3.trans hl
  have hk : ∀ k : Ctl, k = ctl_lock_counters good d →
      (k.enable = d.enable ∧ k.queue = d.queue ∧ k.initial_dll_bw = d.initial_dll_bw
        ∧ k.initial_pll_bw = d.initial_pll_bw ∧ k.initial_el_spc = d.initial_el_spc
        ∧ k.prs = d.prs) := by
    intro k hk
    subst hk
    unfold ctl_lock_counters
    split_ifs <;> simp
  obtain ⟨k1, k2, k3, k4, k5, k6⟩ := hk _ rfl
  unfold ctl_lock_evaluation ctl_lock_transition
  generalize ctl_lock_counters good d = k at *
  simp only [hl2, Bool.not_true, Bool.false_eq_true, if_false, if_pos hfail2]
  refine ⟨trivial, ?_, ?_, ?_, trivial, ?_, ?_, ?_⟩
  · rw [k3, d11]
  · rw [k4, d13]
  · rw [k5, d23]
  · rw [k1, d1, he]
  · rw [k2, d20]
  · rw [k6, d4]

/-- C5: a lock evaluation made while the primary is carrier-locked that leaves the fail
counter above MAXIMUM_LOCK_FAIL_COUNTER clears the carrier-locked flag, sets the code and
carrier loop-filter bandwidths and the early-late spacing back to their initial values,
resets the fail counter to 0, and leaves tracking enabled and the control queue as it
was (no control message is sent). -/
theorem demotion_reverts_to_initial (E : Externals) (s : State) (inp : EpochInput)
    (ht : tracking s) (hn : non_degenerate inp) (hl : s.d_carrier_locked = true)
    (hev : runs_lock_evaluation s)
    (hfail : (lock_counters (lock_estimates E s)).d_carrier_lock_fail_counter
      > MAXIMUM_LOCK_FAIL_COUNTER) :
    (general_work E s inp).state.d_carrier_locked = false
    ∧ (general_work E s inp).state.d_code_loop_filter.noise_bandwidth = s.d_initial_dll_bw_hz
    ∧ (general_work E s inp).state.d_carrier_loop_filter.noise_bandwidth = s.d_initial_pll_bw_hz
    ∧ (general_work E s inp).state.d_early_late_code_spc_cycles
        = s.d_initial_early_late_code_space_cycles
    ∧ (general_work E s inp).state.d_carrier_lock_fail_counter = 0
    ∧ (general_work E s inp).state.d_enable_tracking = true
    ∧ (general_work E s inp).state.d_queue = s.d_queue := by
  rw [fail_after_counters] at hfail
  have h := ctl_step_demote (lock_test_passes E s) inp (ctl s) hn ht.1 ht.2 hl hev hfail
  rw [← ctl_general_work] at h
  obtain ⟨h1, h2, h3, h4, h5, h6, h7, _⟩ := h
  exact ⟨h1, h2, h3, h4, h5, h6, h7⟩

theorem ctl_step_disable (good : Bool) (inp : EpochInput) (c : Ctl) (hn : non_degenerate inp)
    (he : c.enable = true) (hp : c.pull_in = false) (hl : c.locked = false)
    (hev : ¬ c.counter < CN0_ESTIMATION_SAMPLES) (hf0 : c.fail ≤ 50)
    (hfail : (ctl_lock_counters good c).fail > MAXIMUM_LOCK_FAIL_COUNTER) :
    (ctl_step good inp c).enable = false ∧ (ctl_step good inp c).prs = false
      ∧ (ctl_step good inp c).queue = c.queue.map (fun q => q ++ [(c.channel, 2)])
      ∧ (ctl_step good inp c).locked = false := by
  have hg : good = false := by
    cases good
    · rfl
    · exfalso
      unfold ctl_lock_counters MAXIMUM_LOCK_FAIL_COUNTER at hfail
      rw [if_pos rfl] at hfail
      dsimp only at hfail
      split_ifs at hfail <;> omega
  subst hg
  rw [ctl_step_tracking false inp c he hp hn]
  have hd := ctl_prs_fields { c with prompt := inp.Prompt }
  simp only [] at hd
  obtain ⟨d1, d2, d3, d4, d5, d6, d7, d8, d9, d10, d11, d12, d13, d14, d15, d16, d17, d18, d19,
    d20, d21, d22, d23, d24⟩ := hd
  generalize ctl_prs { c with prompt := inp.Prompt } = d at *
  rw [← d5] at hev
  rw [if_neg hev]
  unfold ctl_lock_counters MAXIMUM_LOCK_FAIL_COUNTER at hfail
  rw [if_neg (by simp)] at hfail
  dsimp only at hfail
  rw [← d6] at hfail
  have hk : ctl_lock_counters false d
      = { d with counter := 0, fail := d.fail + 1, success := 0 } := by
    unfold ctl_lock_counters
    rw [if_neg (by simp)]
  unfold ctl_lock_evaluation
  rw [hk]
  unfold ctl_lock_transition
  unfold MAXIMUM_LOCK_FAIL_COUNTER MINIMUM_LOCK_SUCCESS_COUNTER
  dsimp only
  rw [d3, hl]
  simp only [Bool.not_false, if_true, if_pos hfail]
  rw [if_neg (by norm_num)]
  refine ⟨rfl, rfl, ?_, rfl⟩
  dsimp only
  rw [d20, d21]

theorem general_work_disabled (E : Externals) (s : State) (inp : EpochInput)
    (h : s.d_enable_tracking = false) :
    (general_work E s inp).state.d_enable_tracking = false
      ∧ loop_state (general_work E s inp).state = loop_state s := by
  unfold general_work
  rw [if_neg (by simp [h])]
  unfold finish tracking_disabled debug_output
  dsimp only
  split_ifs <;> exact ⟨h, rfl⟩

theorem handle_gnss_message_loop (s : State) (msg : GnssMessage) :
    (handle_gnss_message s msg).d_enable_tracking = s.d_enable_tracking
      ∧ loop_state (handle_gnss_message s msg) = loop_state s := by
  unfold handle_gnss_message
  dsimp only
  split_ifs <;> exact ⟨rfl, rfl⟩

theorem exec_disabled (E : Externals) (calls : List Call) (s : State)
    (h : s.d_enable_tracking = false) :
    (exec E s calls).d_enable_tracking = false ∧ loop_state (exec E s calls) = loop_state s := by
  induction calls generalizing s with
  | nil => exact ⟨h, rfl⟩
  | cons c calls ih =>
    cases c with
    | work inp =>
      have h1 := general_work_disabled E s inp h
      have h2 := ih (general_work E s inp).state h1.1
      exact ⟨h2.1, h2.2.trans h1.2⟩
    | message msg =>
      have h1 := handle_gnss_message_loop s msg
      have h2 := ih (handle_gnss_message s msg) (h1.1.trans h)
      exact ⟨h2.1, h2.2.trans h1.2⟩

/-- C6: in every reachable state, a lock evaluation made while the primary is not
carrier-locked that leaves the fail counter above MAXIMUM_LOCK_FAIL_COUNTER sets
`d_enable_tracking` to false, disables the secondary loop, and, when the queue is
present, posts exactly one control message (channel, 2) to it; after that, whatever
invocations of `general_work` and messages follow (until `start_tracking` is called
again), tracking stays disabled and the state of the loops does not change: no loop
runs. -/
theorem loss_of_lock_disables (E : Externals) (s : State) (inp : EpochInput)
    (hr : Reachable E s) (ht : tracking s) (hn : non_degenerate inp)
    (hl : s.d_carrier_locked = false) (hev : runs_lock_evaluation s)
    (hfail : (lock_counters (lock_estimates E s)).d_carrier_lock_fail_counter
      > MAXIMUM_LOCK_FAIL_COUNTER) :
    (general_work E s inp).state.d_enable_tracking = false
    ∧ (general_work E s inp).state.d_prs_tracking_enabled = false
    ∧ (general_work E s inp).state.d_queue = s.d_queue.map (fun q => q ++ [(s.d_channel, 2)])
    ∧ ∀ calls : List Call,
        (exec E (general_work E s inp).state calls).d_enable_tracking = false
        ∧ loop_state (exec E (general_work E s inp).state calls)
            = loop_state (general_work E s inp).state := by
  rw [fail_after_counters] at hfail
  have h := ctl_step_disable (lock_test_passes E s) inp (ctl s) hn ht.1 ht.2 hl hev
    (reachable_fail_le E s hr) hfail
  rw [← ctl_general_work] at h
  obtain ⟨h1, h2, h3, _⟩ := h
  exact ⟨h1, h2, h3, fun calls => exec_disabled E calls _ h1⟩

theorem bj_view_prs_correlate_and_propagate (E : Externals) (s : State) (inp : EpochInput) :
    bj_view (prs_correlate_and_propagate E s inp) = bj_view s
      ∧ bj_inputs (prs_correlate_and_propagate E s inp) = bj_inputs s := by
  unfold prs_correlate_and_propagate
  dsimp only
  split <;> split <;> exact ⟨rfl, rfl⟩

theorem bj_view_pll_dll (E : Externals) (s : State) :
    bj_view (pll_dll E s).1 = bj_view s ∧ bj_inputs (pll_dll E s).1 = bj_inputs s := by
  unfold pll_dll
  dsimp only
  split <;> exact ⟨rfl, rfl⟩

theorem bj_view_bump_jump_prs (E : Externals) (s : State) :
    bj_view (bump_jump_prs E s) = bj_view s := by
  unfold bump_jump_prs
  dsimp only
  split
  · split
    · split <;> split <;> rfl
    · rfl
  · rfl

theorem bj_view_prs_update (E : Externals) (s : State) :
    bj_view (prs_update E s) = bj_view s := by
  unfold prs_update
  dsimp only
  split
  · split
    · have h := bj_view_bump_jump_prs E
      split
      all_goals
        simp only [bj_view, BjView.mk.injEq] at h ⊢
        simp only [h, and_self]
    · rfl
  · rfl

theorem bj_view_prs_follow (E : Externals) (s : State) : bj_view (prs_follow E s) = bj_view s := by
  unfold prs_follow
  dsimp only
  split
  · split <;> rfl
  · rfl

theorem bj_view_lock_counters (s : State) : bj_view (lock_counters s) = bj_view s := by
  unfold lock_counters
  dsimp only
  split_ifs <;> rfl

theorem bj_view_subcarrier_code_lock (s : State) :
    bj_view (subcarrier_code_lock s) = bj_view s := by
  unfold subcarrier_code_lock
  dsimp only
  split_ifs <;> rfl

theorem bj_view_lock_transition (E : Externals) (s : State) (l : Locals) :
    bj_view (lock_transition E s l) = bj_view s := by
  have key : ∀ t : State,
      bj_view { t with d_mean_subcarrier_error := 0, d_mean_code_error := 0 } = bj_view t :=
    fun _ => rfl
  unfold lock_transition
  dsimp only
  rw [key]
  split
  · split
    · split
      · rfl
      · rfl
    · split
      · rfl
      · rfl
  · split
    · rfl
    · exact bj_view_subcarrier_code_lock s

theorem bj_view_lock_detectors (E : Externals) (s : State) (l : Locals) :
    bj_view (lock_detectors E s l) = bj_view s := by
  unfold lock_detectors
  split
  · rfl
  · unfold lock_evaluation
    rw [bj_view_lock_transition, bj_view_lock_counters]
    rfl

theorem bj_view_lock_detectors_prs (s : State) : bj_view (lock_detectors_prs s) = bj_view s := by
  have h : ∀ t, bj_view (subcarrier_code_lock_prs t) = bj_view t := by
    intro t
    unfold subcarrier_code_lock_prs
    dsimp only
    split_ifs <;> rfl
  unfold lock_detectors_prs
  dsimp only
  split
  · split
    · rfl
    · split
      · have := h { s with
          d_cn0_estimation_counter_prs := 0
          d_mean_subcarrier_error_prs :=
            s.d_mean_subcarrier_error_prs / (CN0_ESTIMATION_SAMPLES : ℚ)
          d_mean_code_error_prs := s.d_mean_code_error_prs / (CN0_ESTIMATION_SAMPLES : ℚ) }
        simp only [bj_view, BjView.mk.injEq] at this ⊢
        exact this
      · rfl
  · rfl

theorem bj_view_debug_output (s : State) : bj_view (debug_output s) = bj_view s := by
  unfold debug_output
  split <;> rfl

theorem bj_view_finish (E : Externals) (s : State) (l : Locals) (out : Gnss_Synchro) (n : Int) :
    bj_view (finish E s l out n).state = bj_view s := by
  unfold finish
  dsimp only
  split
  · split <;> rfl
  · rfl

theorem bj_view_tracking_epoch (E : Externals) (s : State) (csd : Gnss_Synchro) :
    bj_view (tracking_epoch E s csd).state = bj_view (bump_jump E (pll_dll E s).1) := by
  unfold tracking_epoch
  simp only [bj_view_finish, bj_view_debug_output, bj_view_lock_detectors_prs,
    bj_view_lock_detectors, bj_view_prs_follow, bj_view_prs_update]

theorem bump_jump_tests_ve (VE P VL : ℚ) (T : ℕ) (ve : ℤ) (h1 : VE > P) (h2 : VE > VL) :
    bump_jump_tests VE P VL T ve 0 =
      if ve + 1 ≥ (T : ℤ) then ⟨ve + 1, 0, 1, true⟩ else ⟨ve + 1, 0, 0, false⟩ := by
  have h0 : VE > P ∧ VE > VL := ⟨h1, h2⟩
  have h3 : ¬ (VL > P ∧ VL > VE) := fun h => absurd h.2 (not_lt.mpr (le_of_lt h2))
  have h4 : ¬ ((0 : ℤ) > 0) := by norm_num
  unfold bump_jump_tests
  simp only [if_pos h0, if_neg h3, if_neg h4]

theorem bj_view_general_work (E : Externals) (s : State) (inp : EpochInput)
    (ht : tracking s) (hn : non_degenerate inp) (hbj : s.d_use_bj = true)
    (hl : s.d_carrier_locked = true)
    (hve : E.cabs inp.Very_Early > E.cabs inp.Prompt
      ∧ E.cabs inp.Very_Early > E.cabs inp.Very_Late)
    (hvl : s.d_bj_vl_counter = 0) :
    bj_view (general_work E s inp).state =
      if s.d_bj_ve_counter + 1 ≥ (s.d_bj_threshold : ℤ) then
        { bj_view s with
          ve_counter := 0
          vl_counter := 0
          code_phase_chips := propagated_code_phase E s + (1 / 2 : ℚ) / s.d_chips_to_cycles }
      else
        { bj_view s with
          ve_counter := s.d_bj_ve_counter + 1
          code_phase_chips := propagated_code_phase E s } := by
  unfold general_work
  rw [if_pos ht.1, if_neg (by simp [ht.2])]
  dsimp only
  have hprs : (correlate_and_propagate E s inp).d_prs_tracking_enabled
      = s.d_prs_tracking_enabled := rfl
  rw [hprs]
  obtain ⟨s2, hs2⟩ : ∃ s2, s2 = (if s.d_prs_tracking_enabled = true then
      prs_correlate_and_propagate E (correlate_and_propagate E s inp) inp
    else correlate_and_propagate E s inp) := ⟨_, rfl⟩
  rw [← hs2]
  have h1 : bj_view (correlate_and_propagate E s inp)
      = { bj_view s with code_phase_chips := propagated_code_phase E s } := rfl
  have h2 : bj_inputs (correlate_and_propagate E s inp)
      = (s.d_carrier_locked, inp.Prompt, inp.Very_Early, inp.Very_Late) := rfl
  have hv : bj_view s2 = { bj_view s with code_phase_chips := propagated_code_phase E s }
      ∧ bj_inputs s2 = (s.d_carrier_locked, inp.Prompt, inp.Very_Early, inp.Very_Late) := by
    rw [hs2]
    split
    · have := bj_view_prs_correlate_and_propagate E (correlate_and_propagate E s inp) inp
      exact ⟨this.1.trans h1, this.2.trans h2⟩
    · exact ⟨h1, h2⟩
  have hP : s2.d_Prompt = inp.Prompt := congrArg (fun x => x.2.1) hv.2
  rw [hP, if_neg (by simp [hn.1, hn.2]), bj_view_tracking_epoch]
  have hv3 := bj_view_pll_dll E s2
  generalize (pll_dll E s2).1 = s3 at hv3 ⊢
  have hv4 : bj_view s3 = { bj_view s with code_phase_chips := propagated_code_phase E s } :=
    hv3.1.trans hv.1
  have hi4 : bj_inputs s3 = (s.d_carrier_locked, inp.Prompt, inp.Very_Early, inp.Very_Late) :=
    hv3.2.trans hv.2
  have a1 : s3.d_use_bj = true := (congrArg BjView.use_bj hv4).trans hbj
  have a2 : s3.d_bj_threshold = s.d_bj_threshold := congrArg BjView.threshold hv4
  have a3 : s3.d_bj_ve_counter = s.d_bj_ve_counter := congrArg BjView.ve_counter hv4
  have a4 : s3.d_bj_vl_counter = 0 := (congrArg BjView.vl_counter hv4).trans hvl
  have a5 : s3.d_code_phase_chips = propagated_code_phase E s :=
    congrArg BjView.code_phase_chips hv4
  have a6 : s3.d_chips_to_cycles = s.d_chips_to_cycles := congrArg BjView.chips_to_cycles hv4
  have b1 : s3.d_carrier_locked = true := (congrArg (fun x => x.1) hi4).trans hl
  have b2 : s3.d_Prompt = inp.Prompt := congrArg (fun x => x.2.1) hi4
  have b3 : s3.d_Very_Early = inp.Very_Early := congrArg (fun x => x.2.2.1) hi4
  have b4 : s3.d_Very_Late = inp.Very_Late := congrArg (fun x => x.2.2.2) hi4
  unfold bump_jump
  rw [a1, b1]
  simp only [Bool.and_self, if_true]
  rw [b2, b3, b4, a2, a3, a4, bump_jump_tests_ve _ _ _ _ _ hve.1 hve.2]
  split
  · simp only [bj_view, a1, a2, a5, a6, if_true, mul_one, hbj]
  · simp only [bj_view, a1, a2, a4, a5, a6, Bool.false_eq_true, if_false, hbj, hvl]

theorem bump_jump_streak (E : Externals) (s : State) (inputs : List EpochInput) (T : ℕ)
    (hlen : inputs.length = T)
    (hbj : s.d_use_bj = true) (hthr : s.d_bj_threshold = T)
    (hve0 : s.d_bj_ve_counter = 0) (hvl0 : s.d_bj_vl_counter = 0)
    (htrk : ∀ j < T, tracking (state_at E s inputs j)
      ∧ (state_at E s inputs j).d_carrier_locked = true)
    (hin : ∀ inp ∈ inputs, non_degenerate inp
      ∧ E.cabs inp.Very_Early > E.cabs inp.Prompt
      ∧ E.cabs inp.Very_Early > E.cabs inp.Very_Late) :
    ∀ j < T,
      (state_at E s inputs j).d_use_bj = true
      ∧ (state_at E s inputs j).d_bj_threshold = T
      ∧ (state_at E s inputs j).d_bj_ve_counter = (j : ℤ)
      ∧ (state_at E s inputs j).d_bj_vl_counter = 0
      ∧ (state_at E s inputs j).d_chips_to_cycles = s.d_chips_to_cycles := by
  intro j
  induction j with
  | zero =>
    intro _
    rw [state_at_zero]
    exact ⟨hbj, hthr, by simpa using hve0, hvl0, rfl⟩
  | succ j ih =>
    intro hj
    obtain ⟨i1, i2, i3, i4, i5⟩ := ih (by omega)
    obtain ⟨inp, hmem, hstep⟩ := state_at_succ E s inputs j (by omega)
    have hi := hin inp hmem
    have hv := bj_view_general_work E (state_at E s inputs j) inp (htrk j (by omega)).1 hi.1 i1
      (htrk j (by omega)).2 hi.2 i4
    rw [← hstep, i2, i3, if_neg (by omega)] at hv
    refine ⟨?_, ?_, ?_, ?_, ?_⟩
    · exact (congrArg BjView.use_bj hv).trans i1
    · exact (congrArg BjView.threshold hv).trans i2
    · have := congrArg BjView.ve_counter hv
      simp only [bj_view] at this
      rw [this]
      push_cast
      ring
    · exact (congrArg BjView.vl_counter hv).trans i4
    · exact (congrArg BjView.chips_to_cycles hv).trans i5

/-- C7: with bump jumping enabled, threshold `T >= 1` and both streak counters at 0, over
`T` consecutive non-degenerate tracking epochs during which the primary stays
carrier-locked and in each of which |Very-Early| exceeds both |Prompt| and |Very-Late|,
no jump occurs in the first `T - 1` epochs (the code phase an epoch leaves is the
propagated code phase), and the `T`-th epoch adds exactly half a subcarrier cycle,
`0.5 / d_chips_to_cycles` chips with jump direction +1, to the propagated code phase and
leaves both streak counters at 0. -/
theorem bump_jump_on_threshold_epoch (E : Externals) (s : State) (inputs : List EpochInput)
    (T : ℕ) (hT : 1 ≤ T) (hlen : inputs.length = T)
    (hbj : s.d_use_bj = true) (hthr : s.d_bj_threshold = T)
    (hve0 : s.d_bj_ve_counter = 0) (hvl0 : s.d_bj_vl_counter = 0)
    (htrk : ∀ j < T, tracking (state_at E s inputs j)
      ∧ (state_at E s inputs j).d_carrier_locked = true)
    (hin : ∀ inp ∈ inputs, non_degenerate inp
      ∧ E.cabs inp.Very_Early > E.cabs inp.Prompt
      ∧ E.cabs inp.Very_Early > E.cabs inp.Very_Late) :
    (∀ j, j + 1 < T →
        (state_at E s inputs (j + 1)).d_code_phase_chips
          = propagated_code_phase E (state_at E s inputs j))
    ∧ (run E s inputs).d_code_phase_chips
        = propagated_code_phase E (state_at E s inputs (T - 1)) + (1 / 2 : ℚ) / s.d_chips_to_cycles
    ∧ (run E s inputs).d_bj_ve_counter = 0
    ∧ (run E s inputs).d_bj_vl_counter = 0 := by
  have inv := bump_jump_streak E s inputs T hlen hbj hthr hve0 hvl0 htrk hin
  constructor
  · intro j hj
    obtain ⟨i1, i2, i3, i4, i5⟩ := inv j (by omega)
    obtain ⟨inp, hmem, hstep⟩ := state_at_succ E s inputs j (by omega)
    have hi := hin inp hmem
    have hv := bj_view_general_work E (state_at E s inputs j) inp (htrk j (by omega)).1 hi.1 i1
      (htrk j (by omega)).2 hi.2 i4
    rw [← hstep, i2, i3, if_neg (by omega)] at hv
    exact congrArg BjView.code_phase_chips hv
  · obtain ⟨i1, i2, i3, i4, i5⟩ := inv (T - 1) (by omega)
    obtain ⟨inp, hmem, hstep⟩ := state_at_succ E s inputs (T - 1) (by omega)
    have hi := hin inp hmem
    have hv := bj_view_general_work E (state_at E s inputs (T - 1)) inp
      (htrk (T - 1) (by omega)).1 hi.1 i1 (htrk (T - 1) (by omega)).2 hi.2 i4
    have hrun : run E s inputs = state_at E s inputs (T - 1 + 1) := by
      rw [← state_at_length, hlen, Nat.sub_add_cancel hT]
    rw [← hstep, ← hrun, i2, i3, if_pos (by omega), i5] at hv
    exact ⟨congrArg BjView.code_phase_chips hv, congrArg BjView.ve_counter hv,
      congrArg BjView.vl_counter hv⟩

theorem ctl_lock_evaluation_idx (good : Bool) (d : Ctl) :
    ((d.locked = false ∧ (ctl_lock_evaluation good d).locked = true)
        ∨ (ctl_lock_evaluation good d).idx = d.idx)
      ∧ (ctl_lock_evaluation good d).pll_prs_applies = d.pll_prs_applies
      ∧ (ctl_lock_evaluation good d).dll_prs_applies = d.dll_prs_applies
      ∧ (ctl_lock_evaluation good d).N = d.N := by
  have hk : (ctl_lock_counters good d).locked = d.locked
      ∧ (ctl_lock_counters good d).idx = d.idx
      ∧ (ctl_lock_counters good d).pll_prs_applies = d.pll_prs_applies
      ∧ (ctl_lock_counters good d).dll_prs_applies = d.dll_prs_applies
      ∧ (ctl_lock_counters good d).N = d.N := by
    unfold ctl_lock_counters
    split_ifs <;> exact ⟨rfl, rfl, rfl, rfl, rfl⟩
  unfold ctl_lock_evaluation
  obtain ⟨k1, k2, k3, k4, k5⟩ := hk
  generalize ctl_lock_counters good d = k at *
  rw [← k1, ← k2, ← k3, ← k4, ← k5]
  unfold ctl_lock_transition
  dsimp only
  cases hl : k.locked
  · simp only [Bool.not_false, if_true]
    split_ifs <;> (try dsimp only) <;> simp
  · simp only [Bool.not_true, Bool.false_eq_true, if_false]
    split_ifs <;> (try dsimp only) <;> simp

theorem ctl_step_cadence (good : Bool) (inp : EpochInput) (c : Ctl) (N r : ℕ)
    (hn : non_degenerate inp) (he : c.enable = true) (hp : c.pull_in = false)
    (hprs : c.prs = true) (hN : c.N = (N : ℤ)) (hidx : c.idx = (r : ℤ))
    (hno : ¬ (c.locked = false ∧ (ctl_step good inp c).locked = true)) :
    (ctl_step good inp c).idx = (if r + 1 = N then (0 : ℤ) else ((r + 1 : ℕ) : ℤ))
      ∧ (ctl_step good inp c).pll_prs_applies
          = c.pll_prs_applies + (if r + 1 = N then 1 else 0)
      ∧ (ctl_step good inp c).dll_prs_applies
          = c.dll_prs_applies + (if r + 1 = N then 1 else 0)
      ∧ (ctl_step good inp c).N = (N : ℤ) := by
  rw [ctl_step_tracking good inp c he hp hn] at hno ⊢
  have hd := ctl_prs_fields { c with prompt := inp.Prompt }
  simp only [] at hd
  have hd3 := hd.2.2.1
  have hd8 := hd.2.2.2.2.2.2.2.1
  have hx : (ctl_prs { c with prompt := inp.Prompt }).idx
        = (if r + 1 = N then (0 : ℤ) else ((r + 1 : ℕ) : ℤ))
      ∧ (ctl_prs { c with prompt := inp.Prompt }).pll_prs_applies
        = c.pll_prs_applies + (if r + 1 = N then 1 else 0)
      ∧ (ctl_prs { c with prompt := inp.Prompt }).dll_prs_applies
        = c.dll_prs_applies + (if r + 1 = N then 1 else 0) := by
    unfold ctl_prs
    dsimp only
    rw [hprs, hN, hidx]
    simp only [if_true, Bool.true_and, beq_iff_eq]
    by_cases h : r + 1 = N
    · have : (r : ℤ) + 1 = (N : ℤ) := by exact_mod_cast h
      rw [if_pos this, if_pos h, if_pos h]
      exact ⟨rfl, rfl, rfl⟩
    · have : ¬ ((r : ℤ) + 1 = (N : ℤ)) := by exact_mod_cast h
      rw [if_neg this, if_neg h, if_neg h]
      refine ⟨?_, rfl, rfl⟩
      dsimp only
      push_cast
      rfl
  obtain ⟨x1, x2, x3⟩ := hx
  generalize ctl_prs { c with prompt := inp.Prompt } = d at *
  by_cases hcnt : d.counter < CN0_ESTIMATION_SAMPLES
  · rw [if_pos hcnt]
    exact ⟨x1, x2, x3, hd8.trans hN⟩
  · rw [if_neg hcnt] at hno ⊢
    obtain ⟨e1, e2, e3, e4⟩ := ctl_lock_evaluation_idx good d
    rw [e2, e3, e4]
    refine ⟨?_, x2, x3, hd8.trans hN⟩
    rcases e1 with e1 | e1
    · exact absurd ⟨hd3.symm.trans e1.1, e1.2⟩ hno
    · exact e1.trans x1

theorem succ_mod_div (j N : ℕ) (hN : 1 ≤ N) :
    ((j + 1) % N = if j % N + 1 = N then 0 else j % N + 1)
      ∧ ((j + 1) / N = j / N + if j % N + 1 = N then 1 else 0)
      ∧ (N ∣ j + 1 ↔ j % N + 1 = N) := by
  have hr : j % N < N := Nat.mod_lt _ (by omega)
  have hj : N * (j / N) + j % N = j := Nat.div_add_mod j N
  by_cases h : j % N + 1 = N
  · have e : j + 1 = N * (j / N + 1) := by rw [Nat.mul_add, Nat.mul_one]; omega
    rw [if_pos h, if_pos h]
    refine ⟨?_, ?_, ?_⟩
    · rw [e, Nat.mul_mod_right]
    · rw [e, Nat.mul_div_cancel_left _ (by omega : 0 < N)]
    · exact ⟨fun _ => h, fun _ => ⟨j / N + 1, e⟩⟩
  · have e : j + 1 = N * (j / N) + (j % N + 1) := by omega
    have hlt : j % N + 1 < N := by omega
    rw [if_neg h, if_neg h]
    have hm : (j + 1) % N = j % N + 1 := by
      rw [e, Nat.mul_add_mod, Nat.mod_eq_of_lt hlt]
    refine ⟨hm, ?_, ?_⟩
    · rw [e, Nat.mul_add_div (by omega : 0 < N), Nat.div_eq_of_lt hlt]
    · constructor
      · intro hd
        have := Nat.mod_eq_zero_of_dvd hd
        omega
      · intro hh
        exact absurd hh h

theorem cadence_invariant (E : Externals) (s : State) (inputs : List EpochInput) (N k : ℕ)
    (hN : 1 ≤ N) (hlen : inputs.length = k * N)
    (hNs : s.d_prs_accumulation_length = (N : ℤ)) (hidx : s.d_prs_accumulation_index = 0)
    (htrk : ∀ j < k * N, tracking (state_at E s inputs j)
      ∧ (state_at E s inputs j).d_prs_tracking_enabled = true)
    (hno : ∀ j < k * N, ¬ ((state_at E s inputs j).d_carrier_locked = false
      ∧ (state_at E s inputs (j + 1)).d_carrier_locked = true))
    (hnd : ∀ inp ∈ inputs, non_degenerate inp) :
    ∀ j ≤ k * N,
      (ctl (state_at E s inputs j)).idx = ((j % N : ℕ) : ℤ)
      ∧ (ctl (state_at E s inputs j)).N = (N : ℤ)
      ∧ (ctl (state_at E s inputs j)).pll_prs_applies = (ctl s).pll_prs_applies + j / N
      ∧ (ctl (state_at E s inputs j)).dll_prs_applies = (ctl s).dll_prs_applies + j / N := by
  intro j
  induction j with
  | zero =>
    intro _
    rw [state_at_zero]
    refine ⟨?_, hNs, ?_, ?_⟩
    · simpa using hidx
    · simp
    · simp
  | succ j ih =>
    intro hj
    obtain ⟨i1, i2, i3, i4⟩ := ih (by omega)
    obtain ⟨inp, hmem, hstep⟩ := state_at_succ E s inputs j (by omega)
    have ht := htrk j (by omega)
    have hno1 := hno j (by omega)
    rw [hstep] at hno1 ⊢
    have hno2 : ¬ ((ctl (state_at E s inputs j)).locked = false
        ∧ (ctl_step (lock_test_passes E (state_at E s inputs j)) inp
            (ctl (state_at E s inputs j))).locked = true) := by
      rw [← ctl_general_work]
      exact hno1
    obtain ⟨c1, c2, c3, c4⟩ := ctl_step_cadence (lock_test_passes E (state_at E s inputs j)) inp
      (ctl (state_at E s inputs j)) N (j % N) (hnd inp hmem) ht.1.1 ht.1.2 ht.2 i2 i1 hno2
    obtain ⟨m1, m2, _⟩ := succ_mod_div j N hN
    rw [ctl_general_work, c1, c2, c3, c4, i3, i4, m1, m2]
    refine ⟨?_, rfl, ?_, ?_⟩
    · split_ifs <;> simp
    · omega
    · omega

/-- C10 (amended): for every accumulation length `N >= 1` and every `k`, with the
secondary loop enabled and its accumulation index at 0, over a run of `k * N` consecutive
non-degenerate tracking epochs during which the secondary loop stays enabled and is not
restarted (no epoch of the run takes the primary from not carrier-locked to
carrier-locked, which is when `start_tracking_prs` runs), the `apply` calls on the
secondary carrier and code loop filters are made in epoch `j + 1` exactly when `N`
divides `j + 1`, that is on epochs N, 2N, ..., kN, so exactly `k` times each. -/
theorem prs_update_every_N_epochs (E : Externals) (s : State) (inputs : List EpochInput)
    (N k : ℕ) (hN : 1 ≤ N) (hlen : inputs.length = k * N)
    (hNs : s.d_prs_accumulation_length = (N : ℤ)) (hidx : s.d_prs_accumulation_index = 0)
    (htrk : ∀ j < k * N, tracking (state_at E s inputs j)
      ∧ (state_at E s inputs j).d_prs_tracking_enabled = true)
    (hno : ∀ j < k * N, ¬ ((state_at E s inputs j).d_carrier_locked = false
      ∧ (state_at E s inputs (j + 1)).d_carrier_locked = true))
    (hnd : ∀ inp ∈ inputs, non_degenerate inp) :
    (∀ j < k * N,
        (state_at E s inputs (j + 1)).d_carrier_loop_filter_prs.apply_count
          = (state_at E s inputs j).d_carrier_loop_filter_prs.apply_count
            + (if N ∣ j + 1 then 1 else 0)
        ∧ (state_at E s inputs (j + 1)).d_code_loop_filter_prs.apply_count
          = (state_at E s inputs j).d_code_loop_filter_prs.apply_count
            + (if N ∣ j + 1 then 1 else 0))
    ∧ (run E s inputs).d_carrier_loop_filter_prs.apply_count
        = s.d_carrier_loop_filter_prs.apply_count + k
    ∧ (run E s inputs).d_code_loop_filter_prs.apply_count
        = s.d_code_loop_filter_prs.apply_count + k := by
  have inv := cadence_invariant E s inputs N k hN hlen hNs hidx htrk hno hnd
  have hfin := inv (k * N) (le_refl _)
  rw [← hlen, state_at_length, hlen, Nat.mul_div_cancel _ (by omega : 0 < N)] at hfin
  refine ⟨?_, hfin.2.2.1, hfin.2.2.2⟩
  intro j hj
  obtain ⟨_, _, a3, a4⟩ := inv j (by omega)
  obtain ⟨_, _, b3, b4⟩ := inv (j + 1) (by omega)
  obtain ⟨_, m2, m3⟩ := succ_mod_div j N hN
  have hif : (if N ∣ j + 1 then 1 else 0) = (if j % N + 1 = N then 1 else 0) := by
    by_cases h : N ∣ j + 1
    · rw [if_pos h, if_pos (m3.mp h)]
    · rw [if_neg h, if_neg (fun hh => h (m3.mpr hh))]
  rw [hif]
  rw [m2] at b3 b4
  constructor
  · show (ctl (state_at E s inputs (j + 1))).pll_prs_applies
      = (ctl (state_at E s inputs j)).pll_prs_applies + _
    rw [b3, a3]
    omega
  · show (ctl (state_at E s inputs (j + 1))).dll_prs_applies
      = (ctl (state_at E s inputs j)).dll_prs_applies + _
    rw [b4, a4]
    omega

theorem float_zero_add (v : FloatVal) : (FloatVal.fin 0).add v = v := by
  cases v <;> simp [FloatVal.add]

theorem complex_zero_add (c : gr_complex) : gr_complex.zero.add c = c := by
  unfold gr_complex.add gr_complex.zero
  simp [float_zero_add]

theorem accumulators_zero_add (a : Accumulators) : Accumulators.zero.add a = a := by
  unfold Accumulators.add Accumulators.zero
  simp [complex_zero_add]

theorem acc_prs_correlate_and_propagate (E : Externals) (s : State) (inp : EpochInput) :
    accumulators (prs_correlate_and_propagate E s inp)
      = (if s.d_prs_accumulation_index = 0 then Accumulators.zero else accumulators s).add
          (prs_sums inp) := by
  unfold prs_correlate_and_propagate
  dsimp only
  split <;> split <;> rfl

theorem acc_pll_dll (E : Externals) (s : State) :
    accumulators (pll_dll E s).1 = accumulators s := by
  unfold pll_dll
  dsimp only
  split <;> rfl

theorem acc_bump_jump (E : Externals) (s : State) :
    accumulators (bump_jump E s) = accumulators s := by
  unfold bump_jump
  dsimp only
  split
  · split <;> rfl
  · rfl

theorem acc_bump_jump_prs (E : Externals) (s : State) :
    accumulators (bump_jump_prs E s) = accumulators s := by
  unfold bump_jump_prs
  dsimp only
  split
  · split
    · split <;> split <;> rfl
    · rfl
  · rfl

theorem acc_prs_update (E : Externals) (s : State) :
    accumulators (prs_update E s) = accumulators s := by
  unfold prs_update
  dsimp only
  split
  · split
    · have h := acc_bump_jump_prs E
      split
      all_goals
        simp only [accumulators, Accumulators.mk.injEq] at h ⊢
        simp only [h, and_self]
    · rfl
  · rfl

theorem acc_prs_follow (E : Externals) (s : State) :
    accumulators (prs_follow E s) = accumulators s := by
  unfold prs_follow
  dsimp only
  split
  · split <;> rfl
  · rfl

theorem acc_lock_detectors (E : Externals) (s : State) (l : Locals)
    (h : s.d_carrier_locked = true ∨ s.d_cn0_estimation_counter < CN0_ESTIMATION_SAMPLES) :
    accumulators (lock_detectors E s l) = accumulators s := by
  unfold lock_detectors
  split
  · rfl
  · rename_i hc
    have hl : s.d_carrier_locked = true := h.resolve_right hc
    unfold lock_evaluation
    have hk : (lock_counters (lock_estimates E s)).d_carrier_locked = true
        ∧ accumulators (lock_counters (lock_estimates E s)) = accumulators s := by
      unfold lock_counters lock_estimates
      dsimp only
      split_ifs <;> exact ⟨hl, rfl⟩
    obtain ⟨k1, k2⟩ := hk
    generalize lock_counters (lock_estimates E s) = k at *
    rw [← k2]
    have key : ∀ t : State,
        accumulators { t with d_mean_subcarrier_error := 0, d_mean_code_error := 0 }
          = accumulators t := fun _ => rfl
    unfold lock_transition
    dsimp only
    rw [key, k1]
    simp only [Bool.not_true, Bool.false_eq_true, if_false]
    split
    · rfl
    · unfold subcarrier_code_lock
      dsimp only
      split_ifs <;> rfl

theorem acc_lock_detectors_prs (s : State) :
    accumulators (lock_detectors_prs s) = accumulators s := by
  have h : ∀ t, accumulators (subcarrier_code_lock_prs t) = accumulators t := by
    intro t
    unfold subcarrier_code_lock_prs
    dsimp only
    split_ifs <;> rfl
  unfold lock_detectors_prs
  dsimp only
  split
  · split
    · rfl
    · split
      · have := h { s with
          d_cn0_estimation_counter_prs := 0
          d_mean_subcarrier_error_prs :=
            s.d_mean_subcarrier_error_prs / (CN0_ESTIMATION_SAMPLES : ℚ)
          d_mean_code_error_prs := s.d_mean_code_error_prs / (CN0_ESTIMATION_SAMPLES : ℚ) }
        simp only [accumulators, Accumulators.mk.injEq] at this ⊢
        exact this
      · rfl
  · rfl

theorem acc_debug_output (s : State) : accumulators (debug_output s) = accumulators s := by
  unfold debug_output
  split <;> rfl

theorem acc_finish (E : Externals) (s : State) (l : Locals) (out : Gnss_Synchro) (n : Int) :
    accumulators (finish E s l out n).state = accumulators s := by
  unfold finish
  dsimp only
  split
  · split <;> rfl
  · rfl

theorem acc_tracking_epoch (E : Externals) (s : State) (csd : Gnss_Synchro)
    (h : s.d_carrier_locked = true ∨ s.d_cn0_estimation_counter < CN0_ESTIMATION_SAMPLES) :
    accumulators (tracking_epoch E s csd).state = accumulators s := by
  unfold tracking_epoch
  dsimp only
  have hc : ctl (prs_follow E (prs_update E (bump_jump E (pll_dll E s).1))) =
      if (s.d_prs_tracking_enabled
          && s.d_prs_accumulation_index == s.d_prs_accumulation_length) = true then
        { ctl s with idx := 0, pll_prs_applies := (ctl s).pll_prs_applies + 1,
                     dll_prs_applies := (ctl s).dll_prs_applies + 1 }
      else ctl s := by
    rw [ctl_prs_follow, ctl_prs_update]
    have e1 : (bump_jump E (pll_dll E s).1).d_prs_tracking_enabled = s.d_prs_tracking_enabled :=
      congrArg Ctl.prs ((ctl_bump_jump E _).trans (ctl_pll_dll E s))
    have e2 : (bump_jump E (pll_dll E s).1).d_prs_accumulation_index
        = s.d_prs_accumulation_index :=
      congrArg Ctl.idx ((ctl_bump_jump E _).trans (ctl_pll_dll E s))
    have e3 : (bump_jump E (pll_dll E s).1).d_prs_accumulation_length
        = s.d_prs_accumulation_length :=
      congrArg Ctl.N ((ctl_bump_jump E _).trans (ctl_pll_dll E s))
    rw [e1, e2, e3, ctl_bump_jump, ctl_pll_dll]
  have h5 : (prs_follow E (prs_update E (bump_jump E (pll_dll E s).1))).d_carrier_locked = true
      ∨ (prs_follow E (prs_update E (bump_jump E (pll_dll E s).1))).d_cn0_estimation_counter
          < CN0_ESTIMATION_SAMPLES := by
    have a1 := congrArg Ctl.locked hc
    have a2 := congrArg Ctl.counter hc
    have b1 : (prs_follow E (prs_update E (bump_jump E (pll_dll E s).1))).d_carrier_locked
        = s.d_carrier_locked := by
      rw [show (prs_follow E (prs_update E (bump_jump E (pll_dll E s).1))).d_carrier_locked
        = (ctl (prs_follow E (prs_update E (bump_jump E (pll_dll E s).1)))).locked from rfl, a1]
      split <;> rfl
    have b2 : (prs_follow E (prs_update E (bump_jump E (pll_dll E s).1))).d_cn0_estimation_counter
        = s.d_cn0_estimation_counter := by
      rw [show (prs_follow E (prs_update E (bump_jump E (pll_dll E s).1))).d_cn0_estimation_counter
        = (ctl (prs_follow E (prs_update E (bump_jump E (pll_dll E s).1)))).counter from rfl, a2]
      split <;> rfl
    rw [b1, b2]
    exact h
  rw [acc_finish, acc_debug_output, acc_lock_detectors_prs, acc_lock_detectors _ _ _ h5,
    acc_prs_follow, acc_prs_update, acc_bump_jump, acc_pll_dll]

theorem ctl_lock_evaluation_locked (good : Bool) (d : Ctl) (hl : d.locked = true) :
    (ctl_lock_evaluation good d).enable = d.enable
      ∧ (ctl_lock_evaluation good d).pull_in = d.pull_in
      ∧ (ctl_lock_evaluation good d).prs = d.prs
      ∧ (ctl_lock_evaluation good d).counter = 0 := by
  have hk : (ctl_lock_counters good d).locked = true
      ∧ (ctl_lock_counters good d).enable = d.enable
      ∧ (ctl_lock_counters good d).pull_in = d.pull_in
      ∧ (ctl_lock_counters good d).prs = d.prs
      ∧ (ctl_lock_counters good d).counter = 0 := by
    unfold ctl_lock_counters
    split_ifs <;> exact ⟨hl, rfl, rfl, rfl, rfl⟩
  unfold ctl_lock_evaluation
  obtain ⟨k1, k2, k3, k4, k5⟩ := hk
  generalize ctl_lock_counters good d = k at *
  rw [← k2, ← k3, ← k4]
  unfold ctl_lock_transition
  dsimp only
  rw [k1]
  simp only [Bool.not_true, Bool.false_eq_true, if_false]
  split_ifs <;> (try dsimp only) <;> exact ⟨rfl, rfl, rfl, k5⟩

theorem ctl_step_locked (good : Bool) (inp : EpochInput) (c : Ctl) (hn : non_degenerate inp)
    (he : c.enable = true) (hp : c.pull_in = false) (hl : c.locked = true) :
    (ctl_step good inp c).enable = true ∧ (ctl_step good inp c).pull_in = false
      ∧ (ctl_step good inp c).prs = c.prs
      ∧ ((ctl_step good inp c).locked = true
          ∨ (ctl_step good inp c).counter < CN0_ESTIMATION_SAMPLES)
      ∧ (ctl_step good inp c).idx = (ctl_prs { c with prompt := inp.Prompt }).idx
      ∧ (ctl_step good inp c).N = c.N := by
  rw [ctl_step_tracking good inp c he hp hn]
  have hd := ctl_prs_fields { c with prompt := inp.Prompt }
  simp only [] at hd
  obtain ⟨d1, d2, d3, d4, d5, d6, d7, d8, d9, d10, d11, d12, d13, d14, d15, d16, d17, d18, d19,
    d20, d21, d22, d23, d24⟩ := hd
  generalize ctl_prs { c with prompt := inp.Prompt } = d at *
  by_cases hcnt : d.counter < CN0_ESTIMATION_SAMPLES
  · rw [if_pos hcnt]
    exact ⟨d1.trans he, d2.trans hp, d4, Or.inl (d3.trans hl), rfl, d8⟩
  · rw [if_neg hcnt]
    obtain ⟨k1, k2, k3, k4⟩ := ctl_lock_evaluation_locked good d (d3.trans hl)
    obtain ⟨e1, _, _, e4⟩ := ctl_lock_evaluation_idx good d
    refine ⟨k1.trans (d1.trans he), k2.trans (d2.trans hp), k3.trans d4, Or.inr ?_, ?_,
      e4.trans d8⟩
    · rw [k4]; unfold CN0_ESTIMATION_SAMPLES; norm_num
    · rcases e1 with e1 | e1
      · rw [d3.trans hl] at e1
        exact absurd e1.1 (by simp)
      · exact e1

theorem acc_general_work (E : Externals) (s : State) (inp : EpochInput)
    (ht : tracking s) (hn : non_degenerate inp) (hprs : s.d_prs_tracking_enabled = true)
    (h : s.d_carrier_locked = true ∨ s.d_cn0_estimation_counter < CN0_ESTIMATION_SAMPLES) :
    accumulators (general_work E s inp).state
      = (if s.d_prs_accumulation_index = 0 then Accumulators.zero else accumulators s).add
          (prs_sums inp) := by
  unfold general_work
  rw [if_pos ht.1, if_neg (by simp [ht.2])]
  dsimp only
  have hprs1 : (correlate_and_propagate E s inp).d_prs_tracking_enabled = true := hprs
  rw [if_pos hprs1]
  have hc : ctl (prs_correlate_and_propagate E (correlate_and_propagate E s inp) inp)
      = { ctl s with prompt := inp.Prompt, idx := s.d_prs_accumulation_index + 1 } := by
    rw [ctl_prs_correlate_and_propagate]
    rfl
  have ha : accumulators (prs_correlate_and_propagate E (correlate_and_propagate E s inp) inp)
      = (if s.d_prs_accumulation_index = 0 then Accumulators.zero else accumulators s).add
          (prs_sums inp) := by
    rw [acc_prs_correlate_and_propagate]
    rfl
  generalize prs_correlate_and_propagate E (correlate_and_propagate E s inp) inp = s2 at hc ha ⊢
  have hP : s2.d_Prompt = inp.Prompt := congrArg Ctl.prompt hc
  have hl2 : s2.d_carrier_locked = s.d_carrier_locked := congrArg Ctl.locked hc
  have hc2 : s2.d_cn0_estimation_counter = s.d_cn0_estimation_counter :=
    congrArg Ctl.counter hc
  rw [hP, if_neg (by simp [hn.1, hn.2]), acc_tracking_epoch E s2 _ (by rw [hl2, hc2]; exact h),
    ha]

/-- C9 (amended): for every accumulation length `N >= 1`, in the tracking epoch in which
the secondary accumulation index wraps from `N - 1` back to 0 (primary carrier-locked,
secondary loop enabled) the five secondary accumulators are not cleared: at its end they
hold the sums that the update of that epoch read (what they held on entry plus the sums
of the epoch, or, for `N = 1`, the sums of the epoch alone).  They are cleared at the
start of the accumulate step of the next epoch, which is entered with index 0, so at the
end of that next epoch each accumulator equals exactly that epoch's correlator sum. -/
theorem accumulators_cleared_at_index_zero (E : Externals) (s : State) (i1 i2 : EpochInput)
    (N : ℕ) (hN : 1 ≤ N) (ht : tracking s) (hprs : s.d_prs_tracking_enabled = true)
    (hl : s.d_carrier_locked = true) (hNs : s.d_prs_accumulation_length = (N : ℤ))
    (hidx : s.d_prs_accumulation_index = (N : ℤ) - 1)
    (hn1 : non_degenerate i1) (hn2 : non_degenerate i2) :
    (general_work E s i1).state.d_prs_accumulation_index = 0
    ∧ accumulators (general_work E s i1).state
        = (if N = 1 then Accumulators.zero else accumulators s).add (prs_sums i1)
    ∧ accumulators (general_work E (general_work E s i1).state i2).state = prs_sums i2 := by
  have hc := ctl_step_locked (lock_test_passes E s) i1 (ctl s) hn1 ht.1 ht.2 hl
  rw [← ctl_general_work] at hc
  obtain ⟨c1, c2, c3, c4, c5, c6⟩ := hc
  have hidx1 : (general_work E s i1).state.d_prs_accumulation_index = 0 := by
    have : (ctl_prs { ctl s with prompt := i1.Prompt }).idx = 0 := by
      unfold ctl_prs
      dsimp only
      have e1 : (ctl s).prs = true := hprs
      have e2 : (ctl s).idx = (N : ℤ) - 1 := hidx
      have e3 : (ctl s).N = (N : ℤ) := hNs
      rw [e1, e2, e3]
      simp
    exact c5.trans this
  have ha1 := acc_general_work E s i1 ht hn1 hprs (Or.inl hl)
  have ha2 := acc_general_work E (general_work E s i1).state i2 ⟨c1, c2⟩ hn2
    (c3.trans hprs) c4
  rw [hidx1, if_pos rfl, accumulators_zero_add] at ha2
  refine ⟨hidx1, ?_, ha2⟩
  rw [ha1, hidx]
  by_cases h : N = 1
  · subst h
    simp
  · have : ¬ ((N : ℤ) - 1 = 0) := by omega
    rw [if_neg this, if_neg h]

theorem reachable_run (E : Externals) (inputs : List EpochInput) (s : State)
    (h : Reachable E s) : Reachable E (run E s inputs) := by
  induction inputs generalizing s with
  | nil => exact h
  | cons inp inputs ih => exact ih _ (Reachable.general_work inp h)

theorem reachable_ex_start : Reachable ex_E ex_start :=
  Reachable.start_tracking (Reachable.set_gnss_synchro _ (Reachable.construct _ _))

theorem ctl_state_at_ex (inputs : List EpochInput) (j : ℕ) :
    ctl (state_at ex_E ex_start inputs j) = ctl_run ex_E (inputs.take j) ex_start_ctl := by
  unfold state_at
  rw [ctl_run_ex, ctl_ex_start]

theorem non_degenerate_replicate (n : ℕ) (inp : EpochInput) (h : non_degenerate inp) :
    ∀ i ∈ List.replicate n inp, non_degenerate i := by
  intro i hi
  rw [List.eq_of_mem_replicate hi]
  exact h

set_option maxRecDepth 1000000 in
theorem ex_tracking_facts :
    ex_tracking.d_enable_tracking = true ∧ ex_tracking.d_pull_in = false
      ∧ ex_tracking.d_carrier_locked = false ∧ ex_tracking.d_carrier_lock_success_counter = 0
      ∧ ex_tracking.d_cn0_estimation_counter = 0
      ∧ ex_tracking.d_carrier_lock_fail_counter ≤ MAXIMUM_LOCK_FAIL_COUNTER
      ∧ ex_tracking.d_carrier_lock_threshold = CARRIER_LOCK_THRESHOLD := by
  decide!

theorem ex_steady_good (s : State) :
    cn0_estimate ex_E_steady s > 30 ∧ lock_statistic ex_E_steady s > 85 / 100 := by
  constructor
  · show (40 : ℚ) > 30
    norm_num
  · show (1 : ℚ) > 85 / 100
    norm_num

/-- Witness for C1: the concrete channel, with estimators that report a steady signal, is
carrier-locked with the final bandwidths after 231 clean epochs. -/
theorem lock_after_231_epochs_witness :
    (run ex_E_steady ex_tracking (List.replicate 231 ex_good)).d_carrier_locked = true
    ∧ (run ex_E_steady ex_tracking (List.replicate 231 ex_good)).d_code_loop_filter.noise_bandwidth
        = ex_tracking.d_final_dll_bw_hz
    ∧ (run ex_E_steady ex_tracking
        (List.replicate 231 ex_good)).d_carrier_loop_filter.noise_bandwidth
        = ex_tracking.d_final_pll_bw_hz :=
  have h := lock_after_231_epochs ex_E_steady ex_tracking (List.replicate 231 ex_good)
    (List.length_replicate _ _) ex_tracking_facts.1 ex_tracking_facts.2.1
    ex_tracking_facts.2.2.1 ex_tracking_facts.2.2.2.1 ex_tracking_facts.2.2.2.2.1
    ex_tracking_facts.2.2.2.2.2.1 ex_tracking_facts.2.2.2.2.2.2
    (non_degenerate_replicate _ _ (by decide)) (fun _ _ => ex_steady_good _)
  ⟨h.2.1, h.2.2.1, h.2.2.2.1⟩

set_option maxRecDepth 1000000 in
/-- Counterexample to C1: from Tracking-Unlocked with the success counter at 0, after 10
consecutive tracking epochs in each of which the CN0 estimate is 40 dB-Hz and the
carrier-lock statistic is 1, the carrier-locked flag is still false and the carrier
loop-filter bandwidth is still the initial 15 Hz, not the final 5 Hz. -/
theorem not_locked_after_10_epochs :
    (ex_tracking.d_enable_tracking = true ∧ ex_tracking.d_pull_in = false
      ∧ ex_tracking.d_carrier_locked = false
      ∧ ex_tracking.d_carrier_lock_success_counter = 0)
    ∧ (∀ j < 10,
        cn0_estimate ex_E_steady (state_at ex_E_steady ex_tracking (List.replicate 10 ex_good) j)
            > 30
        ∧ lock_statistic ex_E_steady
            (state_at ex_E_steady ex_tracking (List.replicate 10 ex_good) j) > 85 / 100)
    ∧ (run ex_E_steady ex_tracking (List.replicate 10 ex_good)).d_carrier_locked = false
    ∧ (run ex_E_steady ex_tracking
        (List.replicate 10 ex_good)).d_carrier_loop_filter.noise_bandwidth = 15
    ∧ ex_tracking.d_final_pll_bw_hz = 5 := by
  refine ⟨by decide!, fun _ _ => ex_steady_good _, by decide!, by decide!, by decide!⟩

theorem ctl_enable (s : State) : s.d_enable_tracking = (ctl s).enable := rfl

theorem ctl_pull_in (s : State) : s.d_pull_in = (ctl s).pull_in := rfl

theorem ctl_locked (s : State) : s.d_carrier_locked = (ctl s).locked := rfl

theorem ctl_prs_enabled (s : State) : s.d_prs_tracking_enabled = (ctl s).prs := rfl

theorem ctl_counter (s : State) : s.d_cn0_estimation_counter = (ctl s).counter := rfl

theorem ctl_idx (s : State) : s.d_prs_accumulation_index = (ctl s).idx := rfl

theorem ctl_N (s : State) : s.d_prs_accumulation_length = (ctl s).N := rfl

theorem ctl_preamble (s : State) : s.d_preamble_start_detected = (ctl s).preamble := rfl

theorem ctl_rx_time (s : State) : s.d_rx_time_set = (ctl s).rx_time := rfl

theorem ctl_pll_prs_applies (s : State) :
    s.d_carrier_loop_filter_prs.apply_count = (ctl s).pll_prs_applies := rfl

theorem ctl_dll_prs_applies (s : State) :
    s.d_code_loop_filter_prs.apply_count = (ctl s).dll_prs_applies := rfl

theorem ctl_queue (s : State) : s.d_queue = (ctl s).queue := rfl

theorem ctl_channel (s : State) : s.d_channel = (ctl s).channel := rfl

theorem ctl_run_ex_start (inputs : List EpochInput) :
    ctl (run ex_E ex_start inputs) = ctl_run ex_E inputs ex_start_ctl := by
  rw [ctl_run_ex, ctl_ex_start]

/-- Witness for C2: in the run of 231 clean epochs of the concrete channel, epoch 21 runs
the lock evaluation. -/
theorem lock_evaluation_every_21_epochs_witness :
    runs_lock_evaluation (state_at ex_E_steady ex_tracking (List.replicate 231 ex_good) 20)
      ↔ 21 ∣ 20 + 1 :=
  lock_evaluation_every_21_epochs ex_E_steady ex_tracking (List.replicate 231 ex_good)
    ex_tracking_facts.2.2.2.2.1
    (fun j hj =>
      have inv := unlocked_invariant ex_E_steady ex_tracking (List.replicate 231 ex_good)
        (List.length_replicate _ _) ex_tracking_facts.1 ex_tracking_facts.2.1
        ex_tracking_facts.2.2.1 ex_tracking_facts.2.2.2.1 ex_tracking_facts.2.2.2.2.1
        ex_tracking_facts.2.2.2.2.2.1 ex_tracking_facts.2.2.2.2.2.2
        (non_degenerate_replicate _ _ (by decide)) (fun _ _ => ex_steady_good _) j
        (by rw [List.length_replicate] at hj; omega)
      ⟨inv.1, inv.2.1⟩)
    (non_degenerate_replicate _ _ (by decide)) 20 (by rw [List.length_replicate]; norm_num)

set_option maxRecDepth 1000000 in
/-- Counterexample to C2: started with the estimation counter at 0, the concrete channel
does not run the lock evaluation on epoch 20 (the CN0 estimate it stores is still the
initial 0 after epoch 20) and runs it on epoch 21 (which stores the estimate 40). -/
theorem no_lock_evaluation_on_epoch_20 :
    ex_tracking.d_cn0_estimation_counter = 0
    ∧ ¬ runs_lock_evaluation (state_at ex_E_steady ex_tracking (List.replicate 21 ex_good) 19)
    ∧ (state_at ex_E_steady ex_tracking (List.replicate 21 ex_good) 20).d_CN0_SNV_dB_Hz = 0
    ∧ runs_lock_evaluation (state_at ex_E_steady ex_tracking (List.replicate 21 ex_good) 20)
    ∧ (state_at ex_E_steady ex_tracking (List.replicate 21 ex_good) 21).d_CN0_SNV_dB_Hz = 40 := by
  decide!

set_option maxRecDepth 1000000 in
/-- The facts on the two long runs of the concrete channel, `ex_to_demotion` and
`ex_to_restart`, which share their first 1303 epochs, evaluated together. -/
theorem ex_long_run_facts :
    ((ctl_run ex_E (ex_to_demotion.take 1302) ex_start_ctl).enable = true
      ∧ (ctl_run ex_E (ex_to_demotion.take 1302) ex_start_ctl).pull_in = false
      ∧ (ctl_run ex_E (ex_to_demotion.take 1302) ex_start_ctl).locked = true
      ∧ (ctl_run ex_E (ex_to_demotion.take 1302) ex_start_ctl).prs = true
      ∧ ¬ (ctl_run ex_E (ex_to_demotion.take 1302) ex_start_ctl).counter < CN0_ESTIMATION_SAMPLES
      ∧ (ctl_lock_counters (ctl_passes ex_E (ctl_run ex_E (ex_to_demotion.take 1302) ex_start_ctl))
          (ctl_run ex_E (ex_to_demotion.take 1302) ex_start_ctl)).fail > MAXIMUM_LOCK_FAIL_COUNTER
      ∧ (ctl_run ex_E ex_to_demotion ex_start_ctl).locked = false
      ∧ (ctl_run ex_E ex_to_demotion ex_start_ctl).prs = true
      ∧ ex_to_demotion.length = 1303)
    ∧
    (((ctl_run ex_E ex_to_restart ex_start_ctl).prs = true
        ∧ (ctl_run ex_E ex_to_restart ex_start_ctl).idx = 0
        ∧ (ctl_run ex_E ex_to_restart ex_start_ctl).N = 4
        ∧ (ctl_run ex_E ex_to_restart ex_start_ctl).pll_prs_applies = 325
        ∧ (ctl_run ex_E ex_to_restart ex_start_ctl).dll_prs_applies = 325)
      ∧ (∀ j < 5,
          (ctl_run ex_E ((List.replicate 4 ex_good).take j)
            (ctl_run ex_E ex_to_restart ex_start_ctl)).enable = true
          ∧ (ctl_run ex_E ((List.replicate 4 ex_good).take j)
            (ctl_run ex_E ex_to_restart ex_start_ctl)).pull_in = false
          ∧ (ctl_run ex_E ((List.replicate 4 ex_good).take j)
            (ctl_run ex_E ex_to_restart ex_start_ctl)).prs = true)
      ∧ (ctl_run ex_E ((List.replicate 4 ex_good).take 1)
          (ctl_run ex_E ex_to_restart ex_start_ctl)).locked = false
      ∧ (ctl_run ex_E ((List.replicate 4 ex_good).take 2)
          (ctl_run ex_E ex_to_restart ex_start_ctl)).locked = true
      ∧ (ctl_run ex_E (List.replicate 4 ex_good)
          (ctl_run ex_E ex_to_restart ex_start_ctl)).pll_prs_applies = 325
      ∧ (ctl_run ex_E (List.replicate 4 ex_good)
          (ctl_run ex_E ex_to_restart ex_start_ctl)).dll_prs_applies = 325)
    ∧
    ((ctl_run ex_E ((List.replicate 4 ex_good).take 2)
          (ctl_run ex_E ex_to_restart ex_start_ctl)).idx = 0
      ∧ (ctl_run ex_E ((List.replicate 4 ex_good).take 3)
          (ctl_run ex_E ex_to_restart ex_start_ctl)).idx = 1) := by
  decide!

theorem ex_demotion_facts :
    (ctl_run ex_E (ex_to_demotion.take 1302) ex_start_ctl).enable = true
    ∧ (ctl_run ex_E (ex_to_demotion.take 1302) ex_start_ctl).pull_in = false
    ∧ (ctl_run ex_E (ex_to_demotion.take 1302) ex_start_ctl).locked = true
    ∧ (ctl_run ex_E (ex_to_demotion.take 1302) ex_start_ctl).prs = true
    ∧ ¬ (ctl_run ex_E (ex_to_demotion.take 1302) ex_start_ctl).counter < CN0_ESTIMATION_SAMPLES
    ∧ (ctl_lock_counters (ctl_passes ex_E (ctl_run ex_E (ex_to_demotion.take 1302) ex_start_ctl))
        (ctl_run ex_E (ex_to_demotion.take 1302) ex_start_ctl)).fail > MAXIMUM_LOCK_FAIL_COUNTER
    ∧ (ctl_run ex_E ex_to_demotion ex_start_ctl).locked = false
    ∧ (ctl_run ex_E ex_to_demotion ex_start_ctl).prs = true
    ∧ ex_to_demotion.length = 1303 :=
  ex_long_run_facts.1

/-- C3, evaluated at a failing input: in the concrete channel the invocation that takes
the primary from carrier-locked to not carrier-locked (the 51st failed lock evaluation
after the promotion) returns with `d_prs_tracking_enabled` still true. -/
theorem demotion_leaves_prs_enabled :
    (state_at ex_E ex_start ex_to_demotion 1302).d_carrier_locked = true
    ∧ (state_at ex_E ex_start ex_to_demotion 1302).d_prs_tracking_enabled = true
    ∧ (run ex_E ex_start ex_to_demotion).d_carrier_locked = false
    ∧ (run ex_E ex_start ex_to_demotion).d_prs_tracking_enabled = true := by
  rw [ctl_locked, ctl_prs_enabled, ctl_locked (run ex_E ex_start ex_to_demotion),
    ctl_prs_enabled (run ex_E ex_start ex_to_demotion), ctl_state_at_ex, ctl_run_ex_start]
  exact ⟨ex_demotion_facts.2.2.1, ex_demotion_facts.2.2.2.1, ex_demotion_facts.2.2.2.2.2.2.1,
    ex_demotion_facts.2.2.2.2.2.2.2.1⟩

set_option maxRecDepth 1000000 in
theorem ex_promotion_facts :
    (ctl_run ex_E ((ex_clean 231).take 231) ex_start_ctl).prs = false
    ∧ (ctl_run ex_E (ex_clean 231) ex_start_ctl).prs = true
    ∧ (ctl_run ex_E (ex_clean 231) ex_start_ctl).preamble = false
    ∧ (ctl_run ex_E (ex_clean 231) ex_start_ctl).rx_time = false := by
  decide!

/-- C4, evaluated at a failing input: in the concrete channel, to which no message has
been delivered, the invocation that promotes the primary sets `d_prs_tracking_enabled`
from false to true while the preamble-detected flag and the receiver-time-set flag are
both false. -/
theorem prs_enabled_without_gate :
    (state_at ex_E ex_start (ex_clean 231) 231).d_prs_tracking_enabled = false
    ∧ (run ex_E ex_start (ex_clean 231)).d_prs_tracking_enabled = true
    ∧ (run ex_E ex_start (ex_clean 231)).d_preamble_start_detected = false
    ∧ (run ex_E ex_start (ex_clean 231)).d_rx_time_set = false := by
  rw [ctl_prs_enabled, ctl_prs_enabled (run ex_E ex_start (ex_clean 231)), ctl_preamble,
    ctl_rx_time, ctl_state_at_ex, ctl_run_ex_start]
  exact ex_promotion_facts

/-- Witness for C5: the 51st failed lock evaluation after the promotion of the concrete
channel clears the carrier-locked flag and leaves tracking enabled. -/
theorem demotion_reverts_to_initial_witness :
    (general_work ex_E (state_at ex_E ex_start ex_to_demotion 1302) ex_bad).state.d_carrier_locked
        = false
    ∧ (general_work ex_E (state_at ex_E ex_start ex_to_demotion 1302)
        ex_bad).state.d_enable_tracking = true :=
  have h := demotion_reverts_to_initial ex_E (state_at ex_E ex_start ex_to_demotion 1302) ex_bad
    (by
      unfold tracking
      rw [ctl_enable, ctl_pull_in, ctl_state_at_ex]
      exact ⟨ex_demotion_facts.1, ex_demotion_facts.2.1⟩)
    (by decide)
    (by
      rw [ctl_locked, ctl_state_at_ex]
      exact ex_demotion_facts.2.2.1)
    (by
      unfold runs_lock_evaluation
      rw [ctl_counter, ctl_state_at_ex]
      exact ex_demotion_facts.2.2.2.2.1)
    (by
      rw [fail_after_counters, passes_ex, ctl_state_at_ex]
      exact ex_demotion_facts.2.2.2.2.2.1)
  ⟨h.1, h.2.2.2.2.2.1⟩

set_option maxRecDepth 1000000 in
theorem ex_disable_facts :
    (ctl_run ex_E (ex_to_disable.take 1071) ex_start_ctl).enable = true
    ∧ (ctl_run ex_E (ex_to_disable.take 1071) ex_start_ctl).pull_in = false
    ∧ (ctl_run ex_E (ex_to_disable.take 1071) ex_start_ctl).locked = false
    ∧ ¬ (ctl_run ex_E (ex_to_disable.take 1071) ex_start_ctl).counter < CN0_ESTIMATION_SAMPLES
    ∧ (ctl_lock_counters (ctl_passes ex_E (ctl_run ex_E (ex_to_disable.take 1071) ex_start_ctl))
        (ctl_run ex_E (ex_to_disable.take 1071) ex_start_ctl)).fail > MAXIMUM_LOCK_FAIL_COUNTER
    ∧ (ctl_run ex_E (ex_to_disable.take 1071) ex_start_ctl).queue = some []
    ∧ (ctl_run ex_E (ex_to_disable.take 1071) ex_start_ctl).channel = 0 := by
  decide!

/-- Witness for C6: the 51st failed lock evaluation of the concrete channel, which never
locked, disables tracking and the secondary loop and posts the one message (0, 2) to the
empty queue. -/
theorem loss_of_lock_disables_witness :
    (general_work ex_E (state_at ex_E ex_start ex_to_disable 1071) ex_bad).state.d_enable_tracking
        = false
    ∧ (general_work ex_E (state_at ex_E ex_start ex_to_disable 1071)
        ex_bad).state.d_prs_tracking_enabled = false
    ∧ (general_work ex_E (state_at ex_E ex_start ex_to_disable 1071) ex_bad).state.d_queue
        = some [(0, 2)] :=
  have h := loss_of_lock_disables ex_E (state_at ex_E ex_start ex_to_disable 1071) ex_bad
    (reachable_run ex_E _ ex_start reachable_ex_start)
    (by
      unfold tracking
      rw [ctl_enable, ctl_pull_in, ctl_state_at_ex]
      exact ⟨ex_disable_facts.1, ex_disable_facts.2.1⟩)
    (by decide)
    (by
      rw [ctl_locked, ctl_state_at_ex]
      exact ex_disable_facts.2.2.1)
    (by
      unfold runs_lock_evaluation
      rw [ctl_counter, ctl_state_at_ex]
      exact ex_disable_facts.2.2.2.1)
    (by
      rw [fail_after_counters, passes_ex, ctl_state_at_ex]
      exact ex_disable_facts.2.2.2.2.1)
  ⟨h.1, h.2.1, by
    have hq := h.2.2.1
    rw [ctl_queue (state_at ex_E ex_start ex_to_disable 1071),
      ctl_channel (state_at ex_E ex_start ex_to_disable 1071), ctl_state_at_ex,
      ex_disable_facts.2.2.2.2.2.1, ex_disable_facts.2.2.2.2.2.2] at hq
    exact hq⟩

set_option maxRecDepth 1000000 in
theorem ex_nan_facts :
    (ctl_run ex_E (ex_nan_run.take 235) ex_start_ctl).enable = true
    ∧ (ctl_run ex_E (ex_nan_run.take 235) ex_start_ctl).pull_in = false
    ∧ (ctl_run ex_E (ex_nan_run.take 235) ex_start_ctl).prs = true
    ∧ (ctl_run ex_E (ex_nan_run.take 235) ex_start_ctl).N = 4
    ∧ (ctl_run ex_E (ex_nan_run.take 235) ex_start_ctl).idx = 3
    ∧ (ctl_run ex_E (ex_nan_run.take 236) ex_start_ctl).idx = 4
    ∧ (ctl_run ex_E (ex_nan_run.take 236) ex_start_ctl).pll_prs_applies = 0
    ∧ (ctl_run ex_E ex_nan_run ex_start_ctl).idx = 12
    ∧ (ctl_run ex_E ex_nan_run ex_start_ctl).pll_prs_applies = 0
    ∧ (ctl_run ex_E ex_nan_run ex_start_ctl).prs = true := by
  decide!

/-- C8, evaluated at a failing input: in the concrete channel (accumulation length 4,
secondary loop started, index 3), the invocation that takes the NaN early-return path
returns with the accumulation index at 4, outside `[0, 4)`; in the 8 clean epochs that
follow the index only grows, to 12, and no secondary filter update is ever made. -/
theorem nan_epoch_leaves_index_at_N :
    (state_at ex_E ex_start ex_nan_run 235).d_prs_tracking_enabled = true
    ∧ (state_at ex_E ex_start ex_nan_run 235).d_prs_accumulation_length = 4
    ∧ (state_at ex_E ex_start ex_nan_run 235).d_prs_accumulation_index = 3
    ∧ (state_at ex_E ex_start ex_nan_run 236).d_prs_accumulation_index = 4
    ∧ (state_at ex_E ex_start ex_nan_run 236).d_carrier_loop_filter_prs.apply_count = 0
    ∧ (run ex_E ex_start ex_nan_run).d_prs_accumulation_index = 12
    ∧ (run ex_E ex_start ex_nan_run).d_carrier_loop_filter_prs.apply_count = 0
    ∧ (run ex_E ex_start ex_nan_run).d_prs_tracking_enabled = true := by
  rw [ctl_prs_enabled, ctl_N, ctl_idx, ctl_idx (state_at ex_E ex_start ex_nan_run 236),
    ctl_pll_prs_applies, ctl_idx (run ex_E ex_start ex_nan_run),
    ctl_pll_prs_applies (run ex_E ex_start ex_nan_run),
    ctl_prs_enabled (run ex_E ex_start ex_nan_run), ctl_state_at_ex, ctl_state_at_ex,
    ctl_run_ex_start]
  exact ⟨ex_nan_facts.2.2.1, ex_nan_facts.2.2.2.1, ex_nan_facts.2.2.2.2.1,
    ex_nan_facts.2.2.2.2.2.1, ex_nan_facts.2.2.2.2.2.2.1, ex_nan_facts.2.2.2.2.2.2.2.1,
    ex_nan_facts.2.2.2.2.2.2.2.2.1, ex_nan_facts.2.2.2.2.2.2.2.2.2⟩

theorem ctl_state_at_ex_locked (inputs : List EpochInput) (j : ℕ) :
    ctl (state_at ex_E ex_locked inputs j)
      = ctl_run ex_E (ex_clean 231 ++ inputs.take j) ex_start_ctl := by
  unfold state_at ex_locked
  rw [← run_append, ctl_run_ex_start]

set_option maxRecDepth 1000000 in
/-- The facts on the carrier-locked concrete channel `ex_locked` and on the runs that
extend it, evaluated together. -/
theorem ex_locked_run_facts :
    (ex_locked.d_use_bj = true ∧ ex_locked.d_bj_threshold = 3
        ∧ ex_locked.d_bj_ve_counter = 0 ∧ ex_locked.d_bj_vl_counter = 0)
    ∧
    (ex_before_wrap.d_prs_tracking_enabled = true
      ∧ ex_before_wrap.d_prs_accumulation_length = 4
      ∧ ex_before_wrap.d_prs_accumulation_index = 3
      ∧ (general_work ex_E ex_before_wrap ex_good).state.d_prs_accumulation_index = 0
      ∧ (general_work ex_E ex_before_wrap ex_good).state.d_P_acumm_prs
          = ⟨FloatVal.fin 4, FloatVal.fin 0⟩
      ∧ (general_work ex_E ex_before_wrap ex_good).state.d_P_acumm_prs ≠ gr_complex.zero)
    ∧
    (tracking (state_at ex_E ex_locked (List.replicate 3 ex_very_late) 2)
      ∧ jumps ex_E (state_at ex_E ex_locked (List.replicate 3 ex_very_late) 2) ex_very_late
      ∧ (state_at ex_E ex_locked (List.replicate 3 ex_very_late) 2).d_code_phase_chips = 0
      ∧ (run ex_E ex_locked (List.replicate 3 ex_very_late)).d_code_phase_chips = -1 / 2
      ∧ ¬ (0 ≤ (run ex_E ex_locked (List.replicate 3 ex_very_late)).d_code_phase_chips)) := by
  decide!

theorem ex_locked_bj_facts :
    ex_locked.d_use_bj = true ∧ ex_locked.d_bj_threshold = 3
      ∧ ex_locked.d_bj_ve_counter = 0 ∧ ex_locked.d_bj_vl_counter = 0 :=
  ex_locked_run_facts.1

set_option maxRecDepth 1000000 in
theorem ex_very_early_facts :
    ∀ j < 3,
      (ctl_run ex_E (ex_clean 231 ++ (List.replicate 3 ex_very_early).take j) ex_start_ctl).enable
          = true
      ∧ (ctl_run ex_E (ex_clean 231 ++ (List.replicate 3 ex_very_early).take j)
          ex_start_ctl).pull_in = false
      ∧ (ctl_run ex_E (ex_clean 231 ++ (List.replicate 3 ex_very_early).take j)
          ex_start_ctl).locked = true := by
  decide!

set_option maxRecDepth 1000000 in
theorem ex_very_early_input :
    non_degenerate ex_very_early
      ∧ ex_E.cabs ex_very_early.Very_Early > ex_E.cabs ex_very_early.Prompt
      ∧ ex_E.cabs ex_very_early.Very_Early > ex_E.cabs ex_very_early.Very_Late := by
  decide!

/-- Witness for C7: in the carrier-locked concrete channel (threshold 3), the third of
three epochs with a dominant Very-Early sum adds half a subcarrier cycle to the code
phase and leaves both streak counters at 0. -/
theorem bump_jump_on_threshold_epoch_witness :
    (run ex_E ex_locked (List.replicate 3 ex_very_early)).d_code_phase_chips
        = propagated_code_phase ex_E (state_at ex_E ex_locked (List.replicate 3 ex_very_early) 2)
          + (1 / 2 : ℚ) / ex_locked.d_chips_to_cycles
    ∧ (run ex_E ex_locked (List.replicate 3 ex_very_early)).d_bj_ve_counter = 0
    ∧ (run ex_E ex_locked (List.replicate 3 ex_very_early)).d_bj_vl_counter = 0 :=
  (bump_jump_on_threshold_epoch ex_E ex_locked (List.replicate 3 ex_very_early) 3 (by norm_num)
    (List.length_replicate _ _) ex_locked_bj_facts.1 ex_locked_bj_facts.2.1
    ex_locked_bj_facts.2.2.1 ex_locked_bj_facts.2.2.2
    (fun j hj => by
      unfold tracking
      rw [ctl_enable, ctl_pull_in, ctl_locked, ctl_state_at_ex_locked]
      exact ⟨⟨(ex_very_early_facts j hj).1, (ex_very_early_facts j hj).2.1⟩,
        (ex_very_early_facts j hj).2.2⟩)
    (fun inp hi => by
      rw [List.eq_of_mem_replicate hi]
      exact ex_very_early_input)).2

/-- Counterexample to C9: in the concrete channel (accumulation length 4, secondary
Prompt sum 1 in every epoch), at the end of the invocation in which the accumulation
index wraps from 3 back to 0 the secondary Prompt accumulator is 4, not zero. -/
theorem accumulators_not_zero_at_wrap :
    ex_before_wrap.d_prs_tracking_enabled = true
    ∧ ex_before_wrap.d_prs_accumulation_length = 4
    ∧ ex_before_wrap.d_prs_accumulation_index = 3
    ∧ (general_work ex_E ex_before_wrap ex_good).state.d_prs_accumulation_index = 0
    ∧ (general_work ex_E ex_before_wrap ex_good).state.d_P_acumm_prs
        = ⟨FloatVal.fin 4, FloatVal.fin 0⟩
    ∧ (general_work ex_E ex_before_wrap ex_good).state.d_P_acumm_prs ≠ gr_complex.zero :=
  ex_locked_run_facts.2.1

set_option maxRecDepth 1000000 in
theorem ex_before_wrap_facts :
    (ctl_run ex_E (ex_clean 234) ex_start_ctl).enable = true
    ∧ (ctl_run ex_E (ex_clean 234) ex_start_ctl).pull_in = false
    ∧ (ctl_run ex_E (ex_clean 234) ex_start_ctl).prs = true
    ∧ (ctl_run ex_E (ex_clean 234) ex_start_ctl).locked = true
    ∧ (ctl_run ex_E (ex_clean 234) ex_start_ctl).N = 4
    ∧ (ctl_run ex_E (ex_clean 234) ex_start_ctl).idx = 3 := by
  decide!

theorem ctl_ex_before_wrap : ctl ex_before_wrap = ctl_run ex_E (ex_clean 234) ex_start_ctl := by
  unfold ex_before_wrap
  rw [ctl_run_ex_start]

/-- Witness for C9: in the concrete channel, entered with index 3 of 4, the epoch after
the wrap leaves in the accumulators exactly its own correlator sums. -/
theorem accumulators_cleared_at_index_zero_witness :
    (general_work ex_E ex_before_wrap ex_good).state.d_prs_accumulation_index = 0
    ∧ accumulators (general_work ex_E (general_work ex_E ex_before_wrap ex_good).state
        ex_good).state = prs_sums ex_good :=
  have h := accumulators_cleared_at_index_zero ex_E ex_before_wrap ex_good ex_good 4
    (by norm_num)
    (by
      unfold tracking
      rw [ctl_enable, ctl_pull_in, ctl_ex_before_wrap]
      exact ⟨ex_before_wrap_facts.1, ex_before_wrap_facts.2.1⟩)
    (by
      rw [ctl_prs_enabled, ctl_ex_before_wrap]
      exact ex_before_wrap_facts.2.2.1)
    (by
      rw [ctl_locked, ctl_ex_before_wrap]
      exact ex_before_wrap_facts.2.2.2.1)
    (by
      rw [ctl_N, ctl_ex_before_wrap, ex_before_wrap_facts.2.2.2.2.1]
      norm_num)
    (by
      rw [ctl_idx, ctl_ex_before_wrap, ex_before_wrap_facts.2.2.2.2.2]
      norm_num)
    (by decide) (by decide)
  ⟨h.1, h.2.2⟩

theorem ctl_state_at_ex_before_restart (inputs : List EpochInput) (j : ℕ) :
    ctl (state_at ex_E ex_before_restart inputs j)
      = ctl_run ex_E (inputs.take j) (ctl_run ex_E ex_to_restart ex_start_ctl) := by
  unfold state_at ex_before_restart
  rw [ctl_run_ex, ctl_run_ex_start]

theorem ex_restart_facts :
    ((ctl_run ex_E ex_to_restart ex_start_ctl).prs = true
      ∧ (ctl_run ex_E ex_to_restart ex_start_ctl).idx = 0
      ∧ (ctl_run ex_E ex_to_restart ex_start_ctl).N = 4
      ∧ (ctl_run ex_E ex_to_restart ex_start_ctl).pll_prs_applies = 325
      ∧ (ctl_run ex_E ex_to_restart ex_start_ctl).dll_prs_applies = 325)
    ∧ (∀ j < 5,
        (ctl_run ex_E ((List.replicate 4 ex_good).take j)
          (ctl_run ex_E ex_to_restart ex_start_ctl)).enable = true
        ∧ (ctl_run ex_E ((List.replicate 4 ex_good).take j)
          (ctl_run ex_E ex_to_restart ex_start_ctl)).pull_in = false
        ∧ (ctl_run ex_E ((List.replicate 4 ex_good).take j)
          (ctl_run ex_E ex_to_restart ex_start_ctl)).prs = true)
    ∧ (ctl_run ex_E ((List.replicate 4 ex_good).take 1)
        (ctl_run ex_E ex_to_restart ex_start_ctl)).locked = false
    ∧ (ctl_run ex_E ((List.replicate 4 ex_good).take 2)
        (ctl_run ex_E ex_to_restart ex_start_ctl)).locked = true
    ∧ (ctl_run ex_E (List.replicate 4 ex_good)
        (ctl_run ex_E ex_to_restart ex_start_ctl)).pll_prs_applies = 325
    ∧ (ctl_run ex_E (List.replicate 4 ex_good)
        (ctl_run ex_E ex_to_restart ex_start_ctl)).dll_prs_applies = 325 :=
  ex_long_run_facts.2.1

theorem ctl_ex_before_restart :
    ctl ex_before_restart = ctl_run ex_E ex_to_restart ex_start_ctl := by
  unfold ex_before_restart
  rw [ctl_run_ex_start]

theorem ctl_run_ex_before_restart (inputs : List EpochInput) :
    ctl (run ex_E ex_before_restart inputs)
      = ctl_run ex_E inputs (ctl_run ex_E ex_to_restart ex_start_ctl) := by
  rw [ctl_run_ex, ctl_ex_before_restart]

/-- Counterexample to C10: in the concrete channel (accumulation length 4), 1300 epochs
after the first promotion and after a demotion, the secondary loop is enabled with its
accumulation index at 0; over the next 4 consecutive non-degenerate tracking epochs,
during which the secondary loop stays enabled, no `apply` call is made on the secondary
carrier or code loop filter (both counts stay at 325), because the second of these
epochs promotes the primary again and `start_tracking_prs` resets the index. -/
theorem prs_update_skipped_after_restart :
    (ex_before_restart.d_prs_tracking_enabled = true
      ∧ ex_before_restart.d_prs_accumulation_index = 0
      ∧ ex_before_restart.d_prs_accumulation_length = 4
      ∧ ex_before_restart.d_carrier_loop_filter_prs.apply_count = 325
      ∧ ex_before_restart.d_code_loop_filter_prs.apply_count = 325)
    ∧ (∀ j < 5,
        tracking (state_at ex_E ex_before_restart (List.replicate 4 ex_good) j)
        ∧ (state_at ex_E ex_before_restart (List.replicate 4 ex_good) j).d_prs_tracking_enabled
            = true)
    ∧ non_degenerate ex_good
    ∧ (state_at ex_E ex_before_restart (List.replicate 4 ex_good) 1).d_carrier_locked = false
    ∧ (state_at ex_E ex_before_restart (List.replicate 4 ex_good) 2).d_carrier_locked = true
    ∧ (run ex_E ex_before_restart (List.replicate 4 ex_good)).d_carrier_loop_filter_prs.apply_count
        = 325
    ∧ (run ex_E ex_before_restart (List.replicate 4 ex_good)).d_code_loop_filter_prs.apply_count
        = 325 := by
  refine ⟨?_, ?_, by decide, ?_, ?_, ?_, ?_⟩
  · rw [ctl_prs_enabled, ctl_idx, ctl_N, ctl_pll_prs_applies, ctl_dll_prs_applies,
      ctl_ex_before_restart]
    exact ex_restart_facts.1
  · intro j hj
    unfold tracking
    rw [ctl_enable, ctl_pull_in, ctl_prs_enabled, ctl_state_at_ex_before_restart]
    exact ⟨⟨(ex_restart_facts.2.1 j hj).1, (ex_restart_facts.2.1 j hj).2.1⟩,
      (ex_restart_facts.2.1 j hj).2.2⟩
  · rw [ctl_locked, ctl_state_at_ex_before_restart]
    exact ex_restart_facts.2.2.1
  · rw [ctl_locked, ctl_state_at_ex_before_restart]
    exact ex_restart_facts.2.2.2.1
  · rw [ctl_pll_prs_applies, ctl_run_ex_before_restart]
    exact ex_restart_facts.2.2.2.2.1
  · rw [ctl_dll_prs_applies, ctl_run_ex_before_restart]
    exact ex_restart_facts.2.2.2.2.2

set_option maxRecDepth 1000000 in
theorem ex_cadence_facts :
    ∀ j < 9,
      (ctl_run ex_E (ex_clean 231 ++ (List.replicate 8 ex_good).take j) ex_start_ctl).enable = true
      ∧ (ctl_run ex_E (ex_clean 231 ++ (List.replicate 8 ex_good).take j) ex_start_ctl).pull_in
          = false
      ∧ (ctl_run ex_E (ex_clean 231 ++ (List.replicate 8 ex_good).take j) ex_start_ctl).prs = true
      ∧ (ctl_run ex_E (ex_clean 231 ++ (List.replicate 8 ex_good).take j) ex_start_ctl).locked
          = true
      ∧ (ctl_run ex_E (ex_clean 231 ++ (List.replicate 8 ex_good).take j) ex_start_ctl).N = 4
      ∧ (ctl_run ex_E (ex_clean 231 ++ (List.replicate 8 ex_good).take j) ex_start_ctl).idx
          = ((j % 4 : ℕ) : ℤ) := by
  decide!

/-- Witness for C10: in the concrete channel, over the 8 clean epochs that follow the
promotion the secondary carrier and code loop filters are applied twice each. -/
theorem prs_update_every_N_epochs_witness :
    (run ex_E ex_locked (List.replicate 8 ex_good)).d_carrier_loop_filter_prs.apply_count
        = ex_locked.d_carrier_loop_filter_prs.apply_count + 2
    ∧ (run ex_E ex_locked (List.replicate 8 ex_good)).d_code_loop_filter_prs.apply_count
        = ex_locked.d_code_loop_filter_prs.apply_count + 2 :=
  (prs_update_every_N_epochs ex_E ex_locked (List.replicate 8 ex_good) 4 2 (by norm_num)
    (List.length_replicate _ _)
    (by
      have := (ex_cadence_facts 0 (by norm_num)).2.2.2.2.1
      rw [ctl_N, ← state_at_zero ex_E ex_locked (List.replicate 8 ex_good),
        ctl_state_at_ex_locked]
      exact this)
    (by
      have := (ex_cadence_facts 0 (by norm_num)).2.2.2.2.2
      rw [ctl_idx, ← state_at_zero ex_E ex_locked (List.replicate 8 ex_good),
        ctl_state_at_ex_locked]
      exact this)
    (fun j hj => by
      unfold tracking
      rw [ctl_enable, ctl_pull_in, ctl_prs_enabled, ctl_state_at_ex_locked]
      have f := ex_cadence_facts j (by omega)
      exact ⟨⟨f.1, f.2.1⟩, f.2.2.1⟩)
    (fun j hj => by
      rw [ctl_locked, ctl_state_at_ex_locked]
      have f := ex_cadence_facts j (by omega)
      rw [f.2.2.2.1]
      simp)
    (non_degenerate_replicate _ _ (by decide))).2

/-! ### Phases, the NaN path, the epoch length and open-loop following -/

theorem fmod_nonneg (x y : ℚ) (hy : 0 < y) (hx : 0 ≤ x) : 0 ≤ fmod x y ∧ fmod x y < y := by
  have hq : 0 ≤ x / y := div_nonneg hx (le_of_lt hy)
  have hxy : x = x / y * y := by field_simp
  have h1 : ((⌊x / y⌋ : Int) : ℚ) ≤ x / y := Int.floor_le _
  have h2 : x / y < ((⌊x / y⌋ : Int) : ℚ) + 1 := Int.lt_floor_add_one _
  unfold fmod trunc
  rw [if_pos hq]
  constructor
  · nlinarith
  · nlinarith

theorem fmod_neg (x y : ℚ) (hy : 0 < y) (hx : x < 0) : -y < fmod x y ∧ fmod x y ≤ 0 := by
  have hq : ¬ (0 ≤ x / y) := not_le.mpr (div_neg_of_neg_of_pos hx hy)
  have hxy : x = x / y * y := by field_simp
  have h1 : x / y ≤ ((⌈x / y⌉ : Int) : ℚ) := Int.le_ceil _
  have h2 : ((⌈x / y⌉ : Int) : ℚ) < x / y + 1 := Int.ceil_lt_add_one _
  unfold fmod trunc
  rw [if_neg hq]
  constructor
  · nlinarith
  · nlinarith

theorem fmod_abs_lt (x y : ℚ) (hy : 0 < y) : -y < fmod x y ∧ fmod x y < y := by
  by_cases hx : 0 ≤ x
  · have := fmod_nonneg x y hy hx
    exact ⟨by linarith, this.2⟩
  · have := fmod_neg x y hy (not_le.mp hx)
    exact ⟨this.1, by linarith⟩

theorem M_PI_pos : 0 < M_PI := by
  unfold M_PI
  norm_num

theorem ev_correlate_and_propagate (E : Externals) (s : State) (inp : EpochInput) :
    epoch_view (correlate_and_propagate E s inp) =
      { epoch_view s with
        code_phase_chips := (correlate_and_propagate E s inp).d_code_phase_chips
        rem_code_phase_samples := (correlate_and_propagate E s inp).d_rem_code_phase_samples
        subcarrier_phase_cycles := (correlate_and_propagate E s inp).d_subcarrier_phase_cycles
        rem_carr_phase_rad := (correlate_and_propagate E s inp).d_rem_carr_phase_rad
        Prompt := inp.Prompt } := rfl

theorem ev_prs_correlate_and_propagate (E : Externals) (s : State) (inp : EpochInput) :
    epoch_view (prs_correlate_and_propagate E s inp) = epoch_view s := by
  unfold prs_correlate_and_propagate
  dsimp only
  split <;> split <;> rfl

theorem ev_nan_samples (s : State) (inp : EpochInput) (csd : Gnss_Synchro) :
    epoch_view (nan_samples s inp csd).state = epoch_view s := rfl

theorem ev_pll_dll (E : Externals) (s : State) :
    epoch_view (pll_dll E s).1 =
      { epoch_view s with
        carrier_doppler_hz := (pll_dll E s).1.d_carrier_doppler_hz
        code_freq_chips := (pll_dll E s).1.d_code_freq_chips
        subcarrier_freq_cycles := (pll_dll E s).1.d_subcarrier_freq_cycles
        carrier_applies := s.d_carrier_loop_filter.apply_count + 1
        code_applies := s.d_code_loop_filter.apply_count + 1 } := by
  unfold pll_dll
  dsimp only
  split <;> simp [epoch_view, apply_count_apply]

theorem ev_bump_jump (E : Externals) (s : State) :
    epoch_view (bump_jump E s) =
      { epoch_view s with code_phase_chips := (bump_jump E s).d_code_phase_chips } := by
  unfold bump_jump
  dsimp only
  split
  · split <;> rfl
  · rfl

theorem ev_bump_jump_prs (E : Externals) (s : State) :
    epoch_view (bump_jump_prs E s) = epoch_view s := by
  unfold bump_jump_prs
  dsimp only
  split
  · split
    · split <;> split <;> rfl
    · rfl
  · rfl

theorem ev_prs_update (E : Externals) (s : State) :
    epoch_view (prs_update E s) = epoch_view s := by
  unfold prs_update
  dsimp only
  split
  · split
    · have h := ev_bump_jump_prs E
      split
      all_goals
        simp only [epoch_view, EpochView.mk.injEq] at h ⊢
        simp only [h, and_self]
    · rfl
  · rfl

theorem ev_prs_follow (E : Externals) (s : State) : epoch_view (prs_follow E s) = epoch_view s := by
  unfold prs_follow
  dsimp only
  split
  · split <;> rfl
  · rfl

theorem ev_lock_counters (s : State) : epoch_view (lock_counters s) = epoch_view s := by
  unfold lock_counters
  dsimp only
  split_ifs <;> rfl

theorem ev_subcarrier_code_lock (s : State) :
    epoch_view (subcarrier_code_lock s) = epoch_view s := by
  unfold subcarrier_code_lock
  dsimp only
  split_ifs <;> rfl

theorem ev_start_tracking_prs (E : Externals) (s : State) :
    epoch_view (start_tracking_prs E s) = epoch_view s := rfl

theorem ev_phase_lock_achieved (E : Externals) (s : State) (l : Locals) :
    epoch_view (phase_lock_achieved E s l) = epoch_view s := by
  unfold phase_lock_achieved
  rw [ev_start_tracking_prs]
  simp [epoch_view, apply_count_init, apply_count_set_noise_bandwidth]

theorem ev_revert_to_initial (s : State) (l : Locals) :
    epoch_view (revert_to_initial s l) = epoch_view s := by
  unfold revert_to_initial
  simp [epoch_view, apply_count_init, apply_count_set_noise_bandwidth]

theorem ev_lock_transition (E : Externals) (s : State) (l : Locals) :
    epoch_view (lock_transition E s l) = epoch_view s := by
  have key : ∀ t : State,
      epoch_view { t with d_mean_subcarrier_error := 0, d_mean_code_error := 0 }
        = epoch_view t :=
    fun _ => rfl
  have hloss : ∀ t : State, epoch_view (loss_of_lock t) = epoch_view t := fun _ => rfl
  unfold lock_transition
  dsimp only
  rw [key]
  split
  · split
    · split
      · rw [ev_phase_lock_achieved, hloss]
      · rw [hloss]
    · split
      · rw [ev_phase_lock_achieved]
      · rfl
  · split
    · exact ev_revert_to_initial s l
    · exact ev_subcarrier_code_lock s

theorem ev_lock_detectors (E : Externals) (s : State) (l : Locals) :
    epoch_view (lock_detectors E s l) = epoch_view s := by
  unfold lock_detectors
  split
  · rfl
  · unfold lock_evaluation
    rw [ev_lock_transition, ev_lock_counters]
    rfl

theorem ev_lock_detectors_prs (s : State) : epoch_view (lock_detectors_prs s) = epoch_view s := by
  have h : ∀ t, epoch_view (subcarrier_code_lock_prs t) = epoch_view t := by
    intro t
    unfold subcarrier_code_lock_prs
    dsimp only
    split_ifs <;> rfl
  unfold lock_detectors_prs
  dsimp only
  split
  · split
    · rfl
    · split
      · have := h { s with
          d_cn0_estimation_counter_prs := 0
          d_mean_subcarrier_error_prs :=
            s.d_mean_subcarrier_error_prs / (CN0_ESTIMATION_SAMPLES : ℚ)
          d_mean_code_error_prs := s.d_mean_code_error_prs / (CN0_ESTIMATION_SAMPLES : ℚ) }
        simp only [epoch_view, EpochView.mk.injEq] at this ⊢
        exact this
      · rfl
  · rfl

theorem ev_debug_output (s : State) : epoch_view (debug_output s) = epoch_view s := by
  unfold debug_output
  split <;> rfl

theorem ev_finish (E : Externals) (s : State) (l : Locals) (out : Gnss_Synchro) (n : Int) :
    epoch_view (finish E s l out n).state
      = { epoch_view s with current_prn_length_samples := n } := by
  unfold finish
  dsimp only
  split
  · split <;> rfl
  · rfl

theorem next_prn_length_samples_eq (E : Externals) (s : State) :
    next_prn_length_samples E s = round (K_blk_samples E s) := rfl

theorem K_blk_samples_view (E : Externals) (s t : State)
    (h1 : s.d_code_freq_chips = t.d_code_freq_chips) (h2 : s.d_fs_in = t.d_fs_in)
    (h3 : s.d_rem_code_phase_samples = t.d_rem_code_phase_samples) :
    K_blk_samples E s = K_blk_samples E t := by
  unfold K_blk_samples
  rw [h1, h2, h3]

theorem general_work_tracking (E : Externals) (s : State) (inp : EpochInput)
    (ht : tracking s) (hn : non_degenerate inp) :
    general_work E s inp =
      tracking_epoch E
        (if s.d_prs_tracking_enabled = true then
          prs_correlate_and_propagate E (correlate_and_propagate E s inp) inp
        else correlate_and_propagate E s inp)
        { s.d_acquisition_gnss_synchro with
          Tracking_timestamp_secs :=
            ((s.d_sample_counter : ℚ) + s.d_rem_code_phase_samples) / (s.d_fs_in : ℚ) } := by
  unfold general_work
  rw [if_pos ht.1, if_neg (by simp [ht.2])]
  dsimp only
  have hprs : (correlate_and_propagate E s inp).d_prs_tracking_enabled
      = s.d_prs_tracking_enabled := rfl
  rw [hprs]
  have hP : (if s.d_prs_tracking_enabled = true then
        prs_correlate_and_propagate E (correlate_and_propagate E s inp) inp
      else correlate_and_propagate E s inp).d_Prompt = inp.Prompt := by
    split
    · exact congrArg EpochView.Prompt
        ((ev_prs_correlate_and_propagate E _ inp).trans (ev_correlate_and_propagate E s inp))
    · rfl
  rw [hP, if_neg (by simp [hn.1, hn.2])]

theorem general_work_nan (E : Externals) (s : State) (inp : EpochInput)
    (ht : tracking s) (hnan : inp.Prompt.re.isnan = true ∨ inp.Prompt.im.isnan = true) :
    general_work E s inp =
      nan_samples
        (if s.d_prs_tracking_enabled = true then
          prs_correlate_and_propagate E (correlate_and_propagate E s inp) inp
        else correlate_and_propagate E s inp)
        inp
        { s.d_acquisition_gnss_synchro with
          Tracking_timestamp_secs :=
            ((s.d_sample_counter : ℚ) + s.d_rem_code_phase_samples) / (s.d_fs_in : ℚ) } := by
  unfold general_work
  rw [if_pos ht.1, if_neg (by simp [ht.2])]
  dsimp only
  have hprs : (correlate_and_propagate E s inp).d_prs_tracking_enabled
      = s.d_prs_tracking_enabled := rfl
  rw [hprs]
  have hP : (if s.d_prs_tracking_enabled = true then
        prs_correlate_and_propagate E (correlate_and_propagate E s inp) inp
      else correlate_and_propagate E s inp).d_Prompt = inp.Prompt := by
    split
    · exact congrArg EpochView.Prompt
        ((ev_prs_correlate_and_propagate E _ inp).trans (ev_correlate_and_propagate E s inp))
    · rfl
  rw [hP, if_pos hnan]

theorem ev_propagated (E : Externals) (s : State) (inp : EpochInput) :
    epoch_view (if s.d_prs_tracking_enabled = true then
        prs_correlate_and_propagate E (correlate_and_propagate E s inp) inp
      else correlate_and_propagate E s inp)
      = epoch_view (correlate_and_propagate E s inp) := by
  split
  · exact ev_prs_correlate_and_propagate E _ inp
  · rfl

theorem ev_tracking_epoch (E : Externals) (s : State) (csd : Gnss_Synchro) :
    epoch_view (tracking_epoch E s csd).state =
      { epoch_view (bump_jump E (pll_dll E s).1) with
        current_prn_length_samples := round (K_blk_samples E (bump_jump E (pll_dll E s).1)) } := by
  have hK : next_prn_length_samples E (prs_follow E (prs_update E (bump_jump E (pll_dll E s).1)))
      = round (K_blk_samples E (bump_jump E (pll_dll E s).1)) := by
    have hv : epoch_view (prs_follow E (prs_update E (bump_jump E (pll_dll E s).1)))
        = epoch_view (bump_jump E (pll_dll E s).1) := by
      rw [ev_prs_follow, ev_prs_update]
    rw [next_prn_length_samples_eq,
      K_blk_samples_view E _ (bump_jump E (pll_dll E s).1)
        (congrArg EpochView.code_freq_chips hv) (congrArg EpochView.fs_in hv)
        (congrArg EpochView.rem_code_phase_samples hv)]
  unfold tracking_epoch
  simp only [ev_finish, ev_debug_output, ev_lock_detectors_prs, ev_lock_detectors, ev_prs_follow,
    ev_prs_update, hK]

theorem ev_general_work_nan (E : Externals) (s : State) (inp : EpochInput)
    (ht : tracking s) (hnan : inp.Prompt.re.isnan = true ∨ inp.Prompt.im.isnan = true) :
    epoch_view (general_work E s inp).state = epoch_view (correlate_and_propagate E s inp) := by
  rw [general_work_nan E s inp ht hnan, ev_nan_samples, ev_propagated]

/-- The epoch view after a tracking epoch whose Prompt sum is not NaN. -/
theorem ev_general_work (E : Externals) (s : State) (inp : EpochInput)
    (ht : tracking s) (hn : non_degenerate inp) :
    ∃ sp : State,
      epoch_view sp = epoch_view (correlate_and_propagate E s inp)
      ∧ bj_view sp = { bj_view s with code_phase_chips := propagated_code_phase E s }
      ∧ bj_inputs sp = (s.d_carrier_locked, inp.Prompt, inp.Very_Early, inp.Very_Late)
      ∧ epoch_view (general_work E s inp).state =
        { epoch_view (bump_jump E (pll_dll E sp).1) with
          current_prn_length_samples :=
            round (K_blk_samples E (bump_jump E (pll_dll E sp).1)) } := by
  refine ⟨_, ev_propagated E s inp, ?_, ?_, ?_⟩
  · split
    · exact (bj_view_prs_correlate_and_propagate E _ inp).1
    · rfl
  · split
    · exact (bj_view_prs_correlate_and_propagate E _ inp).2
    · rfl
  · rw [general_work_tracking E s inp ht hn, ev_tracking_epoch]

theorem rem_carr_phase_propagated (E : Externals) (s : State) (inp : EpochInput) :
    -M_PI ≤ (correlate_and_propagate E s inp).d_rem_carr_phase_rad
      ∧ (correlate_and_propagate E s inp).d_rem_carr_phase_rad < M_PI := by
  have hpi := M_PI_pos
  have h := fmod_abs_lt
    (s.d_rem_carr_phase_rad + 2 * M_PI * ((s.d_if_freq : ℚ) + s.d_carrier_doppler_hz) * epoch_T s)
    (2 * M_PI) (by linarith)
  unfold correlate_and_propagate
  dsimp only
  split_ifs <;> constructor <;> linarith

/-- What a tracking epoch whose Prompt sum is not NaN leaves in the epoch view, in terms
of the state `s3` after its sections `PLL`, `DLL` and `VE - VL Processing`. -/
theorem ev_general_work_full (E : Externals) (s : State) (inp : EpochInput)
    (ht : tracking s) (hn : non_degenerate inp) :
    ∃ s3 : State,
      bj_view s3 = { bj_view s with code_phase_chips := propagated_code_phase E s }
      ∧ bj_inputs s3 = (s.d_carrier_locked, inp.Prompt, inp.Very_Early, inp.Very_Late)
      ∧ epoch_view s3 =
        { epoch_view (correlate_and_propagate E s inp) with
          carrier_doppler_hz := s3.d_carrier_doppler_hz
          code_freq_chips := s3.d_code_freq_chips
          subcarrier_freq_cycles := s3.d_subcarrier_freq_cycles
          carrier_applies := s.d_carrier_loop_filter.apply_count + 1
          code_applies := s.d_code_loop_filter.apply_count + 1 }
      ∧ epoch_view (general_work E s inp).state =
        { epoch_view (correlate_and_propagate E s inp) with
          code_phase_chips := (bump_jump E s3).d_code_phase_chips
          carrier_doppler_hz := s3.d_carrier_doppler_hz
          code_freq_chips := s3.d_code_freq_chips
          subcarrier_freq_cycles := s3.d_subcarrier_freq_cycles
          carrier_applies := s.d_carrier_loop_filter.apply_count + 1
          code_applies := s.d_code_loop_filter.apply_count + 1
          current_prn_length_samples := round (K_blk_samples E (bump_jump E s3)) } := by
  obtain ⟨sp, h1, h2, h3, h4⟩ := ev_general_work E s inp ht hn
  have a1 : sp.d_carrier_loop_filter.apply_count = s.d_carrier_loop_filter.apply_count :=
    (congrArg EpochView.carrier_applies h1).trans
      (congrArg EpochView.carrier_applies (ev_correlate_and_propagate E s inp))
  have a2 : sp.d_code_loop_filter.apply_count = s.d_code_loop_filter.apply_count :=
    (congrArg EpochView.code_applies h1).trans
      (congrArg EpochView.code_applies (ev_correlate_and_propagate E s inp))
  refine ⟨(pll_dll E sp).1, ?_, ?_, ?_, ?_⟩
  · exact (bj_view_pll_dll E sp).1.trans h2
  · exact (bj_view_pll_dll E sp).2.trans h3
  · rw [ev_pll_dll, h1, a1, a2]
  · rw [h4, ev_bump_jump, ev_pll_dll, h1, a1, a2]

theorem rem_carr_phase_general_work (E : Externals) (s : State) (inp : EpochInput)
    (ht : tracking s) :
    (general_work E s inp).state.d_rem_carr_phase_rad
      = (correlate_and_propagate E s inp).d_rem_carr_phase_rad := by
  by_cases hn : non_degenerate inp
  · obtain ⟨s3, _, _, _, h⟩ := ev_general_work_full E s inp ht hn
    exact congrArg EpochView.rem_carr_phase_rad h
  · have hnan : inp.Prompt.re.isnan = true ∨ inp.Prompt.im.isnan = true := by
      unfold non_degenerate at hn
      by_contra hc
      push_neg at hc
      exact hn ⟨by simpa using hc.1, by simpa using hc.2⟩
    exact congrArg EpochView.rem_carr_phase_rad (ev_general_work_nan E s inp ht hnan)

theorem nan_of_not_non_degenerate (inp : EpochInput) (hn : ¬ non_degenerate inp) :
    inp.Prompt.re.isnan = true ∨ inp.Prompt.im.isnan = true := by
  unfold non_degenerate at hn
  by_contra hc
  push_neg at hc
  exact hn ⟨by simpa using hc.1, by simpa using hc.2⟩

/-- C11 (amended): the residual carrier phase a tracking epoch leaves, on the normal path
and on the NaN path alike, lies in the half-open interval `[-M_PI, M_PI)`: at least
`-M_PI` and strictly below `M_PI`, where `M_PI` is the program's constant for pi.  The
closed end is the lower one (`>= M_PI` is wrapped down, `< -M_PI` is wrapped up). -/
theorem rem_carr_phase_range (E : Externals) (s : State) (inp : EpochInput)
    (ht : tracking s) :
    -M_PI ≤ (general_work E s inp).state.d_rem_carr_phase_rad
      ∧ (general_work E s inp).state.d_rem_carr_phase_rad < M_PI := by
  rw [rem_carr_phase_general_work E s inp ht]
  exact rem_carr_phase_propagated E s inp

theorem bump_jump_code_phase (E : Externals) (s : State) :
    (bump_jump E s).d_code_phase_chips =
      if s.d_use_bj = true ∧ s.d_carrier_locked = true
          ∧ (bump_jump_tests (E.cabs s.d_Very_Early) (E.cabs s.d_Prompt) (E.cabs s.d_Very_Late)
              s.d_bj_threshold s.d_bj_ve_counter s.d_bj_vl_counter).do_jump = true then
        s.d_code_phase_chips + (1 / 2 : ℚ) / s.d_chips_to_cycles
          * (bump_jump_tests (E.cabs s.d_Very_Early) (E.cabs s.d_Prompt) (E.cabs s.d_Very_Late)
              s.d_bj_threshold s.d_bj_ve_counter s.d_bj_vl_counter).jump_dir
      else s.d_code_phase_chips := by
  unfold bump_jump
  dsimp only
  by_cases h1 : s.d_use_bj = true
  · by_cases h2 : s.d_carrier_locked = true
    · rw [h1, h2]
      simp only [Bool.and_self, if_true, true_and]
      split <;> rfl
    · have h2f : s.d_carrier_locked = false := by simpa using h2
      rw [h1, h2f]
      simp
  · have h1f : s.d_use_bj = false := by simpa using h1
    rw [h1f]
    simp

theorem code_phase_general_work (E : Externals) (s : State) (inp : EpochInput)
    (ht : tracking s) :
    (general_work E s inp).state.d_code_phase_chips =
      if jumps E s inp then
        propagated_code_phase E s
          + (1 / 2 : ℚ) / s.d_chips_to_cycles * (bump_jump_outcome E s inp).jump_dir
      else propagated_code_phase E s := by
  by_cases hn : non_degenerate inp
  · obtain ⟨s3, hv, hi, _, h⟩ := ev_general_work_full E s inp ht hn
    have hc : (general_work E s inp).state.d_code_phase_chips
        = (bump_jump E s3).d_code_phase_chips := congrArg EpochView.code_phase_chips h
    have a1 : s3.d_use_bj = s.d_use_bj := congrArg BjView.use_bj hv
    have a2 : s3.d_bj_threshold = s.d_bj_threshold := congrArg BjView.threshold hv
    have a3 : s3.d_bj_ve_counter = s.d_bj_ve_counter := congrArg BjView.ve_counter hv
    have a4 : s3.d_bj_vl_counter = s.d_bj_vl_counter := congrArg BjView.vl_counter hv
    have a5 : s3.d_code_phase_chips = propagated_code_phase E s :=
      congrArg BjView.code_phase_chips hv
    have a6 : s3.d_chips_to_cycles = s.d_chips_to_cycles := congrArg BjView.chips_to_cycles hv
    have b1 : s3.d_carrier_locked = s.d_carrier_locked := congrArg (fun x => x.1) hi
    have b2 : s3.d_Prompt = inp.Prompt := congrArg (fun x => x.2.1) hi
    have b3 : s3.d_Very_Early = inp.Very_Early := congrArg (fun x => x.2.2.1) hi
    have b4 : s3.d_Very_Late = inp.Very_Late := congrArg (fun x => x.2.2.2) hi
    rw [hc, bump_jump_code_phase, a1, a2, a3, a4, a5, a6, b1, b2, b3, b4]
    unfold jumps bump_jump_outcome
    simp only [hn, true_and]
  · have hnan := nan_of_not_non_degenerate inp hn
    have hj : ¬ jumps E s inp := fun h => hn h.1
    rw [if_neg hj]
    exact congrArg EpochView.code_phase_chips (ev_general_work_nan E s inp ht hnan)

/-- C12 (amended): in a tracking epoch for which the code phase advanced over the epoch,
`d_code_phase_chips + T * d_code_freq_chips`, is not negative, the code phase
`d_code_phase_chips` is in `[0, 4092)` when `general_work` returns provided the epoch
applies no bump jump.  When it applies one, the value returned is the wrapped code phase
plus or minus half a subcarrier cycle, `0.5 / d_chips_to_cycles` chips times the jump
direction: the jump is added after the wrap and the sum is not wrapped again. -/
theorem code_phase_range_without_jump (E : Externals) (s : State) (inp : EpochInput)
    (ht : tracking s) (hL : E.Galileo_E1_B_CODE_LENGTH_CHIPS = 4092)
    (hnn : 0 ≤ s.d_code_phase_chips + epoch_T s * s.d_code_freq_chips) :
    (¬ jumps E s inp →
        0 ≤ (general_work E s inp).state.d_code_phase_chips
        ∧ (general_work E s inp).state.d_code_phase_chips < 4092)
    ∧ (jumps E s inp →
        (general_work E s inp).state.d_code_phase_chips
          = fmod (s.d_code_phase_chips + epoch_T s * s.d_code_freq_chips) 4092
            + (1 / 2 : ℚ) / s.d_chips_to_cycles * (bump_jump_outcome E s inp).jump_dir) := by
  have h := code_phase_general_work E s inp ht
  have hp : propagated_code_phase E s
      = fmod (s.d_code_phase_chips + epoch_T s * s.d_code_freq_chips) 4092 := by
    unfold propagated_code_phase
    rw [hL]
  constructor
  · intro hj
    rw [h, if_neg hj, hp]
    exact fmod_nonneg _ _ (by norm_num) hnn
  · intro hj
    rw [h, if_pos hj, hp]

/-- C13: a tracking epoch in which the real or the imaginary part of the Prompt sum is
NaN emits a record whose tracking-valid and pseudorange-valid flags are false and whose
Prompt I, Prompt Q, carrier phase, code phase and CN0 fields are 0, consumes all the
available input samples `ninput_items[0]`, and returns 1. -/
theorem nan_record (E : Externals) (s : State) (inp : EpochInput)
    (ht : tracking s) (hnan : inp.Prompt.re.isnan = true ∨ inp.Prompt.im.isnan = true) :
    (general_work E s inp).out.Flag_valid_tracking = false
    ∧ (general_work E s inp).out.Flag_valid_pseudorange = false
    ∧ (general_work E s inp).out.Prompt_I = FloatVal.fin 0
    ∧ (general_work E s inp).out.Prompt_Q = FloatVal.fin 0
    ∧ (general_work E s inp).out.Carrier_phase_rads = 0
    ∧ (general_work E s inp).out.Code_phase_secs = 0
    ∧ (general_work E s inp).out.CN0_dB_hz = 0
    ∧ (general_work E s inp).consumed = inp.ninput_items
    ∧ (general_work E s inp).ret = 1 := by
  rw [general_work_nan E s inp ht hnan]
  exact ⟨rfl, rfl, rfl, rfl, rfl, rfl, rfl, rfl, rfl⟩

theorem primary_loop_prs_correlate_and_propagate (E : Externals) (s : State) (inp : EpochInput) :
    primary_loop (prs_correlate_and_propagate E s inp) = primary_loop s := by
  unfold prs_correlate_and_propagate
  dsimp only
  split <;> split <;> rfl

/-- C14: a tracking epoch that takes the NaN path leaves the carrier Doppler estimate,
the code frequency, the subcarrier frequency, the three primary loop filters, the primary
lock flags, the lock success and fail counters and the stored epoch length
`d_current_prn_length_samples` as they were before the invocation. -/
theorem nan_leaves_primary_loop (E : Externals) (s : State) (inp : EpochInput)
    (ht : tracking s) (hnan : inp.Prompt.re.isnan = true ∨ inp.Prompt.im.isnan = true) :
    primary_loop (general_work E s inp).state = primary_loop s := by
  rw [general_work_nan E s inp ht hnan]
  have h : ∀ (t : State) (csd : Gnss_Synchro),
      primary_loop (nan_samples t inp csd).state = primary_loop t := fun _ _ => rfl
  rw [h]
  split
  · exact primary_loop_prs_correlate_and_propagate E _ inp
  · rfl

/-- C15 (amended): a tracking epoch that takes the NaN path does advance the primary
phases: the code phase it leaves is the code phase propagated over the epoch and wrapped,
`fmod (d_code_phase_chips + T * d_code_freq_chips) L`, and the code phase, the residual
code phase, the subcarrier phase and the residual carrier phase it leaves are those that
a non-degenerate epoch without bump jump entered in the same state leaves.  (What the
NaN path leaves alone is the frequency estimates and the loop filters.) -/
theorem nan_epoch_advances_phases (E : Externals) (s : State) (inp inp2 : EpochInput)
    (ht : tracking s) (hnan : inp.Prompt.re.isnan = true ∨ inp.Prompt.im.isnan = true)
    (hn2 : non_degenerate inp2) (hj2 : ¬ jumps E s inp2) :
    (general_work E s inp).state.d_code_phase_chips
      = fmod (s.d_code_phase_chips + epoch_T s * s.d_code_freq_chips)
          E.Galileo_E1_B_CODE_LENGTH_CHIPS
    ∧ phases (general_work E s inp).state = phases (general_work E s inp2).state := by
  have h1 := ev_general_work_nan E s inp ht hnan
  obtain ⟨s3, _, _, _, h2⟩ := ev_general_work_full E s inp2 ht hn2
  have hc := code_phase_general_work E s inp2 ht
  rw [if_neg hj2] at hc
  refine ⟨congrArg EpochView.code_phase_chips h1, ?_⟩
  have e1 : (general_work E s inp).state.d_code_phase_chips
      = (general_work E s inp2).state.d_code_phase_chips :=
    (congrArg EpochView.code_phase_chips h1).trans hc.symm
  have e2 : (general_work E s inp).state.d_rem_code_phase_samples
      = (general_work E s inp2).state.d_rem_code_phase_samples :=
    (congrArg EpochView.rem_code_phase_samples h1).trans
      (congrArg EpochView.rem_code_phase_samples h2).symm
  have e3 : (general_work E s inp).state.d_subcarrier_phase_cycles
      = (general_work E s inp2).state.d_subcarrier_phase_cycles :=
    (congrArg EpochView.subcarrier_phase_cycles h1).trans
      (congrArg EpochView.subcarrier_phase_cycles h2).symm
  have e4 : (general_work E s inp).state.d_rem_carr_phase_rad
      = (general_work E s inp2).state.d_rem_carr_phase_rad :=
    (congrArg EpochView.rem_carr_phase_rad h1).trans
      (congrArg EpochView.rem_carr_phase_rad h2).symm
  unfold phases
  rw [e1, e2, e3, e4]

theorem out_tracking_epoch (E : Externals) (s : State) (csd : Gnss_Synchro) :
    (tracking_epoch E s csd).out =
      output_record
        (lock_detectors_prs
          (lock_detectors E (prs_follow E (prs_update E (bump_jump E (pll_dll E s).1)))
            (pll_dll E s).2))
        csd := rfl

theorem consumed_finish (E : Externals) (s : State) (l : Locals) (out : Gnss_Synchro) (n : Int) :
    (finish E s l out n).consumed = s.d_current_prn_length_samples := by
  unfold finish
  dsimp only
  split
  · split <;> rfl
  · rfl

theorem consumed_tracking_epoch (E : Externals) (s : State) (csd : Gnss_Synchro) :
    (tracking_epoch E s csd).consumed = s.d_current_prn_length_samples := by
  have hv : epoch_view (debug_output (lock_detectors_prs
      (lock_detectors E (prs_follow E (prs_update E (bump_jump E (pll_dll E s).1)))
        (pll_dll E s).2))) = epoch_view (bump_jump E (pll_dll E s).1) := by
    rw [ev_debug_output, ev_lock_detectors_prs, ev_lock_detectors, ev_prs_follow, ev_prs_update]
  have h2 : (bump_jump E (pll_dll E s).1).d_current_prn_length_samples
      = s.d_current_prn_length_samples := by
    have := (ev_bump_jump E (pll_dll E s).1).trans
      (congrArg (fun v => { v with
        code_phase_chips := (bump_jump E (pll_dll E s).1).d_code_phase_chips }) (ev_pll_dll E s))
    exact congrArg EpochView.current_prn_length_samples this
  unfold tracking_epoch
  dsimp only
  rw [consumed_finish]
  exact (congrArg EpochView.current_prn_length_samples hv).trans h2

theorem prompt_tracking_epoch (E : Externals) (s : State) :
    (lock_detectors_prs
      (lock_detectors E (prs_follow E (prs_update E (bump_jump E (pll_dll E s).1)))
        (pll_dll E s).2)).d_Prompt = s.d_Prompt := by
  have hv : epoch_view (lock_detectors_prs
      (lock_detectors E (prs_follow E (prs_update E (bump_jump E (pll_dll E s).1)))
        (pll_dll E s).2)) = epoch_view (bump_jump E (pll_dll E s).1) := by
    rw [ev_lock_detectors_prs, ev_lock_detectors, ev_prs_follow, ev_prs_update]
  have h2 := (ev_bump_jump E (pll_dll E s).1).trans
    (congrArg (fun v => { v with
      code_phase_chips := (bump_jump E (pll_dll E s).1).d_code_phase_chips }) (ev_pll_dll E s))
  exact (congrArg EpochView.Prompt hv).trans (congrArg EpochView.Prompt h2)

/-- C16 (amended): an infinite Prompt sum is not treated as numeric degeneracy.  A
tracking epoch in which a part of the Prompt sum is +Inf or -Inf and neither part is NaN
takes the normal path: the record it emits carries the parts of the Prompt sum as they
are (so an infinite Prompt I or Q) and the tracking-valid flag of the acquisition
handle, the carrier and the code loop filter are each applied once, and the epoch length
is consumed.  Only NaN is tested. -/
theorem infinite_prompt_takes_normal_path (E : Externals) (s : State) (inp : EpochInput)
    (ht : tracking s) (hn : non_degenerate inp)
    (hinf : inp.Prompt.re.isinf = true ∨ inp.Prompt.im.isinf = true) :
    (general_work E s inp).out.Prompt_I = inp.Prompt.re
    ∧ (general_work E s inp).out.Prompt_Q = inp.Prompt.im
    ∧ ((general_work E s inp).out.Prompt_I.isinf = true
        ∨ (general_work E s inp).out.Prompt_Q.isinf = true)
    ∧ (general_work E s inp).out.Flag_valid_tracking
        = s.d_acquisition_gnss_synchro.Flag_valid_tracking
    ∧ (general_work E s inp).state.d_carrier_loop_filter.apply_count
        = s.d_carrier_loop_filter.apply_count + 1
    ∧ (general_work E s inp).state.d_code_loop_filter.apply_count
        = s.d_code_loop_filter.apply_count + 1
    ∧ (general_work E s inp).consumed = s.d_current_prn_length_samples := by
  obtain ⟨s3, _, _, _, h⟩ := ev_general_work_full E s inp ht hn
  have hP : (if s.d_prs_tracking_enabled = true then
        prs_correlate_and_propagate E (correlate_and_propagate E s inp) inp
      else correlate_and_propagate E s inp).d_Prompt = inp.Prompt :=
    (congrArg EpochView.Prompt (ev_propagated E s inp)).trans
      (congrArg EpochView.Prompt (ev_correlate_and_propagate E s inp))
  have hlen : (if s.d_prs_tracking_enabled = true then
        prs_correlate_and_propagate E (correlate_and_propagate E s inp) inp
      else correlate_and_propagate E s inp).d_current_prn_length_samples
        = s.d_current_prn_length_samples :=
    (congrArg EpochView.current_prn_length_samples (ev_propagated E s inp)).trans
      (congrArg EpochView.current_prn_length_samples (ev_correlate_and_propagate E s inp))
  have hI : (general_work E s inp).out.Prompt_I = inp.Prompt.re := by
    rw [general_work_tracking E s inp ht hn, out_tracking_epoch]
    unfold output_record
    dsimp only
    rw [prompt_tracking_epoch, hP]
  have hQ : (general_work E s inp).out.Prompt_Q = inp.Prompt.im := by
    rw [general_work_tracking E s inp ht hn, out_tracking_epoch]
    unfold output_record
    dsimp only
    rw [prompt_tracking_epoch, hP]
  refine ⟨hI, hQ, ?_, ?_, congrArg EpochView.carrier_applies h,
    congrArg EpochView.code_applies h, ?_⟩
  · rw [hI, hQ]
    exact hinf
  · rw [general_work_tracking E s inp ht hn, out_tracking_epoch]
    rfl
  · rw [general_work_tracking E s inp ht hn, consumed_tracking_epoch, hlen]

theorem next_length_general_work (E : Externals) (s : State) (inp : EpochInput)
    (ht : tracking s) (hn : non_degenerate inp) :
    (general_work E s inp).state.d_current_prn_length_samples
      = round (1 / (general_work E s inp).state.d_code_freq_chips
            * E.Galileo_E1_B_CODE_LENGTH_CHIPS * (s.d_fs_in : ℚ)
          + (general_work E s inp).state.d_rem_code_phase_samples) := by
  obtain ⟨s3, _, _, h3, h⟩ := ev_general_work_full E s inp ht hn
  have hb := (ev_bump_jump E s3).trans
    (congrArg (fun v => { v with code_phase_chips := (bump_jump E s3).d_code_phase_chips }) h3)
  have e1 : (bump_jump E s3).d_code_freq_chips = (general_work E s inp).state.d_code_freq_chips :=
    (congrArg EpochView.code_freq_chips hb).trans (congrArg EpochView.code_freq_chips h).symm
  have e2 : (bump_jump E s3).d_fs_in = s.d_fs_in :=
    (congrArg EpochView.fs_in hb).trans
      (congrArg EpochView.fs_in (ev_correlate_and_propagate E s inp))
  have e3 : (bump_jump E s3).d_rem_code_phase_samples
      = (general_work E s inp).state.d_rem_code_phase_samples :=
    (congrArg EpochView.rem_code_phase_samples hb).trans
      (congrArg EpochView.rem_code_phase_samples h).symm
  have hlen : (general_work E s inp).state.d_current_prn_length_samples
      = round (K_blk_samples E (bump_jump E s3)) :=
    congrArg EpochView.current_prn_length_samples h
  rw [hlen]
  unfold K_blk_samples
  rw [e1, e2, e3]

/-- C17: in a non-degenerate tracking epoch, when the code frequency after the loop
update equals the nominal chip rate 1.023e6 chips/s and the residual code phase in
samples is 0, the next epoch length that `general_work` stores equals
`round(4092 * fs / 1.023e6)`, in exact arithmetic, whatever the sample rate `fs`. -/
theorem nominal_epoch_length (E : Externals) (s : State) (inp : EpochInput)
    (ht : tracking s) (hn : non_degenerate inp)
    (hL : E.Galileo_E1_B_CODE_LENGTH_CHIPS = 4092)
    (hf : (general_work E s inp).state.d_code_freq_chips = 1023000)
    (hr : (general_work E s inp).state.d_rem_code_phase_samples = 0) :
    (general_work E s inp).state.d_current_prn_length_samples
      = round (4092 * (s.d_fs_in : ℚ) / 1023000) := by
  rw [next_length_general_work E s inp ht hn, hL, hf, hr]
  congr 1
  ring

/-- C18 (amended): for every code frequency `code_freq > 0`, sample rate and residual
code phase, the next epoch length computed by a non-degenerate tracking epoch equals
`round((1/code_freq) * code_length * sample_rate + residual_code_phase_in_samples)`, with
`code_length = 4092`: the chip period times the code length is multiplied by the sample
rate, not divided by it. -/
theorem epoch_length_formula (E : Externals) (s : State) (inp : EpochInput)
    (ht : tracking s) (hn : non_degenerate inp)
    (hL : E.Galileo_E1_B_CODE_LENGTH_CHIPS = 4092)
    (_hf : 0 < (general_work E s inp).state.d_code_freq_chips) :
    (general_work E s inp).state.d_current_prn_length_samples
      = round (1 / (general_work E s inp).state.d_code_freq_chips * 4092 * (s.d_fs_in : ℚ)
          + (general_work E s inp).state.d_rem_code_phase_samples) := by
  rw [next_length_general_work E s inp ht hn, hL]

theorem one_le_round (x : ℚ) : 1 ≤ round x ↔ 1 / 2 ≤ x := by
  unfold round
  split_ifs with h
  · rw [Int.le_floor]
    push_cast
    constructor <;> intro h1 <;> linarith
  · have h0 : x < 0 := not_le.mp h
    have hc : ⌈x - 1 / 2⌉ ≤ 0 := by
      rw [Int.ceil_le]
      push_cast
      linarith
    constructor
    · intro h1
      omega
    · intro h1
      linarith

/-- C19 (amended): the epoch length that a non-degenerate tracking epoch stores in
`d_current_prn_length_samples` for the next invocation is the rounded sample count
`K_blk_samples = (1/code_freq) * code_length * fs + residual code phase`, with no lower
bound applied: it is an integer `>= 1` exactly when `K_blk_samples >= 1/2`.  (A code
frequency that the loop filters drive negative, or a negative residual code phase that
outweighs the code period in samples, gives a length below 1.) -/
theorem epoch_length_positive_iff (E : Externals) (s : State) (inp : EpochInput)
    (ht : tracking s) (hn : non_degenerate inp)
    (_hf : (general_work E s inp).state.d_code_freq_chips ≠ 0) :
    1 ≤ (general_work E s inp).state.d_current_prn_length_samples
      ↔ 1 / 2 ≤ 1 / (general_work E s inp).state.d_code_freq_chips
            * E.Galileo_E1_B_CODE_LENGTH_CHIPS * (s.d_fs_in : ℚ)
          + (general_work E s inp).state.d_rem_code_phase_samples := by
  rw [next_length_general_work E s inp ht hn, one_le_round]

theorem pf_prs_follow_open (E : Externals) (s : State) (h : s.d_close_prs_loops = false) :
    prs_freq (prs_follow E s) =
      ⟨s.d_carrier_doppler_hz,
        E.Galileo_E1_A_CODE_CHIP_RATE_HZ
          + s.d_carrier_doppler_hz * E.Galileo_E1_A_CODE_CHIP_RATE_HZ / E.Galileo_E1_FREQ_HZ,
        E.Galileo_E1_A_SUB_CARRIER_RATE_HZ
          + s.d_carrier_doppler_hz * E.Galileo_E1_A_SUB_CARRIER_RATE_HZ / E.Galileo_E1_FREQ_HZ⟩ := by
  unfold prs_follow
  dsimp only
  rw [h]
  rfl

theorem pf_subcarrier_code_lock (s : State) :
    prs_freq (subcarrier_code_lock s) = prs_freq s
      ∧ (subcarrier_code_lock s).d_carrier_locked = s.d_carrier_locked := by
  unfold subcarrier_code_lock
  dsimp only
  split_ifs <;> exact ⟨rfl, rfl⟩

theorem pf_lock_counters (s : State) :
    prs_freq (lock_counters s) = prs_freq s
      ∧ (lock_counters s).d_carrier_locked = s.d_carrier_locked
      ∧ (lock_counters s).d_carrier_doppler_hz = s.d_carrier_doppler_hz
      ∧ (lock_counters s).d_code_freq_chips = s.d_code_freq_chips := by
  unfold lock_counters
  dsimp only
  split_ifs <;> exact ⟨rfl, rfl, rfl, rfl⟩

theorem pf_lock_transition (E : Externals) (t : State) (l : Locals) :
    prs_freq (lock_transition E t l) =
      if t.d_carrier_locked = false ∧ (lock_transition E t l).d_carrier_locked = true then
        ⟨t.d_carrier_doppler_hz,
          t.d_code_freq_chips * E.Galileo_E1_A_CODE_CHIP_RATE_HZ / E.Galileo_E1_CODE_CHIP_RATE_HZ,
          t.d_subcarrier_freq_cycles_prs⟩
      else prs_freq t := by
  have key : ∀ u : State,
      prs_freq { u with d_mean_subcarrier_error := 0, d_mean_code_error := 0 } = prs_freq u
      ∧ ({ u with d_mean_subcarrier_error := 0, d_mean_code_error := 0 } : State).d_carrier_locked
          = u.d_carrier_locked :=
    fun _ => ⟨rfl, rfl⟩
  unfold lock_transition
  dsimp only
  rw [(key _).1, (key _).2]
  by_cases hl : t.d_carrier_locked = true
  · rw [hl]
    simp only [Bool.not_true, Bool.false_eq_true, if_false, false_and]
    split
    · rfl
    · exact (pf_subcarrier_code_lock t).1
  · have hlf : t.d_carrier_locked = false := by simpa using hl
    rw [hlf]
    simp only [Bool.not_false, if_true, true_and]
    split
    · split
      · have h1 : (phase_lock_achieved E (loss_of_lock t) l).d_carrier_locked = true := rfl
        rw [if_pos h1]
        rfl
      · have h1 : (loss_of_lock t).d_carrier_locked = false := hlf
        rw [if_neg (by simp [h1])]
        rfl
    · split
      · have h1 : (phase_lock_achieved E t l).d_carrier_locked = true := rfl
        rw [if_pos h1]
        rfl
      · rfl

theorem pf_lock_detectors (E : Externals) (s : State) (l : Locals) :
    prs_freq (lock_detectors E s l) =
      if s.d_carrier_locked = false ∧ (lock_detectors E s l).d_carrier_locked = true then
        ⟨s.d_carrier_doppler_hz,
          s.d_code_freq_chips * E.Galileo_E1_A_CODE_CHIP_RATE_HZ / E.Galileo_E1_CODE_CHIP_RATE_HZ,
          s.d_subcarrier_freq_cycles_prs⟩
      else prs_freq s := by
  unfold lock_detectors
  split
  · have h : ¬ (s.d_carrier_locked = false ∧ s.d_carrier_locked = true) := by
      intro h
      rw [h.1] at h
      exact Bool.false_ne_true h.2
    dsimp only
    rw [if_neg h]
    rfl
  · unfold lock_evaluation
    rw [pf_lock_transition]
    obtain ⟨h1, h2, h3, h4⟩ := pf_lock_counters (lock_estimates E s)
    have e1 : prs_freq (lock_estimates E s) = prs_freq s := rfl
    have e2 : (lock_estimates E s).d_carrier_locked = s.d_carrier_locked := rfl
    have e3 : (lock_estimates E s).d_carrier_doppler_hz = s.d_carrier_doppler_hz := rfl
    have e4 : (lock_estimates E s).d_code_freq_chips = s.d_code_freq_chips := rfl
    have e5 : (lock_counters (lock_estimates E s)).d_subcarrier_freq_cycles_prs
        = s.d_subcarrier_freq_cycles_prs :=
      congrArg PrsFreq.subcarrier_freq_cycles_prs (h1.trans e1)
    rw [h1, h2, h3, h4, e1, e2, e3, e4, e5]

theorem pf_lock_detectors_prs (s : State) : prs_freq (lock_detectors_prs s) = prs_freq s := by
  have h : ∀ t, prs_freq (subcarrier_code_lock_prs t) = prs_freq t := by
    intro t
    unfold subcarrier_code_lock_prs
    dsimp only
    split_ifs <;> rfl
  unfold lock_detectors_prs
  dsimp only
  split
  · split
    · rfl
    · split
      · have := h { s with
          d_cn0_estimation_counter_prs := 0
          d_mean_subcarrier_error_prs :=
            s.d_mean_subcarrier_error_prs / (CN0_ESTIMATION_SAMPLES : ℚ)
          d_mean_code_error_prs := s.d_mean_code_error_prs / (CN0_ESTIMATION_SAMPLES : ℚ) }
        simp only [prs_freq, PrsFreq.mk.injEq] at this ⊢
        exact this
      · rfl
  · rfl

theorem pf_debug_output (s : State) : prs_freq (debug_output s) = prs_freq s := by
  unfold debug_output
  split <;> rfl

theorem pf_finish (E : Externals) (s : State) (l : Locals) (out : Gnss_Synchro) (n : Int) :
    prs_freq (finish E s l out n).state = prs_freq s := by
  unfold finish
  dsimp only
  split
  · split <;> rfl
  · rfl

theorem locked_prs_update (E : Externals) (s : State) :
    (prs_update E s).d_carrier_locked = s.d_carrier_locked := by
  have h : (ctl (prs_update E s)).locked = _ := congrArg Ctl.locked (ctl_prs_update E s)
  exact h.trans (by split <;> rfl)

theorem locked_finish (E : Externals) (s : State) (l : Locals) (out : Gnss_Synchro) (n : Int) :
    (finish E s l out n).state.d_carrier_locked = s.d_carrier_locked :=
  congrArg Ctl.locked (ctl_finish E s l out n)

theorem locked_debug_output (s : State) :
    (debug_output s).d_carrier_locked = s.d_carrier_locked :=
  congrArg Ctl.locked (ctl_debug_output s)

theorem locked_lock_detectors_prs (s : State) :
    (lock_detectors_prs s).d_carrier_locked = s.d_carrier_locked :=
  congrArg Ctl.locked (ctl_lock_detectors_prs s)

theorem pf_tracking_epoch (E : Externals) (s : State) (csd : Gnss_Synchro)
    (hopen : s.d_close_prs_loops = false) :
    prs_freq (tracking_epoch E s csd).state =
      if s.d_carrier_locked = false ∧ (tracking_epoch E s csd).state.d_carrier_locked = true then
        ⟨(tracking_epoch E s csd).state.d_carrier_doppler_hz,
          (tracking_epoch E s csd).state.d_code_freq_chips * E.Galileo_E1_A_CODE_CHIP_RATE_HZ
            / E.Galileo_E1_CODE_CHIP_RATE_HZ,
          E.Galileo_E1_A_SUB_CARRIER_RATE_HZ
            + (tracking_epoch E s csd).state.d_carrier_doppler_hz
              * E.Galileo_E1_A_SUB_CARRIER_RATE_HZ / E.Galileo_E1_FREQ_HZ⟩
      else
        ⟨(tracking_epoch E s csd).state.d_carrier_doppler_hz,
          E.Galileo_E1_A_CODE_CHIP_RATE_HZ
            + (tracking_epoch E s csd).state.d_carrier_doppler_hz
              * E.Galileo_E1_A_CODE_CHIP_RATE_HZ / E.Galileo_E1_FREQ_HZ,
          E.Galileo_E1_A_SUB_CARRIER_RATE_HZ
            + (tracking_epoch E s csd).state.d_carrier_doppler_hz
              * E.Galileo_E1_A_SUB_CARRIER_RATE_HZ / E.Galileo_E1_FREQ_HZ⟩ := by
  obtain ⟨s3, hs3⟩ : ∃ s3, s3 = prs_update E (bump_jump E (pll_dll E s).1) := ⟨_, rfl⟩
  have hv3 : epoch_view s3 = epoch_view (bump_jump E (pll_dll E s).1) := by
    rw [hs3, ev_prs_update]
  have hvf := ev_tracking_epoch E s csd
  have hb := (ev_bump_jump E (pll_dll E s).1).trans
    (congrArg (fun v => { v with
      code_phase_chips := (bump_jump E (pll_dll E s).1).d_code_phase_chips }) (ev_pll_dll E s))
  have hclose : s3.d_close_prs_loops = false :=
    ((congrArg EpochView.close_prs_loops hv3).trans
      (congrArg EpochView.close_prs_loops hb)).trans hopen
  have hdop : s3.d_carrier_doppler_hz = (tracking_epoch E s csd).state.d_carrier_doppler_hz :=
    (congrArg EpochView.carrier_doppler_hz hv3).trans
      (congrArg EpochView.carrier_doppler_hz hvf).symm
  have hcf : s3.d_code_freq_chips = (tracking_epoch E s csd).state.d_code_freq_chips :=
    (congrArg EpochView.code_freq_chips hv3).trans
      (congrArg EpochView.code_freq_chips hvf).symm
  have hl3 : s3.d_carrier_locked = s.d_carrier_locked := by
    rw [hs3, locked_prs_update]
    exact (congrArg Ctl.locked (ctl_bump_jump E (pll_dll E s).1)).trans
      (congrArg Ctl.locked (ctl_pll_dll E s))
  have hv4 : epoch_view (prs_follow E s3) = epoch_view s3 := ev_prs_follow E s3
  have hl4 : (prs_follow E s3).d_carrier_locked = s.d_carrier_locked :=
    (congrArg Ctl.locked (ctl_prs_follow E s3)).trans hl3
  have hpf4 := pf_prs_follow_open E s3 hclose
  have hstate : (tracking_epoch E s csd).state =
      (finish E (debug_output (lock_detectors_prs (lock_detectors E (prs_follow E s3)
        (pll_dll E s).2))) (pll_dll E s).2
        (output_record (lock_detectors_prs (lock_detectors E (prs_follow E s3)
          (pll_dll E s).2)) csd)
        (next_prn_length_samples E (prs_follow E s3))).state := by
    rw [hs3]
    rfl
  have hlf : (tracking_epoch E s csd).state.d_carrier_locked
      = (lock_detectors E (prs_follow E s3) (pll_dll E s).2).d_carrier_locked := by
    rw [hstate, locked_finish, locked_debug_output, locked_lock_detectors_prs]
  have hpf : prs_freq (tracking_epoch E s csd).state
      = prs_freq (lock_detectors E (prs_follow E s3) (pll_dll E s).2) := by
    rw [hstate, pf_finish, pf_debug_output, pf_lock_detectors_prs]
  have h5 : (prs_follow E s3).d_carrier_doppler_hz = s3.d_carrier_doppler_hz :=
    congrArg EpochView.carrier_doppler_hz hv4
  have h6 : (prs_follow E s3).d_code_freq_chips = s3.d_code_freq_chips :=
    congrArg EpochView.code_freq_chips hv4
  have h7 : (prs_follow E s3).d_subcarrier_freq_cycles_prs
      = E.Galileo_E1_A_SUB_CARRIER_RATE_HZ
        + s3.d_carrier_doppler_hz * E.Galileo_E1_A_SUB_CARRIER_RATE_HZ / E.Galileo_E1_FREQ_HZ :=
    congrArg PrsFreq.subcarrier_freq_cycles_prs hpf4
  rw [hpf, pf_lock_detectors, hl4, ← hlf, hpf4, h5, h6, h7, hdop, hcf]

/-- C20 (amended): when `d_close_prs_loops` is false, after every non-degenerate
tracking epoch the secondary Doppler equals the primary Doppler `D` and the secondary
subcarrier frequency equals `S_A + D * S_A / F`; the secondary code frequency equals
`R_A + D * R_A / F` after every such epoch except the one that starts the secondary loop
(the epoch that takes the primary from not carrier-locked to carrier-locked), after
which it is the primary code frequency scaled by `R_A / R_B`, as `start_tracking_prs`
sets it.  `R_A`, `S_A` are the nominal E1-A chip and subcarrier rates, `R_B` the E1-B chip
rate and `F` the E1 carrier frequency. -/
theorem open_loop_following (E : Externals) (s : State) (inp : EpochInput)
    (ht : tracking s) (hn : non_degenerate inp) (hopen : s.d_close_prs_loops = false) :
    (general_work E s inp).state.d_carrier_doppler_hz_prs
      = (general_work E s inp).state.d_carrier_doppler_hz
    ∧ (general_work E s inp).state.d_subcarrier_freq_cycles_prs
      = E.Galileo_E1_A_SUB_CARRIER_RATE_HZ
        + (general_work E s inp).state.d_carrier_doppler_hz
          * E.Galileo_E1_A_SUB_CARRIER_RATE_HZ / E.Galileo_E1_FREQ_HZ
    ∧ (general_work E s inp).state.d_code_freq_chips_prs
      = if s.d_carrier_locked = false
            ∧ (general_work E s inp).state.d_carrier_locked = true then
          (general_work E s inp).state.d_code_freq_chips * E.Galileo_E1_A_CODE_CHIP_RATE_HZ
            / E.Galileo_E1_CODE_CHIP_RATE_HZ
        else
          E.Galileo_E1_A_CODE_CHIP_RATE_HZ
            + (general_work E s inp).state.d_carrier_doppler_hz
              * E.Galileo_E1_A_CODE_CHIP_RATE_HZ / E.Galileo_E1_FREQ_HZ := by
  have hclose : (if s.d_prs_tracking_enabled = true then
        prs_correlate_and_propagate E (correlate_and_propagate E s inp) inp
      else correlate_and_propagate E s inp).d_close_prs_loops = false :=
    ((congrArg EpochView.close_prs_loops (ev_propagated E s inp)).trans
      (congrArg EpochView.close_prs_loops (ev_correlate_and_propagate E s inp))).trans hopen
  have hl : (if s.d_prs_tracking_enabled = true then
        prs_correlate_and_propagate E (correlate_and_propagate E s inp) inp
      else correlate_and_propagate E s inp).d_carrier_locked = s.d_carrier_locked := by
    split
    · exact congrArg (fun x => x.1) (bj_view_prs_correlate_and_propagate E _ inp).2
    · rfl
  have h := pf_tracking_epoch E _
    { s.d_acquisition_gnss_synchro with
      Tracking_timestamp_secs :=
        ((s.d_sample_counter : ℚ) + s.d_rem_code_phase_samples) / (s.d_fs_in : ℚ) } hclose
  rw [← general_work_tracking E s inp ht hn, hl] at h
  by_cases hp : s.d_carrier_locked = false ∧ (general_work E s inp).state.d_carrier_locked = true
  · rw [if_pos hp] at h ⊢
    exact ⟨congrArg PrsFreq.carrier_doppler_hz_prs h,
      congrArg PrsFreq.subcarrier_freq_cycles_prs h, congrArg PrsFreq.code_freq_chips_prs h⟩
  · rw [if_neg hp] at h ⊢
    exact ⟨congrArg PrsFreq.carrier_doppler_hz_prs h,
      congrArg PrsFreq.subcarrier_freq_cycles_prs h, congrArg PrsFreq.code_freq_chips_prs h⟩

set_option maxRecDepth 1000000 in
theorem ex_tracking_epoch_facts :
    tracking ex_tracking
    ∧ non_degenerate ex_good
    ∧ ¬ jumps ex_E ex_tracking ex_good
    ∧ 0 ≤ ex_tracking.d_code_phase_chips + epoch_T ex_tracking * ex_tracking.d_code_freq_chips
    ∧ ex_tracking.d_close_prs_loops = false
    ∧ ex_tracking.d_fs_in = 4000000
    ∧ (general_work ex_E ex_tracking ex_good).state.d_code_freq_chips = 1023000
    ∧ (general_work ex_E ex_tracking ex_good).state.d_rem_code_phase_samples = 0
    ∧ (general_work ex_E ex_tracking ex_good).state.d_current_prn_length_samples = 16000 := by
  decide!

/-- Witness for C11: the first tracking epoch of the concrete channel leaves a residual
carrier phase in `[-M_PI, M_PI)`. -/
theorem rem_carr_phase_range_witness :
    tracking ex_tracking
    ∧ -M_PI ≤ (general_work ex_E ex_tracking ex_good).state.d_rem_carr_phase_rad
    ∧ (general_work ex_E ex_tracking ex_good).state.d_rem_carr_phase_rad < M_PI :=
  ⟨ex_tracking_epoch_facts.1, rem_carr_phase_range ex_E ex_tracking ex_good ex_tracking_epoch_facts.1⟩

set_option maxRecDepth 1000000 in
/-- Counterexample to C11: in the concrete channel with an intermediate frequency of
125 Hz the carrier advances by exactly half a cycle in the first tracking epoch (4 ms),
and the epoch leaves the residual carrier phase at `-M_PI`, which is not strictly greater
than `-M_PI`. -/
theorem rem_carr_phase_reaches_minus_pi :
    tracking (state_at ex_E ex_if_start [ex_good, ex_good] 1)
    ∧ (state_at ex_E ex_if_start [ex_good, ex_good] 1).d_rem_carr_phase_rad = 0
    ∧ (run ex_E ex_if_start [ex_good, ex_good]).d_rem_carr_phase_rad = -M_PI
    ∧ ¬ (-M_PI < (run ex_E ex_if_start [ex_good, ex_good]).d_rem_carr_phase_rad) := by
  decide!

/-- Witness for C12: the first tracking epoch of the concrete channel applies no bump
jump and leaves the code phase in `[0, 4092)`. -/
theorem code_phase_range_without_jump_witness :
    ¬ jumps ex_E ex_tracking ex_good
    ∧ 0 ≤ (general_work ex_E ex_tracking ex_good).state.d_code_phase_chips
    ∧ (general_work ex_E ex_tracking ex_good).state.d_code_phase_chips < 4092 :=
  ⟨ex_tracking_epoch_facts.2.2.1,
    (code_phase_range_without_jump ex_E ex_tracking ex_good ex_tracking_epoch_facts.1 rfl
      ex_tracking_epoch_facts.2.2.2.1).1 ex_tracking_epoch_facts.2.2.1⟩

/-- Counterexample to C12: in the carrier-locked concrete channel (bump-jump threshold
3, `d_chips_to_cycles = 1`), the third of three consecutive tracking epochs in which
|Very-Late| exceeds |Prompt| and |Very-Early| applies a bump jump of direction -1 to the
wrapped code phase 0, and `general_work` returns with `d_code_phase_chips = -1/2`, below
0. -/
theorem code_phase_negative_after_jump :
    tracking (state_at ex_E ex_locked (List.replicate 3 ex_very_late) 2)
    ∧ jumps ex_E (state_at ex_E ex_locked (List.replicate 3 ex_very_late) 2) ex_very_late
    ∧ (state_at ex_E ex_locked (List.replicate 3 ex_very_late) 2).d_code_phase_chips = 0
    ∧ (run ex_E ex_locked (List.replicate 3 ex_very_late)).d_code_phase_chips = -1 / 2
    ∧ ¬ (0 ≤ (run ex_E ex_locked (List.replicate 3 ex_very_late)).d_code_phase_chips) :=
  ex_locked_run_facts.2.2

/-- Witness for C13: the first tracking epoch of the concrete channel, given a Prompt sum
with a NaN real part and 32000 available samples, emits the zeroed invalid record,
consumes the 32000 samples and returns 1. -/
theorem nan_record_witness :
    tracking ex_tracking
    ∧ ex_nan.Prompt.re.isnan = true
    ∧ (general_work ex_E ex_tracking ex_nan).out.Flag_valid_tracking = false
    ∧ (general_work ex_E ex_tracking ex_nan).out.Flag_valid_pseudorange = false
    ∧ (general_work ex_E ex_tracking ex_nan).out.Prompt_I = FloatVal.fin 0
    ∧ (general_work ex_E ex_tracking ex_nan).out.Prompt_Q = FloatVal.fin 0
    ∧ (general_work ex_E ex_tracking ex_nan).out.Carrier_phase_rads = 0
    ∧ (general_work ex_E ex_tracking ex_nan).out.Code_phase_secs = 0
    ∧ (general_work ex_E ex_tracking ex_nan).out.CN0_dB_hz = 0
    ∧ (general_work ex_E ex_tracking ex_nan).consumed = ex_nan.ninput_items
    ∧ (general_work ex_E ex_tracking ex_nan).ret = 1 :=
  ⟨ex_tracking_epoch_facts.1, rfl,
    nan_record ex_E ex_tracking ex_nan ex_tracking_epoch_facts.1 (Or.inl rfl)⟩

/-- Witness for C14: the first tracking epoch of the concrete channel, given a Prompt sum
with a NaN real part, leaves the primary loop state as it was. -/
theorem nan_leaves_primary_loop_witness :
    tracking ex_tracking
    ∧ ex_nan.Prompt.re.isnan = true
    ∧ primary_loop (general_work ex_E ex_tracking ex_nan).state = primary_loop ex_tracking :=
  ⟨ex_tracking_epoch_facts.1, rfl,
    nan_leaves_primary_loop ex_E ex_tracking ex_nan ex_tracking_epoch_facts.1 (Or.inl rfl)⟩

set_option maxRecDepth 1000000 in
theorem ex_if_facts :
    tracking (state_at ex_E ex_if_start [ex_good, ex_nan] 1)
    ∧ non_degenerate ex_good
    ∧ ¬ jumps ex_E (state_at ex_E ex_if_start [ex_good, ex_nan] 1) ex_good := by
  decide!

/-- Witness for C15: in the concrete channel with an intermediate frequency of 125 Hz,
the first tracking epoch leaves the same four phases whether its Prompt sum has a NaN
part or is clean. -/
theorem nan_epoch_advances_phases_witness :
    ex_nan.Prompt.re.isnan = true
    ∧ (general_work ex_E (state_at ex_E ex_if_start [ex_good, ex_nan] 1) ex_nan).state.d_code_phase_chips
      = fmod ((state_at ex_E ex_if_start [ex_good, ex_nan] 1).d_code_phase_chips
            + epoch_T (state_at ex_E ex_if_start [ex_good, ex_nan] 1)
              * (state_at ex_E ex_if_start [ex_good, ex_nan] 1).d_code_freq_chips)
          ex_E.Galileo_E1_B_CODE_LENGTH_CHIPS
    ∧ phases (general_work ex_E (state_at ex_E ex_if_start [ex_good, ex_nan] 1) ex_nan).state
      = phases (general_work ex_E (state_at ex_E ex_if_start [ex_good, ex_nan] 1) ex_good).state :=
  ⟨rfl, nan_epoch_advances_phases ex_E (state_at ex_E ex_if_start [ex_good, ex_nan] 1) ex_nan
    ex_good ex_if_facts.1 (Or.inl rfl) ex_if_facts.2.1 ex_if_facts.2.2⟩

set_option maxRecDepth 1000000 in
/-- Counterexample to C15: in the concrete channel with an intermediate frequency of
125 Hz, the first tracking epoch is entered with residual carrier phase 0 and takes the
NaN path; when it returns the residual carrier phase is `-M_PI`, not the 0 of the end of
the previous invocation: the NaN epoch has advanced it by the half cycle of the epoch. -/
theorem nan_epoch_moves_carrier_phase :
    tracking (state_at ex_E ex_if_start [ex_good, ex_nan] 1)
    ∧ ex_nan.Prompt.re.isnan = true
    ∧ (state_at ex_E ex_if_start [ex_good, ex_nan] 1).d_rem_carr_phase_rad = 0
    ∧ (run ex_E ex_if_start [ex_good, ex_nan]).d_rem_carr_phase_rad = -M_PI
    ∧ phases (run ex_E ex_if_start [ex_good, ex_nan])
      ≠ phases (state_at ex_E ex_if_start [ex_good, ex_nan] 1) := by
  decide!

set_option maxRecDepth 1000000 in
theorem ex_inf_facts :
    non_degenerate ex_inf
    ∧ (ex_inf.Prompt.re.isinf = true ∨ ex_inf.Prompt.im.isinf = true) := by
  decide!

/-- Witness for C16: the first tracking epoch of the concrete channel, given a Prompt sum
whose real part is +Inf, emits a record whose Prompt I is that +Inf and applies the
carrier and the code loop filter. -/
theorem infinite_prompt_takes_normal_path_witness :
    (general_work ex_E ex_tracking ex_inf).out.Prompt_I = ex_inf.Prompt.re
    ∧ (general_work ex_E ex_tracking ex_inf).out.Prompt_Q = ex_inf.Prompt.im
    ∧ ((general_work ex_E ex_tracking ex_inf).out.Prompt_I.isinf = true
        ∨ (general_work ex_E ex_tracking ex_inf).out.Prompt_Q.isinf = true)
    ∧ (general_work ex_E ex_tracking ex_inf).out.Flag_valid_tracking
        = ex_tracking.d_acquisition_gnss_synchro.Flag_valid_tracking
    ∧ (general_work ex_E ex_tracking ex_inf).state.d_carrier_loop_filter.apply_count
        = ex_tracking.d_carrier_loop_filter.apply_count + 1
    ∧ (general_work ex_E ex_tracking ex_inf).state.d_code_loop_filter.apply_count
        = ex_tracking.d_code_loop_filter.apply_count + 1
    ∧ (general_work ex_E ex_tracking ex_inf).consumed = ex_tracking.d_current_prn_length_samples :=
  infinite_prompt_takes_normal_path ex_E ex_tracking ex_inf ex_tracking_epoch_facts.1
    ex_inf_facts.1 ex_inf_facts.2

set_option maxRecDepth 1000000 in
/-- Counterexample to C16: the first tracking epoch of the concrete channel, given a
Prompt sum whose real part is +Inf (and no NaN part), emits a record whose Prompt I is
+Inf, not 0, and applies the carrier and the code loop filter, which had not been applied
before, once each. -/
theorem infinite_prompt_runs_the_loops :
    tracking ex_tracking
    ∧ ex_inf.Prompt.re = FloatVal.pinf
    ∧ ex_inf.Prompt.re.isnan = false ∧ ex_inf.Prompt.im.isnan = false
    ∧ (general_work ex_E ex_tracking ex_inf).out.Prompt_I = FloatVal.pinf
    ∧ (general_work ex_E ex_tracking ex_inf).out.Prompt_I ≠ FloatVal.fin 0
    ∧ ex_tracking.d_carrier_loop_filter.apply_count = 0
    ∧ ex_tracking.d_code_loop_filter.apply_count = 0
    ∧ (general_work ex_E ex_tracking ex_inf).state.d_carrier_loop_filter.apply_count = 1
    ∧ (general_work ex_E ex_tracking ex_inf).state.d_code_loop_filter.apply_count = 1 := by
  decide!

/-- Witness for C17: at 4 MHz the first tracking epoch of the concrete channel leaves the
code frequency at the nominal chip rate and the residual code phase at 0, and stores the
epoch length `round(4092 * 4000000 / 1023000)`. -/
theorem nominal_epoch_length_witness :
    (general_work ex_E ex_tracking ex_good).state.d_code_freq_chips = 1023000
    ∧ (general_work ex_E ex_tracking ex_good).state.d_rem_code_phase_samples = 0
    ∧ (general_work ex_E ex_tracking ex_good).state.d_current_prn_length_samples
      = round (4092 * (ex_tracking.d_fs_in : ℚ) / 1023000) :=
  ⟨ex_tracking_epoch_facts.2.2.2.2.2.2.1, ex_tracking_epoch_facts.2.2.2.2.2.2.2.1,
    nominal_epoch_length ex_E ex_tracking ex_good ex_tracking_epoch_facts.1
      ex_tracking_epoch_facts.2.1 rfl ex_tracking_epoch_facts.2.2.2.2.2.2.1
      ex_tracking_epoch_facts.2.2.2.2.2.2.2.1⟩

/-- Witness for C18: the first tracking epoch of the concrete channel, which leaves a
positive code frequency, stores the epoch length the formula gives. -/
theorem epoch_length_formula_witness :
    0 < (general_work ex_E ex_tracking ex_good).state.d_code_freq_chips
    ∧ (general_work ex_E ex_tracking ex_good).state.d_current_prn_length_samples
      = round (1 / (general_work ex_E ex_tracking ex_good).state.d_code_freq_chips * 4092
            * (ex_tracking.d_fs_in : ℚ)
          + (general_work ex_E ex_tracking ex_good).state.d_rem_code_phase_samples) :=
  ⟨by rw [ex_tracking_epoch_facts.2.2.2.2.2.2.1]; norm_num,
    epoch_length_formula ex_E ex_tracking ex_good ex_tracking_epoch_facts.1
      ex_tracking_epoch_facts.2.1 rfl
      (by rw [ex_tracking_epoch_facts.2.2.2.2.2.2.1]; norm_num)⟩

set_option maxRecDepth 1000000 in
/-- Counterexample to C18: the first tracking epoch of the concrete channel (sample rate
4 MHz) leaves the code frequency at 1023000 chips/s and the residual code phase at 0 and
stores the epoch length 16000, whereas the formula of the specification, which divides by
the sample rate, gives `round(4092 / 1023000 / 4000000 + 0) = 0`. -/
theorem epoch_length_not_divided_by_sample_rate :
    tracking ex_tracking
    ∧ non_degenerate ex_good
    ∧ ex_tracking.d_fs_in = 4000000
    ∧ (general_work ex_E ex_tracking ex_good).state.d_code_freq_chips = 1023000
    ∧ (general_work ex_E ex_tracking ex_good).state.d_rem_code_phase_samples = 0
    ∧ (general_work ex_E ex_tracking ex_good).state.d_current_prn_length_samples = 16000
    ∧ spec_epoch_length 1023000 4092 4000000 0 = 0 := by
  decide!

/-- Witness for C19: the first tracking epoch of the concrete channel stores an epoch
length of at least 1 exactly when its sample count `K_blk_samples` is at least 1/2. -/
theorem epoch_length_positive_iff_witness :
    (general_work ex_E ex_tracking ex_good).state.d_code_freq_chips ≠ 0
    ∧ (1 ≤ (general_work ex_E ex_tracking ex_good).state.d_current_prn_length_samples
      ↔ 1 / 2 ≤ 1 / (general_work ex_E ex_tracking ex_good).state.d_code_freq_chips
            * ex_E.Galileo_E1_B_CODE_LENGTH_CHIPS * (ex_tracking.d_fs_in : ℚ)
          + (general_work ex_E ex_tracking ex_good).state.d_rem_code_phase_samples) :=
  ⟨by rw [ex_tracking_epoch_facts.2.2.2.2.2.2.1]; norm_num,
    epoch_length_positive_iff ex_E ex_tracking ex_good ex_tracking_epoch_facts.1
      ex_tracking_epoch_facts.2.1
      (by rw [ex_tracking_epoch_facts.2.2.2.2.2.2.1]; norm_num)⟩

set_option maxRecDepth 1000000 in
/-- Counterexample to C19: in the concrete channel with a loop filter that answers
-2046000, the first tracking epoch, which is not degenerate, leaves the code frequency at
-1023000 chips/s and stores the epoch length -16000 in `d_current_prn_length_samples`. -/
theorem epoch_length_negative :
    tracking (state_at ex_E_runaway ex_start [ex_good, ex_good] 1)
    ∧ non_degenerate ex_good
    ∧ (run ex_E_runaway ex_start [ex_good, ex_good]).d_code_freq_chips = -1023000
    ∧ (run ex_E_runaway ex_start [ex_good, ex_good]).d_current_prn_length_samples = -16000
    ∧ ¬ (1 ≤ (run ex_E_runaway ex_start [ex_good, ex_good]).d_current_prn_length_samples) := by
  decide!

/-- Witness for C20: the first tracking epoch of the concrete channel, whose secondary
loops are open, leaves the secondary frequencies slaved to the primary Doppler. -/
theorem open_loop_following_witness :
    ex_tracking.d_close_prs_loops = false
    ∧ (general_work ex_E ex_tracking ex_good).state.d_carrier_doppler_hz_prs
      = (general_work ex_E ex_tracking ex_good).state.d_carrier_doppler_hz
    ∧ (general_work ex_E ex_tracking ex_good).state.d_subcarrier_freq_cycles_prs
      = ex_E.Galileo_E1_A_SUB_CARRIER_RATE_HZ
        + (general_work ex_E ex_tracking ex_good).state.d_carrier_doppler_hz
          * ex_E.Galileo_E1_A_SUB_CARRIER_RATE_HZ / ex_E.Galileo_E1_FREQ_HZ
    ∧ (general_work ex_E ex_tracking ex_good).state.d_code_freq_chips_prs
      = if ex_tracking.d_carrier_locked = false
            ∧ (general_work ex_E ex_tracking ex_good).state.d_carrier_locked = true then
          (general_work ex_E ex_tracking ex_good).state.d_code_freq_chips
            * ex_E.Galileo_E1_A_CODE_CHIP_RATE_HZ / ex_E.Galileo_E1_CODE_CHIP_RATE_HZ
        else
          ex_E.Galileo_E1_A_CODE_CHIP_RATE_HZ
            + (general_work ex_E ex_tracking ex_good).state.d_carrier_doppler_hz
              * ex_E.Galileo_E1_A_CODE_CHIP_RATE_HZ / ex_E.Galileo_E1_FREQ_HZ :=
  ⟨ex_tracking_epoch_facts.2.2.2.2.1,
    open_loop_following ex_E ex_tracking ex_good ex_tracking_epoch_facts.1
      ex_tracking_epoch_facts.2.1 ex_tracking_epoch_facts.2.2.2.2.1⟩

set_option maxRecDepth 1000000 in
/-- Counterexample to C20: in the concrete channel with open secondary loops and a code
discriminator that reports an error of 1, the epoch that promotes the primary and starts
the secondary loop (the 231st tracking epoch) leaves the primary Doppler at 0 and the
secondary code frequency at `2557500 + 11/12` chips/s, the primary code frequency
`1023000 + 11/30` scaled by 2.5, not at `R_A + D * R_A / F = 2557500`. -/
theorem start_epoch_scales_primary_code_freq :
    tracking (state_at ex_E_dll ex_start (ex_clean 231) 231)
    ∧ non_degenerate ex_good
    ∧ (state_at ex_E_dll ex_start (ex_clean 231) 231).d_close_prs_loops = false
    ∧ (state_at ex_E_dll ex_start (ex_clean 231) 231).d_prs_tracking_enabled = false
    ∧ (run ex_E_dll ex_start (ex_clean 231)).d_prs_tracking_enabled = true
    ∧ (run ex_E_dll ex_start (ex_clean 231)).d_carrier_doppler_hz = 0
    ∧ (run ex_E_dll ex_start (ex_clean 231)).d_code_freq_chips = 1023000 + 11 / 30
    ∧ (run ex_E_dll ex_start (ex_clean 231)).d_code_freq_chips_prs = 2557500 + 11 / 12
    ∧ (run ex_E_dll ex_start (ex_clean 231)).d_code_freq_chips_prs
      ≠ ex_E_dll.Galileo_E1_A_CODE_CHIP_RATE_HZ
        + (run ex_E_dll ex_start (ex_clean 231)).d_carrier_doppler_hz
          * ex_E_dll.Galileo_E1_A_CODE_CHIP_RATE_HZ / ex_E_dll.Galileo_E1_FREQ_HZ := by
  decide!

/-! ### Members a tracking epoch leaves alone -/

/-! ### Frames for the quiet members, the lock flags and the bandwidths -/

theorem qv_correlate_and_propagate (E : Externals) (s : State) (inp : EpochInput) :
    quiet_view (correlate_and_propagate E s inp) = quiet_view s := rfl

theorem qv_prs_correlate_and_propagate (E : Externals) (s : State) (inp : EpochInput) :
    quiet_view (prs_correlate_and_propagate E s inp) = quiet_view s := by
  unfold prs_correlate_and_propagate
  dsimp only
  split <;> split <;> rfl

theorem qv_propagated (E : Externals) (s : State) (inp : EpochInput) :
    quiet_view (if s.d_prs_tracking_enabled = true then
        prs_correlate_and_propagate E (correlate_and_propagate E s inp) inp
      else correlate_and_propagate E s inp) = quiet_view s := by
  split
  · exact qv_prs_correlate_and_propagate E _ inp
  · rfl

theorem qv_nan_samples (s : State) (inp : EpochInput) (csd : Gnss_Synchro) :
    quiet_view (nan_samples s inp csd).state = quiet_view s := rfl

theorem qv_pll_dll (E : Externals) (s : State) : quiet_view (pll_dll E s).1 = quiet_view s := by
  unfold pll_dll
  dsimp only
  split <;> rfl

theorem qv_bump_jump (E : Externals) (s : State) : quiet_view (bump_jump E s) = quiet_view s := by
  unfold bump_jump
  dsimp only
  split
  · split <;> rfl
  · rfl

theorem qv_bump_jump_prs (E : Externals) (s : State) :
    quiet_view (bump_jump_prs E s) = quiet_view s := by
  unfold bump_jump_prs
  dsimp only
  split
  · split
    · split <;> split <;> rfl
    · rfl
  · rfl

theorem qv_prs_update (E : Externals) (s : State) :
    quiet_view (prs_update E s) =
      { quiet_view s with
        divergence_applies_prs := (prs_update E s).d_divergence_loop_filter_prs.apply_count } := by
  unfold prs_update
  dsimp only
  split
  · split
    · have h := qv_bump_jump_prs E
      split
      all_goals
        simp only [quiet_view, QuietView.mk.injEq] at h ⊢
        simp only [h, and_self]
    · rfl
  · rfl

theorem qv_prs_follow (E : Externals) (s : State) : quiet_view (prs_follow E s) = quiet_view s := by
  unfold prs_follow
  dsimp only
  split
  · split <;> rfl
  · rfl

theorem qv_lock_counters (s : State) : quiet_view (lock_counters s) = quiet_view s := by
  unfold lock_counters
  dsimp only
  split_ifs <;> rfl

theorem qv_subcarrier_code_lock (s : State) :
    quiet_view (subcarrier_code_lock s) = quiet_view s := by
  unfold subcarrier_code_lock
  dsimp only
  split_ifs <;> rfl

theorem qv_start_tracking_prs (E : Externals) (s : State) :
    quiet_view (start_tracking_prs E s) = quiet_view s := by
  unfold start_tracking_prs
  simp [quiet_view, apply_count_set_noise_bandwidth]

theorem qv_lock_transition (E : Externals) (s : State) (l : Locals) :
    quiet_view (lock_transition E s l) = quiet_view s := by
  have key : ∀ t : State,
      quiet_view { t with d_mean_subcarrier_error := 0, d_mean_code_error := 0 }
        = quiet_view t :=
    fun _ => rfl
  have hloss : ∀ t : State, quiet_view (loss_of_lock t) = quiet_view t := fun _ => rfl
  have hpla : ∀ t : State, quiet_view (phase_lock_achieved E t l) = quiet_view t := by
    intro t
    unfold phase_lock_achieved
    rw [qv_start_tracking_prs]
    rfl
  unfold lock_transition
  dsimp only
  rw [key]
  split
  · split
    · split
      · rw [hpla, hloss]
      · rw [hloss]
    · split
      · rw [hpla]
      · rfl
  · split
    · rfl
    · exact qv_subcarrier_code_lock s

theorem qv_lock_detectors (E : Externals) (s : State) (l : Locals) :
    quiet_view (lock_detectors E s l) = quiet_view s := by
  unfold lock_detectors
  split
  · rfl
  · unfold lock_evaluation
    rw [qv_lock_transition, qv_lock_counters]
    rfl

theorem qv_subcarrier_code_lock_prs (t : State) :
    quiet_view (subcarrier_code_lock_prs t) = quiet_view t := by
  unfold subcarrier_code_lock_prs
  dsimp only
  split_ifs <;>
    simp [quiet_view, apply_count_init, apply_count_set_noise_bandwidth]

theorem qv_lock_detectors_prs (s : State) :
    quiet_view (lock_detectors_prs s) = quiet_view s := by
  unfold lock_detectors_prs
  dsimp only
  split
  · split
    · rfl
    · split
      · have := qv_subcarrier_code_lock_prs { s with
          d_cn0_estimation_counter_prs := 0
          d_mean_subcarrier_error_prs :=
            s.d_mean_subcarrier_error_prs / (CN0_ESTIMATION_SAMPLES : ℚ)
          d_mean_code_error_prs := s.d_mean_code_error_prs / (CN0_ESTIMATION_SAMPLES : ℚ) }
        simp only [quiet_view, QuietView.mk.injEq] at this ⊢
        exact this
      · rfl
  · rfl

theorem qv_debug_output (s : State) : quiet_view (debug_output s) = quiet_view s := by
  unfold debug_output
  split <;> rfl

theorem qv_finish (E : Externals) (s : State) (l : Locals) (out : Gnss_Synchro) (n : Int) :
    quiet_view (finish E s l out n).state = quiet_view s := by
  unfold finish
  dsimp only
  split
  · split <;> rfl
  · rfl

theorem qv_tracking_epoch (E : Externals) (s : State) (csd : Gnss_Synchro) :
    quiet_view (tracking_epoch E s csd).state =
      { quiet_view s with
        divergence_applies_prs :=
          (prs_update E (bump_jump E (pll_dll E s).1)).d_divergence_loop_filter_prs.apply_count } := by
  unfold tracking_epoch
  simp only [qv_finish, qv_debug_output, qv_lock_detectors_prs, qv_lock_detectors, qv_prs_follow]
  rw [qv_prs_update, qv_bump_jump, qv_pll_dll]

theorem lb_prs_correlate_and_propagate (E : Externals) (s : State) (inp : EpochInput) :
    lock_flags (prs_correlate_and_propagate E s inp) = lock_flags s
      ∧ bandwidths (prs_correlate_and_propagate E s inp) = bandwidths s := by
  unfold prs_correlate_and_propagate
  dsimp only
  split <;> split <;> exact ⟨rfl, rfl⟩

theorem lb_propagated (E : Externals) (s : State) (inp : EpochInput) :
    lock_flags (if s.d_prs_tracking_enabled = true then
        prs_correlate_and_propagate E (correlate_and_propagate E s inp) inp
      else correlate_and_propagate E s inp) = lock_flags s
    ∧ bandwidths (if s.d_prs_tracking_enabled = true then
        prs_correlate_and_propagate E (correlate_and_propagate E s inp) inp
      else correlate_and_propagate E s inp) = bandwidths s := by
  split
  · exact lb_prs_correlate_and_propagate E _ inp
  · exact ⟨rfl, rfl⟩

theorem lb_pll_dll (E : Externals) (s : State) :
    lock_flags (pll_dll E s).1 = lock_flags s ∧ bandwidths (pll_dll E s).1 = bandwidths s := by
  unfold pll_dll
  dsimp only
  split <;> exact ⟨rfl, rfl⟩

theorem lb_bump_jump (E : Externals) (s : State) :
    lock_flags (bump_jump E s) = lock_flags s ∧ bandwidths (bump_jump E s) = bandwidths s := by
  unfold bump_jump
  dsimp only
  split
  · split <;> exact ⟨rfl, rfl⟩
  · exact ⟨rfl, rfl⟩

theorem lb_bump_jump_prs (E : Externals) (s : State) :
    lock_flags (bump_jump_prs E s) = lock_flags s
      ∧ bandwidths (bump_jump_prs E s) = bandwidths s := by
  unfold bump_jump_prs
  dsimp only
  split
  · split
    · split <;> split <;> exact ⟨rfl, rfl⟩
    · exact ⟨rfl, rfl⟩
  · exact ⟨rfl, rfl⟩

theorem lb_prs_update (E : Externals) (s : State) :
    lock_flags (prs_update E s) = lock_flags s ∧ bandwidths (prs_update E s) = bandwidths s := by
  unfold prs_update
  dsimp only
  split
  · split
    · have h := lb_bump_jump_prs E
      split
      all_goals
        simp only [lock_flags, bandwidths, LockFlags.mk.injEq, Bandwidths.mk.injEq] at h ⊢
        simp only [h, and_self]
        simp [Tracking_loop_filter.apply]
    · exact ⟨rfl, rfl⟩
  · exact ⟨rfl, rfl⟩

theorem lb_prs_follow (E : Externals) (s : State) :
    lock_flags (prs_follow E s) = lock_flags s ∧ bandwidths (prs_follow E s) = bandwidths s := by
  unfold prs_follow
  dsimp only
  split
  · split <;> exact ⟨rfl, rfl⟩
  · exact ⟨rfl, rfl⟩

theorem lb_debug_output (s : State) :
    lock_flags (debug_output s) = lock_flags s ∧ bandwidths (debug_output s) = bandwidths s := by
  unfold debug_output
  split <;> exact ⟨rfl, rfl⟩

theorem lb_finish (E : Externals) (s : State) (l : Locals) (out : Gnss_Synchro) (n : Int) :
    lock_flags (finish E s l out n).state = lock_flags s
      ∧ bandwidths (finish E s l out n).state = bandwidths s := by
  unfold finish
  dsimp only
  split
  · split <;> exact ⟨rfl, rfl⟩
  · exact ⟨rfl, rfl⟩

theorem lb_tracking_disabled (s : State) :
    lock_flags (tracking_disabled s) = lock_flags s
      ∧ bandwidths (tracking_disabled s) = bandwidths s := by
  unfold tracking_disabled debug_output
  dsimp only
  split <;> exact ⟨rfl, rfl⟩

theorem lb_lock_counters (s : State) :
    lock_flags (lock_counters s) = lock_flags s ∧ bandwidths (lock_counters s) = bandwidths s := by
  unfold lock_counters
  dsimp only
  split_ifs <;> exact ⟨rfl, rfl⟩

/-- The subcarrier and code lock tests of the primary loop change a bandwidth only together
with the subcarrier or the code lock flag. -/
theorem lb_subcarrier_code_lock (s : State) :
    (subcarrier_code_lock s).d_carrier_locked = s.d_carrier_locked
    ∧ (subcarrier_code_lock s).d_subcarrier_locked_prs = s.d_subcarrier_locked_prs
    ∧ (subcarrier_code_lock s).d_code_locked_prs = s.d_code_locked_prs
    ∧ (subcarrier_code_lock s).d_prs_tracking_enabled = s.d_prs_tracking_enabled
    ∧ ((subcarrier_code_lock s).d_subcarrier_locked = s.d_subcarrier_locked →
        (subcarrier_code_lock s).d_code_locked = s.d_code_locked →
        bandwidths (subcarrier_code_lock s) = bandwidths s) := by
  unfold subcarrier_code_lock
  dsimp only
  split_ifs with h1 h2 h3 h4 h5 h6 h7
  all_goals refine ⟨rfl, rfl, rfl, rfl, ?_⟩
  all_goals intro a b
  all_goals first
    | rfl
    | (exfalso; simp_all)

/-- The lock evaluation of the primary loop changes a bandwidth, or a secondary lock flag,
only together with one of the three primary lock flags. -/
theorem lb_lock_transition (E : Externals) (t : State) (l : Locals)
    (h1 : (lock_transition E t l).d_carrier_locked = t.d_carrier_locked)
    (h2 : (lock_transition E t l).d_subcarrier_locked = t.d_subcarrier_locked)
    (h3 : (lock_transition E t l).d_code_locked = t.d_code_locked) :
    bandwidths (lock_transition E t l) = bandwidths t
    ∧ (lock_transition E t l).d_subcarrier_locked_prs = t.d_subcarrier_locked_prs
    ∧ (lock_transition E t l).d_code_locked_prs = t.d_code_locked_prs := by
  have key : ∀ u : State,
      bandwidths { u with d_mean_subcarrier_error := 0, d_mean_code_error := 0 } = bandwidths u
      ∧ lock_flags { u with d_mean_subcarrier_error := 0, d_mean_code_error := 0 }
          = lock_flags u :=
    fun _ => ⟨rfl, rfl⟩
  unfold lock_transition at h1 h2 h3 ⊢
  dsimp only at h1 h2 h3 ⊢
  by_cases hl : t.d_carrier_locked = true
  · rw [hl] at h1 h2 h3 ⊢
    simp only [Bool.not_true, Bool.false_eq_true, if_false] at h1 h2 h3 ⊢
    by_cases hf : t.d_carrier_lock_fail_counter > MAXIMUM_LOCK_FAIL_COUNTER
    · rw [if_pos hf] at h1
      exact absurd h1 (by simp [revert_to_initial])
    · rw [if_neg hf] at h2 h3 ⊢
      obtain ⟨k1, k2, k3, k4, k5⟩ := lb_subcarrier_code_lock t
      exact ⟨k5 h2 h3, k2, k3⟩
  · have hlf : t.d_carrier_locked = false := by simpa using hl
    rw [hlf] at h1 h2 h3 ⊢
    simp only [Bool.not_false, if_true] at h1 h2 h3 ⊢
    by_cases hf : t.d_carrier_lock_fail_counter > MAXIMUM_LOCK_FAIL_COUNTER
    · rw [if_pos hf] at h1 ⊢
      by_cases hs : (loss_of_lock t).d_carrier_lock_success_counter
          > MINIMUM_LOCK_SUCCESS_COUNTER
      · rw [if_pos hs] at h1
        exact absurd h1 (by simp [phase_lock_achieved, start_tracking_prs])
      · rw [if_neg hs]
        exact ⟨rfl, rfl, rfl⟩
    · rw [if_neg hf] at h1 ⊢
      by_cases hs : t.d_carrier_lock_success_counter > MINIMUM_LOCK_SUCCESS_COUNTER
      · rw [if_pos hs] at h1
        exact absurd h1 (by simp [phase_lock_achieved, start_tracking_prs])
      · rw [if_neg hs]
        exact ⟨rfl, rfl, rfl⟩

theorem lb_lock_detectors (E : Externals) (s : State) (l : Locals)
    (h1 : (lock_detectors E s l).d_carrier_locked = s.d_carrier_locked)
    (h2 : (lock_detectors E s l).d_subcarrier_locked = s.d_subcarrier_locked)
    (h3 : (lock_detectors E s l).d_code_locked = s.d_code_locked) :
    bandwidths (lock_detectors E s l) = bandwidths s
    ∧ (lock_detectors E s l).d_subcarrier_locked_prs = s.d_subcarrier_locked_prs
    ∧ (lock_detectors E s l).d_code_locked_prs = s.d_code_locked_prs := by
  unfold lock_detectors at h1 h2 h3 ⊢
  by_cases hc : s.d_cn0_estimation_counter < CN0_ESTIMATION_SAMPLES
  · rw [if_pos hc]
    exact ⟨rfl, rfl, rfl⟩
  · rw [if_neg hc] at h1 h2 h3 ⊢
    unfold lock_evaluation at h1 h2 h3 ⊢
    obtain ⟨k1, k2⟩ := lb_lock_counters (lock_estimates E s)
    have e1 : lock_flags (lock_estimates E s) = lock_flags s := rfl
    have e2 : bandwidths (lock_estimates E s) = bandwidths s := rfl
    have f := k1.trans e1
    have b := k2.trans e2
    have r := lb_lock_transition E (lock_counters (lock_estimates E s)) l
      (h1.trans (congrArg LockFlags.carrier_locked f).symm)
      (h2.trans (congrArg LockFlags.subcarrier_locked f).symm)
      (h3.trans (congrArg LockFlags.code_locked f).symm)
    exact ⟨r.1.trans b, r.2.1.trans (congrArg LockFlags.subcarrier_locked_prs f),
      r.2.2.trans (congrArg LockFlags.code_locked_prs f)⟩

/-- The lock tests of the secondary loop leave the primary lock flags, the secondary
enable flag and five of the bandwidths alone, and change the bandwidth of the secondary
divergence filter only together with the secondary subcarrier or code lock flag. -/
theorem lb_subcarrier_code_lock_prs (s : State) :
    (subcarrier_code_lock_prs s).d_carrier_locked = s.d_carrier_locked
    ∧ (subcarrier_code_lock_prs s).d_subcarrier_locked = s.d_subcarrier_locked
    ∧ (subcarrier_code_lock_prs s).d_code_locked = s.d_code_locked
    ∧ (subcarrier_code_lock_prs s).d_prs_tracking_enabled = s.d_prs_tracking_enabled
    ∧ ((subcarrier_code_lock_prs s).d_subcarrier_locked_prs = s.d_subcarrier_locked_prs →
        (subcarrier_code_lock_prs s).d_code_locked_prs = s.d_code_locked_prs →
        bandwidths (subcarrier_code_lock_prs s) = bandwidths s) := by
  unfold subcarrier_code_lock_prs
  dsimp only
  split_ifs
  all_goals refine ⟨rfl, rfl, rfl, rfl, ?_⟩
  all_goals intro a b
  all_goals first
    | rfl
    | (exfalso; simp_all)

theorem lb_lock_detectors_prs (s : State) :
    (lock_detectors_prs s).d_carrier_locked = s.d_carrier_locked
    ∧ (lock_detectors_prs s).d_subcarrier_locked = s.d_subcarrier_locked
    ∧ (lock_detectors_prs s).d_code_locked = s.d_code_locked
    ∧ (lock_detectors_prs s).d_prs_tracking_enabled = s.d_prs_tracking_enabled
    ∧ ((lock_detectors_prs s).d_subcarrier_locked_prs = s.d_subcarrier_locked_prs →
        (lock_detectors_prs s).d_code_locked_prs = s.d_code_locked_prs →
        bandwidths (lock_detectors_prs s) = bandwidths s) := by
  unfold lock_detectors_prs
  dsimp only
  split
  · split
    · exact ⟨rfl, rfl, rfl, rfl, fun _ _ => rfl⟩
    · split
      · obtain ⟨k1, k2, k3, k4, k5⟩ := lb_subcarrier_code_lock_prs { s with
          d_cn0_estimation_counter_prs := 0
          d_mean_subcarrier_error_prs :=
            s.d_mean_subcarrier_error_prs / (CN0_ESTIMATION_SAMPLES : ℚ)
          d_mean_code_error_prs := s.d_mean_code_error_prs / (CN0_ESTIMATION_SAMPLES : ℚ) }
        exact ⟨k1, k2, k3, k4, fun a b => k5 a b⟩
      · exact ⟨rfl, rfl, rfl, rfl, fun _ _ => rfl⟩
  · exact ⟨rfl, rfl, rfl, rfl, fun _ _ => rfl⟩

/-! ### Records, pull-in, the acquisition handle, the dump record, flow control -/

/-- C28: for every invocation of `general_work`, in every state, if none of the six lock
flags (primary carrier, subcarrier and code lock, secondary subcarrier and code lock,
secondary tracking enabled) has another value after the invocation than before it, then
the noise bandwidth of each of the six loop filters is the same after the invocation as
before it. -/
theorem bandwidth_changes_only_at_lock_transitions (E : Externals) (s : State)
    (inp : EpochInput) (h : lock_flags (general_work E s inp).state = lock_flags s) :
    bandwidths (general_work E s inp).state = bandwidths s := by
  by_cases he : s.d_enable_tracking = true
  · by_cases hp : s.d_pull_in = true
    · unfold general_work
      rw [if_pos he, if_pos hp]
      rfl
    · have ht : tracking s := ⟨he, by simpa using hp⟩
      by_cases hn : non_degenerate inp
      · rw [general_work_tracking E s inp ht hn] at h ⊢
        obtain ⟨f0, b0⟩ := lb_propagated E s inp
        generalize (if s.d_prs_tracking_enabled = true then
            prs_correlate_and_propagate E (correlate_and_propagate E s inp) inp
          else correlate_and_propagate E s inp) = sp at h f0 b0 ⊢
        generalize ({ s.d_acquisition_gnss_synchro with
          Tracking_timestamp_secs :=
            ((s.d_sample_counter : ℚ) + s.d_rem_code_phase_samples) / (s.d_fs_in : ℚ) }
            : Gnss_Synchro) = csd at h ⊢
        unfold tracking_epoch at h ⊢
        dsimp only at h ⊢
        rw [(lb_finish E _ _ _ _).1, (lb_debug_output _).1] at h
        rw [(lb_finish E _ _ _ _).2, (lb_debug_output _).2]
        obtain ⟨s4, hs4⟩ : ∃ s4, s4 = prs_follow E (prs_update E (bump_jump E (pll_dll E sp).1)) :=
          ⟨_, rfl⟩
        rw [← hs4] at h ⊢
        have f4 : lock_flags s4 = lock_flags s := by
          rw [hs4, (lb_prs_follow E _).1, (lb_prs_update E _).1, (lb_bump_jump E _).1,
            (lb_pll_dll E _).1, f0]
        have b4 : bandwidths s4 = bandwidths s := by
          rw [hs4, (lb_prs_follow E _).2, (lb_prs_update E _).2, (lb_bump_jump E _).2,
            (lb_pll_dll E _).2, b0]
        generalize (pll_dll E sp).2 = l at h ⊢
        obtain ⟨k1, k2, k3, k4, k5⟩ := lb_lock_detectors_prs (lock_detectors E s4 l)
        have h4 := h.trans f4.symm
        have a1 : (lock_detectors E s4 l).d_carrier_locked = s4.d_carrier_locked :=
          k1.symm.trans (congrArg LockFlags.carrier_locked h4)
        have a2 : (lock_detectors E s4 l).d_subcarrier_locked = s4.d_subcarrier_locked :=
          k2.symm.trans (congrArg LockFlags.subcarrier_locked h4)
        have a3 : (lock_detectors E s4 l).d_code_locked = s4.d_code_locked :=
          k3.symm.trans (congrArg LockFlags.code_locked h4)
        obtain ⟨r1, r2, r3⟩ := lb_lock_detectors E s4 l a1 a2 a3
        have c1 : (lock_detectors_prs (lock_detectors E s4 l)).d_subcarrier_locked_prs
            = (lock_detectors E s4 l).d_subcarrier_locked_prs :=
          (congrArg LockFlags.subcarrier_locked_prs h4).trans r2.symm
        have c2 : (lock_detectors_prs (lock_detectors E s4 l)).d_code_locked_prs
            = (lock_detectors E s4 l).d_code_locked_prs :=
          (congrArg LockFlags.code_locked_prs h4).trans r3.symm
        exact ((k5 c1 c2).trans r1).trans b4
      · have hnan := nan_of_not_non_degenerate inp hn
        rw [general_work_nan E s inp ht hnan]
        exact (lb_propagated E s inp).2
  · unfold general_work
    rw [if_neg he]
    dsimp only
    rw [(lb_finish E _ _ _ _).2, (lb_tracking_disabled s).2]

/-- C23: every invocation of `general_work`, in every state (pull-in, tracking, NaN
recovery, tracking disabled), returns 1, the number of records it has written: the one
record `*out[0]`. -/
theorem general_work_returns_one (E : Externals) (s : State) (inp : EpochInput) :
    (general_work E s inp).ret = 1 := by
  unfold general_work
  split
  · split
    · rfl
    · dsimp only
      split <;> split <;> rfl
  · rfl

theorem out_disabled (E : Externals) (s : State) (inp : EpochInput)
    (he : ¬ s.d_enable_tracking = true) :
    (general_work E s inp).out
      = { s.d_acquisition_gnss_synchro with Flag_valid_pseudorange := false }
    ∧ (general_work E s inp).state.d_acquisition_gnss_synchro
      = { s.d_acquisition_gnss_synchro with Flag_valid_pseudorange := false }
    ∧ (general_work E s inp).state.d_vector_length = s.d_vector_length := by
  have hd : (tracking_disabled s).d_acquisition_gnss_synchro
      = { s.d_acquisition_gnss_synchro with Flag_valid_pseudorange := false }
      ∧ (tracking_disabled s).d_vector_length = s.d_vector_length := by
    unfold tracking_disabled debug_output
    dsimp only
    split <;> exact ⟨rfl, rfl⟩
  unfold general_work
  rw [if_neg he]
  dsimp only
  have hq := qv_finish E (tracking_disabled s) Locals.zero
    (tracking_disabled s).d_acquisition_gnss_synchro
    (tracking_disabled s).d_current_prn_length_samples
  refine ⟨?_, ?_, ?_⟩
  · have : ∀ (t : State) (l : Locals) (o : Gnss_Synchro) (n : Int), (finish E t l o n).out = o :=
      fun _ _ _ _ => rfl
    rw [this, hd.1]
  · exact (congrArg QuietView.synchro hq).trans hd.1
  · exact (congrArg QuietView.vector_length hq).trans hd.2

/-- C24 (amended): the record emitted by an invocation of `general_work` has its
pseudorange-valid flag equal to false in every state except pull-in; the pull-in
invocation emits the acquisition handle as it is, so its record carries the
pseudorange-valid flag of the handle. -/
theorem pseudorange_flag_of_record (E : Externals) (s : State) (inp : EpochInput) :
    (general_work E s inp).out.Flag_valid_pseudorange =
      if s.d_enable_tracking = true ∧ s.d_pull_in = true then
        s.d_acquisition_gnss_synchro.Flag_valid_pseudorange
      else false := by
  by_cases he : s.d_enable_tracking = true
  · by_cases hp : s.d_pull_in = true
    · rw [if_pos ⟨he, hp⟩]
      unfold general_work
      rw [if_pos he, if_pos hp]
      rfl
    · rw [if_neg (fun h => hp h.2)]
      have ht : tracking s := ⟨he, by simpa using hp⟩
      by_cases hn : non_degenerate inp
      · rw [general_work_tracking E s inp ht hn, out_tracking_epoch]
        rfl
      · rw [general_work_nan E s inp ht (nan_of_not_non_degenerate inp hn)]
        rfl
  · rw [if_neg (fun h => he h.1), (out_disabled E s inp he).1]

/-- C25: the pull-in invocation, the first invocation of `general_work` after
`start_tracking`, emits a record equal to the acquisition handle's data, consumes exactly
the computed sample offset (by which it also advances the sample counter), leaves the
code phase, the residual code phase and the subcarrier phase at zero and the pull-in
flag cleared, and leaves the carrier Doppler, the code and subcarrier frequencies, the
six loop filters, the six lock flags, the lock counters, the estimation counters and the
stored epoch length unchanged. -/
theorem pull_in_runs_no_loop (E : Externals) (s : State) (inp : EpochInput)
    (he : s.d_enable_tracking = true) (hp : s.d_pull_in = true) :
    (general_work E s inp).out = s.d_acquisition_gnss_synchro
    ∧ (general_work E s inp).consumed
      = to_int32 (round (s.d_acq_code_phase_samples
          + to_float ((s.d_current_prn_length_samples : ℚ)
            - fmod (to_float ((to_int32 (s.d_sample_counter - s.d_acq_sample_stamp) : Int) : ℚ))
                (to_float (s.d_current_prn_length_samples : ℚ)))))
    ∧ (general_work E s inp).state.d_sample_counter
      = s.d_sample_counter + (general_work E s inp).consumed
    ∧ (general_work E s inp).state.d_code_phase_chips = 0
    ∧ (general_work E s inp).state.d_rem_code_phase_samples = 0
    ∧ (general_work E s inp).state.d_subcarrier_phase_cycles = 0
    ∧ (general_work E s inp).state.d_pull_in = false
    ∧ primary_loop (general_work E s inp).state = primary_loop s
    ∧ lock_flags (general_work E s inp).state = lock_flags s
    ∧ (general_work E s inp).state.d_code_loop_filter_prs = s.d_code_loop_filter_prs
    ∧ (general_work E s inp).state.d_carrier_loop_filter_prs = s.d_carrier_loop_filter_prs
    ∧ (general_work E s inp).state.d_divergence_loop_filter_prs = s.d_divergence_loop_filter_prs
    ∧ (general_work E s inp).state.d_cn0_estimation_counter = s.d_cn0_estimation_counter
    ∧ (general_work E s inp).state.d_cn0_estimation_counter_prs
      = s.d_cn0_estimation_counter_prs := by
  unfold general_work
  rw [if_pos he, if_pos hp]
  exact ⟨rfl, rfl, rfl, rfl, rfl, rfl, rfl, rfl, rfl, rfl, rfl, rfl, rfl, rfl⟩

theorem synchro_general_work (E : Externals) (s : State) (inp : EpochInput) :
    (general_work E s inp).state.d_acquisition_gnss_synchro =
      (if s.d_enable_tracking = true then s.d_acquisition_gnss_synchro
      else { s.d_acquisition_gnss_synchro with Flag_valid_pseudorange := false })
    ∧ (general_work E s inp).state.d_vector_length = s.d_vector_length := by
  by_cases he : s.d_enable_tracking = true
  · rw [if_pos he]
    by_cases hp : s.d_pull_in = true
    · unfold general_work
      rw [if_pos he, if_pos hp]
      exact ⟨rfl, rfl⟩
    · have ht : tracking s := ⟨he, by simpa using hp⟩
      by_cases hn : non_degenerate inp
      · rw [general_work_tracking E s inp ht hn]
        have hq := qv_propagated E s inp
        generalize (if s.d_prs_tracking_enabled = true then
            prs_correlate_and_propagate E (correlate_and_propagate E s inp) inp
          else correlate_and_propagate E s inp) = sp at hq ⊢
        generalize ({ s.d_acquisition_gnss_synchro with
          Tracking_timestamp_secs :=
            ((s.d_sample_counter : ℚ) + s.d_rem_code_phase_samples) / (s.d_fs_in : ℚ) }
            : Gnss_Synchro) = csd
        have h := qv_tracking_epoch E sp csd
        exact ⟨(congrArg QuietView.synchro h).trans (congrArg QuietView.synchro hq),
          (congrArg QuietView.vector_length h).trans (congrArg QuietView.vector_length hq)⟩
      · rw [general_work_nan E s inp ht (nan_of_not_non_degenerate inp hn)]
        have hq := qv_propagated E s inp
        generalize (if s.d_prs_tracking_enabled = true then
            prs_correlate_and_propagate E (correlate_and_propagate E s inp) inp
          else correlate_and_propagate E s inp) = sp at hq ⊢
        exact ⟨congrArg QuietView.synchro hq, congrArg QuietView.vector_length hq⟩
  · rw [if_neg he]
    exact (out_disabled E s inp he).2

/-- C27 (amended): `start_tracking` and `start_tracking_prs` change no field of the
acquisition handle, and neither does an invocation of `general_work` made while tracking
is enabled (pull-in, tracking, NaN recovery); an invocation made while tracking is
disabled clears the pseudorange-valid flag of the handle and leaves its other fields as
they are. -/
theorem handle_written_only_when_disabled (E : Externals) (s : State) (inp : EpochInput) :
    (start_tracking E s).d_acquisition_gnss_synchro = s.d_acquisition_gnss_synchro
    ∧ (start_tracking_prs E s).d_acquisition_gnss_synchro = s.d_acquisition_gnss_synchro
    ∧ (general_work E s inp).state.d_acquisition_gnss_synchro =
      if s.d_enable_tracking = true then s.d_acquisition_gnss_synchro
      else { s.d_acquisition_gnss_synchro with Flag_valid_pseudorange := false } :=
  ⟨rfl, rfl, (synchro_general_work E s inp).1⟩

/-- C29 (amended): in each dump record the block that `general_work` writes for the
secondary loop does not have the layout of the block of the primary loop.  The primary
block is 5 float magnitudes, 2 float Prompt I/Q, 1 unsigned sample counter, 1 float
accumulated carrier phase and 12 doubles; the secondary block is 5 float magnitudes of
the accumulators, 2 float Prompt I/Q and 10 doubles in the order Doppler, code
frequency, carrier error raw and filtered, subcarrier error raw and filtered, code
phase, VEML error raw and filtered, subcarrier phase: it has no sample counter, no
accumulated carrier phase, no CN0 and no lock statistic.  With `u = sizeof(unsigned long
int)` the primary block is `128 + u` bytes long and the secondary block 108 bytes. -/
theorem dump_record_layout (E : Externals) (s : State) (l : Locals) (u : Nat) :
    dump_record E s l = dump_block E s l ++ dump_block_prs E s l
    ∧ (dump_block E s l).map DumpField.kind
      = List.replicate 7 DumpKind.float ++ [DumpKind.ulong, DumpKind.float]
        ++ List.replicate 12 DumpKind.double
    ∧ (dump_block_prs E s l).map DumpField.kind
      = List.replicate 7 DumpKind.float ++ List.replicate 10 DumpKind.double
    ∧ dump_block_prs E s l =
      [ DumpField.float (FloatVal.fin (E.cabs s.d_VE_acumm_prs)),
        DumpField.float (FloatVal.fin (E.cabs s.d_E_acumm_prs)),
        DumpField.float (FloatVal.fin (E.cabs s.d_P_acumm_prs)),
        DumpField.float (FloatVal.fin (E.cabs s.d_L_acumm_prs)),
        DumpField.float (FloatVal.fin (E.cabs s.d_VL_acumm_prs)),
        DumpField.float s.d_Prompt_prs.re,
        DumpField.float s.d_Prompt_prs.im,
        DumpField.double s.d_carrier_doppler_hz_prs,
        DumpField.double s.d_code_freq_chips_prs,
        DumpField.double s.d_carr_error_hz_prs,
        DumpField.double s.d_carr_error_filt_hz_prs,
        DumpField.double s.d_subcarrier_error_cycles_prs,
        DumpField.double s.d_subcarrier_error_filt_cycles_prs,
        DumpField.double
          ((s.d_integer_code_phase_chips_prs : ℚ) + s.d_fractional_code_phase_chips_prs),
        DumpField.double s.d_code_error_chips_veml_prs,
        DumpField.double s.d_code_error_filt_chips_veml_prs,
        DumpField.double
          ((s.d_integer_subcarrier_phase_cycles_prs : ℚ)
            + s.d_fractional_subcarrier_phase_cycles_prs) ]
    ∧ dump_bytes u (dump_block E s l) = 128 + u
    ∧ dump_bytes u (dump_block_prs E s l) = 108 := by
  refine ⟨?_, ?_, ?_, ?_, ?_, ?_⟩
  · unfold dump_block dump_block_prs
    exact (List.take_append_drop 21 _).symm
  · simp [dump_block, dump_record, DumpField.kind]
  · simp [dump_block_prs, dump_record, DumpField.kind]
  · simp [dump_block_prs, dump_record]
  · simp [dump_bytes, dump_block, dump_record, DumpField.kind, DumpKind.bytes]
    omega
  · simp [dump_bytes, dump_block_prs, dump_record, DumpField.kind, DumpKind.bytes]

theorem round_le_natCast (x : ℚ) (n : ℕ) : round x ≤ (n : ℤ) ↔ x < (n : ℚ) + 1 / 2 := by
  have hn : (0 : ℚ) ≤ (n : ℚ) := by positivity
  unfold round
  split_ifs with h
  · rw [← Int.lt_add_one_iff, Int.floor_lt]
    push_cast
    constructor <;> intro h1 <;> linarith
  · have h0 : x < 0 := not_le.mp h
    rw [Int.ceil_le]
    push_cast
    constructor <;> intro _ <;> linarith

/-- C30 (amended): the number of input samples that `forecast` declares is the constant
`2 * d_vector_length` in every state; a tracking epoch does not change it, whatever
epoch length it stores.  After a non-degenerate tracking epoch it is at least the
just-updated epoch length `d_current_prn_length_samples` exactly when the sample count
`K_blk_samples = (1/code_freq) * code_length * fs + residual code phase` of the epoch is
below `2 * d_vector_length + 1/2`. -/
theorem forecast_is_constant (E : Externals) (s : State) (inp : EpochInput)
    (ht : tracking s) (hn : non_degenerate inp)
    (_hf : (general_work E s inp).state.d_code_freq_chips ≠ 0) :
    forecast (general_work E s inp).state = 2 * (s.d_vector_length : Int)
    ∧ forecast (general_work E s inp).state = forecast s
    ∧ ((general_work E s inp).state.d_current_prn_length_samples
          ≤ forecast (general_work E s inp).state
        ↔ 1 / (general_work E s inp).state.d_code_freq_chips
              * E.Galileo_E1_B_CODE_LENGTH_CHIPS * (s.d_fs_in : ℚ)
            + (general_work E s inp).state.d_rem_code_phase_samples
          < 2 * (s.d_vector_length : ℚ) + 1 / 2) := by
  have hv := (synchro_general_work E s inp).2
  have hf : forecast (general_work E s inp).state = ((2 * s.d_vector_length : ℕ) : ℤ) := by
    unfold forecast
    rw [hv]
    push_cast
    ring
  refine ⟨?_, ?_, ?_⟩
  · rw [hf]
    push_cast
    ring
  · rw [hf]
    unfold forecast
    push_cast
    ring
  · rw [hf, next_length_general_work E s inp ht hn, round_le_natCast]
    push_cast
    rfl

theorem prs_update_applies (E : Externals) (s : State) :
    (prs_update E s).d_carrier_loop_filter_prs.apply_count
      = s.d_carrier_loop_filter_prs.apply_count
        + (if (s.d_prs_tracking_enabled
            && s.d_prs_accumulation_index == s.d_prs_accumulation_length) = true then 1 else 0)
    ∧ (prs_update E s).d_code_loop_filter_prs.apply_count
      = s.d_code_loop_filter_prs.apply_count
        + (if (s.d_prs_tracking_enabled
            && s.d_prs_accumulation_index == s.d_prs_accumulation_length) = true then 1 else 0) := by
  have h := ctl_prs_update E s
  constructor
  · have h1 := congrArg Ctl.pll_prs_applies h
    split_ifs with hc
    · rw [if_pos hc] at h1
      exact h1
    · rw [if_neg hc] at h1
      exact h1
  · have h1 := congrArg Ctl.dll_prs_applies h
    split_ifs with hc
    · rw [if_pos hc] at h1
      exact h1
    · rw [if_neg hc] at h1
      exact h1

/-! ### Open secondary loops; the primary state, section by section -/

theorem primary_idem (s : State) : primary (primary s) = primary s := rfl

theorem pr_correlate_and_propagate (E : Externals) (s : State) (inp : EpochInput) :
    primary (correlate_and_propagate E s inp)
      = primary (correlate_and_propagate E (primary s) (primary_sums inp)) := rfl

theorem pr_prs_correlate_and_propagate (E : Externals) (s : State) (inp : EpochInput) :
    primary (prs_correlate_and_propagate E s inp) = primary s := by
  unfold prs_correlate_and_propagate
  dsimp only
  split <;> split <;> rfl

theorem pr_pll_dll (E : Externals) (s : State) :
    primary (pll_dll E s).1 = primary (pll_dll E (primary s)).1
      ∧ (pll_dll E s).2 = (pll_dll E (primary s)).2 := by
  unfold pll_dll
  dsimp only [primary]
  split_ifs <;> exact ⟨rfl, rfl⟩

theorem pr_bump_jump (E : Externals) (s : State) :
    primary (bump_jump E s) = primary (bump_jump E (primary s)) := by
  unfold bump_jump
  dsimp only [primary]
  split_ifs <;> rfl

theorem pr_bump_jump_prs (E : Externals) (s : State) :
    primary (bump_jump_prs E s) = primary s := by
  unfold bump_jump_prs
  dsimp only
  split
  · split
    · split <;> split <;> rfl
    · rfl
  · rfl

theorem pr_prs_update (E : Externals) (s : State) : primary (prs_update E s) = primary s := by
  unfold prs_update
  dsimp only
  split
  · split
    · split
      · rw [show ∀ t : State, primary { t with d_prs_accumulation_index := 0 } = primary t
          from fun _ => rfl, pr_bump_jump_prs]
        rfl
      · rw [show ∀ t : State, primary { t with d_prs_accumulation_index := 0 } = primary t
          from fun _ => rfl, pr_bump_jump_prs]
        rfl
    · rfl
  · rfl

theorem pr_prs_follow (E : Externals) (s : State) : primary (prs_follow E s) = primary s := by
  unfold prs_follow
  dsimp only
  split
  · split <;> rfl
  · rfl

theorem pr_next_prn_length_samples (E : Externals) (s : State) :
    next_prn_length_samples E s = next_prn_length_samples E (primary s) := rfl

theorem pr_lock_counters (s : State) :
    primary (lock_counters s) = primary (lock_counters (primary s)) := by
  unfold lock_counters
  dsimp only [primary]
  split_ifs <;> rfl

theorem pr_subcarrier_code_lock (s : State) :
    primary (subcarrier_code_lock s) = primary (subcarrier_code_lock (primary s)) := by
  unfold subcarrier_code_lock
  dsimp only [primary]
  split_ifs <;> rfl

theorem pr_start_tracking_prs (E : Externals) (s : State) :
    primary (start_tracking_prs E s) = primary { s with
      d_prs_tracking_enabled := true
      d_cn0_estimation_counter := 0 } := rfl

theorem pr_phase_lock_achieved (E : Externals) (s : State) (l : Locals) :
    primary (phase_lock_achieved E s l) = primary (phase_lock_achieved E (primary s) l) := by
  unfold phase_lock_achieved
  rw [pr_start_tracking_prs, pr_start_tracking_prs]
  rfl

theorem pr_lock_transition (E : Externals) (s : State) (l : Locals) :
    primary (lock_transition E s l) = primary (lock_transition E (primary s) l) := by
  have key : ∀ a b : State, primary a = primary b →
      primary { a with d_mean_subcarrier_error := 0, d_mean_code_error := 0 }
        = primary { b with d_mean_subcarrier_error := 0, d_mean_code_error := 0 } := by
    intro a b h
    have e : ∀ t : State, primary { t with d_mean_subcarrier_error := 0, d_mean_code_error := 0 }
        = { primary t with d_mean_subcarrier_error := 0, d_mean_code_error := 0 } := fun _ => rfl
    rw [e, e, h]
  have hloss : ∀ t : State, primary (loss_of_lock t) = primary (loss_of_lock (primary t)) :=
    fun _ => rfl
  have hrev : ∀ t : State, primary (revert_to_initial t l)
      = primary (revert_to_initial (primary t) l) := fun _ => rfl
  unfold lock_transition
  dsimp only
  apply key
  have c1 : (primary s).d_carrier_locked = s.d_carrier_locked := rfl
  have c2 : (primary s).d_carrier_lock_fail_counter = s.d_carrier_lock_fail_counter := rfl
  have c3 : (primary s).d_carrier_lock_success_counter = s.d_carrier_lock_success_counter := rfl
  have c4 : (loss_of_lock (primary s)).d_carrier_lock_success_counter
      = (loss_of_lock s).d_carrier_lock_success_counter := rfl
  rw [c1, c2]
  split
  · split
    · rw [c4]
      split
      · rw [pr_phase_lock_achieved, hloss, ← pr_phase_lock_achieved]
      · exact hloss s
    · rw [c3]
      split
      · exact pr_phase_lock_achieved E s l
      · rfl
  · split
    · exact hrev s
    · exact pr_subcarrier_code_lock s

theorem pr_lock_detectors (E : Externals) (s : State) (l : Locals) :
    primary (lock_detectors E s l) = primary (lock_detectors E (primary s) l) := by
  unfold lock_detectors
  have c1 : (primary s).d_cn0_estimation_counter = s.d_cn0_estimation_counter := rfl
  rw [c1]
  split
  · rfl
  · unfold lock_evaluation
    have e1 : primary (lock_estimates E s) = primary (lock_estimates E (primary s)) := rfl
    rw [pr_lock_transition, pr_lock_counters, e1, ← pr_lock_counters, ← pr_lock_transition]

theorem pr_lock_detectors_prs (s : State) : primary (lock_detectors_prs s) = primary s := by
  have h : ∀ t, primary (subcarrier_code_lock_prs t) = primary t := by
    intro t
    unfold subcarrier_code_lock_prs
    dsimp only
    split_ifs <;> rfl
  unfold lock_detectors_prs
  dsimp only
  split
  · split
    · rfl
    · split
      · rw [show ∀ t : State, primary { t with
            d_mean_subcarrier_error_prs := 0, d_mean_code_error_prs := 0 } = primary t
          from fun _ => rfl, h]
        rfl
      · rfl
  · rfl

theorem pr_output_record (s : State) (csd : Gnss_Synchro) :
    output_record s csd = output_record (primary s) csd := rfl

theorem pr_debug_output (s : State) :
    primary (debug_output s) = primary (debug_output (primary s)) := by
  unfold debug_output
  dsimp only [primary]
  split_ifs <;> rfl

theorem pr_finish (E : Externals) (s : State) (l : Locals) (out : Gnss_Synchro) (n : Int) :
    primary (finish E s l out n).state = primary { s with d_current_prn_length_samples := n }
    ∧ (finish E s l out n).out = out
    ∧ (finish E s l out n).consumed = s.d_current_prn_length_samples
    ∧ (finish E s l out n).ret = 1 := by
  unfold finish
  dsimp only
  split
  · split <;> exact ⟨rfl, rfl, rfl, rfl⟩
  · exact ⟨rfl, rfl, rfl, rfl⟩

theorem pr_tracking_disabled (s : State) :
    primary (tracking_disabled s) = primary (tracking_disabled (primary s)) := by
  unfold tracking_disabled debug_output
  dsimp only [primary]
  split_ifs <;> rfl

/-! ### The primary is unaffected by the secondary loop -/

theorem pr_cong (f : State → State) (hf : ∀ s, primary (f s) = primary (f (primary s)))
    {a b : State} (h : primary a = primary b) : primary (f a) = primary (f b) := by
  rw [hf a, hf b, h]

theorem pr_frame (f : State → State) (hf : ∀ s, primary (f s) = primary s)
    {a b : State} (h : primary a = primary b) : primary (f a) = primary (f b) := by
  rw [hf a, hf b, h]

theorem pr_finish_cong (E : Externals) (a b : State) (l l2 : Locals) (out : Gnss_Synchro)
    (n : Int) (h : primary a = primary b) :
    primary (finish E a l out n).state = primary (finish E b l2 out n).state
    ∧ (finish E a l out n).out = (finish E b l2 out n).out
    ∧ (finish E a l out n).consumed = (finish E b l2 out n).consumed := by
  refine ⟨?_, ?_, ?_⟩
  · have hc := congrArg (fun t : State => ({ t with d_current_prn_length_samples := n } : State)) h
    exact (pr_finish E a l out n).1.trans (hc.trans (pr_finish E b l2 out n).1.symm)
  · rw [(pr_finish E a l out n).2.1, (pr_finish E b l2 out n).2.1]
  · have hc := congrArg State.d_current_prn_length_samples h
    exact (pr_finish E a l out n).2.2.1.trans (hc.trans (pr_finish E b l2 out n).2.2.1.symm)

theorem pr_tracking_epoch (E : Externals) (a b : State) (csd : Gnss_Synchro)
    (h : primary a = primary b) :
    primary (tracking_epoch E a csd).state = primary (tracking_epoch E b csd).state
    ∧ (tracking_epoch E a csd).out = (tracking_epoch E b csd).out
    ∧ (tracking_epoch E a csd).consumed = (tracking_epoch E b csd).consumed := by
  have h1 : primary (pll_dll E a).1 = primary (pll_dll E b).1 := by
    rw [(pr_pll_dll E a).1, (pr_pll_dll E b).1, h]
  have hl : (pll_dll E a).2 = (pll_dll E b).2 := by
    rw [(pr_pll_dll E a).2, (pr_pll_dll E b).2, h]
  have h2 := pr_cong (bump_jump E) (pr_bump_jump E) h1
  have h3 := pr_frame (prs_update E) (pr_prs_update E) h2
  have h4 := pr_frame (prs_follow E) (pr_prs_follow E) h3
  unfold tracking_epoch
  dsimp only
  rw [hl]
  generalize (pll_dll E b).2 = l
  generalize prs_follow E (prs_update E (bump_jump E (pll_dll E a).1)) = a4 at h4 ⊢
  generalize prs_follow E (prs_update E (bump_jump E (pll_dll E b).1)) = b4 at h4 ⊢
  have hn : next_prn_length_samples E a4 = next_prn_length_samples E b4 := by
    rw [pr_next_prn_length_samples E a4, pr_next_prn_length_samples E b4, h4]
  have h5 := pr_cong (fun t => lock_detectors E t l) (fun t => pr_lock_detectors E t l) h4
  have h6 := pr_frame lock_detectors_prs pr_lock_detectors_prs h5
  dsimp only at h6
  rw [hn]
  generalize lock_detectors_prs (lock_detectors E a4 l) = a6 at h6 ⊢
  generalize lock_detectors_prs (lock_detectors E b4 l) = b6 at h6 ⊢
  have ho : output_record a6 csd = output_record b6 csd := by
    rw [pr_output_record a6, pr_output_record b6, h6]
  have h7 := pr_cong debug_output pr_debug_output h6
  rw [ho]
  exact pr_finish_cong E _ _ l l _ _ h7

theorem pr_pull_in (s : State) :
    primary (pull_in s).state = primary (pull_in (primary s)).state
    ∧ (pull_in s).out = (pull_in (primary s)).out
    ∧ (pull_in s).consumed = (pull_in (primary s)).consumed := ⟨rfl, rfl, rfl⟩

theorem pr_nan_samples (s : State) (inp : EpochInput) (csd : Gnss_Synchro) :
    primary (nan_samples s inp csd).state
      = primary (nan_samples (primary s) (primary_sums inp) csd).state
    ∧ (nan_samples s inp csd).out = (nan_samples (primary s) (primary_sums inp) csd).out
    ∧ (nan_samples s inp csd).consumed
      = (nan_samples (primary s) (primary_sums inp) csd).consumed := ⟨rfl, rfl, rfl⟩

theorem pr_propagated (E : Externals) (s : State) (inp : EpochInput) :
    primary (if (correlate_and_propagate E s inp).d_prs_tracking_enabled = true then
        prs_correlate_and_propagate E (correlate_and_propagate E s inp) inp
      else correlate_and_propagate E s inp)
      = primary (correlate_and_propagate E (primary s) (primary_sums inp)) := by
  split
  · rw [pr_prs_correlate_and_propagate, pr_correlate_and_propagate]
  · rw [pr_correlate_and_propagate]

theorem pr_nan_cong (a b : State) (i1 i2 : EpochInput) (csd : Gnss_Synchro)
    (h : primary a = primary b) (hi : primary_sums i1 = primary_sums i2) :
    primary (nan_samples a i1 csd).state = primary (nan_samples b i2 csd).state
    ∧ (nan_samples a i1 csd).out = (nan_samples b i2 csd).out
    ∧ (nan_samples a i1 csd).consumed = (nan_samples b i2 csd).consumed := by
  refine ⟨?_, ?_, ?_⟩
  · rw [(pr_nan_samples a i1 csd).1, (pr_nan_samples b i2 csd).1, h, hi]
  · rw [(pr_nan_samples a i1 csd).2.1, (pr_nan_samples b i2 csd).2.1, h, hi]
  · rw [(pr_nan_samples a i1 csd).2.2, (pr_nan_samples b i2 csd).2.2, h, hi]

/-- One invocation of `general_work` on two blocks with the same primary state and on
inputs with the same primary part leaves the same primary state, writes the same record
and consumes the same number of samples. -/
theorem primary_step (E : Externals) (s1 s2 : State) (i1 i2 : EpochInput)
    (hs : primary s1 = primary s2) (hi : primary_sums i1 = primary_sums i2) :
    primary (general_work E s1 i1).state = primary (general_work E s2 i2).state
    ∧ (general_work E s1 i1).out = (general_work E s2 i2).out
    ∧ (general_work E s1 i1).consumed = (general_work E s2 i2).consumed := by
  have he : s1.d_enable_tracking = s2.d_enable_tracking := by
    have h := congrArg State.d_enable_tracking hs
    exact h
  have hp : s1.d_pull_in = s2.d_pull_in := by
    have h := congrArg State.d_pull_in hs
    exact h
  have hP : i1.Prompt = i2.Prompt := by
    have h := congrArg EpochInput.Prompt hi
    exact h
  have hcsd : ({ s1.d_acquisition_gnss_synchro with
        Tracking_timestamp_secs :=
          ((s1.d_sample_counter : ℚ) + s1.d_rem_code_phase_samples) / (s1.d_fs_in : ℚ) }
        : Gnss_Synchro)
      = { s2.d_acquisition_gnss_synchro with
          Tracking_timestamp_secs :=
            ((s2.d_sample_counter : ℚ) + s2.d_rem_code_phase_samples) / (s2.d_fs_in : ℚ) } := by
    have h := congrArg (fun t : State => ({ t.d_acquisition_gnss_synchro with
        Tracking_timestamp_secs :=
          ((t.d_sample_counter : ℚ) + t.d_rem_code_phase_samples) / (t.d_fs_in : ℚ) }
        : Gnss_Synchro)) hs
    exact h
  have hprop : primary (if s1.d_prs_tracking_enabled = true then
        prs_correlate_and_propagate E (correlate_and_propagate E s1 i1) i1
      else correlate_and_propagate E s1 i1)
      = primary (if s2.d_prs_tracking_enabled = true then
        prs_correlate_and_propagate E (correlate_and_propagate E s2 i2) i2
      else correlate_and_propagate E s2 i2) :=
    (pr_propagated E s1 i1).trans
      ((by rw [hs, hi] : primary (correlate_and_propagate E (primary s1) (primary_sums i1))
          = primary (correlate_and_propagate E (primary s2) (primary_sums i2))).trans
        (pr_propagated E s2 i2).symm)
  by_cases h1 : s2.d_enable_tracking = true
  · by_cases h2 : s2.d_pull_in = true
    · have g1 : general_work E s1 i1 = pull_in s1 := by
        unfold general_work
        rw [if_pos (he.trans h1), if_pos (hp.trans h2)]
      have g2 : general_work E s2 i2 = pull_in s2 := by
        unfold general_work
        rw [if_pos h1, if_pos h2]
      rw [g1, g2]
      refine ⟨?_, ?_, ?_⟩
      · rw [(pr_pull_in s1).1, (pr_pull_in s2).1, hs]
      · rw [(pr_pull_in s1).2.1, (pr_pull_in s2).2.1, hs]
      · rw [(pr_pull_in s1).2.2, (pr_pull_in s2).2.2, hs]
    · have h2f : s2.d_pull_in = false := by simpa using h2
      have t2 : tracking s2 := ⟨h1, h2f⟩
      have t1 : tracking s1 := ⟨he.trans h1, hp.trans h2f⟩
      by_cases hn : non_degenerate i2
      · have hn1 : non_degenerate i1 := by
          unfold non_degenerate at hn ⊢
          rw [hP]
          exact hn
        rw [general_work_tracking E s1 i1 t1 hn1, general_work_tracking E s2 i2 t2 hn, hcsd]
        exact pr_tracking_epoch E _ _ _ hprop
      · have hnan := nan_of_not_non_degenerate i2 hn
        have hnan1 : i1.Prompt.re.isnan = true ∨ i1.Prompt.im.isnan = true := by
          rw [hP]
          exact hnan
        rw [general_work_nan E s1 i1 t1 hnan1, general_work_nan E s2 i2 t2 hnan, hcsd]
        exact pr_nan_cong _ _ i1 i2 _ hprop hi
  · have g : ∀ (s : State) (i : EpochInput), s.d_enable_tracking = s2.d_enable_tracking →
        general_work E s i = finish E (tracking_disabled s) Locals.zero
          (tracking_disabled s).d_acquisition_gnss_synchro
          (tracking_disabled s).d_current_prn_length_samples := by
      intro s i hse
      unfold general_work
      rw [if_neg (by rw [hse]; exact h1)]
    rw [g s1 i1 he, g s2 i2 rfl]
    have hd := pr_cong tracking_disabled pr_tracking_disabled hs
    have hh : (tracking_disabled s1).d_acquisition_gnss_synchro
        = (tracking_disabled s2).d_acquisition_gnss_synchro := by
      have h := congrArg State.d_acquisition_gnss_synchro hd
      exact h
    have hl : (tracking_disabled s1).d_current_prn_length_samples
        = (tracking_disabled s2).d_current_prn_length_samples := by
      have h := congrArg State.d_current_prn_length_samples hd
      exact h
    rw [hh, hl]
    exact pr_finish_cong E _ _ _ _ _ _ hd

theorem primary_run (E : Externals) (inputs1 : List EpochInput) :
    ∀ (inputs2 : List EpochInput) (s1 s2 : State), primary s1 = primary s2 →
      inputs1.map primary_sums = inputs2.map primary_sums →
      records E s1 inputs1 = records E s2 inputs2
      ∧ primary (run E s1 inputs1) = primary (run E s2 inputs2) := by
  induction inputs1 with
  | nil =>
    intro inputs2 s1 s2 hs hin
    cases inputs2 with
    | nil => exact ⟨rfl, hs⟩
    | cons b bs => simp at hin
  | cons a as ih =>
    intro inputs2 s1 s2 hs hin
    cases inputs2 with
    | nil => simp at hin
    | cons b bs =>
      rw [List.map_cons, List.map_cons, List.cons.injEq] at hin
      have hstep := primary_step E s1 s2 a b hs hin.1
      have hrest := ih bs _ _ hstep.1 hin.2
      refine ⟨?_, ?_⟩
      · show (general_work E s1 a).out :: records E (general_work E s1 a).state as
          = (general_work E s2 b).out :: records E (general_work E s2 b).state bs
        rw [hstep.2.1, hrest.1]
      · rw [run_cons, run_cons]
        exact hrest.2

/-- C22: the primary is unaffected by the secondary loop.  Two runs of `general_work`
that start from blocks with the same primary state (all members except the configuration,
filters, sums, estimates, flags and counters of the secondary loop and the dump file) and
receive inputs with the same primary part (the same number of available samples and the
same five primary correlator sums) write the same sequence of output records, and after
every number `j` of invocations the two blocks have the same primary state. -/
theorem primary_unaffected_by_secondary (E : Externals) (s1 s2 : State)
    (inputs1 inputs2 : List EpochInput) (hs : primary s1 = primary s2)
    (hin : inputs1.map primary_sums = inputs2.map primary_sums) :
    records E s1 inputs1 = records E s2 inputs2
    ∧ ∀ j : Nat, primary (state_at E s1 inputs1 j) = primary (state_at E s2 inputs2 j) := by
  refine ⟨(primary_run E inputs1 inputs2 s1 s2 hs hin).1, fun j => ?_⟩
  unfold state_at
  refine (primary_run E (inputs1.take j) (inputs2.take j) s1 s2 hs ?_).2
  rw [List.map_take, List.map_take, hin]

set_option maxRecDepth 1000000 in
/-- Witness for C22: the concrete channel started with two secondary configurations
(accumulation length 4 with open loops, and accumulation length 7 with closed loops and
other secondary bandwidths), run over the pull-in invocation and 240 epochs, the last
nine of them with the secondary loop enabled, that differ in the secondary correlator
sums. -/
theorem primary_unaffected_by_secondary_witness :
    primary ex_start = primary ex_closed_start
    ∧ (ex_clean 240).map primary_sums = (List.replicate 241 ex_good_other_prs).map primary_sums
    ∧ records ex_E ex_start (ex_clean 240)
        = records ex_E ex_closed_start (List.replicate 241 ex_good_other_prs)
    ∧ ∀ j : Nat, primary (state_at ex_E ex_start (ex_clean 240) j)
        = primary (state_at ex_E ex_closed_start (List.replicate 241 ex_good_other_prs) j) :=
  ⟨rfl, by decide!,
    primary_unaffected_by_secondary ex_E ex_start ex_closed_start _ _ rfl (by decide!)⟩

/-! ### The concrete channel: open loops, handles, dump blocks, forecast -/

set_option maxRecDepth 1000000 in
/-- Counterexample to C24: the concrete channel started with a handle whose
pseudorange-valid flag is set; the pull-in invocation emits a record whose
pseudorange-valid flag is true. -/
theorem pull_in_record_keeps_pseudorange_flag :
    ex_pr_start.d_enable_tracking = true ∧ ex_pr_start.d_pull_in = true
    ∧ ex_pr_start.d_acquisition_gnss_synchro.Flag_valid_pseudorange = true
    ∧ (general_work ex_E ex_pr_start ex_good).out.Flag_valid_pseudorange = true
    ∧ (general_work ex_E ex_pr_start ex_good).out.Flag_valid_pseudorange ≠ false := by
  decide!

set_option maxRecDepth 1000000 in
/-- Witness for C25: the pull-in invocation of the concrete channel. -/
theorem pull_in_runs_no_loop_witness :
    ex_start.d_enable_tracking = true ∧ ex_start.d_pull_in = true
    ∧ (general_work ex_E ex_start ex_good).out = ex_start.d_acquisition_gnss_synchro
    ∧ (general_work ex_E ex_start ex_good).state.d_pull_in = false
    ∧ primary_loop (general_work ex_E ex_start ex_good).state = primary_loop ex_start
    ∧ lock_flags (general_work ex_E ex_start ex_good).state = lock_flags ex_start :=
  have h := pull_in_runs_no_loop ex_E ex_start ex_good (by decide!) (by decide!)
  ⟨by decide!, by decide!, h.1, h.2.2.2.2.2.2.1, h.2.2.2.2.2.2.2.1, h.2.2.2.2.2.2.2.2.1⟩

set_option maxRecDepth 1000000 in
/-- Counterexample to C27: the concrete channel with a handle whose pseudorange-valid
flag is set, before `start_tracking`; the invocation of `general_work`, made with
tracking disabled, clears the flag in the handle. -/
theorem disabled_invocation_writes_handle :
    ex_pr_idle.d_enable_tracking = false
    ∧ ex_pr_idle.d_acquisition_gnss_synchro.Flag_valid_pseudorange = true
    ∧ (general_work ex_E ex_pr_idle ex_good).state.d_acquisition_gnss_synchro.Flag_valid_pseudorange
      = false
    ∧ (general_work ex_E ex_pr_idle ex_good).state.d_acquisition_gnss_synchro
      ≠ ex_pr_idle.d_acquisition_gnss_synchro := by
  decide!

set_option maxRecDepth 1000000 in
/-- Witness for C28: the first tracking epoch of the concrete channel changes no lock
flag, and no noise bandwidth. -/
theorem bandwidth_changes_only_at_lock_transitions_witness :
    lock_flags (general_work ex_E ex_tracking ex_good).state = lock_flags ex_tracking
    ∧ bandwidths (general_work ex_E ex_tracking ex_good).state = bandwidths ex_tracking :=
  ⟨by decide!, bandwidth_changes_only_at_lock_transitions ex_E ex_tracking ex_good (by decide!)⟩

set_option maxRecDepth 1000000 in
/-- Counterexample to C29: in the dump record of the concrete channel at `ex_start` the
primary block has 21 fields and the secondary block 17; their sequences of field types
differ, and with an `unsigned long int` of 8 bytes the blocks are 136 and 108 bytes
long. -/
theorem dump_blocks_differ :
    (dump_block ex_E ex_start Locals.zero).length = 21
    ∧ (dump_block_prs ex_E ex_start Locals.zero).length = 17
    ∧ (dump_block_prs ex_E ex_start Locals.zero).map DumpField.kind
      ≠ (dump_block ex_E ex_start Locals.zero).map DumpField.kind
    ∧ ((dump_block ex_E ex_start Locals.zero).map DumpField.kind).get? 7 = some DumpKind.ulong
    ∧ ((dump_block_prs ex_E ex_start Locals.zero).map DumpField.kind).get? 7
      = some DumpKind.double
    ∧ dump_bytes 8 (dump_block ex_E ex_start Locals.zero) = 136
    ∧ dump_bytes 8 (dump_block_prs ex_E ex_start Locals.zero) = 108
    ∧ dump_bytes 8 (dump_block_prs ex_E ex_start Locals.zero)
      ≠ dump_bytes 8 (dump_block ex_E ex_start Locals.zero) := by
  decide!

set_option maxRecDepth 1000000 in
/-- Witness for C30: the first tracking epoch of the concrete channel; the forecast stays
32000 samples. -/
theorem forecast_is_constant_witness :
    tracking ex_tracking ∧ non_degenerate ex_good
    ∧ forecast (general_work ex_E ex_tracking ex_good).state = 2 * (ex_tracking.d_vector_length : Int)
    ∧ forecast (general_work ex_E ex_tracking ex_good).state = forecast ex_tracking :=
  have h := forecast_is_constant ex_E ex_tracking ex_good (by decide!) (by decide!) (by decide!)
  ⟨by decide!, by decide!, h.1, h.2.1⟩

set_option maxRecDepth 1000000 in
/-- Counterexample to C30: the concrete channel with a code loop filter that answers
-767250; its first tracking epoch leaves a code frequency of 255750 chips/s, a quarter of
the chip rate, and stores an epoch length of 64000 samples, while `forecast` declares
32000 samples for the next invocation. -/
theorem forecast_below_next_epoch_length :
    tracking ex_tracking ∧ non_degenerate ex_good
    ∧ (general_work ex_E_slow ex_tracking ex_good).state.d_code_freq_chips = 255750
    ∧ (general_work ex_E_slow ex_tracking ex_good).state.d_current_prn_length_samples = 64000
    ∧ forecast (general_work ex_E_slow ex_tracking ex_good).state = 32000
    ∧ ¬ ((general_work ex_E_slow ex_tracking ex_good).state.d_current_prn_length_samples
        ≤ forecast (general_work ex_E_slow ex_tracking ex_good).state) := by
  decide!

/-! ### The GLONASS L1 C/A code -/

theorem trunc_of_nonneg (q : ℚ) (h : 0 ≤ q) : trunc q = Int.floor q := by
  unfold trunc
  rw [if_pos h]

theorem length_G1_bits (n : Nat) : ∀ r : List Bool, (G1_bits n r).length = n := by
  induction n with
  | zero => intro r; rfl
  | succ n ih => intro r; simp [G1_bits, ih]

theorem length_G1 : G1.length = 511 := length_G1_bits 511 _

theorem length_glonass_code (s : Nat) : (glonass_l1_ca_code_gen_complex s).length = 511 := by
  simp [glonass_l1_ca_code_gen_complex]

theorem getD_glonass_code (s i : Nat) (hi : i < 511) :
    (glonass_l1_ca_code_gen_complex s).getD i gr_complex.zero
      = chip_value (G1.getD ((i + s) % 2 ^ 32 % 511) false) := by
  simp [glonass_l1_ca_code_gen_complex, List.getD_eq_getElem?_getD, hi]

set_option maxRecDepth 1000000 in
theorem count_G1 :
    G1.count true = 256 ∧ G1.count false = 255
    ∧ (G1.take 510).count true = 255 ∧ (G1.take 510).count false = 255
    ∧ G1.getD 31 false = false := by
  decide

theorem chip_value_injective : Function.Injective chip_value := by
  intro a b h
  cases a <;> cases b <;> first | rfl | (exfalso; revert h; decide)

theorem glonass_code_eq_rotate (s : Nat) (hs : s + 510 < 2 ^ 32) :
    glonass_l1_ca_code_gen_complex s = (G1.rotate (s % 511)).map chip_value := by
  apply List.ext_getElem
  · simp [glonass_l1_ca_code_gen_complex, length_G1]
  · intro i h1 h2
    have hi : i < 511 := by simpa [glonass_l1_ca_code_gen_complex] using h1
    have hw : (i + s) % 2 ^ 32 = i + s := Nat.mod_eq_of_lt (by omega)
    have hlt : (i + s) % 511 < G1.length := by rw [length_G1]; exact Nat.mod_lt _ (by norm_num)
    simp only [glonass_l1_ca_code_gen_complex, List.getElem_map, List.getElem_range,
      List.getElem_rotate, length_G1, hw]
    rw [List.getD_eq_getElem _ _ hlt]
    congr 2
    omega

set_option maxRecDepth 1000000 in
theorem G1_first_chips :
    G1.getD 0 false = true ∧ G1.getD 1 false = true ∧ G1.getD 2 false = true
    ∧ G1.getD 32 false = true ∧ G1.getD 33 false = true ∧ G1.getD 34 false = false := by
  decide

theorem glonass_chip_index (s i : Nat) (hs : s + 508 < 2 ^ 32) (hi : i < 511) :
    G1.getD ((i + s) % 2 ^ 32 % 511) false = G1.getD ((i + s) % 511) false := by
  by_cases hw : i + s < 2 ^ 32
  · rw [Nat.mod_eq_of_lt hw]
  · by_cases h0 : i + s = 2 ^ 32
    · have e1 : (i + s) % 2 ^ 32 % 511 = 0 := by omega
      have e2 : (i + s) % 511 = 32 := by omega
      rw [e1, e2, G1_first_chips.1, G1_first_chips.2.2.2.1]
    · have e1 : (i + s) % 2 ^ 32 % 511 = 1 := by omega
      have e2 : (i + s) % 511 = 33 := by omega
      rw [e1, e2, G1_first_chips.2.1, G1_first_chips.2.2.2.2.1]

theorem glonass_code_eq_reduced (s : Nat) (hs : s + 508 < 2 ^ 32) :
    glonass_l1_ca_code_gen_complex s = glonass_l1_ca_code_gen_complex (s % 511) := by
  unfold glonass_l1_ca_code_gen_complex
  apply List.map_congr_left
  intro i hi
  have hi2 : i < 511 := List.mem_range.mp hi
  have hr : s % 511 + 508 < 2 ^ 32 := by omega
  rw [glonass_chip_index s i hs hi2, glonass_chip_index (s % 511) i hr hi2]
  congr 2
  omega

/-- C37 (amended): for every 32-bit unsigned chip shift `s` and every index `i < 511`,
`glonass_l1_ca_code_gen_complex(dest, s)` writes `dest[i]` equal to the unshifted code's
chip at index `((i + s) mod 2^32) mod 511`; this is the chip at index `(i + s) mod 511`
for every `i < 511` exactly when `s + 508 < 2^32`, and two such shifts that are congruent
modulo 511 produce the same 511-chip code. -/
theorem glonass_chip_shift_cyclic_iff (s : Nat) (hs : s < 2 ^ 32) :
    (∀ i < 511, (glonass_l1_ca_code_gen_complex s).getD i gr_complex.zero
        = (glonass_l1_ca_code_gen_complex 0).getD ((i + s) % 2 ^ 32 % 511) gr_complex.zero)
    ∧ ((∀ i < 511, (glonass_l1_ca_code_gen_complex s).getD i gr_complex.zero
          = (glonass_l1_ca_code_gen_complex 0).getD ((i + s) % 511) gr_complex.zero)
        ↔ s + 508 < 2 ^ 32)
    ∧ (∀ s2 : Nat, s + 508 < 2 ^ 32 → s2 + 508 < 2 ^ 32 → s % 511 = s2 % 511
        → glonass_l1_ca_code_gen_complex s = glonass_l1_ca_code_gen_complex s2) := by
  have unshifted : ∀ j : Nat, j < 511 →
      (glonass_l1_ca_code_gen_complex 0).getD j gr_complex.zero
        = chip_value (G1.getD j false) := by
    intro j hj
    rw [getD_glonass_code 0 j hj]
    have h0 : (j + 0) % 2 ^ 32 % 511 = j := by omega
    rw [h0]
  refine ⟨?_, ⟨?_, ?_⟩, ?_⟩
  · intro i hi
    rw [getD_glonass_code s i hi, unshifted _ (Nat.mod_lt _ (by norm_num))]
  · intro h
    by_contra hn
    have hi : 2 ^ 32 - s + 2 < 511 := by omega
    have h1 := h (2 ^ 32 - s + 2) hi
    rw [getD_glonass_code s _ hi, unshifted _ (Nat.mod_lt _ (by norm_num))] at h1
    have e1 : (2 ^ 32 - s + 2 + s) % 2 ^ 32 % 511 = 2 := by omega
    have e2 : (2 ^ 32 - s + 2 + s) % 511 = 34 := by omega
    rw [e1, e2, G1_first_chips.2.2.1, G1_first_chips.2.2.2.2.2] at h1
    exact absurd h1 (by decide)
  · intro h i hi
    rw [getD_glonass_code s i hi, unshifted _ (Nat.mod_lt _ (by norm_num)),
      glonass_chip_index s i h hi]
  · intro s2 h h2 hc
    rw [glonass_code_eq_reduced s h, glonass_code_eq_reduced s2 h2, hc]

set_option maxRecDepth 1000000 in
/-- Witness for C37: the shift `2^32 - 509`, the largest one that gives a cyclic shift; it
is congruent to 34 modulo 511 and produces the code of the shift 34. -/
theorem glonass_chip_shift_cyclic_iff_witness :
    4294966787 < 2 ^ 32 ∧ 4294966787 + 509 = 2 ^ 32 ∧ 4294966787 % 511 = 34
    ∧ (∀ i < 511, (glonass_l1_ca_code_gen_complex 4294966787).getD i gr_complex.zero
        = (glonass_l1_ca_code_gen_complex 0).getD ((i + 4294966787) % 511) gr_complex.zero)
    ∧ glonass_l1_ca_code_gen_complex 4294966787 = glonass_l1_ca_code_gen_complex 34 :=
  have h := glonass_chip_shift_cyclic_iff 4294966787 (by norm_num)
  ⟨by norm_num, by norm_num, by norm_num, h.2.1.mpr (by norm_num),
    h.2.2 34 (by norm_num) (by norm_num) (by norm_num)⟩

set_option maxRecDepth 1000000 in
/-- Counterexample to C37: for the shift `2^32 - 1`, which is congruent to 31 modulo 511,
the sum `3 + _chip_shift` wraps to 2, so `dest[3]` is the unshifted chip at index 2,
which is +1, while the unshifted chip at index `(3 + (2^32 - 1)) mod 511 = 34` is -1;
the shift 31 writes -1 to `dest[3]`. -/
theorem glonass_chip_shift_wraps :
    4294967295 < 2 ^ 32 ∧ 4294967295 % 511 = 31 ∧ (3 + 4294967295) % 511 = 34
    ∧ (glonass_l1_ca_code_gen_complex 4294967295).getD 3 gr_complex.zero
      = ⟨FloatVal.fin 1, FloatVal.fin 0⟩
    ∧ (glonass_l1_ca_code_gen_complex 0).getD 34 gr_complex.zero
      = ⟨FloatVal.fin (-1), FloatVal.fin 0⟩
    ∧ (glonass_l1_ca_code_gen_complex 31).getD 3 gr_complex.zero
      = ⟨FloatVal.fin (-1), FloatVal.fin 0⟩
    ∧ glonass_l1_ca_code_gen_complex 4294967295 ≠ glonass_l1_ca_code_gen_complex 31 := by
  have h1 : (glonass_l1_ca_code_gen_complex 4294967295).getD 3 gr_complex.zero
      = ⟨FloatVal.fin 1, FloatVal.fin 0⟩ := by
    rw [getD_glonass_code _ 3 (by norm_num)]
    decide
  have h2 : (glonass_l1_ca_code_gen_complex 0).getD 34 gr_complex.zero
      = ⟨FloatVal.fin (-1), FloatVal.fin 0⟩ := by
    rw [getD_glonass_code _ 34 (by norm_num)]
    decide
  have h3 : (glonass_l1_ca_code_gen_complex 31).getD 3 gr_complex.zero
      = ⟨FloatVal.fin (-1), FloatVal.fin 0⟩ := by
    rw [getD_glonass_code _ 3 (by norm_num)]
    decide
  refine ⟨by norm_num, by norm_num, by norm_num, h1, h2, h3, ?_⟩
  intro h
  rw [h, h3] at h1
  exact absurd h1 (by decide)

/-- C38 (amended): for every chip shift, each of the 511 chips written by
`glonass_l1_ca_code_gen_complex` is exactly +1 or -1 with imaginary part 0; for every
chip shift `s` with `s + 508 < 2^32`, exactly 256 of them are +1 and 255 are -1. -/
theorem glonass_code_balance_of_cyclic_shift (s : Nat) (hs : s + 508 < 2 ^ 32) :
    (glonass_l1_ca_code_gen_complex s).length = 511
    ∧ (∀ t : Nat, ∀ c ∈ glonass_l1_ca_code_gen_complex t,
        c = ⟨FloatVal.fin 1, FloatVal.fin 0⟩ ∨ c = ⟨FloatVal.fin (-1), FloatVal.fin 0⟩)
    ∧ (glonass_l1_ca_code_gen_complex s).count ⟨FloatVal.fin 1, FloatVal.fin 0⟩ = 256
    ∧ (glonass_l1_ca_code_gen_complex s).count ⟨FloatVal.fin (-1), FloatVal.fin 0⟩ = 255 := by
  have ht : chip_value true = ⟨FloatVal.fin 1, FloatVal.fin 0⟩ := rfl
  have hf : chip_value false = ⟨FloatVal.fin (-1), FloatVal.fin 0⟩ := rfl
  have hr : s % 511 + 510 < 2 ^ 32 := by omega
  refine ⟨length_glonass_code s, ?_, ?_, ?_⟩
  · intro t c hc
    simp only [glonass_l1_ca_code_gen_complex, List.mem_map] at hc
    obtain ⟨i, _, rfl⟩ := hc
    cases G1.getD ((i + t) % 2 ^ 32 % 511) false
    · exact Or.inr rfl
    · exact Or.inl rfl
  · rw [glonass_code_eq_reduced s hs, glonass_code_eq_rotate _ hr, ← ht,
      List.count_map_of_injective _ _ chip_value_injective,
      (List.rotate_perm G1 _).count_eq, count_G1.1]
  · rw [glonass_code_eq_reduced s hs, glonass_code_eq_rotate _ hr, ← hf,
      List.count_map_of_injective _ _ chip_value_injective,
      (List.rotate_perm G1 _).count_eq, count_G1.2.1]

/-- Witness for C38: the chip shift `2^32 - 509`, at which the index sum wraps for the
last two chips. -/
theorem glonass_code_balance_of_cyclic_shift_witness :
    4294966787 + 509 = 2 ^ 32
    ∧ (glonass_l1_ca_code_gen_complex 4294966787).count ⟨FloatVal.fin 1, FloatVal.fin 0⟩ = 256
    ∧ (glonass_l1_ca_code_gen_complex 4294966787).count ⟨FloatVal.fin (-1), FloatVal.fin 0⟩
      = 255 :=
  ⟨by norm_num, (glonass_code_balance_of_cyclic_shift 4294966787 (by norm_num)).2.2⟩

theorem map_chips_last_shift (l : List Bool) (hl : l.length = 511) :
    (List.range 511).map
        (fun lcv => chip_value (l.getD ((lcv + 4294967295) % 2 ^ 32 % 511) false))
      = (l.getD 31 false :: l.take 510).map chip_value := by
  apply List.ext_getElem
  · simp [hl]
  · intro i h1 h2
    have hi : i < 511 := by simpa using h1
    simp only [List.getElem_map, List.getElem_range]
    congr 1
    cases i with
    | zero =>
      have e : (0 + 4294967295) % 2 ^ 32 % 511 = 31 := by norm_num
      rw [e, List.getElem_cons_zero]
    | succ j =>
      have hj : j < l.length := by rw [hl]; omega
      have e : (j + 1 + 4294967295) % 2 ^ 32 % 511 = j := by omega
      rw [e, List.getElem_cons_succ, List.getElem_take, List.getD_eq_getElem _ _ hj]

theorem glonass_code_last_shift :
    glonass_l1_ca_code_gen_complex 4294967295
      = (G1.getD 31 false :: G1.take 510).map chip_value :=
  map_chips_last_shift G1 length_G1

/-- Counterexample to C38: for the chip shift `2^32 - 1` the 511 chips written are 255
times +1 and 256 times -1. -/
theorem glonass_code_unbalanced_on_wrap :
    4294967295 < 2 ^ 32
    ∧ (glonass_l1_ca_code_gen_complex 4294967295).count ⟨FloatVal.fin 1, FloatVal.fin 0⟩ = 255
    ∧ (glonass_l1_ca_code_gen_complex 4294967295).count ⟨FloatVal.fin (-1), FloatVal.fin 0⟩
      = 256 := by
  have ht : chip_value true = ⟨FloatVal.fin 1, FloatVal.fin 0⟩ := rfl
  have hf : chip_value false = ⟨FloatVal.fin (-1), FloatVal.fin 0⟩ := rfl
  refine ⟨by norm_num, ?_, ?_⟩
  · rw [glonass_code_last_shift, ← ht, List.count_map_of_injective _ _ chip_value_injective,
      count_G1.2.2.2.2, List.count_cons_of_ne (by decide), count_G1.2.2.1]
  · rw [glonass_code_last_shift, ← hf, List.count_map_of_injective _ _ chip_value_injective,
      count_G1.2.2.2.2, List.count_cons_self, count_G1.2.2.2.1]

/-! ### The GLONASS resampler -/

theorem glonass_samples_per_code_eq (fs : Int) (h : 0 ≤ fs) :
    glonass_samples_per_code fs = fs / 1000 := by
  unfold glonass_samples_per_code
  have h1 : (fs : ℚ) / ((511000 : ℚ) / (511 : ℚ)) = (fs : ℚ) / ((1000 : ℕ) : ℚ) := by
    norm_num
  have h0 : (0 : ℚ) ≤ (fs : ℚ) / ((1000 : ℕ) : ℚ) := by
    apply div_nonneg
    · exact_mod_cast h
    · norm_num
  rw [h1, trunc_of_nonneg _ h0, Rat.floor_intCast_div_natCast]
  norm_num

theorem glonass_code_value_index_eq (fs i : Int) (hfs : 0 < fs) (hi : 0 ≤ i) :
    glonass_code_value_index fs i = Int.floor ((511000 * ((i : ℚ) + 1)) / (fs : ℚ)) := by
  unfold glonass_code_value_index AUX_CEIL
  dsimp only
  have hfq : (0 : ℚ) < (fs : ℚ) := by exact_mod_cast hfs
  have hiq : (0 : ℚ) ≤ (i : ℚ) := by exact_mod_cast hi
  have h1 : (1 / (fs : ℚ) * ((i : ℚ) + 1)) / (1 / (511000 : ℚ))
      = (511000 * ((i : ℚ) + 1)) / (fs : ℚ) := by
    field_simp
    ring
  rw [h1]
  have h0 : (0 : ℚ) ≤ (511000 * ((i : ℚ) + 1)) / (fs : ℚ) + 1 := by positivity
  rw [trunc_of_nonneg _ h0, Int.floor_add_one]
  ring

theorem code_at_of_bounds (code : List gr_complex) (idx : Int) (h0 : 0 ≤ idx)
    (h1 : idx.toNat < code.length) :
    code_at code idx = some (code.getD idx.toNat gr_complex.zero) := by
  unfold code_at
  rw [if_pos h0, List.get?_eq_getElem?, List.getElem?_eq_getElem h1,
    List.getD_eq_getElem _ _ h1]

theorem glonass_read_index_bounds (fs i : Int) (hfs : 1 ≤ fs) (hi0 : 0 ≤ i)
    (hi : i < glonass_samples_per_code fs) :
    0 ≤ glonass_read_index fs i ∧ glonass_read_index fs i ≤ 510 := by
  have hspc := glonass_samples_per_code_eq fs (by omega)
  unfold glonass_read_index
  split
  · constructor <;> norm_num
  · rename_i hne
    rw [glonass_code_value_index_eq fs i (by omega) hi0]
    have hfq : (0 : ℚ) < (fs : ℚ) := by exact_mod_cast (by omega : (0 : ℤ) < fs)
    have hiq : (0 : ℚ) ≤ (i : ℚ) := by exact_mod_cast hi0
    constructor
    · apply Int.floor_nonneg.mpr
      positivity
    · have hlt : i + 1 < glonass_samples_per_code fs := by omega
      rw [hspc] at hlt
      have hm : (i + 2) * 1000 ≤ fs := by
        have := Int.ediv_mul_le fs (by norm_num : (1000 : ℤ) ≠ 0)
        nlinarith
      have hq : (511000 * ((i : ℚ) + 1)) / (fs : ℚ) < 511 := by
        rw [div_lt_iff₀ hfq]
        have hm2 : (((i + 2) * 1000 : ℤ) : ℚ) ≤ (fs : ℚ) := by exact_mod_cast hm
        push_cast at hm2
        nlinarith
      have := Int.floor_lt.mpr (show (511000 * ((i : ℚ) + 1)) / (fs : ℚ) < ((511 : ℤ) : ℚ) by
        exact_mod_cast hq)
      omega

/-- C39: for every sampling rate `fs >= 1`, with arithmetic taken exactly,
`_samplesPerCode` is `floor(fs / 1000)`, and for every sample `i < _samplesPerCode` the
index of the 511-chip code that `glonass_l1_ca_code_gen_complex_sampled` reads lies in
`[0, 510]`, so the read is defined; hence every entry the function writes is a chip of
the code. -/
theorem glonass_resampler_in_bounds (fs i : Int) (chip_shift : Nat) (hfs : 1 ≤ fs)
    (hi0 : 0 ≤ i) (hi : i < glonass_samples_per_code fs) :
    glonass_samples_per_code fs = fs / 1000
    ∧ 0 ≤ glonass_read_index fs i ∧ glonass_read_index fs i ≤ 510
    ∧ code_at (glonass_l1_ca_code_gen_complex chip_shift) (glonass_read_index fs i)
      = some ((glonass_l1_ca_code_gen_complex chip_shift).getD
          (glonass_read_index fs i).toNat gr_complex.zero)
    ∧ ∀ x ∈ glonass_l1_ca_code_gen_complex_sampled fs chip_shift,
        ∃ c ∈ glonass_l1_ca_code_gen_complex chip_shift, x = some c := by
  have hb := glonass_read_index_bounds fs i hfs hi0 hi
  have hat : ∀ j : Int, 0 ≤ j → j < glonass_samples_per_code fs →
      code_at (glonass_l1_ca_code_gen_complex chip_shift) (glonass_read_index fs j)
        = some ((glonass_l1_ca_code_gen_complex chip_shift).getD
            (glonass_read_index fs j).toNat gr_complex.zero)
      ∧ (glonass_read_index fs j).toNat < (glonass_l1_ca_code_gen_complex chip_shift).length := by
    intro j hj0 hj
    have hbj := glonass_read_index_bounds fs j hfs hj0 hj
    have hl : (glonass_read_index fs j).toNat
        < (glonass_l1_ca_code_gen_complex chip_shift).length := by
      rw [length_glonass_code]
      omega
    exact ⟨code_at_of_bounds _ _ hbj.1 hl, hl⟩
  refine ⟨glonass_samples_per_code_eq fs (by omega), hb.1, hb.2, (hat i hi0 hi).1, ?_⟩
  intro x hx
  unfold glonass_l1_ca_code_gen_complex_sampled at hx
  simp only [List.mem_map, List.mem_range] at hx
  obtain ⟨n, hn, rfl⟩ := hx
  have hn0 : (0 : ℤ) ≤ (n : ℤ) := Int.natCast_nonneg n
  have hn1 : (n : ℤ) < glonass_samples_per_code fs := by omega
  have hj := hat (n : Int) hn0 hn1
  refine ⟨_, ?_, hj.1⟩
  rw [List.getD_eq_getElem _ _ hj.2]
  exact List.getElem_mem _

set_option maxRecDepth 1000000 in
/-- Witness for C39: the sampling rate 2046000 Hz, sample 1000 of 2046. -/
theorem glonass_resampler_in_bounds_witness :
    glonass_samples_per_code 2046000 = 2046
    ∧ 0 ≤ glonass_read_index 2046000 1000 ∧ glonass_read_index 2046000 1000 ≤ 510 :=
  have h := glonass_resampler_in_bounds 2046000 1000 0 (by norm_num) (by norm_num)
    (by rw [glonass_samples_per_code_eq _ (by norm_num)]; norm_num)
  ⟨by rw [glonass_samples_per_code_eq _ (by norm_num)]; norm_num, h.2.1, h.2.2.1⟩

theorem glonass_read_index_upsampled (k i : Nat) (hk : 1 ≤ k) :
    glonass_samples_per_code (511000 * (k : ℤ)) = 511 * (k : ℤ)
    ∧ glonass_read_index (511000 * (k : ℤ)) (i : ℤ)
      = Int.ofNat (if i + 1 = 511 * k then 510 else (i + 1) / k) := by
  have hspc : glonass_samples_per_code (511000 * (k : ℤ)) = 511 * (k : ℤ) := by
    rw [glonass_samples_per_code_eq _ (by positivity)]
    omega
  refine ⟨hspc, ?_⟩
  unfold glonass_read_index
  rw [hspc]
  by_cases hl : i + 1 = 511 * k
  · rw [if_pos (by omega), if_pos hl]
    rfl
  · rw [if_neg (by omega), if_neg hl,
      glonass_code_value_index_eq _ _ (by positivity) (by positivity)]
    have hkq : (k : ℚ) ≠ 0 := by
      have : (0 : ℚ) < (k : ℚ) := by exact_mod_cast hk
      exact ne_of_gt this
    have h1 : (511000 * (((i : ℤ) : ℚ) + 1)) / (((511000 * (k : ℤ) : ℤ)) : ℚ)
        = (((i + 1 : ℕ) : ℤ) : ℚ) / ((k : ℕ) : ℚ) := by
      push_cast
      field_simp
      ring
    rw [h1, Rat.floor_intCast_div_natCast]
    norm_cast

/-- C40 (what the code does): for every integer `k >= 1`, at the sampling rate
`fs = 511000 * k`, with arithmetic taken exactly, `glonass_l1_ca_code_gen_complex_sampled`
writes `511 * k` samples, and `dest[i]` is chip `floor((i + 1) / k)` of the
one-sample-per-chip code for every `i < 511 * k - 1` and chip 510 for the last sample:
`AUX_CEIL(x)` is the truncation of `x + 1`, which at an integer `x` is `x + 1` and not
the ceiling `x`, so the index `AUX_CEIL(aux) - 1` is `floor(aux)` and every chip
boundary comes one sample early. -/
theorem glonass_upsampling_reads_next_chip (k i chip_shift : Nat) (hk : 1 ≤ k)
    (hi : i < 511 * k) :
    (glonass_l1_ca_code_gen_complex_sampled (511000 * (k : ℤ)) chip_shift).length = 511 * k
    ∧ (glonass_l1_ca_code_gen_complex_sampled (511000 * (k : ℤ)) chip_shift).getD i none
      = some ((glonass_l1_ca_code_gen_complex chip_shift).getD
          (if i + 1 = 511 * k then 510 else (i + 1) / k) gr_complex.zero) := by
  obtain ⟨hspc, hidx⟩ := glonass_read_index_upsampled k i hk
  have hn : (glonass_samples_per_code (511000 * (k : ℤ))).toNat = 511 * k := by
    rw [hspc]
    omega
  have hlen : (glonass_l1_ca_code_gen_complex_sampled (511000 * (k : ℤ)) chip_shift).length
      = 511 * k := by
    unfold glonass_l1_ca_code_gen_complex_sampled
    simp [hn]
  refine ⟨hlen, ?_⟩
  have hb : (if i + 1 = 511 * k then 510 else (i + 1) / k)
      < (glonass_l1_ca_code_gen_complex chip_shift).length := by
    rw [length_glonass_code]
    split
    · norm_num
    · rename_i hl
      apply (Nat.div_lt_iff_lt_mul (by omega)).mpr
      omega
  rw [List.getD_eq_getElem _ _ (by rw [hlen]; exact hi)]
  unfold glonass_l1_ca_code_gen_complex_sampled
  simp only [List.getElem_map, List.getElem_range]
  rw [hidx]
  generalize (if i + 1 = 511 * k then 510 else (i + 1) / k) = j at hb ⊢
  have hj : (Int.ofNat j).toNat = j := Int.toNat_ofNat j
  rw [code_at_of_bounds _ (Int.ofNat j) (Int.ofNat_nonneg j) (by rw [hj]; exact hb), hj]

set_option maxRecDepth 1000000 in
/-- Witness for C40, and the failing input: at `fs = 511000` (`k = 1`), chip shift 0, the
sample `dest[6]` is chip 7 of the code, which is -1, while chip `floor(6 / 1) = 6` is
+1; the sampled code differs from the chip code. -/
theorem glonass_upsampling_reads_next_chip_witness :
    (glonass_l1_ca_code_gen_complex_sampled 511000 0).length = 511
    ∧ (glonass_l1_ca_code_gen_complex_sampled 511000 0).getD 6 none
      = some ⟨FloatVal.fin (-1), FloatVal.fin 0⟩
    ∧ (glonass_l1_ca_code_gen_complex 0).getD (6 / 1) gr_complex.zero
      = ⟨FloatVal.fin 1, FloatVal.fin 0⟩
    ∧ (glonass_l1_ca_code_gen_complex_sampled 511000 0)
      ≠ (glonass_l1_ca_code_gen_complex 0).map some := by
  have h := glonass_upsampling_reads_next_chip 1 6 0 (by norm_num) (by norm_num)
  have h7 : (glonass_l1_ca_code_gen_complex 0).getD 7 gr_complex.zero
      = ⟨FloatVal.fin (-1), FloatVal.fin 0⟩ := by
    rw [getD_glonass_code _ 7 (by norm_num)]
    decide
  have h6 : (glonass_l1_ca_code_gen_complex 0).getD (6 / 1) gr_complex.zero
      = ⟨FloatVal.fin 1, FloatVal.fin 0⟩ := by
    rw [getD_glonass_code _ _ (by norm_num)]
    decide
  have hs : (glonass_l1_ca_code_gen_complex_sampled 511000 0).getD 6 none
      = some ⟨FloatVal.fin (-1), FloatVal.fin 0⟩ := by
    have h2 : (glonass_l1_ca_code_gen_complex_sampled 511000 0).getD 6 none
        = some ((glonass_l1_ca_code_gen_complex 0).getD 7 gr_complex.zero) := h.2
    rw [h2, h7]
  refine ⟨h.1, hs, h6, ?_⟩
  intro he
  rw [he] at hs
  have h6b : ((glonass_l1_ca_code_gen_complex 0).map some).getD 6 none
      = some ((glonass_l1_ca_code_gen_complex 0).getD 6 gr_complex.zero) := by
    rw [List.getD_eq_getElem _ _ (by simp [length_glonass_code]),
      List.getD_eq_getElem _ _ (by simp [length_glonass_code])]
    simp
  rw [h6b] at hs
  have h6c : (glonass_l1_ca_code_gen_complex 0).getD 6 gr_complex.zero
      = ⟨FloatVal.fin 1, FloatVal.fin 0⟩ := h6
  rw [h6c] at hs
  exact absurd hs (by decide)

/-! ### The constructor; disable and promotion -/

/-- C36 (what the code does): for every configured accumulation length, the constructor
builds the secondary carrier and code loop filters with the nominal update period
`Galileo_E1_CODE_PERIOD * prs_accumulation_length`, and the secondary divergence loop
filter with `Galileo_E1_CODE_PERIOD * d_prs_accumulation_length`, the member being read
before it is assigned; the three periods agree exactly when the code period is 0 or the
indeterminate content of the member happens to equal the configured length. -/
theorem constructor_prs_filter_periods (E : Externals) (c : Config) (u : Indeterminate) :
    (constructor E c u).d_carrier_loop_filter_prs.update_interval
      = E.Galileo_E1_CODE_PERIOD * c.prs_accumulation_length
    ∧ (constructor E c u).d_code_loop_filter_prs.update_interval
      = E.Galileo_E1_CODE_PERIOD * c.prs_accumulation_length
    ∧ (constructor E c u).d_divergence_loop_filter_prs.update_interval
      = E.Galileo_E1_CODE_PERIOD * u.d_prs_accumulation_length
    ∧ ((constructor E c u).d_divergence_loop_filter_prs.update_interval
        = (constructor E c u).d_carrier_loop_filter_prs.update_interval
      ↔ E.Galileo_E1_CODE_PERIOD = 0
        ∨ u.d_prs_accumulation_length = c.prs_accumulation_length) := by
  refine ⟨rfl, rfl, rfl, ?_⟩
  show E.Galileo_E1_CODE_PERIOD * (u.d_prs_accumulation_length : ℚ)
      = E.Galileo_E1_CODE_PERIOD * (c.prs_accumulation_length : ℚ) ↔ _
  rw [mul_eq_mul_left_iff, Int.cast_inj]
  tauto

set_option maxRecDepth 1000000 in
/-- C36, evaluated at a failing input: the concrete configuration has accumulation length
4 and a code period of 4 ms, and the member `d_prs_accumulation_length` holds 0 when the
constructor starts; the secondary carrier and code filters get the update period 16 ms
and the secondary divergence filter gets 0. -/
theorem constructor_prs_filter_periods_witness :
    ex_config.prs_accumulation_length = 4
    ∧ (constructor ex_E ex_config ex_indeterminate).d_carrier_loop_filter_prs.update_interval
      = 2 / 125
    ∧ (constructor ex_E ex_config ex_indeterminate).d_code_loop_filter_prs.update_interval
      = 2 / 125
    ∧ (constructor ex_E ex_config ex_indeterminate).d_divergence_loop_filter_prs.update_interval
      = 0
    ∧ (constructor ex_E ex_config ex_indeterminate).d_divergence_loop_filter_prs.update_interval
      ≠ (constructor ex_E ex_config ex_indeterminate).d_carrier_loop_filter_prs.update_interval := by
  have h := constructor_prs_filter_periods ex_E ex_config ex_indeterminate
  have h1 : ex_E.Galileo_E1_CODE_PERIOD * (ex_config.prs_accumulation_length : ℚ) = 2 / 125 := by
    decide!
  have h2 : ex_E.Galileo_E1_CODE_PERIOD * (ex_indeterminate.d_prs_accumulation_length : ℚ) = 0 := by
    decide!
  refine ⟨rfl, h.1.trans h1, h.2.1.trans h1, h.2.2.1.trans h2, ?_⟩
  rw [h.1, h.2.2.1, h1, h2]
  norm_num

theorem ctl_lock_evaluation_exclusive (good : Bool) (d : Ctl) (h : d.fail ≤ 50)
    (he : d.enable = true) :
    ¬ ((ctl_lock_evaluation good d).enable = false ∧ d.locked = false
      ∧ (ctl_lock_evaluation good d).locked = true) := by
  unfold ctl_lock_evaluation ctl_lock_transition ctl_lock_counters
  unfold MAXIMUM_LOCK_FAIL_COUNTER MINIMUM_LOCK_SUCCESS_COUNTER
  dsimp only
  split_ifs <;> (try dsimp only at *) <;> simp_all <;> omega

theorem ctl_step_exclusive (good : Bool) (inp : EpochInput) (c : Ctl) (h : c.fail ≤ 50) :
    ¬ (c.enable = true ∧ (ctl_step good inp c).enable = false ∧ c.locked = false
      ∧ (ctl_step good inp c).locked = true) := by
  rintro ⟨he, h1, h2, h3⟩
  by_cases hp : c.pull_in = true
  · unfold ctl_step at h1
    rw [if_pos he, if_pos hp] at h1
    rw [he] at h1
    exact absurd h1 (by simp)
  · by_cases hn : inp.Prompt.re.isnan = true ∨ inp.Prompt.im.isnan = true
    · unfold ctl_step at h1
      rw [if_pos he, if_neg hp] at h1
      dsimp only at h1
      rw [if_pos hn] at h1
      rw [he] at h1
      exact absurd h1 (by simp)
    · rw [ctl_step_tracking good inp c he (Bool.eq_false_iff.mpr hp)
        (non_degenerate_of_not inp hn)] at h1 h3
      have hd := ctl_prs_fields { c with prompt := inp.Prompt }
      obtain ⟨d1, _, d3, _, _, d6, _⟩ := hd
      generalize ctl_prs { c with prompt := inp.Prompt } = d at *
      by_cases hc : d.counter < CN0_ESTIMATION_SAMPLES
      · rw [if_pos hc] at h1
        dsimp only at h1
        rw [d1] at h1
        dsimp only at h1
        rw [he] at h1
        exact absurd h1 (by simp)
      · rw [if_neg hc] at h1 h3
        exact ctl_lock_evaluation_exclusive good d (by rw [d6]; exact h) (d1.trans he)
          ⟨h1, d3.trans h2, h3⟩

/-- C34: in every state of the block reachable from the constructor through its public
methods (so with the fail counter started at 0 by `start_tracking`), no invocation of
`general_work`, hence no lock evaluation in it, both disables the channel
(`d_enable_tracking` from true to false) and promotes it to Locked (`d_carrier_locked`
from false to true). -/
theorem disable_and_promotion_exclusive (E : Externals) (s : State) (inp : EpochInput)
    (hr : Reachable E s) :
    ¬ (s.d_enable_tracking = true ∧ (general_work E s inp).state.d_enable_tracking = false
      ∧ s.d_carrier_locked = false ∧ (general_work E s inp).state.d_carrier_locked = true) := by
  have h := ctl_step_exclusive (lock_test_passes E s) inp (ctl s) (reachable_fail_le E s hr)
  rw [← ctl_general_work] at h
  exact h

/-! ### Bump-jump streak counters -/

/-- Witness for C34: the state of the concrete channel before its 51st failed lock
evaluation, the one that disables tracking. -/
theorem disable_and_promotion_exclusive_witness :
    ¬ ((state_at ex_E ex_start ex_to_disable 1071).d_enable_tracking = true
      ∧ (general_work ex_E (state_at ex_E ex_start ex_to_disable 1071)
          ex_bad).state.d_enable_tracking = false
      ∧ (state_at ex_E ex_start ex_to_disable 1071).d_carrier_locked = false
      ∧ (general_work ex_E (state_at ex_E ex_start ex_to_disable 1071)
          ex_bad).state.d_carrier_locked = true) :=
  disable_and_promotion_exclusive ex_E (state_at ex_E ex_start ex_to_disable 1071) ex_bad
    (reachable_run ex_E _ ex_start reachable_ex_start)

theorem bump_jump_tests_in_range (VE P VL : ℚ) (T : ℕ) (ve vl : ℤ) (h0 : 0 ≤ ve)
    (h1 : 0 ≤ vl) (h2 : 1 ≤ T → ve < (T : ℤ) ∧ vl < (T : ℤ))
    (hj : (bump_jump_tests VE P VL T ve vl).do_jump = false) :
    0 ≤ (bump_jump_tests VE P VL T ve vl).ve_counter
    ∧ 0 ≤ (bump_jump_tests VE P VL T ve vl).vl_counter
    ∧ (1 ≤ T → (bump_jump_tests VE P VL T ve vl).ve_counter < (T : ℤ)
        ∧ (bump_jump_tests VE P VL T ve vl).vl_counter < (T : ℤ)) := by
  unfold bump_jump_tests at hj ⊢
  dsimp only at hj ⊢
  split_ifs at hj ⊢ <;> (try dsimp only at *) <;> (try simp at hj) <;>
    refine ⟨by omega, by omega, fun hT => ?_⟩ <;> have := h2 hT <;> omega

theorem in_range_bump_jump (E : Externals) (s : State) (h : (bj_view s).in_range) :
    (bj_view (bump_jump E s)).in_range := by
  obtain ⟨h0, h1, h2⟩ := h
  unfold bump_jump
  dsimp only
  split
  · split
    · refine ⟨le_refl _, le_refl _, fun hT => ?_⟩
      have hT2 : 1 ≤ s.d_bj_threshold := hT
      exact ⟨by show (0 : ℤ) < (s.d_bj_threshold : ℤ); omega,
        by show (0 : ℤ) < (s.d_bj_threshold : ℤ); omega⟩
    · rename_i hj
      exact bump_jump_tests_in_range _ _ _ s.d_bj_threshold s.d_bj_ve_counter
        s.d_bj_vl_counter h0 h1 h2 (by simpa using hj)
  · exact ⟨h0, h1, h2⟩

theorem in_range_code_phase (v : BjView) (x : ℚ) (h : v.in_range) :
    BjView.in_range { v with code_phase_chips := x } := h

theorem in_range_general_work (E : Externals) (s : State) (inp : EpochInput)
    (h : (bj_view s).in_range) : (bj_view (general_work E s inp).state).in_range := by
  by_cases he : s.d_enable_tracking = true
  · by_cases hp : s.d_pull_in = true
    · unfold general_work
      rw [if_pos he, if_pos hp]
      exact h
    · have ht : tracking s := ⟨he, by simpa using hp⟩
      have hsp : bj_view (if s.d_prs_tracking_enabled = true then
            prs_correlate_and_propagate E (correlate_and_propagate E s inp) inp
          else correlate_and_propagate E s inp)
          = { bj_view s with code_phase_chips := propagated_code_phase E s } := by
        split
        · exact (bj_view_prs_correlate_and_propagate E _ inp).1
        · rfl
      by_cases hn : non_degenerate inp
      · rw [general_work_tracking E s inp ht hn, bj_view_tracking_epoch]
        apply in_range_bump_jump
        rw [(bj_view_pll_dll E _).1, hsp]
        exact h
      · rw [general_work_nan E s inp ht (nan_of_not_non_degenerate inp hn)]
        have hnan : ∀ (t : State) (csd : Gnss_Synchro),
            bj_view (nan_samples t inp csd).state = bj_view t := fun _ _ => rfl
        rw [hnan, hsp]
        exact h
  · have hd : bj_view (tracking_disabled s) = bj_view s := by
      unfold tracking_disabled debug_output
      dsimp only
      split <;> rfl
    unfold general_work
    rw [if_neg he]
    dsimp only
    rw [bj_view_finish, hd]
    exact h

theorem reachable_in_range (E : Externals) (s : State) (h : Reachable E s) :
    (bj_view s).in_range := by
  induction h with
  | construct c u =>
    exact ⟨le_refl _, le_refl _, fun hT =>
      ⟨by show (0 : ℤ) < ((c.bump_jumping_threshold : ℕ) : ℤ); exact_mod_cast hT,
        by show (0 : ℤ) < ((c.bump_jumping_threshold : ℕ) : ℤ); exact_mod_cast hT⟩⟩
  | @set_channel s channel _ ih =>
    have : bj_view (set_channel s channel) = bj_view s := by
      unfold set_channel
      dsimp only
      split_ifs <;> rfl
    rw [this]; exact ih
  | set_channel_queue q _ ih => exact ih
  | set_gnss_synchro p _ ih => exact ih
  | @start_tracking s _ ih =>
    exact ⟨le_refl _, le_refl _, fun hT =>
      ⟨by show (0 : ℤ) < ((s.d_bj_threshold : ℕ) : ℤ); exact_mod_cast hT,
        by show (0 : ℤ) < ((s.d_bj_threshold : ℕ) : ℤ); exact_mod_cast hT⟩⟩
  | @handle_gnss_message s msg _ ih =>
    have : bj_view (handle_gnss_message s msg) = bj_view s := by
      unfold handle_gnss_message
      dsimp only
      split_ifs <;> rfl
    rw [this]; exact ih
  | @general_work s inp _ ih => exact in_range_general_work E s inp ih

/-- C35: for every threshold `T >= 1`, in every state of the block reachable from the
constructor through its public methods (`start_tracking` resets both counters to 0), and
so whenever `general_work` returns, both primary streak counters `d_bj_ve_counter` and
`d_bj_vl_counter` are at least 0 and below `T`. -/
theorem bump_jump_counters_below_threshold (E : Externals) (s : State)
    (hr : Reachable E s) (hT : 1 ≤ s.d_bj_threshold) :
    0 ≤ s.d_bj_ve_counter ∧ s.d_bj_ve_counter < (s.d_bj_threshold : ℤ)
    ∧ 0 ≤ s.d_bj_vl_counter ∧ s.d_bj_vl_counter < (s.d_bj_threshold : ℤ) := by
  obtain ⟨h0, h1, h2⟩ := reachable_in_range E s hr
  exact ⟨h0, (h2 hT).1, h1, (h2 hT).2⟩

/-- Witness for C35: the carrier-locked state of the concrete channel, whose threshold
is 3. -/
theorem bump_jump_counters_below_threshold_witness :
    0 ≤ ex_locked.d_bj_ve_counter ∧ ex_locked.d_bj_ve_counter < (ex_locked.d_bj_threshold : ℤ)
    ∧ 0 ≤ ex_locked.d_bj_vl_counter
    ∧ ex_locked.d_bj_vl_counter < (ex_locked.d_bj_threshold : ℤ) :=
  bump_jump_counters_below_threshold ex_E ex_locked
    (reachable_run ex_E _ ex_start reachable_ex_start)
    (by rw [ex_locked_bj_facts.2.1]; norm_num)

/-! ### The sample counter -/

theorem sc_prs_correlate_and_propagate (E : Externals) (s : State) (inp : EpochInput) :
    (prs_correlate_and_propagate E s inp).d_sample_counter = s.d_sample_counter := by
  unfold prs_correlate_and_propagate
  dsimp only
  split <;> split <;> rfl

theorem sc_propagated (E : Externals) (s : State) (inp : EpochInput) :
    (if s.d_prs_tracking_enabled = true then
        prs_correlate_and_propagate E (correlate_and_propagate E s inp) inp
      else correlate_and_propagate E s inp).d_sample_counter = s.d_sample_counter := by
  split
  · exact sc_prs_correlate_and_propagate E _ inp
  · rfl

theorem sc_pll_dll (E : Externals) (s : State) :
    (pll_dll E s).1.d_sample_counter = s.d_sample_counter + s.d_current_prn_length_samples := by
  unfold pll_dll
  dsimp only
  split <;> rfl

theorem sc_bump_jump (E : Externals) (s : State) :
    (bump_jump E s).d_sample_counter = s.d_sample_counter := by
  unfold bump_jump
  dsimp only
  split
  · split <;> rfl
  · rfl

theorem sc_bump_jump_prs (E : Externals) (s : State) :
    (bump_jump_prs E s).d_sample_counter = s.d_sample_counter := by
  unfold bump_jump_prs
  dsimp only
  split
  · split
    · split <;> split <;> rfl
    · rfl
  · rfl

theorem sc_prs_update (E : Externals) (s : State) :
    (prs_update E s).d_sample_counter = s.d_sample_counter := by
  unfold prs_update
  dsimp only
  split
  · split
    · split
      all_goals
        rw [sc_bump_jump_prs]
    · rfl
  · rfl

theorem sc_prs_follow (E : Externals) (s : State) :
    (prs_follow E s).d_sample_counter = s.d_sample_counter := by
  unfold prs_follow
  dsimp only
  split
  · split <;> rfl
  · rfl

theorem sc_lock_counters (s : State) :
    (lock_counters s).d_sample_counter = s.d_sample_counter := by
  unfold lock_counters
  dsimp only
  split_ifs <;> rfl

theorem sc_subcarrier_code_lock (s : State) :
    (subcarrier_code_lock s).d_sample_counter = s.d_sample_counter := by
  unfold subcarrier_code_lock
  dsimp only
  split_ifs <;> rfl

theorem sc_lock_transition (E : Externals) (s : State) (l : Locals) :
    (lock_transition E s l).d_sample_counter = s.d_sample_counter := by
  have hloss : ∀ t : State, (loss_of_lock t).d_sample_counter = t.d_sample_counter :=
    fun _ => rfl
  have hpla : ∀ t : State, (phase_lock_achieved E t l).d_sample_counter = t.d_sample_counter :=
    fun _ => rfl
  have hrev : ∀ t : State, (revert_to_initial t l).d_sample_counter = t.d_sample_counter :=
    fun _ => rfl
  unfold lock_transition
  dsimp only
  split
  · split
    · split
      · rw [hpla, hloss]
      · rw [hloss]
    · split
      · rw [hpla]
      · rfl
  · split
    · rw [hrev]
    · exact sc_subcarrier_code_lock s

theorem sc_lock_detectors (E : Externals) (s : State) (l : Locals) :
    (lock_detectors E s l).d_sample_counter = s.d_sample_counter := by
  unfold lock_detectors
  split
  · rfl
  · unfold lock_evaluation
    rw [sc_lock_transition, sc_lock_counters]
    rfl

theorem sc_lock_detectors_prs (s : State) :
    (lock_detectors_prs s).d_sample_counter = s.d_sample_counter := by
  have h : ∀ t, (subcarrier_code_lock_prs t).d_sample_counter = t.d_sample_counter := by
    intro t
    unfold subcarrier_code_lock_prs
    dsimp only
    split_ifs <;> rfl
  unfold lock_detectors_prs
  dsimp only
  split
  · split
    · rfl
    · split
      · rw [h]
      · rfl
  · rfl

theorem sc_debug_output (s : State) : (debug_output s).d_sample_counter = s.d_sample_counter := by
  unfold debug_output
  split <;> rfl

theorem sc_finish (E : Externals) (s : State) (l : Locals) (out : Gnss_Synchro) (n : Int) :
    (finish E s l out n).state.d_sample_counter = s.d_sample_counter := by
  unfold finish
  dsimp only
  split
  · split <;> rfl
  · rfl

theorem sc_tracking_epoch (E : Externals) (s : State) (csd : Gnss_Synchro) :
    (tracking_epoch E s csd).state.d_sample_counter
      = s.d_sample_counter + s.d_current_prn_length_samples := by
  unfold tracking_epoch
  dsimp only
  rw [sc_finish, sc_debug_output, sc_lock_detectors_prs, sc_lock_detectors, sc_prs_follow,
    sc_prs_update, sc_bump_jump, sc_pll_dll]

theorem length_propagated (E : Externals) (s : State) (inp : EpochInput) :
    (if s.d_prs_tracking_enabled = true then
        prs_correlate_and_propagate E (correlate_and_propagate E s inp) inp
      else correlate_and_propagate E s inp).d_current_prn_length_samples
      = s.d_current_prn_length_samples :=
  congrArg EpochView.current_prn_length_samples (ev_propagated E s inp)

/-- C31: in every invocation of `general_work`, on every path, the cumulative sample
counter `d_sample_counter` increases by exactly the number of input samples that the
invocation consumes: the pull-in offset in pull-in, the current epoch length
`d_current_prn_length_samples` in a tracking epoch and with tracking disabled, and all
available samples `ninput_items[0]` in NaN recovery. -/
theorem sample_counter_advances_by_consumed (E : Externals) (s : State) (inp : EpochInput) :
    (general_work E s inp).state.d_sample_counter
      = s.d_sample_counter + (general_work E s inp).consumed
    ∧ (general_work E s inp).consumed =
      if s.d_enable_tracking = true then
        if s.d_pull_in = true then
          to_int32 (round (s.d_acq_code_phase_samples
            + to_float ((s.d_current_prn_length_samples : ℚ)
              - fmod (to_float
                    ((to_int32 (s.d_sample_counter - s.d_acq_sample_stamp) : Int) : ℚ))
                  (to_float (s.d_current_prn_length_samples : ℚ)))))
        else if inp.Prompt.re.isnan = true ∨ inp.Prompt.im.isnan = true then inp.ninput_items
        else s.d_current_prn_length_samples
      else s.d_current_prn_length_samples := by
  by_cases he : s.d_enable_tracking = true
  · rw [if_pos he]
    by_cases hp : s.d_pull_in = true
    · rw [if_pos hp]
      unfold general_work
      rw [if_pos he, if_pos hp]
      exact ⟨rfl, rfl⟩
    · rw [if_neg hp]
      have ht : tracking s := ⟨he, by simpa using hp⟩
      by_cases hn : non_degenerate inp
      · have hnn : ¬ (inp.Prompt.re.isnan = true ∨ inp.Prompt.im.isnan = true) := by
          simp [hn.1, hn.2]
        rw [if_neg hnn, general_work_tracking E s inp ht hn, sc_tracking_epoch,
          consumed_tracking_epoch, sc_propagated, length_propagated]
        exact ⟨rfl, rfl⟩
      · have hnan := nan_of_not_non_degenerate inp hn
        rw [if_pos hnan, general_work_nan E s inp ht hnan]
        have h1 : ∀ (t : State) (csd : Gnss_Synchro),
            (nan_samples t inp csd).state.d_sample_counter
              = t.d_sample_counter + inp.ninput_items := fun _ _ => rfl
        have h2 : ∀ (t : State) (csd : Gnss_Synchro),
            (nan_samples t inp csd).consumed = inp.ninput_items := fun _ _ => rfl
        rw [h1, h2, sc_propagated]
        exact ⟨rfl, rfl⟩
  · rw [if_neg he]
    have hd : (tracking_disabled s).d_sample_counter
        = s.d_sample_counter + s.d_current_prn_length_samples
        ∧ (tracking_disabled s).d_current_prn_length_samples
          = s.d_current_prn_length_samples := by
      unfold tracking_disabled debug_output
      dsimp only
      split <;> exact ⟨rfl, rfl⟩
    unfold general_work
    rw [if_neg he]
    dsimp only
    rw [sc_finish, consumed_finish, hd.1, hd.2]
    exact ⟨rfl, rfl⟩

/-! ### The split secondary code phase -/

theorem fmod_one_of_nonneg (x : ℚ) (h : 0 ≤ x) : fmod x 1 = x - (Int.floor x : ℚ) := by
  unfold fmod
  rw [div_one, trunc_of_nonneg x h, mul_one]

theorem code_phase_prs_propagated (E : Externals) (s : State) (inp : EpochInput) :
    (prs_correlate_and_propagate E s inp).d_fractional_code_phase_chips_prs
      = fmod (s.d_fractional_code_phase_chips_prs + epoch_T s * s.d_code_freq_chips_prs) 1
    ∧ (prs_correlate_and_propagate E s inp).d_integer_code_phase_chips_prs
      = s.d_integer_code_phase_chips_prs
        + Int.floor (s.d_fractional_code_phase_chips_prs
            + epoch_T s * s.d_code_freq_chips_prs) := by
  unfold prs_correlate_and_propagate
  dsimp only
  split <;> split <;> exact ⟨rfl, rfl⟩

/-- C33: for every secondary state with fractional code phase `f >= 0` (in particular `f`
in `[0, 1)`) and integer code phase `k`, and every epoch advance
`delta = T * d_code_freq_chips_prs >= 0`, the propagation step of a tracking epoch (the
block `if( d_prs_tracking_enabled )` after the primary propagation) yields, in exact
arithmetic, a fractional part `f'` in `[0, 1)` and an integer part `k'` with
`k' + f' = k + f + delta`: `k'` is `k` plus the whole chips in `f + delta`, and no
whole-chip rollover is lost. -/
theorem prs_code_phase_conserved (E : Externals) (s : State) (inp : EpochInput)
    (hf0 : 0 ≤ s.d_fractional_code_phase_chips_prs)
    (hd : 0 ≤ epoch_T s * s.d_code_freq_chips_prs) :
    0 ≤ (prs_correlate_and_propagate E (correlate_and_propagate E s inp)
        inp).d_fractional_code_phase_chips_prs
    ∧ (prs_correlate_and_propagate E (correlate_and_propagate E s inp)
        inp).d_fractional_code_phase_chips_prs < 1
    ∧ (((prs_correlate_and_propagate E (correlate_and_propagate E s inp)
          inp).d_integer_code_phase_chips_prs : ℤ) : ℚ)
        + (prs_correlate_and_propagate E (correlate_and_propagate E s inp)
          inp).d_fractional_code_phase_chips_prs
      = (s.d_integer_code_phase_chips_prs : ℚ) + s.d_fractional_code_phase_chips_prs
        + epoch_T s * s.d_code_freq_chips_prs
    ∧ (prs_correlate_and_propagate E (correlate_and_propagate E s inp)
        inp).d_integer_code_phase_chips_prs
      = s.d_integer_code_phase_chips_prs
        + Int.floor (s.d_fractional_code_phase_chips_prs
            + epoch_T s * s.d_code_freq_chips_prs) := by
  obtain ⟨h1, h2⟩ := code_phase_prs_propagated E (correlate_and_propagate E s inp) inp
  have e1 : (correlate_and_propagate E s inp).d_fractional_code_phase_chips_prs
      = s.d_fractional_code_phase_chips_prs := rfl
  have e2 : (correlate_and_propagate E s inp).d_integer_code_phase_chips_prs
      = s.d_integer_code_phase_chips_prs := rfl
  have e3 : (correlate_and_propagate E s inp).d_code_freq_chips_prs
      = s.d_code_freq_chips_prs := rfl
  have e4 : epoch_T (correlate_and_propagate E s inp) = epoch_T s := rfl
  rw [e1, e3, e4] at h1
  rw [e1, e2, e3, e4] at h2
  have hx : 0 ≤ s.d_fractional_code_phase_chips_prs + epoch_T s * s.d_code_freq_chips_prs :=
    add_nonneg hf0 hd
  rw [h1, h2, fmod_one_of_nonneg _ hx]
  refine ⟨?_, ?_, ?_, rfl⟩
  · linarith [Int.floor_le (s.d_fractional_code_phase_chips_prs
      + epoch_T s * s.d_code_freq_chips_prs)]
  · linarith [Int.lt_floor_add_one (s.d_fractional_code_phase_chips_prs
      + epoch_T s * s.d_code_freq_chips_prs)]
  · push_cast
    ring

set_option maxRecDepth 1000000 in
/-- Witness for C33: the block `ex_tracking` with the secondary code phase at 7 chips and
3/4, and a secondary code frequency of 2557500 chips/s; the epoch of 16000 samples at
4 MHz advances it by 10230 chips. -/
theorem prs_code_phase_conserved_witness :
    (prs_correlate_and_propagate ex_E (correlate_and_propagate ex_E
        { ex_tracking with
          d_integer_code_phase_chips_prs := 7
          d_fractional_code_phase_chips_prs := 3 / 4
          d_code_freq_chips_prs := 2557500 } ex_good)
        ex_good).d_integer_code_phase_chips_prs = 10237
    ∧ (prs_correlate_and_propagate ex_E (correlate_and_propagate ex_E
        { ex_tracking with
          d_integer_code_phase_chips_prs := 7
          d_fractional_code_phase_chips_prs := 3 / 4
          d_code_freq_chips_prs := 2557500 } ex_good)
        ex_good).d_fractional_code_phase_chips_prs = 3 / 4 := by
  have h := prs_code_phase_conserved ex_E
    { ex_tracking with
      d_integer_code_phase_chips_prs := 7
      d_fractional_code_phase_chips_prs := 3 / 4
      d_code_freq_chips_prs := 2557500 } ex_good (by decide!) (by decide!)
  have hk : (prs_correlate_and_propagate ex_E (correlate_and_propagate ex_E
        { ex_tracking with
          d_integer_code_phase_chips_prs := 7
          d_fractional_code_phase_chips_prs := 3 / 4
          d_code_freq_chips_prs := 2557500 } ex_good)
        ex_good).d_integer_code_phase_chips_prs = 10237 := by
    rw [h.2.2.2]
    decide!
  refine ⟨hk, ?_⟩
  have h3 := h.2.2.1
  rw [hk] at h3
  have hv : ((7 : ℤ) : ℚ) + (3 / 4 : ℚ)
      + epoch_T { ex_tracking with
          d_integer_code_phase_chips_prs := 7
          d_fractional_code_phase_chips_prs := 3 / 4
          d_code_freq_chips_prs := 2557500 } * (2557500 : ℚ) = 10237 + 3 / 4 := by
    decide!
  have h4 : (((10237 : ℤ) : ℚ)) + (prs_correlate_and_propagate ex_E (correlate_and_propagate ex_E
        { ex_tracking with
          d_integer_code_phase_chips_prs := 7
          d_fractional_code_phase_chips_prs := 3 / 4
          d_code_freq_chips_prs := 2557500 } ex_good)
        ex_good).d_fractional_code_phase_chips_prs = 10237 + 3 / 4 := h3.trans hv
  push_cast at h4
  linarith

/-! ### Coherent accumulation -/

theorem accumulators_read_eq (E : Externals) (s : State) (inp : EpochInput) :
    accumulators_read E s inp = (accumulators_carried s).add (prs_sums inp)
    ∧ index_read E s inp = s.d_prs_accumulation_index + 1 := by
  unfold accumulators_read index_read accumulators_carried
  constructor
  · rw [acc_prs_correlate_and_propagate]
    rfl
  · exact congrArg Ctl.idx (ctl_prs_correlate_and_propagate E (correlate_and_propagate E s inp) inp)

theorem acc_lock_transition_any (E : Externals) (t : State) (l : Locals) :
    accumulators (lock_transition E t l) =
      if t.d_carrier_locked = false ∧ (lock_transition E t l).d_carrier_locked = true then
        Accumulators.zero
      else accumulators t := by
  have key : ∀ u : State,
      accumulators { u with d_mean_subcarrier_error := 0, d_mean_code_error := 0 }
        = accumulators u
      ∧ ({ u with d_mean_subcarrier_error := 0, d_mean_code_error := 0 } : State).d_carrier_locked
          = u.d_carrier_locked :=
    fun _ => ⟨rfl, rfl⟩
  by_cases hl : t.d_carrier_locked = true
  · have hneg : ¬ (t.d_carrier_locked = false ∧ (lock_transition E t l).d_carrier_locked = true) := by
      rw [hl]
      simp
    rw [if_neg hneg]
    have hsub : accumulators (subcarrier_code_lock t) = accumulators t := by
      unfold subcarrier_code_lock
      dsimp only
      split_ifs <;> rfl
    unfold lock_transition
    dsimp only
    rw [(key _).1, hl]
    simp only [Bool.not_true, Bool.false_eq_true, if_false]
    split
    · rfl
    · exact hsub
  · have hlf : t.d_carrier_locked = false := by simpa using hl
    unfold lock_transition
    dsimp only
    rw [(key _).1, (key _).2]
    rw [hlf]
    simp only [Bool.not_false, if_true, true_and]
    split
    · split
      · have h1 : (phase_lock_achieved E (loss_of_lock t) l).d_carrier_locked = true := rfl
        rw [if_pos h1]
        rfl
      · have h1 : (loss_of_lock t).d_carrier_locked = false := hlf
        rw [if_neg (by simp [h1])]
        rfl
    · split
      · have h1 : (phase_lock_achieved E t l).d_carrier_locked = true := rfl
        rw [if_pos h1]
        rfl
      · rfl

theorem acc_lock_detectors_any (E : Externals) (s : State) (l : Locals) :
    accumulators (lock_detectors E s l) =
      if s.d_carrier_locked = false ∧ (lock_detectors E s l).d_carrier_locked = true then
        Accumulators.zero
      else accumulators s := by
  unfold lock_detectors
  split
  · have h : ¬ (s.d_carrier_locked = false ∧ s.d_carrier_locked = true) := by
      intro h
      rw [h.1] at h
      exact Bool.false_ne_true h.2
    dsimp only
    rw [if_neg h]
    rfl
  · unfold lock_evaluation
    rw [acc_lock_transition_any]
    have hk : (lock_counters (lock_estimates E s)).d_carrier_locked = s.d_carrier_locked
        ∧ accumulators (lock_counters (lock_estimates E s)) = accumulators s := by
      unfold lock_counters lock_estimates
      dsimp only
      split_ifs <;> exact ⟨rfl, rfl⟩
    rw [hk.1, hk.2]

theorem acc_tracking_epoch_any (E : Externals) (s : State) (csd : Gnss_Synchro) :
    accumulators (tracking_epoch E s csd).state =
      if s.d_carrier_locked = false ∧ (tracking_epoch E s csd).state.d_carrier_locked = true then
        Accumulators.zero
      else accumulators s := by
  obtain ⟨s4, hs4⟩ : ∃ s4, s4 = prs_follow E (prs_update E (bump_jump E (pll_dll E s).1)) :=
    ⟨_, rfl⟩
  have hl4 : s4.d_carrier_locked = s.d_carrier_locked := by
    rw [hs4]
    exact (congrArg Ctl.locked (ctl_prs_follow E _)).trans
      ((locked_prs_update E _).trans
        ((congrArg Ctl.locked (ctl_bump_jump E (pll_dll E s).1)).trans
          (congrArg Ctl.locked (ctl_pll_dll E s))))
  have ha4 : accumulators s4 = accumulators s := by
    rw [hs4, acc_prs_follow, acc_prs_update, acc_bump_jump, acc_pll_dll]
  have hstate : (tracking_epoch E s csd).state =
      (finish E (debug_output (lock_detectors_prs (lock_detectors E s4 (pll_dll E s).2)))
        (pll_dll E s).2
        (output_record (lock_detectors_prs (lock_detectors E s4 (pll_dll E s).2)) csd)
        (next_prn_length_samples E s4)).state := by
    rw [hs4]
    rfl
  have hlf : (tracking_epoch E s csd).state.d_carrier_locked
      = (lock_detectors E s4 (pll_dll E s).2).d_carrier_locked := by
    rw [hstate, locked_finish, locked_debug_output, locked_lock_detectors_prs]
  rw [hlf, hstate, acc_finish, acc_debug_output, acc_lock_detectors_prs, acc_lock_detectors_any,
    hl4, ha4]

theorem acc_general_work_any (E : Externals) (s : State) (inp : EpochInput)
    (ht : tracking s) (hn : non_degenerate inp) (hprs : s.d_prs_tracking_enabled = true) :
    accumulators (general_work E s inp).state =
      if s.d_carrier_locked = false ∧ (general_work E s inp).state.d_carrier_locked = true then
        Accumulators.zero
      else accumulators_read E s inp := by
  rw [general_work_tracking E s inp ht hn, if_pos hprs, acc_tracking_epoch_any]
  have hl : (prs_correlate_and_propagate E (correlate_and_propagate E s inp) inp).d_carrier_locked
      = s.d_carrier_locked :=
    congrArg Ctl.locked (ctl_prs_correlate_and_propagate E (correlate_and_propagate E s inp) inp)
  rw [hl]
  rfl

theorem index_general_work (E : Externals) (s : State) (inp : EpochInput) (N r : ℕ)
    (ht : tracking s) (hn : non_degenerate inp) (hprs : s.d_prs_tracking_enabled = true)
    (hNs : s.d_prs_accumulation_length = (N : ℤ)) (hidx : s.d_prs_accumulation_index = (r : ℤ))
    (hno : ¬ (s.d_carrier_locked = false ∧ (general_work E s inp).state.d_carrier_locked = true)) :
    (general_work E s inp).state.d_prs_accumulation_index
      = (if r + 1 = N then (0 : ℤ) else ((r + 1 : ℕ) : ℤ))
    ∧ (general_work E s inp).state.d_prs_accumulation_length = (N : ℤ) := by
  have h := ctl_step_cadence (lock_test_passes E s) inp (ctl s) N r hn ht.1 ht.2 hprs hNs hidx
    (by rw [← ctl_general_work]; exact hno)
  rw [← ctl_general_work] at h
  exact ⟨h.1, h.2.2.2⟩

theorem accumulation_run (E : Externals) (N : ℕ) :
    ∀ (pre : List EpochInput) (s : State) (r : ℕ),
      s.d_prs_accumulation_length = (N : ℤ) → s.d_prs_accumulation_index = (r : ℤ) →
      r + pre.length < N →
      (∀ j < pre.length, tracking (state_at E s pre j)
        ∧ (state_at E s pre j).d_prs_tracking_enabled = true) →
      (∀ j < pre.length, ¬ ((state_at E s pre j).d_carrier_locked = false
        ∧ (state_at E s pre (j + 1)).d_carrier_locked = true)) →
      (∀ inp ∈ pre, non_degenerate inp) →
      (run E s pre).d_prs_accumulation_length = (N : ℤ)
      ∧ (run E s pre).d_prs_accumulation_index = ((r + pre.length : ℕ) : ℤ)
      ∧ accumulators_carried (run E s pre)
        = (pre.map prs_sums).foldl Accumulators.add (accumulators_carried s) := by
  intro pre
  induction pre with
  | nil =>
    intro s r hNs hidx _ _ _ _
    exact ⟨hNs, by simpa using hidx, rfl⟩
  | cons a rest ih =>
    intro s r hNs hidx hlt htrk hno hnd
    have hlen : (a :: rest).length = rest.length + 1 := rfl
    have h0 := htrk 0 (by rw [hlen]; omega)
    have hno0 := hno 0 (by rw [hlen]; omega)
    have hs0 : state_at E s (a :: rest) 0 = s := rfl
    have hs1 : state_at E s (a :: rest) 1 = (general_work E s a).state := rfl
    rw [hs0] at h0
    rw [hs0, hs1] at hno0
    have hna : non_degenerate a := hnd a (List.mem_cons_self _ _)
    obtain ⟨i1, i2⟩ := index_general_work E s a N r h0.1 hna h0.2 hNs hidx hno0
    have hr : ¬ (r + 1 = N) := by rw [hlen] at hlt; omega
    rw [if_neg hr] at i1
    have hacc := acc_general_work_any E s a h0.1 hna h0.2
    rw [if_neg hno0] at hacc
    have hcar : accumulators_carried (general_work E s a).state
        = (accumulators_carried s).add (prs_sums a) := by
      unfold accumulators_carried
      rw [if_neg (by rw [i1]; exact_mod_cast Nat.succ_ne_zero r), hacc,
        (accumulators_read_eq E s a).1]
      rfl
    have hshift : ∀ j, state_at E s (a :: rest) (j + 1)
        = state_at E (general_work E s a).state rest j := fun _ => rfl
    obtain ⟨k1, k2, k3⟩ := ih (general_work E s a).state (r + 1) i2 i1
      (by rw [hlen] at hlt; omega)
      (fun j hj => by
        have := htrk (j + 1) (by rw [hlen]; omega)
        rw [hshift] at this
        exact this)
      (fun j hj => by
        have := hno (j + 1) (by rw [hlen]; omega)
        rw [hshift, hshift] at this
        exact this)
      (fun inp hi => hnd inp (List.mem_cons_of_mem _ hi))
    rw [run_cons]
    refine ⟨k1, ?_, ?_⟩
    · rw [k2, hlen]
      congr 1
      omega
    · rw [k3, hcar]
      rfl

/-- C32 (amended): for every `N >= 1`, with the secondary loop enabled and its
accumulation index at 0, over `N` consecutive non-degenerate tracking epochs during which
the secondary loop stays enabled and is not restarted before the last of them (none of
the first `N - 1` epochs takes the primary from not carrier-locked to carrier-locked,
which is when `start_tracking_prs` clears the accumulators and the index), each of the
five secondary accumulators, at the moment the secondary discriminators read it on the
`N`-th epoch, equals the sum of the corresponding secondary correlator output over
exactly those `N` epochs, added in order; the index read on that epoch is `N`, so the
discriminators do run.  Here `pre` holds the first `N - 1` epochs and `last` is the
`N`-th. -/
theorem coherent_accumulation (E : Externals) (s : State) (pre : List EpochInput)
    (last : EpochInput) (N : ℕ) (hN : pre.length + 1 = N)
    (hNs : s.d_prs_accumulation_length = (N : ℤ)) (hidx : s.d_prs_accumulation_index = 0)
    (htrk : ∀ j ≤ pre.length, tracking (state_at E s pre j)
      ∧ (state_at E s pre j).d_prs_tracking_enabled = true)
    (hno : ∀ j < pre.length, ¬ ((state_at E s pre j).d_carrier_locked = false
      ∧ (state_at E s pre (j + 1)).d_carrier_locked = true))
    (hnd : ∀ inp ∈ pre ++ [last], non_degenerate inp) :
    accumulators_read E (run E s pre) last = Accumulators.sum ((pre ++ [last]).map prs_sums)
    ∧ index_read E (run E s pre) last = (N : ℤ)
    ∧ (run E s pre).d_prs_accumulation_length = (N : ℤ) := by
  obtain ⟨k1, k2, k3⟩ := accumulation_run E N pre s 0 hNs (by simpa using hidx) (by omega)
    (fun j hj => htrk j (le_of_lt hj)) hno
    (fun inp hi => hnd inp (List.mem_append_left _ hi))
  have hc0 : accumulators_carried s = Accumulators.zero := by
    unfold accumulators_carried
    rw [if_pos hidx]
  obtain ⟨r1, r2⟩ := accumulators_read_eq E (run E s pre) last
  refine ⟨?_, ?_, k1⟩
  · rw [r1, k3, hc0]
    unfold Accumulators.sum
    rw [List.map_append, List.foldl_append]
    rfl
  · rw [r2, k2, ← hN]
    push_cast
    ring

set_option maxRecDepth 1000000 in
theorem ex_accumulation_facts :
    ∀ j < 4,
      (ctl_run ex_E (ex_clean 231 ++ (List.replicate 3 ex_good).take j) ex_start_ctl).enable = true
      ∧ (ctl_run ex_E (ex_clean 231 ++ (List.replicate 3 ex_good).take j) ex_start_ctl).pull_in
          = false
      ∧ (ctl_run ex_E (ex_clean 231 ++ (List.replicate 3 ex_good).take j) ex_start_ctl).prs = true
      ∧ (ctl_run ex_E (ex_clean 231 ++ (List.replicate 3 ex_good).take j) ex_start_ctl).locked
          = true
      ∧ (ctl_run ex_E (ex_clean 231 ++ (List.replicate 3 ex_good).take j) ex_start_ctl).N = 4
      ∧ (ctl_run ex_E (ex_clean 231 ++ (List.replicate 3 ex_good).take j) ex_start_ctl).idx
          = ((j : ℕ) : ℤ) := by
  decide!

set_option maxRecDepth 1000000 in
/-- Witness for C32: in the concrete channel (accumulation length 4, secondary Prompt sum
1 in every epoch), over the 4 clean epochs that follow the promotion the secondary Prompt
accumulator read on the fourth epoch is 4. -/
theorem coherent_accumulation_witness :
    accumulators_read ex_E (run ex_E ex_locked (List.replicate 3 ex_good)) ex_good
      = Accumulators.sum ((List.replicate 3 ex_good ++ [ex_good]).map prs_sums)
    ∧ (Accumulators.sum ((List.replicate 3 ex_good ++ [ex_good]).map prs_sums)).P
      = ⟨FloatVal.fin 4, FloatVal.fin 0⟩
    ∧ index_read ex_E (run ex_E ex_locked (List.replicate 3 ex_good)) ex_good = 4 :=
  have h := coherent_accumulation ex_E ex_locked (List.replicate 3 ex_good) ex_good 4
    (by simp)
    (by
      have := (ex_accumulation_facts 0 (by norm_num)).2.2.2.2.1
      rw [ctl_N, ← state_at_zero ex_E ex_locked (List.replicate 3 ex_good),
        ctl_state_at_ex_locked]
      exact this)
    (by
      have := (ex_accumulation_facts 0 (by norm_num)).2.2.2.2.2
      rw [ctl_idx, ← state_at_zero ex_E ex_locked (List.replicate 3 ex_good),
        ctl_state_at_ex_locked]
      exact this)
    (fun j hj => by
      unfold tracking
      rw [ctl_enable, ctl_pull_in, ctl_prs_enabled, ctl_state_at_ex_locked]
      have f := ex_accumulation_facts j (by simp at hj; omega)
      exact ⟨⟨f.1, f.2.1⟩, f.2.2.1⟩)
    (fun j hj => by
      rw [ctl_locked, ctl_state_at_ex_locked]
      have f := ex_accumulation_facts j (by simp at hj; omega)
      rw [f.2.2.2.1]
      simp)
    (fun inp hi => by
      have : inp = ex_good := by
        rcases List.mem_append.mp hi with h1 | h1
        · exact List.eq_of_mem_replicate h1
        · simpa using h1
      rw [this]
      decide)
  ⟨h.1, by decide!, h.2.1⟩

theorem run_snoc (E : Externals) (s : State) (pre : List EpochInput) (inp : EpochInput) :
    run E s (pre ++ [inp]) = (general_work E (run E s pre) inp).state := by
  rw [run_append]
  rfl

theorem ex_restart_index_facts :
    (ctl_run ex_E ((List.replicate 4 ex_good).take 2)
        (ctl_run ex_E ex_to_restart ex_start_ctl)).idx = 0
    ∧ (ctl_run ex_E ((List.replicate 4 ex_good).take 3)
        (ctl_run ex_E ex_to_restart ex_start_ctl)).idx = 1 :=
  ex_long_run_facts.2.2

set_option maxRecDepth 1000000 in
/-- Counterexample to C32: in the concrete channel (accumulation length 4, secondary
Prompt sum 1 in every epoch), 1300 epochs after the first promotion and after a demotion,
the secondary loop is enabled with its accumulation index at 0; over the next 4
consecutive non-degenerate tracking epochs, during which the secondary loop stays
enabled, the second epoch promotes the primary again and `start_tracking_prs` clears the
accumulators and the index.  On the fourth epoch the index read is 2, so the secondary
discriminators do not run, and the secondary Prompt accumulator holds 2, the sum over the
last two epochs, not 4. -/
theorem accumulation_restarted_in_window :
    (ex_before_restart.d_prs_tracking_enabled = true
      ∧ ex_before_restart.d_prs_accumulation_index = 0
      ∧ ex_before_restart.d_prs_accumulation_length = 4)
    ∧ (∀ j < 4,
        tracking (state_at ex_E ex_before_restart (List.replicate 4 ex_good) j)
        ∧ (state_at ex_E ex_before_restart (List.replicate 4 ex_good) j).d_prs_tracking_enabled
            = true)
    ∧ non_degenerate ex_good
    ∧ index_read ex_E (state_at ex_E ex_before_restart (List.replicate 4 ex_good) 3) ex_good = 2
    ∧ (accumulators_read ex_E (state_at ex_E ex_before_restart (List.replicate 4 ex_good) 3)
        ex_good).P = ⟨FloatVal.fin 2, FloatVal.fin 0⟩
    ∧ (Accumulators.sum ((List.replicate 4 ex_good).map prs_sums)).P
        = ⟨FloatVal.fin 4, FloatVal.fin 0⟩
    ∧ accumulators_read ex_E (state_at ex_E ex_before_restart (List.replicate 4 ex_good) 3)
        ex_good ≠ Accumulators.sum ((List.replicate 4 ex_good).map prs_sums) := by
  have f0 := ex_restart_facts.1
  have ftrk := ex_restart_facts.2.1
  have fl2 := ex_restart_facts.2.2.2.1
  have htrk : ∀ j < 4,
      tracking (state_at ex_E ex_before_restart (List.replicate 4 ex_good) j)
      ∧ (state_at ex_E ex_before_restart (List.replicate 4 ex_good) j).d_prs_tracking_enabled
          = true := by
    intro j hj
    unfold tracking
    rw [ctl_enable, ctl_pull_in, ctl_prs_enabled, ctl_state_at_ex_before_restart]
    have f := ftrk j (by omega)
    exact ⟨⟨f.1, f.2.1⟩, f.2.2⟩
  have hi2 : (state_at ex_E ex_before_restart (List.replicate 4 ex_good) 2).d_prs_accumulation_index
      = 0 := by
    rw [ctl_idx, ctl_state_at_ex_before_restart]
    exact ex_restart_index_facts.1
  have hl2 : (state_at ex_E ex_before_restart (List.replicate 4 ex_good) 2).d_carrier_locked
      = true := by
    rw [ctl_locked, ctl_state_at_ex_before_restart]
    exact fl2
  have hi3 : (state_at ex_E ex_before_restart (List.replicate 4 ex_good) 3).d_prs_accumulation_index
      = 1 := by
    rw [ctl_idx, ctl_state_at_ex_before_restart]
    exact ex_restart_index_facts.2
  have hstep : state_at ex_E ex_before_restart (List.replicate 4 ex_good) 3
      = (general_work ex_E (state_at ex_E ex_before_restart (List.replicate 4 ex_good) 2)
          ex_good).state := by
    unfold state_at
    rw [show (List.replicate 4 ex_good).take 3 = (List.replicate 4 ex_good).take 2 ++ [ex_good]
      from rfl, run_snoc]
  have ha3 : accumulators (state_at ex_E ex_before_restart (List.replicate 4 ex_good) 3)
      = Accumulators.zero.add (prs_sums ex_good) := by
    rw [hstep, acc_general_work ex_E _ ex_good (htrk 2 (by norm_num)).1 (by decide)
      (htrk 2 (by norm_num)).2 (Or.inl hl2), if_pos hi2]
  obtain ⟨r1, r2⟩ := accumulators_read_eq ex_E
    (state_at ex_E ex_before_restart (List.replicate 4 ex_good) 3) ex_good
  have hcar : accumulators_carried (state_at ex_E ex_before_restart (List.replicate 4 ex_good) 3)
      = Accumulators.zero.add (prs_sums ex_good) := by
    unfold accumulators_carried
    rw [if_neg (by rw [hi3]; norm_num), ha3]
  rw [hcar] at r1
  have hP : ((Accumulators.zero.add (prs_sums ex_good)).add (prs_sums ex_good)).P
      = ⟨FloatVal.fin 2, FloatVal.fin 0⟩ := by decide!
  have hS : (Accumulators.sum ((List.replicate 4 ex_good).map prs_sums)).P
      = ⟨FloatVal.fin 4, FloatVal.fin 0⟩ := by decide!
  refine ⟨?_, htrk, by decide, ?_, ?_, hS, ?_⟩
  · rw [ctl_prs_enabled, ctl_idx, ctl_N, ctl_ex_before_restart]
    exact ⟨f0.1, f0.2.1, f0.2.2.1⟩
  · rw [r2, hi3]
    norm_num
  · rw [r1]
    exact hP
  · intro h
    have h2 := congrArg Accumulators.P h
    rw [r1, hP, hS] at h2
    exact absurd h2 (by decide!)

end GalileoE1Prs
